import Mathlib

/-!
A shallow embedding of `imlib2.c`, the binding of imlib2-ruby.

The binding maps host (Ruby) calls onto calls of the imaging engine (Imlib2).
The embedding keeps three things explicit:

* the host values an operation receives (`RValue`),
* the wrapper heap (`ImStruct` records owned by image wrappers),
* the ordered list of engine calls an operation issues (`EngineCall`).

Engine results are supplied by an `Engine` oracle that answers as a function
of the call history, so every definition is executable.
-/

namespace Imlib2

/-! ## Host values -/

/-- The `Imlib_Color` struct wrapped by `Imlib2::Color::RgbaColor`. -/
structure Imlib_Color where
  alpha : Int
  red : Int
  green : Int
  blue : Int
  deriving DecidableEq, Repr

/-- A finite C `double`, by its exact value.  The binding never computes with
one: it passes it through, converts an integer to it, or takes its integer
part.  NaN and the infinities are outside the embedding. -/
structure CDouble where
  val : Rat
  deriving DecidableEq, Repr

/-- The conversion `(double) n` of an `int`. -/
def CDouble.ofInt (n : Int) : CDouble := ⟨n⟩

/-- The conversion `(long) d`: the integer part, rounding toward zero. -/
def CDouble.trunc (d : CDouble) : Int := d.val.num.tdiv d.val.den

/-- The `HsvaColor` struct of `imlib2.c`. -/
structure HsvaColor where
  hue : CDouble
  saturation : CDouble
  value : CDouble
  alpha : Int
  deriving DecidableEq, Repr

/-- The `HlsaColor` struct of `imlib2.c`. -/
structure HlsaColor where
  hue : CDouble
  lightness : CDouble
  saturation : CDouble
  alpha : Int
  deriving DecidableEq, Repr

/-- The `CmyaColor` struct of `imlib2.c`. -/
structure CmyaColor where
  cyan : Int
  magenta : Int
  yellow : Int
  alpha : Int
  deriving DecidableEq, Repr

/-- The `Imlib_Border` struct wrapped by `Imlib2::Border`. -/
structure Imlib_Border where
  left : Int
  right : Int
  top : Int
  bottom : Int
  deriving DecidableEq, Repr

/-- A host value (`VALUE`).  Data objects of the binding carry the struct they
wrap; an image wrapper carries the address of its `ImStruct` in the wrapper
heap; the other resource wrappers carry their engine handle.  A host String
is a byte string: each character of `s` stands for one byte.  The entries
`fontAt` and `gradientAt` are the wrappers `ctx_font` and `ctx_gradient`
build: their data pointer is the engine object `p` itself, not a cell that
holds it. -/
inductive RValue where
  | nil
  | rtrue
  | rfalse
  | fixnum (n : Int)
  | float (d : CDouble)
  | str (s : String)
  | array (xs : List RValue)
  | hash (kvs : List (RValue × RValue))
  | rgba (c : Imlib_Color)
  | hsva (c : HsvaColor)
  | hlsa (c : HlsaColor)
  | cmya (c : CmyaColor)
  | border (b : Imlib_Border)
  | image (ref : Nat)
  | font (h : Nat)
  | filter (h : Nat)
  | gradient (h : Nat)
  | polygon (h : Nat)
  | cmod (h : Nat)
  | context (h : Nat)
  | object (k : Nat)
  | fontAt (p : Nat)
  | gradientAt (p : Nat)

/-- The host type tags the binding switches on. -/
inductive RType where
  | T_NIL | T_TRUE | T_FALSE | T_FIXNUM | T_FLOAT | T_STRING | T_ARRAY | T_HASH | T_DATA | T_OBJECT
  deriving DecidableEq, Repr

/-- The classes `rb_obj_is_kind_of` is asked about. -/
inductive Klass where
  | cRgbaColor | cHsvaColor | cHlsaColor | cCmyaColor
  | cBorder | cImage | cFont | cFilter | cGradient | cPolygon | cColorMod | cContext
  | rb_cString | rb_cNumeric
  deriving DecidableEq, Repr

/-- Exception classes raised by the binding or by the host conversions it
calls.  `Undefined` marks a step whose outcome the host API does not define
(a struct read through a pointer of another type). -/
inductive ExnClass where
  | DeletedError
  | TypeError
  | ArgError
  | FileError (idx : Nat)
  | Undefined
  | LocalJumpError
  deriving DecidableEq, Repr

/-- A raised exception: its class and its message. -/
structure Exn where
  cls : ExnClass
  msg : String
  deriving DecidableEq, Repr

/-- The exception of `rb_raise(rb_eTypeError, msg)`. -/
def typeError (msg : String) : Exn := ⟨.TypeError, msg⟩

/-- The exception of `rb_raise(cDeletedError, msg)`. -/
def deletedError (msg : String) : Exn := ⟨.DeletedError, msg⟩

/-- A step outside what the host API defines. -/
def undefinedStep (msg : String) : Exn := ⟨.Undefined, msg⟩

/-- Modelled from the spec: the host macro `TYPE` (ruby.h), which is not part of
this repository; it yields the type tag of a value. -/
def TYPE : RValue → RType
  | .nil => .T_NIL
  | .rtrue => .T_TRUE
  | .rfalse => .T_FALSE
  | .fixnum _ => .T_FIXNUM
  | .float _ => .T_FLOAT
  | .str _ => .T_STRING
  | .array _ => .T_ARRAY
  | .hash _ => .T_HASH
  | .object _ => .T_OBJECT
  | _ => .T_DATA

/-- Modelled from the spec: the host macro `NUM2INT` (ruby.h), which is not part
of this repository.  An integer decodes to itself and a float to its integer
part; every other value, `nil` (a missing field) included, fails with a
TypeMismatch.  Numeric ranges are not validated. -/
def NUM2INT : RValue → Except Exn Int
  | .fixnum n => .ok n
  | .float d => .ok d.trunc
  | .nil => .error (typeError "no implicit conversion from nil to integer")
  | _ => .error (typeError "no implicit conversion to integer")

/-- Modelled from the spec: the host macro `StringValuePtr` (ruby.h), which is
not part of this repository; a String yields its contents, another value fails
with a TypeMismatch. -/
def StringValuePtr : RValue → Except Exn String
  | .str s => .ok s
  | _ => .error (typeError "no implicit conversion into String")

/-- Modelled from the spec: the host function `rb_ary_entry` (ruby.h), which is
not part of this repository; the element at a position of a sequence, `nil`
when the sequence is too short. -/
def rb_ary_entry : RValue → Nat → Except Exn RValue
  | .array xs, i => .ok (xs.getD i .nil)
  | _, _ => .error (undefinedStep "rb_ary_entry on a value that is not an Array")

/-- The value stored under a String key in the entries of a mapping. -/
def hashLookup : List (RValue × RValue) → String → RValue
  | [], _ => .nil
  | (.str k, v) :: rest, key => if k = key then v else hashLookup rest key
  | _ :: rest, key => hashLookup rest key

/-- Modelled from the spec: the host function `rb_hash_aref` (ruby.h) applied to
a key built with `rb_str_new2`; it is not part of this repository.  It yields
the value stored under the field name, `nil` when the field is missing. -/
def rb_hash_aref : RValue → String → Except Exn RValue
  | .hash kvs, key => .ok (hashLookup kvs key)
  | _, _ => .error (undefinedStep "rb_hash_aref on a value that is not a Hash")

/-- Modelled from the spec: the host function `rb_obj_is_kind_of` (ruby.h),
which is not part of this repository.  The classes of the binding all derive
directly from `Object`, so a value is an instance of at most one of them. -/
def rb_obj_is_kind_of : RValue → Klass → Bool
  | .rgba _, .cRgbaColor => true
  | .hsva _, .cHsvaColor => true
  | .hlsa _, .cHlsaColor => true
  | .cmya _, .cCmyaColor => true
  | .border _, .cBorder => true
  | .image _, .cImage => true
  | .font _, .cFont => true
  | .filter _, .cFilter => true
  | .gradient _, .cGradient => true
  | .fontAt _, .cFont => true
  | .gradientAt _, .cGradient => true
  | .polygon _, .cPolygon => true
  | .cmod _, .cColorMod => true
  | .context _, .cContext => true
  | .str _, .rb_cString => true
  | .fixnum _, .rb_cNumeric => true
  | .float _, .rb_cNumeric => true
  | _, _ => false

/-- The test `v != Qnil`. -/
def notNil : RValue → Bool
  | .nil => false
  | _ => true

/-- The test `v != Qfalse`. -/
def notFalse : RValue → Bool
  | .rfalse => false
  | _ => true

/-- The test `v == Qtrue`. -/
def isTrue : RValue → Bool
  | .rtrue => true
  | _ => false

/-- The C expression `NUM2INT(rb_hash_aref(v, rb_str_new2(key)))`. -/
def hashInt (v : RValue) (key : String) : Except Exn Int :=
  rb_hash_aref v key >>= NUM2INT

/-- The C expression `NUM2INT(rb_ary_entry(v, i))`. -/
def aryInt (v : RValue) (i : Nat) : Except Exn Int :=
  rb_ary_entry v i >>= NUM2INT

/-! ## The engine boundary -/

/-- A call into the engine, with the arguments the binding passes.  Image,
font, filter, gradient, polygon and colour-modifier arguments are engine
handles; handle `0` is `NULL`.  The last entry is no call: it is the
`memcpy` of `image_put_data` into the buffer that `imlib_image_get_data`
returned, a write to memory the engine owns. -/
inductive EngineCall where
  | imlib_context_set_image (im : Nat)
  | imlib_context_get_image
  | imlib_context_push (ctx : Nat)
  | imlib_context_pop
  | imlib_context_set_color (red green blue alpha : Int)
  | imlib_context_set_color_hsva (hue saturation value : CDouble) (alpha : Int)
  | imlib_context_set_color_hlsa (hue lightness saturation : CDouble) (alpha : Int)
  | imlib_context_set_color_cmya (cyan magenta yellow alpha : Int)
  | imlib_context_get_blend
  | imlib_context_set_blend (blend : Int)
  | imlib_context_get_anti_alias
  | imlib_context_set_anti_alias (aa : Int)
  | imlib_context_get_direction
  | imlib_context_set_direction (dir : Int)
  | imlib_context_set_font (font : Nat)
  | imlib_context_set_filter (filter : Nat)
  | imlib_context_set_color_range (range : Nat)
  | imlib_context_set_color_modifier (cmod : Nat)
  | imlib_create_image (w h : Int)
  | imlib_clone_image
  | imlib_free_image
  | imlib_free_image_and_decache
  | imlib_save_image (path : String)
  | imlib_save_image_with_error_return (path : String)
  | imlib_image_get_width
  | imlib_image_get_height
  | imlib_image_get_filename
  | imlib_image_get_data
  | imlib_image_get_data_for_reading_only
  | imlib_image_put_back_data
  | imlib_image_has_alpha
  | imlib_image_set_has_alpha (flag : Bool)
  | imlib_image_set_changes_on_disk
  | imlib_image_get_border
  | imlib_image_set_border (b : Imlib_Border)
  | imlib_image_format
  | imlib_image_set_format (format : String)
  | imlib_image_set_irrelevant_format (flag : Bool)
  | imlib_image_set_irrelevant_border (flag : Bool)
  | imlib_image_set_irrelevant_alpha (flag : Bool)
  | imlib_image_query_pixel (x y : Int)
  | imlib_image_query_pixel_hsva (x y : Int)
  | imlib_image_query_pixel_cmya (x y : Int)
  | imlib_create_cropped_image (x y w h : Int)
  | imlib_create_cropped_scaled_image (x y w h dw dh : Int)
  | imlib_image_flip_horizontal
  | imlib_image_flip_vertical
  | imlib_image_flip_diagonal
  | imlib_image_orientate (n : Int)
  | imlib_image_blur (n : Int)
  | imlib_image_sharpen (n : Int)
  | imlib_image_tile_horizontal
  | imlib_image_tile_vertical
  | imlib_image_tile
  | imlib_image_clear
  | imlib_image_clear_color (a b c d : Int)
  | imlib_image_draw_pixel (x y : Int) (make_updates : Int)
  | imlib_image_draw_line (x0 y0 x1 y1 : Int) (make_updates : Int)
  | imlib_image_draw_rectangle (x y w h : Int)
  | imlib_image_fill_rectangle (x y w h : Int)
  | imlib_image_draw_ellipse (x y w h : Int)
  | imlib_image_fill_ellipse (x y w h : Int)
  | imlib_image_copy_alpha_to_image (src : Nat) (x y : Int)
  | imlib_image_copy_alpha_rectangle_to_image (src : Nat) (x y w h dx dy : Int)
  | imlib_image_scroll_rect (x y w h dx dy : Int)
  | imlib_image_copy_rect (x y w h dx dy : Int)
  | imlib_blend_image_onto_image (src : Nat) (merge_alpha : Int)
      (sx sy sw sh dx dy dw dh : Int)
  | imlib_create_rotated_image (angle : CDouble)
  | imlib_text_draw_with_return_metrics (x y : Int) (text : String)
  | imlib_image_fill_color_range_rectangle (x y w h : Int) (angle : CDouble)
  | imlib_image_draw_polygon (poly : Nat) (closed : Int)
  | imlib_image_fill_polygon (poly : Nat)
  | imlib_image_filter
  | imlib_apply_filter (script : String)
  | imlib_image_attach_data_value (key : String) (value : Int)
  | imlib_image_get_attached_value (key : String)
  | imlib_image_remove_attached_data_value (key : String)
  | imlib_load_image (path : String)
  | imlib_load_image_immediately (path : String)
  | imlib_load_image_without_cache (path : String)
  | imlib_load_image_immediately_without_cache (path : String)
  | imlib_load_image_with_error_return (path : String)
  | imlib_context_new
  | imlib_context_get
  | imlib_context_get_dither_mask
  | imlib_context_set_dither_mask (flag : Int)
  | imlib_context_get_dither
  | imlib_context_set_dither (flag : Int)
  | imlib_context_get_color_modifier
  | imlib_context_get_operation
  | imlib_context_set_operation (op : Int)
  | imlib_context_get_font
  | imlib_context_get_angle
  | imlib_context_set_angle (angle : CDouble)
  | imlib_context_get_color
  | imlib_context_get_color_range
  | imlib_context_get_progress_granularity
  | imlib_context_set_progress_granularity (n : Int)
  | imlib_context_get_cliprect
  | imlib_context_set_cliprect (x y w h : Int)
  | imlib_context_get_TTF_encoding
  | imlib_context_set_TTF_encoding (encoding : Int)
  | imlib_free_font
  | imlib_free_filter
  | imlib_free_color_modifier
  | imlib_free_color_range
  | memcpy_image_data (bytes : String)

/-- What the engine hands back from one call: the resource it returns
(`handle`), its integer results and integer output parameters (`int k`, in the
order of the parameter list), its floating-point ones (`dbl k`) and its
text (`str`). -/
structure Answer where
  handle : Nat
  int : Nat → Int
  dbl : Nat → CDouble
  str : String

/-- The engine.  It is deterministic and globally stateful, so what it hands
back is a function of the calls made so far (the answering call last). -/
structure Engine where
  answer : List EngineCall → Answer

/-- The `ImStruct` of `imlib2.c`: the one field is the engine image, `0` once
the wrapper has been deleted. -/
structure ImStruct where
  im : Nat
  deriving DecidableEq, Repr

/-- The state a call of the binding runs in: the engine, the `ImStruct`
records of the image wrappers (by address), the engine calls made so far, and
the `draw_pixel_workaround` global; `float_new` is the address at which the
host allocates the object of an `rb_float_new` call. -/
structure World where
  engine : Engine
  heap : List ImStruct
  trace : List EngineCall
  draw_pixel_workaround : Bool
  float_new : RValue → Int

/-- A call of the binding: it runs in a world and ends with a value or with a
raised exception; the effects made before a raise stay in the world. -/
def Ruby (α : Type) : Type := World → Except Exn α × World

namespace Ruby

/-- Return without effect. -/
def ret {α : Type} (a : α) : Ruby α := fun w => (.ok a, w)

/-- Sequencing; a raised exception skips the rest. -/
def andThen {α β : Type} (m : Ruby α) (f : α → Ruby β) : Ruby β := fun w =>
  match m w with
  | (.ok a, w1) => f a w1
  | (.error e, w1) => (.error e, w1)

instance : Monad Ruby where
  pure := ret
  bind := andThen

/-- The host function `rb_raise`. -/
def raise {α : Type} (e : Exn) : Ruby α := fun w => (.error e, w)

/-- A host conversion, which raises or yields a value without any effect. -/
def host {α : Type} (r : Except Exn α) : Ruby α := fun w => (r, w)

/-- An engine call without result. -/
def call (c : EngineCall) : Ruby Unit := fun w =>
  (.ok (), { w with trace := w.trace ++ [c] })

/-- An engine call whose results are used: the answer of the engine after
this call. -/
def ask (c : EngineCall) : Ruby Answer := fun w =>
  (.ok (w.engine.answer (w.trace ++ [c])), { w with trace := w.trace ++ [c] })

/-- Read the `ImStruct` at an address. -/
def readIm (ref : Nat) : Ruby ImStruct := fun w =>
  match w.heap[ref]? with
  | some s => (.ok s, w)
  | none => (.error (undefinedStep "dangling ImStruct"), w)

/-- Assign the `im` field of the `ImStruct` at an address. -/
def writeIm (ref : Nat) (im : Nat) : Ruby Unit := fun w =>
  (.ok (), { w with heap := w.heap.set ref ⟨im⟩ })

/-- The pair `malloc(sizeof(ImStruct))` and `Data_Wrap_Struct(cImage, ...)`:
a fresh `ImStruct` holding `im`, and the wrapper that owns it. -/
def wrapIm (im : Nat) : Ruby RValue := fun w =>
  (.ok (.image w.heap.length), { w with heap := w.heap ++ [⟨im⟩] })

end Ruby

/-- The exception `Data_Get_Struct` ends with when its argument is not the
wrapper the call site expects: `Check_Type` raises a TypeError for a value
that is no Data object, and a Data object of another class is read through
the wrong struct type. -/
def dataMismatch (v : RValue) : Exn :=
  match TYPE v with
  | .T_DATA => undefinedStep "Data_Get_Struct of another struct"
  | _ => typeError "wrong argument type (expected Data)"

/-- The macro `GET_AND_CHECK_IMAGE(src, image)`: fetch the `ImStruct` of a
wrapper (`Data_Get_Struct`) and raise `DeletedError` when its image is
`NULL`.  It yields the address of the struct and the image it holds. -/
def GET_AND_CHECK_IMAGE (src : RValue) : Ruby (Nat × Nat) :=
  match src with
  | .image ref => do
      let s ← Ruby.readIm ref
      if s.im = 0 then Ruby.raise (deletedError "image deleted")
      else pure (ref, s.im)
  | v => Ruby.raise (dataMismatch v)

/-- The function `set_context_color` of `imlib2.c`. -/
def set_context_color (color : RValue) : Ruby Unit :=
  if rb_obj_is_kind_of color .cRgbaColor then
    match color with
    | .rgba c => Ruby.call (.imlib_context_set_color c.red c.green c.blue c.alpha)
    | _ => Ruby.raise (undefinedStep "Data_Get_Struct")
  else if rb_obj_is_kind_of color .cHsvaColor then
    match color with
    | .hsva c => Ruby.call (.imlib_context_set_color_hsva c.hue c.saturation c.value c.alpha)
    | _ => Ruby.raise (undefinedStep "Data_Get_Struct")
  else if rb_obj_is_kind_of color .cHlsaColor then
    match color with
    | .hlsa c => Ruby.call (.imlib_context_set_color_hsva c.hue c.lightness c.saturation c.alpha)
    | _ => Ruby.raise (undefinedStep "Data_Get_Struct")
  else if rb_obj_is_kind_of color .cCmyaColor then
    match color with
    | .cmya c => Ruby.call (.imlib_context_set_color_hsva (CDouble.ofInt c.cyan)
        (CDouble.ofInt c.magenta) (CDouble.ofInt c.yellow) c.alpha)
    | _ => Ruby.raise (undefinedStep "Data_Get_Struct")
  else
    Ruby.raise (typeError ("Invalid argument type (not "
      ++ "Imlib2::Color::RgbaColor, "
      ++ "Imlib2::Color::HvsaColor, "
      ++ "Imlib2::Color::HslaColor, or "
      ++ "Imlib2::Color::CmyaColor)"))

/-! ## Structs behind the other wrappers -/

/-- The macro `Data_Get_Struct(v, Imlib_Font, font)` followed by `*font`. -/
def getFont : RValue → Except Exn Nat
  | .font h => .ok h
  | v => .error (dataMismatch v)

/-- The macro `Data_Get_Struct(v, Imlib_Filter, f)` followed by `*f`. -/
def getFilter : RValue → Except Exn Nat
  | .filter h => .ok h
  | v => .error (dataMismatch v)

/-- The macro `Data_Get_Struct(v, Imlib_Color_Range, grad)` followed by `*grad`. -/
def getGradient : RValue → Except Exn Nat
  | .gradient h => .ok h
  | v => .error (dataMismatch v)

/-- The macro `Data_Get_Struct(v, ImlibPolygon, poly)` followed by `*poly`. -/
def getPolygon : RValue → Except Exn Nat
  | .polygon h => .ok h
  | v => .error (dataMismatch v)

/-- The macro `Data_Get_Struct(v, Imlib_Color_Modifier, cmod)` followed by
`*cmod`. -/
def getCmod : RValue → Except Exn Nat
  | .cmod h => .ok h
  | v => .error (dataMismatch v)

/-- The macro `Data_Get_Struct(v, Imlib_Context, ctx)` followed by `*ctx`. -/
def getContext : RValue → Except Exn Nat
  | .context h => .ok h
  | v => .error (dataMismatch v)

/-- The macro `Data_Get_Struct(v, Imlib_Color, color)`. -/
def getRgba : RValue → Except Exn Imlib_Color
  | .rgba c => .ok c
  | v => .error (dataMismatch v)

/-- The macro `Data_Get_Struct(v, Imlib_Border, b)`. -/
def getBorder : RValue → Except Exn Imlib_Border
  | .border b => .ok b
  | v => .error (dataMismatch v)

/-- Modelled from the spec: the host macro `NUM2DBL` (ruby.h), which is not part
of this repository; a float yields its double, an integer converts to the
double of that integer, every other value fails with a TypeMismatch. -/
def NUM2DBL : RValue → Except Exn CDouble
  | .float d => .ok d
  | .fixnum n => .ok (CDouble.ofInt n)
  | _ => .error (typeError "can't convert into Float")

/-! ## File errors -/

/-- The `description` column of the table `imlib_errors`. -/
def imlib_errors_description : List String :=
  [ "No error",
    "File does not exist",
    "File is directory",
    "Permission denied to read",
    "No loader for file format",
    "Path too long",
    "Path component nonexistant",
    "Path component not directory",
    "Path points outside address space",
    "Too many symbolic links",
    "Out of memory",
    "Out of file descriptors",
    "Permission denied to write",
    "Out of disk space",
    "Unknown or unspecified error" ]

/-- The `name` column of the table `imlib_errors`. -/
def imlib_errors_name : List String :=
  [ "NONE",
    "FILE_DOES_NOT_EXIST",
    "FILE_IS_DIRECTORY",
    "PERMISSION_DENIED_TO_READ",
    "NO_LOADER_FOR_FILE_FORMAT",
    "PATH_TOO_LONG",
    "PATH_COMPONENT_NON_EXISTANT",
    "PATH_COMPONENT_NOT_DIRECTORY",
    "PATH_POINTS_OUTSIDE_ADDRESS_SPACE",
    "TOO_MANY_SYMBOLIC_LINKS",
    "OUT_OF_MEMORY",
    "OUT_OF_FILE_DESCRIPTORS",
    "PERMISSION_DENIED_TO_WRITE",
    "OUT_OF_DISK_SPACE",
    "UNKNOWN" ]

/-- The enum value `IMLIB_LOAD_ERROR_NONE` (Imlib2.h). -/
def IMLIB_LOAD_ERROR_NONE : Int := 0

/-- The enum value `IMLIB_LOAD_ERROR_UNKNOWN` (Imlib2.h). -/
def IMLIB_LOAD_ERROR_UNKNOWN : Int := 14

/-- The C call `snprintf(buf, sizeof(buf), ...)` into `char buf[1024]`: the
text is cut after 1023 bytes. -/
def snprintf1024 (text : String) : String :=
  if text.length ≤ 1023 then text else String.mk (text.toList.take 1023)

/-- The function `raise_imlib_error` of `imlib2.c`.  The buffer is handed to
`rb_raise` as its format string, so a text holding a `%` is not raised as
written. -/
def raise_imlib_error {α : Type} (path : String) (err : Int) : Ruby α :=
  let err := if err < IMLIB_LOAD_ERROR_NONE ∨ err > IMLIB_LOAD_ERROR_UNKNOWN
    then IMLIB_LOAD_ERROR_UNKNOWN else err
  let buf := snprintf1024
    ("\"" ++ path ++ "\": " ++ imlib_errors_description.getD err.toNat "")
  if '%' ∈ buf.toList then
    Ruby.raise (undefinedStep "rb_raise with a format directive and no argument")
  else
    Ruby.raise ⟨.FileError err.toNat, buf⟩

/-! ## Colour and border constructors -/

/-- The function `border_init` of `imlib2.c`, on the struct of the object. -/
def border_init (argv : List RValue) (border : Imlib_Border) : Except Exn Imlib_Border :=
  match argv with
  | [a0] =>
    match TYPE a0 with
    | .T_HASH => do
      let left ← hashInt a0 "left"
      let top ← hashInt a0 "top"
      let right ← hashInt a0 "right"
      let bottom ← hashInt a0 "bottom"
      pure ⟨left, right, top, bottom⟩
    | .T_ARRAY => do
      let left ← aryInt a0 0
      let top ← aryInt a0 1
      let right ← aryInt a0 2
      let bottom ← aryInt a0 3
      pure ⟨left, right, top, bottom⟩
    | _ => .error (typeError "Invalid argument type (not array or hash)")
  | [a0, a1, a2, a3] => do
    let left ← NUM2INT a0
    let top ← NUM2INT a1
    let right ← NUM2INT a2
    let bottom ← NUM2INT a3
    pure ⟨left, right, top, bottom⟩
  | _ => pure border

/-- The function `border_new` of `imlib2.c`: a zeroed struct, then
`border_init`. -/
def border_new (argv : List RValue) : Except Exn RValue := do
  let b ← border_init argv ⟨0, 0, 0, 0⟩
  pure (.border b)

/-- The function `border_left` of `imlib2.c`. -/
def border_left (self : RValue) : Except Exn RValue := do
  let b ← getBorder self
  pure (.fixnum b.left)

/-- The function `border_right` of `imlib2.c`. -/
def border_right (self : RValue) : Except Exn RValue := do
  let b ← getBorder self
  pure (.fixnum b.right)

/-- The function `border_top` of `imlib2.c`. -/
def border_top (self : RValue) : Except Exn RValue := do
  let b ← getBorder self
  pure (.fixnum b.top)

/-- The function `border_bottom` of `imlib2.c`. -/
def border_bottom (self : RValue) : Except Exn RValue := do
  let b ← getBorder self
  pure (.fixnum b.bottom)

/-- The function `rgba_color_init` of `imlib2.c`, on the struct of the object. -/
def rgba_color_init (argv : List RValue) (color : Imlib_Color) : Except Exn Imlib_Color :=
  match argv with
  | [a0] =>
    match TYPE a0 with
    | .T_HASH => do
      let red ← hashInt a0 "red"
      let green ← hashInt a0 "green"
      let blue ← hashInt a0 "blue"
      let alpha ← hashInt a0 "alpha"
      pure ⟨alpha, red, green, blue⟩
    | .T_ARRAY => do
      let red ← aryInt a0 0
      let green ← aryInt a0 1
      let blue ← aryInt a0 2
      let alpha ← aryInt a0 3
      pure ⟨alpha, red, green, blue⟩
    | _ => .error (typeError "Invalid arguments (not array or hash)")
  | [a0, a1, a2, a3] => do
    let red ← NUM2INT a0
    let green ← NUM2INT a1
    let blue ← NUM2INT a2
    let alpha ← NUM2INT a3
    pure ⟨alpha, red, green, blue⟩
  | _ => pure color

/-- The function `rgba_color_new` of `imlib2.c`: a zeroed struct, then
`rgba_color_init`. -/
def rgba_color_new (argv : List RValue) : Except Exn RValue := do
  let c ← rgba_color_init argv ⟨0, 0, 0, 0⟩
  pure (.rgba c)

/-- The function `rgba_color_red` of `imlib2.c`. -/
def rgba_color_red (self : RValue) : Except Exn RValue := do
  let b ← getRgba self
  pure (.fixnum b.red)

/-- The function `rgba_color_blue` of `imlib2.c`. -/
def rgba_color_blue (self : RValue) : Except Exn RValue := do
  let b ← getRgba self
  pure (.fixnum b.blue)

/-- The function `rgba_color_green` of `imlib2.c`. -/
def rgba_color_green (self : RValue) : Except Exn RValue := do
  let b ← getRgba self
  pure (.fixnum b.green)

/-- The function `rgba_color_alpha` of `imlib2.c`. -/
def rgba_color_alpha (self : RValue) : Except Exn RValue := do
  let b ← getRgba self
  pure (.fixnum b.alpha)

/-- The C expression `NUM2DBL(rb_hash_aref(v, rb_str_new2(key)))`. -/
def hashDbl (v : RValue) (key : String) : Except Exn CDouble :=
  rb_hash_aref v key >>= NUM2DBL

/-- The C expression `NUM2DBL(rb_ary_entry(v, i))`. -/
def aryDbl (v : RValue) (i : Nat) : Except Exn CDouble :=
  rb_ary_entry v i >>= NUM2DBL

/-- The function `hsva_color_init` of `imlib2.c`, on the struct of the object. -/
def hsva_color_init (argv : List RValue) (color : HsvaColor) : Except Exn HsvaColor :=
  match argv with
  | [a0] =>
    match TYPE a0 with
    | .T_HASH => do
      let hue ← hashDbl a0 "hue"
      let saturation ← hashDbl a0 "saturation"
      let value ← hashDbl a0 "value"
      let alpha ← hashInt a0 "alpha"
      pure ⟨hue, saturation, value, alpha⟩
    | .T_ARRAY => do
      let hue ← aryDbl a0 0
      let saturation ← aryDbl a0 1
      let value ← aryDbl a0 2
      let alpha ← aryInt a0 3
      pure ⟨hue, saturation, value, alpha⟩
    | _ => .error (typeError "Invalid argument type (not array or hash)")
  | [a0, a1, a2, a3] => do
    let hue ← NUM2DBL a0
    let saturation ← NUM2DBL a1
    let value ← NUM2DBL a2
    let alpha ← NUM2INT a3
    pure ⟨hue, saturation, value, alpha⟩
  | _ => pure color

/-- The function `hsva_color_new` of `imlib2.c`: a zeroed struct, then
`hsva_color_init`. -/
def hsva_color_new (argv : List RValue) : Except Exn RValue := do
  let c ← hsva_color_init argv ⟨⟨0⟩, ⟨0⟩, ⟨0⟩, 0⟩
  pure (.hsva c)

/-- The function `hlsa_color_init` of `imlib2.c`, on the struct of the object. -/
def hlsa_color_init (argv : List RValue) (color : HlsaColor) : Except Exn HlsaColor :=
  match argv with
  | [a0] =>
    match TYPE a0 with
    | .T_HASH => do
      let hue ← hashDbl a0 "hue"
      let lightness ← hashDbl a0 "lightness"
      let saturation ← hashDbl a0 "saturation"
      let alpha ← hashInt a0 "alpha"
      pure ⟨hue, lightness, saturation, alpha⟩
    | .T_ARRAY => do
      let hue ← aryDbl a0 0
      let lightness ← aryDbl a0 1
      let saturation ← aryDbl a0 2
      let alpha ← aryInt a0 3
      pure ⟨hue, lightness, saturation, alpha⟩
    | _ => .error (typeError "Invalid argument type (not array or hash)")
  | [a0, a1, a2, a3] => do
    let hue ← NUM2DBL a0
    let lightness ← NUM2DBL a1
    let saturation ← NUM2DBL a2
    let alpha ← NUM2INT a3
    pure ⟨hue, lightness, saturation, alpha⟩
  | _ => pure color

/-- The function `hlsa_color_new` of `imlib2.c`: a zeroed struct, then
`hlsa_color_init`. -/
def hlsa_color_new (argv : List RValue) : Except Exn RValue := do
  let c ← hlsa_color_init argv ⟨⟨0⟩, ⟨0⟩, ⟨0⟩, 0⟩
  pure (.hlsa c)

/-- The function `cmya_color_init` of `imlib2.c`, on the struct of the object. -/
def cmya_color_init (argv : List RValue) (color : CmyaColor) : Except Exn CmyaColor :=
  match argv with
  | [a0] =>
    match TYPE a0 with
    | .T_HASH => do
      let cyan ← hashInt a0 "cyan"
      let magenta ← hashInt a0 "magenta"
      let yellow ← hashInt a0 "yellow"
      let alpha ← hashInt a0 "alpha"
      pure ⟨cyan, magenta, yellow, alpha⟩
    | .T_ARRAY => do
      let cyan ← aryInt a0 0
      let magenta ← aryInt a0 1
      let yellow ← aryInt a0 2
      let alpha ← aryInt a0 3
      pure ⟨cyan, magenta, yellow, alpha⟩
    | _ => .error (typeError "Invalid argument type (not array or hash)")
  | [a0, a1, a2, a3] => do
    let cyan ← NUM2INT a0
    let magenta ← NUM2INT a1
    let yellow ← NUM2INT a2
    let alpha ← NUM2INT a3
    pure ⟨cyan, magenta, yellow, alpha⟩
  | _ => pure color

/-- The function `cmya_color_new` of `imlib2.c`: a zeroed struct, then
`cmya_color_init`. -/
def cmya_color_new (argv : List RValue) : Except Exn RValue := do
  let c ← cmya_color_init argv ⟨0, 0, 0, 0⟩
  pure (.cmya c)

/-! ## Image methods -/

/-- The function `image_dp_workaround` of `imlib2.c`. -/
def image_dp_workaround : Ruby RValue := fun w =>
  (.ok (if w.draw_pixel_workaround then .rtrue else .rfalse), w)

/-- The function `image_set_dp_workaround` of `imlib2.c`. -/
def image_set_dp_workaround (val : RValue) : Ruby RValue := fun w =>
  (.ok val, { w with draw_pixel_workaround := isTrue val })

/-- A call of one of the four singleton methods that `Init_imlib2` registers
under "workarounds": the queries `draw_pixel_workaround?` and
`bypass_draw_pixel?`, and the assignments `draw_pixel_workaround=` and
`bypass_draw_pixel=` with the value assigned. -/
inductive WorkaroundCall where
  | draw_pixel_workaround_p
  | bypass_draw_pixel_p
  | draw_pixel_workaround_set (val : RValue)
  | bypass_draw_pixel_set (val : RValue)

/-- The function `Init_imlib2` registers for each of the four methods: it is
`image_dp_workaround` for all of them, with arity 0 for the queries and with
arity 1 for the assignments.  For an assignment the host hands the receiver
and the value to the function, which declares the receiver only and does not
read the value.  `image_set_dp_workaround` is registered nowhere. -/
def WorkaroundCall.run : WorkaroundCall → Ruby RValue
  | .draw_pixel_workaround_p => image_dp_workaround
  | .bypass_draw_pixel_p => image_dp_workaround
  | .draw_pixel_workaround_set _ => image_dp_workaround
  | .bypass_draw_pixel_set _ => image_dp_workaround

/-- The function `cmod_free` of `imlib2.c`, the finalizer of a colour-modifier
wrapper, on the wrapper it was registered for.  The `free` that ends it has no
counterpart here. -/
def cmod_free : RValue → Ruby Unit
  | .cmod h => do
    Ruby.call (.imlib_context_set_color_modifier h)
    Ruby.call .imlib_free_color_modifier
  | _ => Ruby.raise (undefinedStep "read of *cmod where no cell holds a handle")

/-- The function `font_free` of `imlib2.c`, the finalizer of a font wrapper,
on the wrapper it was registered for.  It reads the font from the cell behind
the data pointer; the data pointer of a wrapper that `ctx_font` built is the
engine font itself, and the read yields whatever the engine keeps there. -/
def font_free : RValue → Ruby Unit
  | .font h => do
    Ruby.call (.imlib_context_set_font h)
    Ruby.call .imlib_free_font
  | _ => Ruby.raise (undefinedStep "read of *font where no cell holds a handle")

/-- The function `gradient_free` of `imlib2.c`, the finalizer of a gradient
wrapper, on the wrapper it was registered for.  It reads the colour range from
the cell behind the data pointer; the data pointer of a wrapper that
`ctx_gradient` built is the engine colour range itself. -/
def gradient_free : RValue → Ruby Unit
  | .gradient h => do
    Ruby.call (.imlib_context_set_color_range h)
    Ruby.call .imlib_free_color_range
  | _ => Ruby.raise (undefinedStep "read of *range where no cell holds a handle")

/-- The function `filter_free` of `imlib2.c`, the finalizer of a filter
wrapper, on the wrapper it was registered for. -/
def filter_free : RValue → Ruby Unit
  | .filter h => do
    Ruby.call (.imlib_context_set_filter h)
    Ruby.call .imlib_free_filter
  | _ => Ruby.raise (undefinedStep "read of *f where no cell holds a handle")

/-- The function `im_struct_free` of `imlib2.c`, the finalizer of every image
wrapper, on the `ImStruct` at an address.  The `free(im)` that ends it has no
counterpart here: the address is not handed out again. -/
def im_struct_free (ref : Nat) : Ruby Unit := do
  let im ← Ruby.readIm ref
  if im.im ≠ 0 then
    Ruby.call (.imlib_context_set_image im.im)
    Ruby.call .imlib_free_image

/-- Modelled from the spec: the host function `rb_block_given_p` (ruby.h),
which is not part of this repository; `block` is the block of the call when
one was given. -/
def rb_block_given_p (block : Option (RValue → Ruby RValue)) : Bool :=
  block.isSome

/-- Modelled from the spec: the host function `rb_yield` (ruby.h), which is
not part of this repository.  It runs the block of the call on the value, and
an exception of the block leaves the method; without a block the host raises
LocalJumpError. -/
def rb_yield (block : Option (RValue → Ruby RValue)) (v : RValue) : Ruby RValue :=
  match block with
  | some blk => blk v
  | none => Ruby.raise ⟨.LocalJumpError, "no block given (yield)"⟩

/-- The function `image_load` of `imlib2.c`. -/
def image_load (block : Option (RValue → Ruby RValue)) (filename : RValue) :
    Ruby RValue := do
  let path ← Ruby.host (StringValuePtr filename)
  let r ← Ruby.ask (.imlib_load_image_with_error_return path)
  let err := r.int 0
  if err = IMLIB_LOAD_ERROR_NONE then
    let im_o ← Ruby.wrapIm r.handle
    if rb_block_given_p block then
      let _ ← rb_yield block im_o
    pure im_o
  else
    if !rb_block_given_p block then
      raise_imlib_error path err
    pure .nil

/-- The function `image_load_image` of `imlib2.c`. -/
def image_load_image (filename : RValue) : Ruby RValue := do
  let path ← Ruby.host (StringValuePtr filename)
  let r ← Ruby.ask (.imlib_load_image path)
  Ruby.wrapIm r.handle

/-- The function `image_load_immediately` of `imlib2.c`. -/
def image_load_immediately (filename : RValue) : Ruby RValue := do
  let path ← Ruby.host (StringValuePtr filename)
  let r ← Ruby.ask (.imlib_load_image_immediately path)
  Ruby.wrapIm r.handle

/-- The function `image_load_without_cache` of `imlib2.c`. -/
def image_load_without_cache (filename : RValue) : Ruby RValue := do
  let path ← Ruby.host (StringValuePtr filename)
  let r ← Ruby.ask (.imlib_load_image_without_cache path)
  Ruby.wrapIm r.handle

/-- The function `image_load_immediately_without_cache` of `imlib2.c`. -/
def image_load_immediately_without_cache (filename : RValue) : Ruby RValue := do
  let path ← Ruby.host (StringValuePtr filename)
  let r ← Ruby.ask (.imlib_load_image_immediately_without_cache path)
  Ruby.wrapIm r.handle

/-- The function `image_load_with_error_return` of `imlib2.c`: the code the
engine reports goes into the hash as it is. -/
def image_load_with_error_return (filename : RValue) : Ruby RValue := do
  let path ← Ruby.host (StringValuePtr filename)
  let r ← Ruby.ask (.imlib_load_image_with_error_return path)
  let er := r.int 0
  let im_o ← Ruby.wrapIm r.handle
  pure (.hash [(.str "image", im_o), (.str "error", .fixnum er)])

/-- The function `image_save` of `imlib2.c`. -/
def image_save (self val : RValue) : Ruby RValue := do
  let path ← Ruby.host (StringValuePtr val)
  let (_, im) ← GET_AND_CHECK_IMAGE self
  Ruby.call (.imlib_context_set_image im)
  let r ← Ruby.ask (.imlib_save_image_with_error_return path)
  let er := r.int 0
  if er = IMLIB_LOAD_ERROR_NONE then pure self
  else
    let er := if er > IMLIB_LOAD_ERROR_UNKNOWN then IMLIB_LOAD_ERROR_UNKNOWN else er
    raise_imlib_error path er

/-- The function `image_save_image` of `imlib2.c`. -/
def image_save_image (self val : RValue) : Ruby RValue := do
  let (_, im) ← GET_AND_CHECK_IMAGE self
  Ruby.call (.imlib_context_set_image im)
  let path ← Ruby.host (StringValuePtr val)
  Ruby.call (.imlib_save_image path)
  pure self

/-- The function `image_save_with_error_return` of `imlib2.c`. -/
def image_save_with_error_return (self val : RValue) : Ruby RValue := do
  let (_, im) ← GET_AND_CHECK_IMAGE self
  Ruby.call (.imlib_context_set_image im)
  let path ← Ruby.host (StringValuePtr val)
  let r ← Ruby.ask (.imlib_save_image_with_error_return path)
  let er := r.int 0
  let er := if er > IMLIB_LOAD_ERROR_UNKNOWN then IMLIB_LOAD_ERROR_UNKNOWN else er
  pure (.fixnum er)

/-- The function `image_clone` of `imlib2.c`. -/
def image_clone (self : RValue) : Ruby RValue := do
  let (_, old_im) ← GET_AND_CHECK_IMAGE self
  Ruby.call (.imlib_context_set_image old_im)
  let r ← Ruby.ask .imlib_clone_image
  let im_o ← Ruby.wrapIm r.handle
  pure im_o

/-- The function `image_initialize` of `imlib2.c`. -/
def image_initialize (self : RValue) : Ruby RValue :=
  pure self

/-- The function `image_delete` of `imlib2.c`. -/
def image_delete (argv : List RValue) (self : RValue) : Ruby RValue := do
  let (ref, im) ← GET_AND_CHECK_IMAGE self
  Ruby.call (.imlib_context_set_image im)
  if argv.length > 0 && notNil (argv.getD 0 .nil) && notFalse (argv.getD 0 .nil) then
    Ruby.call .imlib_free_image_and_decache
  else
    Ruby.call .imlib_free_image
  Ruby.writeIm ref 0
  pure .nil

/-- The function `image_width` of `imlib2.c`. -/
def image_width (self : RValue) : Ruby RValue := do
  let (_, im) ← GET_AND_CHECK_IMAGE self
  Ruby.call (.imlib_context_set_image im)
  let r ← Ruby.ask .imlib_image_get_width
  pure (.fixnum (r.int 0))

/-- The function `image_height` of `imlib2.c`. -/
def image_height (self : RValue) : Ruby RValue := do
  let (_, im) ← GET_AND_CHECK_IMAGE self
  Ruby.call (.imlib_context_set_image im)
  let r ← Ruby.ask .imlib_image_get_height
  pure (.fixnum (r.int 0))

/-- The function `image_filename` of `imlib2.c`. -/
def image_filename (self : RValue) : Ruby RValue := do
  let (_, im) ← GET_AND_CHECK_IMAGE self
  Ruby.call (.imlib_context_set_image im)
  let r ← Ruby.ask .imlib_image_get_filename
  pure (.str r.str)

/-- The result of 32-bit `int` arithmetic: the value reduced to the range of a
two's-complement `int`. -/
def wrap32 (n : Int) : Int := (n + 2 ^ 31) % 2 ^ 32 - 2 ^ 31

/-- Modelled from the spec: the host function `rb_str_new(ptr, len)` (ruby.h),
which is not part of this repository; a String of the first `len` bytes of a
buffer, and an ArgumentError for a negative length. -/
def rb_str_new (buf : String) (len : Int) : Except Exn RValue :=
  if len < 0 then .error ⟨.ArgError, "negative string size (or size too big)"⟩
  else .ok (.str (String.mk (buf.toList.take len.toNat)))

/-- The function `image_data` of `imlib2.c`. -/
def image_data (self : RValue) : Ruby RValue := do
  let (_, im) ← GET_AND_CHECK_IMAGE self
  Ruby.call (.imlib_context_set_image im)
  let w := (← Ruby.ask .imlib_image_get_width).int 0
  let h := (← Ruby.ask .imlib_image_get_height).int 0
  let data ← Ruby.ask .imlib_image_get_data
  Ruby.host (rb_str_new data.str (wrap32 (wrap32 (h * w) * 4)))

/-- The function `image_data_ro` of `imlib2.c`. -/
def image_data_ro (self : RValue) : Ruby RValue := do
  let (_, im) ← GET_AND_CHECK_IMAGE self
  Ruby.call (.imlib_context_set_image im)
  let w := (← Ruby.ask .imlib_image_get_width).int 0
  let h := (← Ruby.ask .imlib_image_get_height).int 0
  let data ← Ruby.ask .imlib_image_get_data_for_reading_only
  Ruby.host (rb_str_new data.str (wrap32 (wrap32 (h * w) * 4)))

/-- The function `image_put_data` of `imlib2.c`.  The buffer of a host String
is never the buffer of the engine, so the copy is always made. -/
def image_put_data (self str : RValue) : Ruby RValue := do
  let (_, im) ← GET_AND_CHECK_IMAGE self
  Ruby.call (.imlib_context_set_image im)
  let _old_data ← Ruby.ask .imlib_image_get_data
  let w := (← Ruby.ask .imlib_image_get_width).int 0
  let h := (← Ruby.ask .imlib_image_get_height).int 0
  let old_size := wrap32 (wrap32 (w * h) * 4)
  let new_data ← Ruby.host (StringValuePtr str)
  if (new_data.length : Int) ≠ old_size then
    Ruby.raise ⟨.ArgError, "invalid buffer size"⟩
  else do
    Ruby.call (.memcpy_image_data new_data)
    Ruby.call .imlib_image_put_back_data
    pure .rtrue

/-- The function `image_has_alpha` of `imlib2.c`. -/
def image_has_alpha (self : RValue) : Ruby RValue := do
  let (_, im) ← GET_AND_CHECK_IMAGE self
  Ruby.call (.imlib_context_set_image im)
  let r ← Ruby.ask .imlib_image_has_alpha
  pure (if r.int 0 ≠ 0 then .rtrue else .rfalse)

/-- The function `image_set_has_alpha` of `imlib2.c`. -/
def image_set_has_alpha (self val : RValue) : Ruby RValue := do
  let (_, im) ← GET_AND_CHECK_IMAGE self
  Ruby.call (.imlib_context_set_image im)
  Ruby.call (.imlib_image_set_has_alpha (isTrue val))
  pure val

/-- The function `image_changes_on_disk` of `imlib2.c`. -/
def image_changes_on_disk (self : RValue) : Ruby RValue := do
  let (_, im) ← GET_AND_CHECK_IMAGE self
  Ruby.call (.imlib_context_set_image im)
  Ruby.call .imlib_image_set_changes_on_disk
  pure .rtrue

/-- The function `image_get_border` of `imlib2.c`; the outputs of the engine
call are the fields `left`, `right`, `top`, `bottom` of the struct. -/
def image_get_border (self : RValue) : Ruby RValue := do
  let (_, im) ← GET_AND_CHECK_IMAGE self
  Ruby.call (.imlib_context_set_image im)
  let r ← Ruby.ask .imlib_image_get_border
  let border : Imlib_Border := ⟨r.int 0, r.int 1, r.int 2, r.int 3⟩
  Ruby.host (border_new [.fixnum border.left, .fixnum border.top,
    .fixnum border.right, .fixnum border.bottom])

/-- The function `image_set_border` of `imlib2.c`. -/
def image_set_border (self border : RValue) : Ruby RValue := do
  let (_, im) ← GET_AND_CHECK_IMAGE self
  Ruby.call (.imlib_context_set_image im)
  let b ← Ruby.host (getBorder border)
  Ruby.call (.imlib_image_set_border b)
  pure border

/-- The function `image_get_format` of `imlib2.c`. -/
def image_get_format (self : RValue) : Ruby RValue := do
  let (_, im) ← GET_AND_CHECK_IMAGE self
  Ruby.call (.imlib_context_set_image im)
  let r ← Ruby.ask .imlib_image_format
  pure (.str r.str)

/-- The function `image_set_format` of `imlib2.c`. -/
def image_set_format (self format : RValue) : Ruby RValue := do
  let (_, im) ← GET_AND_CHECK_IMAGE self
  Ruby.call (.imlib_context_set_image im)
  let f ← Ruby.host (StringValuePtr format)
  Ruby.call (.imlib_image_set_format f)
  pure format

/-- The function `image_irrelevant_format` of `imlib2.c`. -/
def image_irrelevant_format (self val : RValue) : Ruby RValue := do
  let (_, im) ← GET_AND_CHECK_IMAGE self
  Ruby.call (.imlib_context_set_image im)
  Ruby.call (.imlib_image_set_irrelevant_format (notFalse val))
  pure val

/-- The function `image_irrelevant_border` of `imlib2.c`. -/
def image_irrelevant_border (self val : RValue) : Ruby RValue := do
  let (_, im) ← GET_AND_CHECK_IMAGE self
  Ruby.call (.imlib_context_set_image im)
  Ruby.call (.imlib_image_set_irrelevant_border (notFalse val))
  pure val

/-- The function `image_irrelevant_alpha` of `imlib2.c`. -/
def image_irrelevant_alpha (self val : RValue) : Ruby RValue := do
  let (_, im) ← GET_AND_CHECK_IMAGE self
  Ruby.call (.imlib_context_set_image im)
  Ruby.call (.imlib_image_set_irrelevant_alpha (notFalse val))
  pure val

/-- The function `image_query_pixel` of `imlib2.c`; the outputs of the engine
call are `red`, `green`, `blue`, `alpha`. -/
def image_query_pixel (self x y : RValue) : Ruby RValue := do
  let (_, im) ← GET_AND_CHECK_IMAGE self
  Ruby.call (.imlib_context_set_image im)
  let xi ← Ruby.host (NUM2INT x)
  let yi ← Ruby.host (NUM2INT y)
  let r ← Ruby.ask (.imlib_image_query_pixel xi yi)
  Ruby.host (rgba_color_new [.fixnum (r.int 0), .fixnum (r.int 1),
    .fixnum (r.int 2), .fixnum (r.int 3)])

/-- The function `image_query_pixel_hsva` of `imlib2.c`; the outputs of the
engine call are `hue`, `saturation`, `value` and `alpha`. -/
def image_query_pixel_hsva (self x y : RValue) : Ruby RValue := do
  let (_, im) ← GET_AND_CHECK_IMAGE self
  Ruby.call (.imlib_context_set_image im)
  let xi ← Ruby.host (NUM2INT x)
  let yi ← Ruby.host (NUM2INT y)
  let r ← Ruby.ask (.imlib_image_query_pixel_hsva xi yi)
  Ruby.host (hsva_color_new [.float (r.dbl 0), .float (r.dbl 1),
    .float (r.dbl 2), .fixnum (r.int 3)])

/-- The function `image_query_pixel_hlsa` of `imlib2.c`; it asks the engine
for the HSVA value of the pixel. -/
def image_query_pixel_hlsa (self x y : RValue) : Ruby RValue := do
  let (_, im) ← GET_AND_CHECK_IMAGE self
  Ruby.call (.imlib_context_set_image im)
  let xi ← Ruby.host (NUM2INT x)
  let yi ← Ruby.host (NUM2INT y)
  let r ← Ruby.ask (.imlib_image_query_pixel_hsva xi yi)
  Ruby.host (hlsa_color_new [.float (r.dbl 0), .float (r.dbl 1),
    .float (r.dbl 2), .fixnum (r.int 3)])

/-- The function `image_query_pixel_cmya` of `imlib2.c`; the outputs of the
engine call are `cyan`, `magenta`, `yellow`, `alpha`. -/
def image_query_pixel_cmya (self x y : RValue) : Ruby RValue := do
  let (_, im) ← GET_AND_CHECK_IMAGE self
  Ruby.call (.imlib_context_set_image im)
  let xi ← Ruby.host (NUM2INT x)
  let yi ← Ruby.host (NUM2INT y)
  let r ← Ruby.ask (.imlib_image_query_pixel_cmya xi yi)
  Ruby.host (cmya_color_new [.fixnum (r.int 0), .fixnum (r.int 1),
    .fixnum (r.int 2), .fixnum (r.int 3)])

/-- The `switch (argc)` block of `image_crop`: it reads the arguments only. -/
def image_crop_args (argv : List RValue) : Except Exn (Int × Int × Int × Int) :=
  match argv with
  | [a0] =>
    match TYPE a0 with
    | .T_HASH => do
      let x ← hashInt a0 "x"
      let y ← hashInt a0 "y"
      let w ← hashInt a0 "w"
      let h ← hashInt a0 "h"
      pure (x, y, w, h)
    | .T_ARRAY => do
      let x ← aryInt a0 0
      let y ← aryInt a0 1
      let w ← aryInt a0 2
      let h ← aryInt a0 3
      pure (x, y, w, h)
    | _ => .error (typeError "Invalid argument type (not array or hash)")
  | [a0, a1, a2, a3] => do
    let x ← NUM2INT a0
    let y ← NUM2INT a1
    let w ← NUM2INT a2
    let h ← NUM2INT a3
    pure (x, y, w, h)
  | _ => .error (typeError "Invalid argument count (not 1 or 4)")

/-- The function `image_crop` of `imlib2.c`. -/
def image_crop (argv : List RValue) (self : RValue) : Ruby RValue := do
  let (x, y, w, h) ← Ruby.host (image_crop_args argv)
  let (_, old_im) ← GET_AND_CHECK_IMAGE self
  Ruby.call (.imlib_context_set_image old_im)
  let r ← Ruby.ask (.imlib_create_cropped_image x y w h)
  let im_o ← Ruby.wrapIm r.handle
  pure im_o

/-- The `switch (argc)` block of `image_crop_inline`: it reads the arguments only. -/
def image_crop_inline_args (argv : List RValue) : Except Exn (Int × Int × Int × Int) :=
  match argv with
  | [a0] =>
    match TYPE a0 with
    | .T_HASH => do
      let x ← hashInt a0 "x"
      let y ← hashInt a0 "y"
      let w ← hashInt a0 "w"
      let h ← hashInt a0 "h"
      pure (x, y, w, h)
    | .T_ARRAY => do
      let x ← aryInt a0 0
      let y ← aryInt a0 1
      let w ← aryInt a0 2
      let h ← aryInt a0 3
      pure (x, y, w, h)
    | _ => .error (typeError "Invalid argument type (not array or hash)")
  | [a0, a1, a2, a3] => do
    let x ← NUM2INT a0
    let y ← NUM2INT a1
    let w ← NUM2INT a2
    let h ← NUM2INT a3
    pure (x, y, w, h)
  | _ => .error (typeError "Invalid argument count (not 1 or 4)")

/-- The function `image_crop_inline` of `imlib2.c`. -/
def image_crop_inline (argv : List RValue) (self : RValue) : Ruby RValue := do
  let (x, y, w, h) ← Ruby.host (image_crop_inline_args argv)
  let (ref, old_im) ← GET_AND_CHECK_IMAGE self
  Ruby.call (.imlib_context_set_image old_im)
  let r ← Ruby.ask (.imlib_create_cropped_image x y w h)
  Ruby.writeIm ref r.handle
  Ruby.call (.imlib_context_set_image old_im)
  Ruby.call .imlib_free_image
  pure self

/-- The `switch (argc)` block of `image_crop_scaled`: it reads the arguments only. -/
def image_crop_scaled_args (argv : List RValue) :
    Except Exn (Int × Int × Int × Int × Int × Int) :=
  match argv with
  | [a0] =>
    match TYPE a0 with
    | .T_HASH => do
      let x ← hashInt a0 "x"
      let y ← hashInt a0 "y"
      let w ← hashInt a0 "w"
      let h ← hashInt a0 "h"
      let dw ← hashInt a0 "dw"
      let dh ← hashInt a0 "dh"
      pure (x, y, w, h, dw, dh)
    | .T_ARRAY => do
      let x ← aryInt a0 0
      let y ← aryInt a0 1
      let w ← aryInt a0 2
      let h ← aryInt a0 3
      let dw ← aryInt a0 4
      let dh ← aryInt a0 5
      pure (x, y, w, h, dw, dh)
    | _ => .error (typeError "Invalid argument type (not array or hash)")
  | [a0, a1, a2, a3, a4, a5] => do
    let x ← NUM2INT a0
    let y ← NUM2INT a1
    let w ← NUM2INT a2
    let h ← NUM2INT a3
    let dw ← NUM2INT a4
    let dh ← NUM2INT a5
    pure (x, y, w, h, dw, dh)
  | _ => .error (typeError "Invalid argument count (not 1 or 6)")

/-- The function `image_crop_scaled` of `imlib2.c`. -/
def image_crop_scaled (argv : List RValue) (self : RValue) : Ruby RValue := do
  let (x, y, w, h, dw, dh) ← Ruby.host (image_crop_scaled_args argv)
  let (_, old_im) ← GET_AND_CHECK_IMAGE self
  Ruby.call (.imlib_context_set_image old_im)
  let r ← Ruby.ask (.imlib_create_cropped_scaled_image x y w h dw dh)
  let im_o ← Ruby.wrapIm r.handle
  pure im_o

/-- The `switch (argc)` block of `image_crop_scaled_inline`: it reads the arguments only. -/
def image_crop_scaled_inline_args (argv : List RValue) :
    Except Exn (Int × Int × Int × Int × Int × Int) :=
  match argv with
  | [a0] =>
    match TYPE a0 with
    | .T_HASH => do
      let x ← hashInt a0 "x"
      let y ← hashInt a0 "y"
      let w ← hashInt a0 "w"
      let h ← hashInt a0 "h"
      let dw ← hashInt a0 "dw"
      let dh ← hashInt a0 "dh"
      pure (x, y, w, h, dw, dh)
    | .T_ARRAY => do
      let x ← aryInt a0 0
      let y ← aryInt a0 1
      let w ← aryInt a0 2
      let h ← aryInt a0 3
      let dw ← aryInt a0 4
      let dh ← aryInt a0 5
      pure (x, y, w, h, dw, dh)
    | _ => .error (typeError "Invalid argument type (not array or hash)")
  | [a0, a1, a2, a3, a4, a5] => do
    let x ← NUM2INT a0
    let y ← NUM2INT a1
    let w ← NUM2INT a2
    let h ← NUM2INT a3
    let dw ← NUM2INT a4
    let dh ← NUM2INT a5
    pure (x, y, w, h, dw, dh)
  | _ => .error (typeError "Invalid argument count (not 1 or 6)")

/-- The function `image_crop_scaled_inline` of `imlib2.c`. -/
def image_crop_scaled_inline (argv : List RValue) (self : RValue) : Ruby RValue := do
  let (x, y, w, h, dw, dh) ← Ruby.host (image_crop_scaled_inline_args argv)
  let (ref, old_im) ← GET_AND_CHECK_IMAGE self
  Ruby.call (.imlib_context_set_image old_im)
  let r ← Ruby.ask (.imlib_create_cropped_scaled_image x y w h dw dh)
  Ruby.writeIm ref r.handle
  Ruby.call (.imlib_context_set_image old_im)
  Ruby.call .imlib_free_image
  pure self

/-- The function `image_flip_horizontal` of `imlib2.c`. -/
def image_flip_horizontal (self : RValue) : Ruby RValue := do
  let (_, im) ← GET_AND_CHECK_IMAGE self
  Ruby.call (.imlib_context_set_image im)
  let r ← Ruby.ask .imlib_clone_image
  let im_o ← Ruby.wrapIm r.handle
  Ruby.call (.imlib_context_set_image r.handle)
  Ruby.call .imlib_image_flip_horizontal
  pure im_o

/-- The function `image_flip_horizontal_inline` of `imlib2.c`. -/
def image_flip_horizontal_inline (self : RValue) : Ruby RValue := do
  let (_, im) ← GET_AND_CHECK_IMAGE self
  Ruby.call (.imlib_context_set_image im)
  Ruby.call .imlib_image_flip_horizontal
  pure self

/-- The function `image_flip_vertical` of `imlib2.c`. -/
def image_flip_vertical (self : RValue) : Ruby RValue := do
  let (_, im) ← GET_AND_CHECK_IMAGE self
  Ruby.call (.imlib_context_set_image im)
  let r ← Ruby.ask .imlib_clone_image
  let im_o ← Ruby.wrapIm r.handle
  Ruby.call (.imlib_context_set_image r.handle)
  Ruby.call .imlib_image_flip_vertical
  pure im_o

/-- The function `image_flip_vertical_inline` of `imlib2.c`. -/
def image_flip_vertical_inline (self : RValue) : Ruby RValue := do
  let (_, im) ← GET_AND_CHECK_IMAGE self
  Ruby.call (.imlib_context_set_image im)
  Ruby.call .imlib_image_flip_vertical
  pure self

/-- The function `image_flip_diagonal` of `imlib2.c`. -/
def image_flip_diagonal (self : RValue) : Ruby RValue := do
  let (_, im) ← GET_AND_CHECK_IMAGE self
  Ruby.call (.imlib_context_set_image im)
  let r ← Ruby.ask .imlib_clone_image
  let im_o ← Ruby.wrapIm r.handle
  Ruby.call (.imlib_context_set_image r.handle)
  Ruby.call .imlib_image_flip_diagonal
  pure im_o

/-- The function `image_flip_diagonal_inline` of `imlib2.c`. -/
def image_flip_diagonal_inline (self : RValue) : Ruby RValue := do
  let (_, im) ← GET_AND_CHECK_IMAGE self
  Ruby.call (.imlib_context_set_image im)
  Ruby.call .imlib_image_flip_diagonal
  pure self

/-- The function `image_orientate` of `imlib2.c`. -/
def image_orientate (self val : RValue) : Ruby RValue := do
  let (_, im) ← GET_AND_CHECK_IMAGE self
  Ruby.call (.imlib_context_set_image im)
  let r ← Ruby.ask .imlib_clone_image
  Ruby.call (.imlib_context_set_image r.handle)
  let n ← Ruby.host (NUM2INT val)
  Ruby.call (.imlib_image_orientate n)
  Ruby.wrapIm r.handle

/-- The function `image_orientate_inline` of `imlib2.c`. -/
def image_orientate_inline (self val : RValue) : Ruby RValue := do
  let (_, im) ← GET_AND_CHECK_IMAGE self
  Ruby.call (.imlib_context_set_image im)
  let n ← Ruby.host (NUM2INT val)
  Ruby.call (.imlib_image_orientate n)
  pure self

/-- The function `image_blur` of `imlib2.c`. -/
def image_blur (self val : RValue) : Ruby RValue := do
  let (_, im) ← GET_AND_CHECK_IMAGE self
  Ruby.call (.imlib_context_set_image im)
  let r ← Ruby.ask .imlib_clone_image
  Ruby.call (.imlib_context_set_image r.handle)
  let n ← Ruby.host (NUM2INT val)
  Ruby.call (.imlib_image_blur n)
  Ruby.wrapIm r.handle

/-- The function `image_blur_inline` of `imlib2.c`. -/
def image_blur_inline (self val : RValue) : Ruby RValue := do
  let (_, im) ← GET_AND_CHECK_IMAGE self
  Ruby.call (.imlib_context_set_image im)
  let n ← Ruby.host (NUM2INT val)
  Ruby.call (.imlib_image_blur n)
  pure self

/-- The function `image_sharpen` of `imlib2.c`. -/
def image_sharpen (self val : RValue) : Ruby RValue := do
  let (_, im) ← GET_AND_CHECK_IMAGE self
  Ruby.call (.imlib_context_set_image im)
  let r ← Ruby.ask .imlib_clone_image
  Ruby.call (.imlib_context_set_image r.handle)
  let n ← Ruby.host (NUM2INT val)
  Ruby.call (.imlib_image_sharpen n)
  Ruby.wrapIm r.handle

/-- The function `image_sharpen_inline` of `imlib2.c`. -/
def image_sharpen_inline (self val : RValue) : Ruby RValue := do
  let (_, im) ← GET_AND_CHECK_IMAGE self
  Ruby.call (.imlib_context_set_image im)
  let n ← Ruby.host (NUM2INT val)
  Ruby.call (.imlib_image_sharpen n)
  pure self

/-- The function `image_tile_horizontal` of `imlib2.c`. -/
def image_tile_horizontal (self : RValue) : Ruby RValue := do
  let (_, im) ← GET_AND_CHECK_IMAGE self
  Ruby.call (.imlib_context_set_image im)
  let r ← Ruby.ask .imlib_clone_image
  let im_o ← Ruby.wrapIm r.handle
  Ruby.call (.imlib_context_set_image r.handle)
  Ruby.call .imlib_image_tile_horizontal
  pure im_o

/-- The function `image_tile_horizontal_inline` of `imlib2.c`. -/
def image_tile_horizontal_inline (self : RValue) : Ruby RValue := do
  let (_, im) ← GET_AND_CHECK_IMAGE self
  Ruby.call (.imlib_context_set_image im)
  Ruby.call .imlib_image_tile_horizontal
  pure self

/-- The function `image_tile_vertical` of `imlib2.c`. -/
def image_tile_vertical (self : RValue) : Ruby RValue := do
  let (_, im) ← GET_AND_CHECK_IMAGE self
  Ruby.call (.imlib_context_set_image im)
  let r ← Ruby.ask .imlib_clone_image
  let im_o ← Ruby.wrapIm r.handle
  Ruby.call (.imlib_context_set_image r.handle)
  Ruby.call .imlib_image_tile_vertical
  pure im_o

/-- The function `image_tile_vertical_inline` of `imlib2.c`. -/
def image_tile_vertical_inline (self : RValue) : Ruby RValue := do
  let (_, im) ← GET_AND_CHECK_IMAGE self
  Ruby.call (.imlib_context_set_image im)
  Ruby.call .imlib_image_tile_vertical
  pure self

/-- The function `image_tile` of `imlib2.c`. -/
def image_tile (self : RValue) : Ruby RValue := do
  let (_, im) ← GET_AND_CHECK_IMAGE self
  Ruby.call (.imlib_context_set_image im)
  let r ← Ruby.ask .imlib_clone_image
  let im_o ← Ruby.wrapIm r.handle
  Ruby.call (.imlib_context_set_image r.handle)
  Ruby.call .imlib_image_tile
  pure im_o

/-- The function `image_tile_inline` of `imlib2.c`. -/
def image_tile_inline (self : RValue) : Ruby RValue := do
  let (_, im) ← GET_AND_CHECK_IMAGE self
  Ruby.call (.imlib_context_set_image im)
  Ruby.call .imlib_image_tile
  pure self

/-- The function `image_clear` of `imlib2.c`. -/
def image_clear (self : RValue) : Ruby RValue := do
  let (_, im) ← GET_AND_CHECK_IMAGE self
  Ruby.call (.imlib_context_set_image im)
  Ruby.call .imlib_image_clear
  pure self

/-- The function `image_clear_color` of `imlib2.c`. -/
def image_clear_color (self rgba_color : RValue) : Ruby RValue := do
  let (_, im) ← GET_AND_CHECK_IMAGE self
  Ruby.call (.imlib_context_set_image im)
  let r ← Ruby.ask .imlib_clone_image
  Ruby.call (.imlib_context_set_image r.handle)
  let color ← Ruby.host (getRgba rgba_color)
  Ruby.call (.imlib_image_clear_color color.red color.blue color.green color.alpha)
  Ruby.wrapIm r.handle

/-- The function `image_clear_color_inline` of `imlib2.c`. -/
def image_clear_color_inline (self rgba_color : RValue) : Ruby RValue := do
  let (_, im) ← GET_AND_CHECK_IMAGE self
  let color ← Ruby.host (getRgba rgba_color)
  Ruby.call (.imlib_context_set_image im)
  Ruby.call (.imlib_image_clear_color color.red color.blue color.green color.alpha)
  pure self

/-- The value of the global `draw_pixel_workaround`. -/
def Ruby.workaround : Ruby Bool := fun w => (.ok w.draw_pixel_workaround, w)

/-- The `switch (argc)` block of `image_draw_pixel`: it reads the arguments
only.  Under `case 2:` the branch for two integers has no `break` and runs
into the `default:` branch. -/
def image_draw_pixel_args (argv : List RValue) : Except Exn (Int × Int × RValue) :=
  match argv with
  | [a0] =>
    match TYPE a0 with
    | .T_HASH => do
      let x ← hashInt a0 "x"
      let y ← hashInt a0 "y"
      pure (x, y, .nil)
    | .T_ARRAY => do
      let x ← aryInt a0 0
      let y ← aryInt a0 1
      pure (x, y, .nil)
    | _ => .error (typeError "Invalid argument type (not array or hash)")
  | [a0, a1] =>
    match TYPE a0 with
    | .T_HASH => do
      let x ← hashInt a0 "x"
      let y ← hashInt a0 "y"
      pure (x, y, a1)
    | .T_ARRAY => do
      let x ← aryInt a0 0
      let y ← aryInt a0 1
      pure (x, y, a1)
    | .T_FIXNUM => do
      let _x ← NUM2INT a0
      let _y ← NUM2INT a1
      .error (typeError "Invalid argument type (not array or hash)")
    | _ => .error (typeError "Invalid argument type (not array or hash)")
  | [a0, a1, a2] => do
    let x ← NUM2INT a0
    let y ← NUM2INT a1
    pure (x, y, a2)
  | _ => .error (typeError "Invalid argument count (not 1, 2, or 3)")

/-- The function `image_draw_pixel` of `imlib2.c`. -/
def image_draw_pixel (argv : List RValue) (self : RValue) : Ruby RValue := do
  let (x, y, color) ← Ruby.host (image_draw_pixel_args argv)
  let (_, im) ← GET_AND_CHECK_IMAGE self
  Ruby.call (.imlib_context_set_image im)
  if notNil color then set_context_color color
  if (← Ruby.workaround) then
    let blend := (← Ruby.ask .imlib_context_get_blend).int 0
    let aa := (← Ruby.ask .imlib_context_get_anti_alias).int 0
    Ruby.call (.imlib_image_draw_rectangle x y 1 1)
    Ruby.call (.imlib_context_set_blend blend)
    Ruby.call (.imlib_context_set_anti_alias aa)
  else
    Ruby.call (.imlib_image_draw_pixel x y 0)
  pure self

/-- One round of the loops of `image_draw_line`: the point held by a hash or
an array. -/
def image_draw_line_point (a : RValue) : Except Exn (Int × Int) :=
  match TYPE a with
  | .T_HASH => do
    let x ← hashInt a "x"
    let y ← hashInt a "y"
    pure (x, y)
  | .T_ARRAY => do
    let x ← aryInt a 0
    let y ← aryInt a 1
    pure (x, y)
  | _ => .error (typeError "Invalid argument type (not array or hash)")

/-- The `switch (argc)` block of `image_draw_line`: it reads the arguments
only. -/
def image_draw_line_args (argv : List RValue) :
    Except Exn (Int × Int × Int × Int × RValue) :=
  match argv with
  | [a0, a1] => do
    let (x0, y0) ← image_draw_line_point a0
    let (x1, y1) ← image_draw_line_point a1
    pure (x0, y0, x1, y1, .nil)
  | [a0, a1, a2] => do
    let (x0, y0) ← image_draw_line_point a0
    let (x1, y1) ← image_draw_line_point a1
    pure (x0, y0, x1, y1, a2)
  | [a0, a1, a2, a3, a4] => do
    let x0 ← NUM2INT a0
    let y0 ← NUM2INT a1
    let x1 ← NUM2INT a2
    let y1 ← NUM2INT a3
    pure (x0, y0, x1, y1, a4)
  | [a0, a1, a2, a3] => do
    let x0 ← NUM2INT a0
    let y0 ← NUM2INT a1
    let x1 ← NUM2INT a2
    let y1 ← NUM2INT a3
    pure (x0, y0, x1, y1, .nil)
  | _ => .error (typeError "Invalid argument count (not 2, 3, 4, or 5)")

/-- The function `image_draw_line` of `imlib2.c`. -/
def image_draw_line (argv : List RValue) (self : RValue) : Ruby RValue := do
  let (x0, y0, x1, y1, color) ← Ruby.host (image_draw_line_args argv)
  let (_, im) ← GET_AND_CHECK_IMAGE self
  Ruby.call (.imlib_context_set_image im)
  if notNil color then set_context_color color
  Ruby.call (.imlib_image_draw_line x0 y0 x1 y1 0)
  pure self

/-- The `switch (argc)` block of `image_draw_rect`: it reads the arguments only.
The variables `x`, `y`, `w`, `h` start at `0` and `color` at `Qnil`. -/
def image_draw_rect_args (argv : List RValue) :
    Except Exn (Int × Int × Int × Int × RValue) :=
  match argv with
  | [a0] =>
    match TYPE a0 with
    | .T_HASH => do
      let x ← hashInt a0 "x"
      let y ← hashInt a0 "y"
      let w ← hashInt a0 "w"
      let h ← hashInt a0 "h"
      pure (x, y, w, h, .nil)
    | .T_ARRAY => do
      let x ← aryInt a0 0
      let y ← aryInt a0 1
      let w ← aryInt a0 2
      let h ← aryInt a0 3
      pure (x, y, w, h, .nil)
    | _ => .error (typeError "Invalid argument type (not array or hash)")
  | [a0, a1] =>
    match TYPE a0 with
    | .T_HASH => do
      let x ← hashInt a0 "x"
      let y ← hashInt a0 "y"
      match TYPE a1 with
      | .T_HASH => do
        let w ← hashInt a1 "w"
        let h ← hashInt a1 "h"
        pure (x, y, w, h, .nil)
      | .T_ARRAY => do
        let w ← aryInt a1 0
        let h ← aryInt a1 1
        pure (x, y, w, h, .nil)
      | _ => do
        let x ← hashInt a0 "w"
        let y ← hashInt a0 "h"
        pure (x, y, 0, 0, a1)
    | .T_ARRAY => do
      let x ← aryInt a0 0
      let y ← aryInt a0 1
      match TYPE a1 with
      | .T_HASH => do
        let w ← hashInt a1 "w"
        let h ← hashInt a1 "h"
        pure (x, y, w, h, .nil)
      | .T_ARRAY => do
        let w ← aryInt a1 0
        let h ← aryInt a1 1
        pure (x, y, w, h, .nil)
      | _ => do
        let w ← aryInt a0 2
        let h ← aryInt a0 3
        pure (x, y, w, h, a1)
    | _ => .error (typeError "Invalid argument type (not array or hash)")
  | [a0, a1, a2] => do
    let (x, y) ← (match TYPE a0 with
      | .T_HASH => do
        let x ← hashInt a0 "x"
        let y ← hashInt a0 "y"
        pure (x, y)
      | .T_ARRAY => do
        let x ← aryInt a0 0
        let y ← aryInt a0 1
        pure (x, y)
      | _ => .error (typeError "Invalid argument type (not array or hash)")
      : Except Exn (Int × Int))
    let (w, h) ← (match TYPE a1 with
      | .T_HASH => do
        let w ← hashInt a1 "w"
        let h ← hashInt a1 "h"
        pure (w, h)
      | .T_ARRAY => do
        let w ← aryInt a1 0
        let h ← aryInt a1 1
        pure (w, h)
      | _ => .error (typeError "Invalid argument type (not array or hash)")
      : Except Exn (Int × Int))
    pure (x, y, w, h, a2)
  | [a0, a1, a2, a3] => do
    let x ← NUM2INT a0
    let y ← NUM2INT a1
    let w ← NUM2INT a2
    let h ← NUM2INT a3
    pure (x, y, w, h, .nil)
  | [a0, a1, a2, a3, a4] => do
    let x ← NUM2INT a0
    let y ← NUM2INT a1
    let w ← NUM2INT a2
    let h ← NUM2INT a3
    pure (x, y, w, h, a4)
  | _ => .error (typeError "Invalid argument count (not 1, 2, 3, 4, or 5)")

/-- The function `image_draw_rect` of `imlib2.c`. -/
def image_draw_rect (argv : List RValue) (self : RValue) : Ruby RValue := do
  let (x, y, w, h, color) ← Ruby.host (image_draw_rect_args argv)
  let (_, im) ← GET_AND_CHECK_IMAGE self
  Ruby.call (.imlib_context_set_image im)
  if notNil color then set_context_color color
  Ruby.call (.imlib_image_draw_rectangle x y w h)
  pure self

/-- The `switch (argc)` block of `image_fill_rect`: it reads the arguments only.
The variables `x`, `y`, `w`, `h` start at `0` and `color` at `Qnil`. -/
def image_fill_rect_args (argv : List RValue) :
    Except Exn (Int × Int × Int × Int × RValue) :=
  match argv with
  | [a0] =>
    match TYPE a0 with
    | .T_HASH => do
      let x ← hashInt a0 "x"
      let y ← hashInt a0 "y"
      let w ← hashInt a0 "w"
      let h ← hashInt a0 "h"
      pure (x, y, w, h, .nil)
    | .T_ARRAY => do
      let x ← aryInt a0 0
      let y ← aryInt a0 1
      let w ← aryInt a0 2
      let h ← aryInt a0 3
      pure (x, y, w, h, .nil)
    | _ => .error (typeError "Invalid argument type (not array or hash)")
  | [a0, a1] =>
    match TYPE a0 with
    | .T_HASH => do
      let x ← hashInt a0 "x"
      let y ← hashInt a0 "y"
      match TYPE a1 with
      | .T_HASH => do
        let w ← hashInt a1 "w"
        let h ← hashInt a1 "h"
        pure (x, y, w, h, .nil)
      | .T_ARRAY => do
        let w ← aryInt a1 0
        let h ← aryInt a1 1
        pure (x, y, w, h, .nil)
      | _ => do
        let x ← hashInt a0 "w"
        let y ← hashInt a0 "h"
        pure (x, y, 0, 0, a1)
    | .T_ARRAY => do
      let x ← aryInt a0 0
      let y ← aryInt a0 1
      match TYPE a1 with
      | .T_HASH => do
        let w ← hashInt a1 "w"
        let h ← hashInt a1 "h"
        pure (x, y, w, h, .nil)
      | .T_ARRAY => do
        let w ← aryInt a1 0
        let h ← aryInt a1 1
        pure (x, y, w, h, .nil)
      | _ => do
        let w ← aryInt a0 2
        let h ← aryInt a0 3
        pure (x, y, w, h, a1)
    | _ => .error (typeError "Invalid argument type (not array or hash)")
  | [a0, a1, a2] => do
    let (x, y) ← (match TYPE a0 with
      | .T_HASH => do
        let x ← hashInt a0 "x"
        let y ← hashInt a0 "y"
        pure (x, y)
      | .T_ARRAY => do
        let x ← aryInt a0 0
        let y ← aryInt a0 1
        pure (x, y)
      | _ => .error (typeError "Invalid argument type (not array or hash)")
      : Except Exn (Int × Int))
    let (w, h) ← (match TYPE a1 with
      | .T_HASH => do
        let w ← hashInt a1 "w"
        let h ← hashInt a1 "h"
        pure (w, h)
      | .T_ARRAY => do
        let w ← aryInt a1 0
        let h ← aryInt a1 1
        pure (w, h)
      | _ => .error (typeError "Invalid argument type (not array or hash)")
      : Except Exn (Int × Int))
    pure (x, y, w, h, a2)
  | [a0, a1, a2, a3] => do
    let x ← NUM2INT a0
    let y ← NUM2INT a1
    let w ← NUM2INT a2
    let h ← NUM2INT a3
    pure (x, y, w, h, .nil)
  | [a0, a1, a2, a3, a4] => do
    let x ← NUM2INT a0
    let y ← NUM2INT a1
    let w ← NUM2INT a2
    let h ← NUM2INT a3
    pure (x, y, w, h, a4)
  | _ => .error (typeError "Invalid argument count (not 1, 2, 3, 4, or 5)")

/-- The function `image_fill_rect` of `imlib2.c`. -/
def image_fill_rect (argv : List RValue) (self : RValue) : Ruby RValue := do
  let (x, y, w, h, color) ← Ruby.host (image_fill_rect_args argv)
  let (_, im) ← GET_AND_CHECK_IMAGE self
  Ruby.call (.imlib_context_set_image im)
  if notNil color then set_context_color color
  Ruby.call (.imlib_image_fill_rectangle x y w h)
  pure self

/-- The `switch (argc)` block of `image_copy_alpha`: it reads the arguments
only. -/
def image_copy_alpha_args (argv : List RValue) : Except Exn (Int × Int) :=
  match argv with
  | [_, a1] =>
    match TYPE a1 with
    | .T_HASH => do
      let x ← hashInt a1 "x"
      let y ← hashInt a1 "y"
      pure (x, y)
    | .T_ARRAY => do
      let x ← aryInt a1 0
      let y ← aryInt a1 1
      pure (x, y)
    | _ => .error (typeError "Invalid argument type (not array or hash)")
  | [_, a1, a2] => do
    let x ← NUM2INT a1
    let y ← NUM2INT a2
    pure (x, y)
  | _ => .error (typeError "Invalid argument count (not 2 or 3)")

/-- The function `image_copy_alpha` of `imlib2.c`.  With no argument at all
`src = argv[0]` reads past the argument list, and the value is never used. -/
def image_copy_alpha (argv : List RValue) (self : RValue) : Ruby RValue := do
  let src := argv.getD 0 .nil
  let (x, y) ← Ruby.host (image_copy_alpha_args argv)
  let (_, src_im) ← GET_AND_CHECK_IMAGE src
  let (_, im) ← GET_AND_CHECK_IMAGE self
  Ruby.call (.imlib_context_set_image im)
  Ruby.call (.imlib_image_copy_alpha_to_image src_im x y)
  pure self

/-- The innermost switch of `image_copy_alpha_rect`, `image_scroll_rect` and
`image_copy_rect`: the pair `dx`, `dy` held by a hash or an array. -/
def dxdy_of (a : RValue) : Except Exn (Int × Int) :=
  match TYPE a with
  | .T_HASH => do
    let dx ← hashInt a "dx"
    let dy ← hashInt a "dy"
    pure (dx, dy)
  | .T_ARRAY => do
    let dx ← aryInt a 0
    let dy ← aryInt a 1
    pure (dx, dy)
  | _ => .error (typeError "Invalid argument type (not array or hash)")

/-- The statements under `case 6:` of `image_copy_alpha_rect`, which `case 5:`
runs into as well: they assign `x`, `y`, `w`, `h`. -/
def image_copy_alpha_rect_case6 (a1 a2 a3 a4 : RValue) :
    Except Exn (Int × Int × Int × Int) :=
  match TYPE a1 with
  | .T_HASH => do
    let x ← hashInt a1 "x"
    let y ← hashInt a1 "y"
    match TYPE a2 with
    | .T_HASH => do
      let w ← hashInt a2 "w"
      let h ← hashInt a2 "h"
      pure (x, y, w, h)
    | .T_ARRAY => do
      let w ← aryInt a2 0
      let h ← aryInt a2 1
      pure (x, y, w, h)
    | _ => .error (typeError "Invalid argument type (not array or hash)")
  | .T_ARRAY => do
    let x ← aryInt a1 0
    let y ← aryInt a1 1
    match TYPE a2 with
    | .T_HASH => do
      let w ← hashInt a2 "w"
      let h ← hashInt a2 "h"
      pure (x, y, w, h)
    | .T_ARRAY => do
      let w ← aryInt a2 0
      let h ← aryInt a2 1
      pure (x, y, w, h)
    | _ => .error (typeError "Invalid argument type (not array or hash)")
  | _ => do
    let x ← NUM2INT a1
    let y ← NUM2INT a2
    let w ← NUM2INT a3
    let h ← NUM2INT a4
    pure (x, y, w, h)

/-- The `switch (argc)` block of `image_copy_alpha_rect`: it reads the
arguments only.  All six variables start at `0`. -/
def image_copy_alpha_rect_args (argv : List RValue) :
    Except Exn (Int × Int × Int × Int × Int × Int) :=
  match argv with
  | [_, a1] =>
    match TYPE a1 with
    | .T_HASH => do
      let x ← hashInt a1 "x"
      let y ← hashInt a1 "y"
      let w ← hashInt a1 "w"
      let h ← hashInt a1 "h"
      let dx ← hashInt a1 "dx"
      let dy ← hashInt a1 "dy"
      pure (x, y, w, h, dx, dy)
    | .T_ARRAY => do
      let x ← aryInt a1 0
      let y ← aryInt a1 1
      let w ← aryInt a1 2
      let h ← aryInt a1 3
      let dx ← aryInt a1 4
      let dy ← aryInt a1 5
      pure (x, y, w, h, dx, dy)
    | _ => .error (typeError "Invalid argument type (not array or hash)")
  | [_, a1, a2] => do
    let (x, y, w, h) ← (match TYPE a1 with
      | .T_HASH => do
        let x ← hashInt a1 "x"
        let y ← hashInt a1 "y"
        let w ← hashInt a1 "w"
        let h ← hashInt a1 "h"
        pure (x, y, w, h)
      | .T_ARRAY => do
        let x ← aryInt a1 0
        let y ← aryInt a1 1
        let w ← aryInt a1 2
        let h ← aryInt a1 3
        pure (x, y, w, h)
      | _ => .error (typeError "Invalid argument type (not array or hash)")
      : Except Exn (Int × Int × Int × Int))
    match TYPE a2 with
    | .T_HASH => do
      let dx ← hashInt a1 "dx"
      let dy ← hashInt a1 "dy"
      pure (x, y, w, h, dx, dy)
    | .T_ARRAY => do
      let dx ← aryInt a1 0
      let dy ← aryInt a1 1
      pure (x, y, w, h, dx, dy)
    | _ => .error (typeError "Invalid argument type (not array or hash)")
  | [_, a1, a2, a3] =>
    match TYPE a1 with
    | .T_HASH => do
      let x ← hashInt a1 "x"
      let y ← hashInt a1 "y"
      match TYPE a2 with
      | .T_HASH => do
        let w ← hashInt a2 "w"
        let h ← hashInt a2 "h"
        let (dx, dy) ← dxdy_of a3
        pure (x, y, w, h, dx, dy)
      | .T_ARRAY => do
        let w ← aryInt a2 0
        let h ← aryInt a2 1
        let (dx, dy) ← dxdy_of a3
        pure (x, y, w, h, dx, dy)
      | _ => do
        let w ← hashInt a1 "w"
        let h ← hashInt a1 "h"
        let dx ← NUM2INT a2
        let dy ← NUM2INT a3
        pure (x, y, w, h, dx, dy)
    | .T_ARRAY => do
      let x ← aryInt a1 0
      let y ← aryInt a1 1
      match TYPE a2 with
      | .T_HASH => do
        let w ← hashInt a2 "w"
        let h ← hashInt a2 "h"
        let (dx, dy) ← dxdy_of a3
        pure (x, y, w, h, dx, dy)
      | .T_ARRAY => do
        let w ← aryInt a2 0
        let h ← aryInt a2 1
        let (dx, dy) ← dxdy_of a3
        pure (x, y, w, h, dx, dy)
      | _ => do
        let w ← hashInt a1 "w"
        let h ← hashInt a1 "h"
        let dx ← NUM2INT a2
        let dy ← NUM2INT a3
        pure (x, y, w, h, dx, dy)
    | _ => .error (typeError "Invalid argument type (not array or hash)")
  | [_, a1, a2, a3, a4] => do
    let (_x, _y) ← (match TYPE a1 with
      | .T_HASH => do
        let x ← hashInt a1 "x"
        let y ← hashInt a1 "y"
        pure (x, y)
      | .T_ARRAY => do
        let x ← aryInt a1 0
        let y ← aryInt a1 1
        pure (x, y)
      | _ => .error (typeError "Invalid argument type (not array or hash)")
      : Except Exn (Int × Int))
    let (_w, _h) ← (match TYPE a2 with
      | .T_HASH => do
        let w ← hashInt a2 "w"
        let h ← hashInt a2 "h"
        pure (w, h)
      | .T_ARRAY => do
        let w ← aryInt a2 0
        let h ← aryInt a2 1
        pure (w, h)
      | _ => .error (typeError "Invalid argument type (not array or hash)")
      : Except Exn (Int × Int))
    let dx ← NUM2INT a3
    let dy ← NUM2INT a4
    let (x, y, w, h) ← image_copy_alpha_rect_case6 a1 a2 a3 a4
    pure (x, y, w, h, dx, dy)
  | [_, a1, a2, a3, a4, _] => do
    let (x, y, w, h) ← image_copy_alpha_rect_case6 a1 a2 a3 a4
    pure (x, y, w, h, 0, 0)
  | [_, a1, a2, a3, a4, a5, a6] => do
    let x ← NUM2INT a1
    let y ← NUM2INT a2
    let w ← NUM2INT a3
    let h ← NUM2INT a4
    let dx ← NUM2INT a5
    let dy ← NUM2INT a6
    pure (x, y, w, h, dx, dy)
  | _ => .error (typeError ("Invalid argument count "
      ++ "(not 2, 3, 4, 5, 6, or 7)"))

/-- The function `image_copy_alpha_rect` of `imlib2.c`. -/
def image_copy_alpha_rect (argv : List RValue) (self : RValue) : Ruby RValue := do
  let src := argv.getD 0 .nil
  let (x, y, w, h, dx, dy) ← Ruby.host (image_copy_alpha_rect_args argv)
  let (_, src_im) ← GET_AND_CHECK_IMAGE src
  let (_, im) ← GET_AND_CHECK_IMAGE self
  Ruby.call (.imlib_context_set_image im)
  Ruby.call (.imlib_image_copy_alpha_rectangle_to_image src_im x y w h dx dy)
  pure self

/-- The `switch (argc)` block of `image_scroll_rect`: it reads the arguments only. -/
def image_scroll_rect_args (argv : List RValue) :
    Except Exn (Int × Int × Int × Int × Int × Int) :=
  match argv with
  | [a0] =>
    match TYPE a0 with
    | .T_HASH => do
      let x ← hashInt a0 "x"
      let y ← hashInt a0 "y"
      let w ← hashInt a0 "w"
      let h ← hashInt a0 "h"
      let dx ← hashInt a0 "dx"
      let dy ← hashInt a0 "dy"
      pure (x, y, w, h, dx, dy)
    | .T_ARRAY => do
      let x ← aryInt a0 0
      let y ← aryInt a0 1
      let w ← aryInt a0 2
      let h ← aryInt a0 3
      let dx ← aryInt a0 4
      let dy ← aryInt a0 5
      pure (x, y, w, h, dx, dy)
    | _ => .error (typeError "Invalid argument type (not array or hash)")
  | [a0, a1] => do
    let (x, y, w, h) ← (match TYPE a0 with
      | .T_HASH => do
        let x ← hashInt a0 "x"
        let y ← hashInt a0 "y"
        let w ← hashInt a0 "w"
        let h ← hashInt a0 "h"
        pure (x, y, w, h)
      | .T_ARRAY => do
        let x ← aryInt a0 0
        let y ← aryInt a0 1
        let w ← aryInt a0 2
        let h ← aryInt a0 3
        pure (x, y, w, h)
      | _ => .error (typeError "Invalid argument type (not array or hash)")
      : Except Exn (Int × Int × Int × Int))
    let (dx, dy) ← dxdy_of a1
    pure (x, y, w, h, dx, dy)
  | [a0, a1, a2] =>
    match TYPE a0 with
    | .T_HASH => do
      let x ← hashInt a0 "x"
      let y ← hashInt a0 "y"
      match TYPE a1 with
      | .T_HASH => do
        let w ← hashInt a1 "w"
        let h ← hashInt a1 "h"
        let (dx, dy) ← dxdy_of a2
        pure (x, y, w, h, dx, dy)
      | .T_ARRAY => do
        let w ← aryInt a1 0
        let h ← aryInt a1 1
        let (dx, dy) ← dxdy_of a2
        pure (x, y, w, h, dx, dy)
      | _ => do
        let w ← hashInt a0 "w"
        let h ← hashInt a0 "h"
        let dx ← NUM2INT a1
        let dy ← NUM2INT a2
        pure (x, y, w, h, dx, dy)
    | .T_ARRAY => do
      let x ← aryInt a0 0
      let y ← aryInt a0 1
      match TYPE a1 with
      | .T_HASH => do
        let w ← hashInt a1 "w"
        let h ← hashInt a1 "h"
        let (dx, dy) ← dxdy_of a2
        pure (x, y, w, h, dx, dy)
      | .T_ARRAY => do
        let w ← aryInt a1 0
        let h ← aryInt a1 1
        let (dx, dy) ← dxdy_of a2
        pure (x, y, w, h, dx, dy)
      | _ => do
        let w ← aryInt a0 2
        let h ← aryInt a0 3
        let dx ← NUM2INT a1
        let dy ← NUM2INT a2
        pure (x, y, w, h, dx, dy)
    | _ => .error (typeError "Invalid argument type (not array or hash)")
  | [a0, a1, a2, a3] => do
    let (x, y) ← (match TYPE a0 with
      | .T_HASH => do
        let x ← hashInt a0 "x"
        let y ← hashInt a0 "y"
        pure (x, y)
      | .T_ARRAY => do
        let x ← aryInt a0 0
        let y ← aryInt a0 1
        pure (x, y)
      | _ => .error (typeError "Invalid argument type (not array or hash)")
      : Except Exn (Int × Int))
    let (w, h) ← (match TYPE a1 with
      | .T_HASH => do
        let w ← hashInt a1 "w"
        let h ← hashInt a1 "h"
        pure (w, h)
      | .T_ARRAY => do
        let w ← aryInt a1 0
        let h ← aryInt a1 1
        pure (w, h)
      | _ => .error (typeError "Invalid argument type (not array or hash)")
      : Except Exn (Int × Int))
    let dx ← NUM2INT a2
    let dy ← NUM2INT a3
    pure (x, y, w, h, dx, dy)
  | [a0, a1, a2, a3, a4] => do
    let x ← NUM2INT a0
    let y ← NUM2INT a1
    let w ← NUM2INT a2
    let h ← NUM2INT a3
    let (dx, dy) ← dxdy_of a4
    pure (x, y, w, h, dx, dy)
  | [a0, a1, a2, a3, a4, a5] => do
    let x ← NUM2INT a0
    let y ← NUM2INT a1
    let w ← NUM2INT a2
    let h ← NUM2INT a3
    let dx ← NUM2INT a4
    let dy ← NUM2INT a5
    pure (x, y, w, h, dx, dy)
  | _ => .error (typeError ("Invalid argument count "
      ++ "(not 2, 3, 4, 5, 6, or 7)"))

/-- The function `image_scroll_rect` of `imlib2.c`. -/
def image_scroll_rect (argv : List RValue) (self : RValue) : Ruby RValue := do
  let (x, y, w, h, dx, dy) ← Ruby.host (image_scroll_rect_args argv)
  let (_, im) ← GET_AND_CHECK_IMAGE self
  Ruby.call (.imlib_context_set_image im)
  Ruby.call (.imlib_image_scroll_rect x y w h dx dy)
  pure self

/-- The `switch (argc)` block of `image_copy_rect`: it reads the arguments only. -/
def image_copy_rect_args (argv : List RValue) :
    Except Exn (Int × Int × Int × Int × Int × Int) :=
  match argv with
  | [a0] =>
    match TYPE a0 with
    | .T_HASH => do
      let x ← hashInt a0 "x"
      let y ← hashInt a0 "y"
      let w ← hashInt a0 "w"
      let h ← hashInt a0 "h"
      let dx ← hashInt a0 "dx"
      let dy ← hashInt a0 "dy"
      pure (x, y, w, h, dx, dy)
    | .T_ARRAY => do
      let x ← aryInt a0 0
      let y ← aryInt a0 1
      let w ← aryInt a0 2
      let h ← aryInt a0 3
      let dx ← aryInt a0 4
      let dy ← aryInt a0 5
      pure (x, y, w, h, dx, dy)
    | _ => .error (typeError "Invalid argument type (not array or hash)")
  | [a0, a1] => do
    let (x, y, w, h) ← (match TYPE a0 with
      | .T_HASH => do
        let x ← hashInt a0 "x"
        let y ← hashInt a0 "y"
        let w ← hashInt a0 "w"
        let h ← hashInt a0 "h"
        pure (x, y, w, h)
      | .T_ARRAY => do
        let x ← aryInt a0 0
        let y ← aryInt a0 1
        let w ← aryInt a0 2
        let h ← aryInt a0 3
        pure (x, y, w, h)
      | _ => .error (typeError "Invalid argument type (not array or hash)")
      : Except Exn (Int × Int × Int × Int))
    let (dx, dy) ← dxdy_of a1
    pure (x, y, w, h, dx, dy)
  | [a0, a1, a2] =>
    match TYPE a0 with
    | .T_HASH => do
      let x ← hashInt a0 "x"
      let y ← hashInt a0 "y"
      match TYPE a1 with
      | .T_HASH => do
        let w ← hashInt a1 "w"
        let h ← hashInt a1 "h"
        let (dx, dy) ← dxdy_of a2
        pure (x, y, w, h, dx, dy)
      | .T_ARRAY => do
        let w ← aryInt a1 0
        let h ← aryInt a1 1
        let (dx, dy) ← dxdy_of a2
        pure (x, y, w, h, dx, dy)
      | _ => do
        let w ← hashInt a0 "w"
        let h ← hashInt a0 "h"
        let dx ← NUM2INT a1
        let dy ← NUM2INT a2
        pure (x, y, w, h, dx, dy)
    | .T_ARRAY => do
      let x ← aryInt a0 0
      let y ← aryInt a0 1
      match TYPE a1 with
      | .T_HASH => do
        let w ← hashInt a1 "w"
        let h ← hashInt a1 "h"
        let (dx, dy) ← dxdy_of a2
        pure (x, y, w, h, dx, dy)
      | .T_ARRAY => do
        let w ← aryInt a1 0
        let h ← aryInt a1 1
        let (dx, dy) ← dxdy_of a2
        pure (x, y, w, h, dx, dy)
      | _ => do
        let w ← aryInt a0 2
        let h ← aryInt a0 3
        let dx ← NUM2INT a1
        let dy ← NUM2INT a2
        pure (x, y, w, h, dx, dy)
    | _ => .error (typeError "Invalid argument type (not array or hash)")
  | [a0, a1, a2, a3] => do
    let (x, y) ← (match TYPE a0 with
      | .T_HASH => do
        let x ← hashInt a0 "x"
        let y ← hashInt a0 "y"
        pure (x, y)
      | .T_ARRAY => do
        let x ← aryInt a0 0
        let y ← aryInt a0 1
        pure (x, y)
      | _ => .error (typeError "Invalid argument type (not array or hash)")
      : Except Exn (Int × Int))
    let (w, h) ← (match TYPE a1 with
      | .T_HASH => do
        let w ← hashInt a1 "w"
        let h ← hashInt a1 "h"
        pure (w, h)
      | .T_ARRAY => do
        let w ← aryInt a1 0
        let h ← aryInt a1 1
        pure (w, h)
      | _ => .error (typeError "Invalid argument type (not array or hash)")
      : Except Exn (Int × Int))
    let dx ← NUM2INT a2
    let dy ← NUM2INT a3
    pure (x, y, w, h, dx, dy)
  | [a0, a1, a2, a3, a4] => do
    let x ← NUM2INT a0
    let y ← NUM2INT a1
    let w ← NUM2INT a2
    let h ← NUM2INT a3
    let (dx, dy) ← dxdy_of a4
    pure (x, y, w, h, dx, dy)
  | [a0, a1, a2, a3, a4, a5] => do
    let x ← NUM2INT a0
    let y ← NUM2INT a1
    let w ← NUM2INT a2
    let h ← NUM2INT a3
    let dx ← NUM2INT a4
    let dy ← NUM2INT a5
    pure (x, y, w, h, dx, dy)
  | _ => .error (typeError ("Invalid argument count "
      ++ "(not 2, 3, 4, 5, 6, or 7)"))

/-- The function `image_copy_rect` of `imlib2.c`. -/
def image_copy_rect (argv : List RValue) (self : RValue) : Ruby RValue := do
  let (x, y, w, h, dx, dy) ← Ruby.host (image_copy_rect_args argv)
  let (_, im) ← GET_AND_CHECK_IMAGE self
  Ruby.call (.imlib_context_set_image im)
  Ruby.call (.imlib_image_copy_rect x y w h dx dy)
  pure self

/-- The `switch (argc)` block of `image_draw_ellipse`: it reads the arguments only.
The variables `x`, `y`, `w`, `h` start at `0` and `color` at `Qnil`. -/
def image_draw_ellipse_args (argv : List RValue) :
    Except Exn (Int × Int × Int × Int × RValue) :=
  match argv with
  | [a0] =>
    match TYPE a0 with
    | .T_HASH => do
      let x ← hashInt a0 "x"
      let y ← hashInt a0 "y"
      let w ← hashInt a0 "w"
      let h ← hashInt a0 "h"
      pure (x, y, w, h, .nil)
    | .T_ARRAY => do
      let x ← aryInt a0 0
      let y ← aryInt a0 1
      let w ← aryInt a0 2
      let h ← aryInt a0 3
      pure (x, y, w, h, .nil)
    | _ => .error (typeError "Invalid argument type (not array or hash)")
  | [a0, a1] =>
    match TYPE a0 with
    | .T_HASH => do
      let x ← hashInt a0 "x"
      let y ← hashInt a0 "y"
      match TYPE a1 with
      | .T_HASH => do
        let w ← hashInt a1 "w"
        let h ← hashInt a1 "h"
        pure (x, y, w, h, .nil)
      | .T_ARRAY => do
        let w ← aryInt a1 0
        let h ← aryInt a1 1
        pure (x, y, w, h, .nil)
      | _ => do
        let x ← hashInt a0 "w"
        let y ← hashInt a0 "h"
        pure (x, y, 0, 0, a1)
    | .T_ARRAY => do
      let x ← aryInt a0 0
      let y ← aryInt a0 1
      match TYPE a1 with
      | .T_HASH => do
        let w ← hashInt a1 "w"
        let h ← hashInt a1 "h"
        pure (x, y, w, h, .nil)
      | .T_ARRAY => do
        let w ← aryInt a1 0
        let h ← aryInt a1 1
        pure (x, y, w, h, .nil)
      | _ => do
        let w ← aryInt a0 2
        let h ← aryInt a0 3
        pure (x, y, w, h, a1)
    | _ => .error (typeError "Invalid argument type (not array or hash)")
  | [a0, a1, a2] => do
    let (x, y) ← (match TYPE a0 with
      | .T_HASH => do
        let x ← hashInt a0 "x"
        let y ← hashInt a0 "y"
        pure (x, y)
      | .T_ARRAY => do
        let x ← aryInt a0 0
        let y ← aryInt a0 1
        pure (x, y)
      | _ => .error (typeError "Invalid argument type (not array or hash)")
      : Except Exn (Int × Int))
    let (w, h) ← (match TYPE a1 with
      | .T_HASH => do
        let w ← hashInt a1 "w"
        let h ← hashInt a1 "h"
        pure (w, h)
      | .T_ARRAY => do
        let w ← aryInt a1 0
        let h ← aryInt a1 1
        pure (w, h)
      | _ => .error (typeError "Invalid argument type (not array or hash)")
      : Except Exn (Int × Int))
    pure (x, y, w, h, a2)
  | [a0, a1, a2, a3] => do
    let x ← NUM2INT a0
    let y ← NUM2INT a1
    let w ← NUM2INT a2
    let h ← NUM2INT a3
    pure (x, y, w, h, .nil)
  | [a0, a1, a2, a3, a4] => do
    let x ← NUM2INT a0
    let y ← NUM2INT a1
    let w ← NUM2INT a2
    let h ← NUM2INT a3
    pure (x, y, w, h, a4)
  | _ => .error (typeError "Invalid argument count (not 1, 2, 3, 4, or 5)")

/-- The function `image_draw_ellipse` of `imlib2.c`. -/
def image_draw_ellipse (argv : List RValue) (self : RValue) : Ruby RValue := do
  let (x, y, w, h, color) ← Ruby.host (image_draw_ellipse_args argv)
  let (_, im) ← GET_AND_CHECK_IMAGE self
  Ruby.call (.imlib_context_set_image im)
  if notNil color then set_context_color color
  Ruby.call (.imlib_image_draw_ellipse x y w h)
  pure self

/-- The `switch (argc)` block of `image_fill_ellipse`: it reads the arguments only.
The variables `x`, `y`, `w`, `h` start at `0` and `color` at `Qnil`. -/
def image_fill_ellipse_args (argv : List RValue) :
    Except Exn (Int × Int × Int × Int × RValue) :=
  match argv with
  | [a0] =>
    match TYPE a0 with
    | .T_HASH => do
      let x ← hashInt a0 "x"
      let y ← hashInt a0 "y"
      let w ← hashInt a0 "w"
      let h ← hashInt a0 "h"
      pure (x, y, w, h, .nil)
    | .T_ARRAY => do
      let x ← aryInt a0 0
      let y ← aryInt a0 1
      let w ← aryInt a0 2
      let h ← aryInt a0 3
      pure (x, y, w, h, .nil)
    | _ => .error (typeError "Invalid argument type (not array or hash)")
  | [a0, a1] =>
    match TYPE a0 with
    | .T_HASH => do
      let x ← hashInt a0 "x"
      let y ← hashInt a0 "y"
      match TYPE a1 with
      | .T_HASH => do
        let w ← hashInt a1 "w"
        let h ← hashInt a1 "h"
        pure (x, y, w, h, .nil)
      | .T_ARRAY => do
        let w ← aryInt a1 0
        let h ← aryInt a1 1
        pure (x, y, w, h, .nil)
      | _ => do
        let x ← hashInt a0 "w"
        let y ← hashInt a0 "h"
        pure (x, y, 0, 0, a1)
    | .T_ARRAY => do
      let x ← aryInt a0 0
      let y ← aryInt a0 1
      match TYPE a1 with
      | .T_HASH => do
        let w ← hashInt a1 "w"
        let h ← hashInt a1 "h"
        pure (x, y, w, h, .nil)
      | .T_ARRAY => do
        let w ← aryInt a1 0
        let h ← aryInt a1 1
        pure (x, y, w, h, .nil)
      | _ => do
        let w ← aryInt a0 2
        let h ← aryInt a0 3
        pure (x, y, w, h, a1)
    | _ => .error (typeError "Invalid argument type (not array or hash)")
  | [a0, a1, a2] => do
    let (x, y) ← (match TYPE a0 with
      | .T_HASH => do
        let x ← hashInt a0 "x"
        let y ← hashInt a0 "y"
        pure (x, y)
      | .T_ARRAY => do
        let x ← aryInt a0 0
        let y ← aryInt a0 1
        pure (x, y)
      | _ => .error (typeError "Invalid argument type (not array or hash)")
      : Except Exn (Int × Int))
    let (w, h) ← (match TYPE a1 with
      | .T_HASH => do
        let w ← hashInt a1 "w"
        let h ← hashInt a1 "h"
        pure (w, h)
      | .T_ARRAY => do
        let w ← aryInt a1 0
        let h ← aryInt a1 1
        pure (w, h)
      | _ => .error (typeError "Invalid argument type (not array or hash)")
      : Except Exn (Int × Int))
    pure (x, y, w, h, a2)
  | [a0, a1, a2, a3] => do
    let x ← NUM2INT a0
    let y ← NUM2INT a1
    let w ← NUM2INT a2
    let h ← NUM2INT a3
    pure (x, y, w, h, .nil)
  | [a0, a1, a2, a3, a4] => do
    let x ← NUM2INT a0
    let y ← NUM2INT a1
    let w ← NUM2INT a2
    let h ← NUM2INT a3
    pure (x, y, w, h, a4)
  | _ => .error (typeError "Invalid argument count (not 1, 2, 3, 4, or 5)")

/-- The function `image_fill_ellipse` of `imlib2.c`. -/
def image_fill_ellipse (argv : List RValue) (self : RValue) : Ruby RValue := do
  let (x, y, w, h, color) ← Ruby.host (image_fill_ellipse_args argv)
  let (_, im) ← GET_AND_CHECK_IMAGE self
  Ruby.call (.imlib_context_set_image im)
  if notNil color then set_context_color color
  Ruby.call (.imlib_image_fill_ellipse x y w h)
  pure self

/-- The four coordinates held by a hash keyed `x`, `y`, `w`, `h` or by an
array, as `image_blend_image_inline` reads them under `case 3:`. -/
def image_blend_image_inline_rect (a : RValue) : Except Exn (Int × Int × Int × Int) :=
  match TYPE a with
  | .T_HASH => do
    let v0 ← hashInt a "x"
    let v1 ← hashInt a "y"
    let v2 ← hashInt a "w"
    let v3 ← hashInt a "h"
    pure (v0, v1, v2, v3)
  | .T_ARRAY => do
    let v0 ← aryInt a 0
    let v1 ← aryInt a 1
    let v2 ← aryInt a 2
    let v3 ← aryInt a 3
    pure (v0, v1, v2, v3)
  | _ => .error (typeError "Invalid argument type (not array or hash)")

/-- The position pair as `image_blend_image_inline` reads it under `case 5:`:
keys `x` and `y` of a hash, or the first two entries of an array. -/
def image_blend_image_inline_pos (a : RValue) : Except Exn (Int × Int) :=
  match TYPE a with
  | .T_HASH => do
    let v0 ← hashInt a "x"
    let v1 ← hashInt a "y"
    pure (v0, v1)
  | .T_ARRAY => do
    let v0 ← aryInt a 0
    let v1 ← aryInt a 1
    pure (v0, v1)
  | _ => .error (typeError "Invalid argument type (not array or hash)")

/-- The size pair as `image_blend_image_inline` reads it under `case 5:`:
keys `s` and `h` of a hash, or the first two entries of an array. -/
def image_blend_image_inline_size (a : RValue) : Except Exn (Int × Int) :=
  match TYPE a with
  | .T_HASH => do
    let v2 ← hashInt a "s"
    let v3 ← hashInt a "h"
    pure (v2, v3)
  | .T_ARRAY => do
    let v2 ← aryInt a 0
    let v3 ← aryInt a 1
    pure (v2, v3)
  | _ => .error (typeError "Invalid argument type (not array or hash)")

/-- The value `(v == Qtrue) ? 1 : 0`. -/
def flagOf (v : RValue) : Int := if isTrue v then 1 else 0

/-- The `switch (argc)` block of `image_blend_image_inline`: it reads the
arguments only.  It yields `merge_alpha`, the array `s` and the array `d`;
`merge_alpha` starts at `1`, and the cases 4, 6 and 10 set it and run into the
cases 3, 5 and 9. -/
def image_blend_image_inline_args (argv : List RValue) :
    Except Exn (Int × (Int × Int × Int × Int) × (Int × Int × Int × Int)) :=
  match argv with
  | [_, a1, a2, a3] => do
    let s ← image_blend_image_inline_rect a1
    let d ← image_blend_image_inline_rect a2
    pure (flagOf a3, s, d)
  | [_, a1, a2] => do
    let s ← image_blend_image_inline_rect a1
    let d ← image_blend_image_inline_rect a2
    pure (1, s, d)
  | [_, a1, a2, a3, a4, a5] => do
    let (s0, s1) ← image_blend_image_inline_pos a1
    let (s2, s3) ← image_blend_image_inline_size a2
    let (d0, d1) ← image_blend_image_inline_pos a3
    let (d2, d3) ← image_blend_image_inline_size a4
    pure (flagOf a5, (s0, s1, s2, s3), (d0, d1, d2, d3))
  | [_, a1, a2, a3, a4] => do
    let (s0, s1) ← image_blend_image_inline_pos a1
    let (s2, s3) ← image_blend_image_inline_size a2
    let (d0, d1) ← image_blend_image_inline_pos a3
    let (d2, d3) ← image_blend_image_inline_size a4
    pure (1, (s0, s1, s2, s3), (d0, d1, d2, d3))
  | [_, a1, a2, a3, a4, a5, a6, a7, a8, a9] => do
    let s0 ← NUM2INT a1
    let s1 ← NUM2INT a2
    let s2 ← NUM2INT a3
    let s3 ← NUM2INT a4
    let d0 ← NUM2INT a5
    let d1 ← NUM2INT a6
    let d2 ← NUM2INT a7
    let d3 ← NUM2INT a8
    pure (flagOf a9, (s0, s1, s2, s3), (d0, d1, d2, d3))
  | [_, a1, a2, a3, a4, a5, a6, a7, a8] => do
    let s0 ← NUM2INT a1
    let s1 ← NUM2INT a2
    let s2 ← NUM2INT a3
    let s3 ← NUM2INT a4
    let d0 ← NUM2INT a5
    let d1 ← NUM2INT a6
    let d2 ← NUM2INT a7
    let d3 ← NUM2INT a8
    pure (1, (s0, s1, s2, s3), (d0, d1, d2, d3))
  | _ => .error (typeError ("Invalid argument count "
      ++ "(not 3, 4, 5, 6, 9, or 10)"))

/-- The function `image_blend_image_inline` of `imlib2.c`. -/
def image_blend_image_inline (argv : List RValue) (self : RValue) : Ruby RValue := do
  let (merge_alpha, (s0, s1, s2, s3), (d0, d1, d2, d3)) ←
    Ruby.host (image_blend_image_inline_args argv)
  let (_, im) ← GET_AND_CHECK_IMAGE self
  Ruby.call (.imlib_context_set_image im)
  let (_, src_im) ← GET_AND_CHECK_IMAGE (argv.getD 0 .nil)
  Ruby.call (.imlib_blend_image_onto_image src_im merge_alpha s0 s1 s2 s3 d0 d1 d2 d3)
  pure self

/-- The function `image_blend_image` of `imlib2.c`. -/
def image_blend_image (argv : List RValue) (self : RValue) : Ruby RValue := do
  let (_, im) ← GET_AND_CHECK_IMAGE self
  Ruby.call (.imlib_context_set_image im)
  let r ← Ruby.ask .imlib_clone_image
  let i_o ← Ruby.wrapIm r.handle
  image_blend_image_inline argv i_o

/-- The C statement `a = rb_float_new(angle)` of `image_rotate`: the host
allocates a Float object and `a` receives its address, converted to
`double`. -/
def Ruby.floatNew (angle : RValue) : Ruby CDouble := fun w =>
  (.ok (CDouble.ofInt (w.float_new angle)), w)

/-- The function `image_rotate` of `imlib2.c`. -/
def image_rotate (self angle : RValue) : Ruby RValue := do
  let (_, im) ← GET_AND_CHECK_IMAGE self
  let a ← Ruby.floatNew angle
  Ruby.call (.imlib_context_set_image im)
  let r ← Ruby.ask (.imlib_create_rotated_image a)
  Ruby.wrapIm r.handle

/-- The function `image_rotate_inline` of `imlib2.c`. -/
def image_rotate_inline (self angle : RValue) : Ruby RValue := do
  let (ref, im) ← GET_AND_CHECK_IMAGE self
  let a ← Ruby.floatNew angle
  Ruby.call (.imlib_context_set_image im)
  let r ← Ruby.ask (.imlib_create_rotated_image a)
  Ruby.call (.imlib_context_set_image im)
  Ruby.call .imlib_free_image
  Ruby.writeIm ref r.handle
  pure self

/-- The host macro `FIXNUM_P`. -/
def FIXNUM_P : RValue → Bool
  | .fixnum _ => true
  | _ => false

/-- The `switch (argc)` block of `image_draw_text`: it reads the arguments
only and yields `x`, `y`, `color` and `dir`.  Under `case 4:` the array
branch leaves after `y`, and `case 6:` has no `break` and runs into
`default:`. -/
def image_draw_text_args (argv : List RValue) :
    Except Exn (Int × Int × RValue × RValue) :=
  match argv with
  | [_, _, a2] =>
    match TYPE a2 with
    | .T_HASH => do
      let x ← hashInt a2 "x"
      let y ← hashInt a2 "y"
      pure (x, y, .nil, .nil)
    | .T_ARRAY => do
      let x ← aryInt a2 0
      let y ← aryInt a2 1
      pure (x, y, .nil, .nil)
    | _ => .error (typeError "Invalid argument count (not 2 or 3)")
  | [_, _, a2, a3] =>
    match TYPE a2 with
    | .T_HASH => do
      let x ← hashInt a2 "x"
      let y ← hashInt a2 "y"
      if FIXNUM_P a3 then pure (x, y, .nil, a3) else pure (x, y, a3, .nil)
    | .T_ARRAY => do
      let x ← aryInt a2 0
      let y ← aryInt a2 1
      pure (x, y, .nil, .nil)
    | _ => do
      let x ← NUM2INT a2
      let y ← NUM2INT a3
      pure (x, y, .nil, .nil)
  | [_, _, a2, a3, a4] =>
    if FIXNUM_P a2 then do
      let x ← NUM2INT a2
      let y ← NUM2INT a3
      pure (x, y, a4, .nil)
    else
      match TYPE a2 with
      | .T_HASH => do
        let x ← hashInt a2 "x"
        let y ← hashInt a2 "y"
        pure (x, y, a3, a4)
      | .T_ARRAY => do
        let x ← aryInt a2 0
        let y ← aryInt a2 1
        pure (x, y, a3, a4)
      | _ => .error (typeError ("Invalid argument type "
          ++ "(not Array or Hash)"))
  | [_, _, a2, a3, _, _] => do
    let _x ← NUM2INT a2
    let _y ← NUM2INT a3
    .error (typeError "Invalid argument count (not 3, 4, or 5)")
  | _ => .error (typeError "Invalid argument count (not 3, 4, or 5)")

/-- The function `image_draw_text` of `imlib2.c`; the outputs of the engine
call are the four metrics. -/
def image_draw_text (argv : List RValue) (self : RValue) : Ruby RValue := do
  let (x, y, color, dir) ← Ruby.host (image_draw_text_args argv)
  let font ← Ruby.host (getFont (argv.getD 0 .nil))
  let (_, im) ← GET_AND_CHECK_IMAGE self
  let text := argv.getD 1 .nil
  Ruby.call (.imlib_context_set_font font)
  Ruby.call (.imlib_context_set_image im)
  if notNil color then set_context_color color
  let old_dir ← (if notNil dir then do
      let old := (← Ruby.ask .imlib_context_get_direction).int 0
      let d ← Ruby.host (NUM2INT dir)
      Ruby.call (.imlib_context_set_direction d)
      pure old
    else pure (-1) : Ruby Int)
  let t ← Ruby.host (StringValuePtr text)
  let r ← Ruby.ask (.imlib_text_draw_with_return_metrics x y t)
  if notNil dir then Ruby.call (.imlib_context_set_direction old_dir)
  pure (.array [.fixnum (r.int 0), .fixnum (r.int 1), .fixnum (r.int 2), .fixnum (r.int 3)])

/-- The `switch (argc)` block of `image_fill_gradient`: it reads the arguments
only. -/
def image_fill_gradient_args (argv : List RValue) :
    Except Exn (Int × Int × Int × Int × CDouble) :=
  match argv with
  | [_, a1, a2] => do
    let (x, y, w, h) ← (match TYPE a1 with
      | .T_HASH => do
        let x ← hashInt a1 "x"
        let y ← hashInt a1 "y"
        let w ← hashInt a1 "w"
        let h ← hashInt a1 "h"
        pure (x, y, w, h)
      | .T_ARRAY => do
        let x ← aryInt a1 0
        let y ← aryInt a1 1
        let w ← aryInt a1 2
        let h ← aryInt a1 3
        pure (x, y, w, h)
      | _ => .error (typeError "Invalid argument type (not array or hash)")
      : Except Exn (Int × Int × Int × Int))
    let angle ← NUM2DBL a2
    pure (x, y, w, h, angle)
  | [_, a1, a2, a3] => do
    let (x, y) ← (match TYPE a1 with
      | .T_HASH => do
        let x ← hashInt a1 "x"
        let y ← hashInt a1 "y"
        pure (x, y)
      | .T_ARRAY => do
        let x ← aryInt a1 0
        let y ← aryInt a1 1
        pure (x, y)
      | _ => .error (typeError "Invalid argument type (not array or hash)")
      : Except Exn (Int × Int))
    let (w, h) ← (match TYPE a2 with
      | .T_HASH => do
        let w ← hashInt a2 "w"
        let h ← hashInt a2 "h"
        pure (w, h)
      | .T_ARRAY => do
        let w ← aryInt a2 0
        let h ← aryInt a2 1
        pure (w, h)
      | _ => .error (typeError "Invalid argument type (not array or hash)")
      : Except Exn (Int × Int))
    let angle ← NUM2DBL a3
    pure (x, y, w, h, angle)
  | [_, a1, a2, a3, a4, a5] => do
    let x ← NUM2INT a1
    let y ← NUM2INT a2
    let w ← NUM2INT a3
    let h ← NUM2INT a4
    let angle ← NUM2DBL a5
    pure (x, y, w, h, angle)
  | _ => .error (typeError "Invalid argument count (not 3, 4, or 6)")

/-- The function `image_fill_gradient` of `imlib2.c`. -/
def image_fill_gradient (argv : List RValue) (self : RValue) : Ruby RValue := do
  let (x, y, w, h, angle) ← Ruby.host (image_fill_gradient_args argv)
  let (_, im) ← GET_AND_CHECK_IMAGE self
  Ruby.call (.imlib_context_set_image im)
  let grad ← Ruby.host (getGradient (argv.getD 0 .nil))
  Ruby.call (.imlib_context_set_color_range grad)
  Ruby.call (.imlib_image_fill_color_range_rectangle x y w h angle)
  pure self

/-- Modelled from the spec: the host constant `Qtrue` (ruby.h), which is not
part of this repository, as the `unsigned char` that `image_draw_poly` stores
in `closed`. -/
def Qtrue_char : Int := 2

/-- The test of `image_draw_poly` for a colour of one of the four classes. -/
def isColor (v : RValue) : Bool :=
  rb_obj_is_kind_of v .cRgbaColor || rb_obj_is_kind_of v .cHsvaColor ||
  rb_obj_is_kind_of v .cHlsaColor || rb_obj_is_kind_of v .cCmyaColor

/-- The `switch (argc)` block of `image_draw_poly`: it reads the arguments
only and yields `color` and `closed`. -/
def image_draw_poly_args (argv : List RValue) : Except Exn (RValue × Int) :=
  match argv with
  | [_] => pure (.nil, Qtrue_char)
  | [_, a1] =>
    if isColor a1 then pure (a1, Qtrue_char) else pure (.nil, flagOf a1)
  | [_, a1, a2] => pure (a2, flagOf a1)
  | _ => .error (typeError "Invalid argument count (not 3, 4, or 6)")

/-- The function `image_draw_poly` of `imlib2.c`. -/
def image_draw_poly (argv : List RValue) (self : RValue) : Ruby RValue := do
  let (color, closed) ← Ruby.host (image_draw_poly_args argv)
  let (_, im) ← GET_AND_CHECK_IMAGE self
  Ruby.call (.imlib_context_set_image im)
  if notNil color then set_context_color color
  let poly ← Ruby.host (getPolygon (argv.getD 0 .nil))
  Ruby.call (.imlib_image_draw_polygon poly closed)
  pure self

/-- The `switch (argc)` block of `image_fill_poly`: it reads the arguments
only and yields `color`. -/
def image_fill_poly_args (argv : List RValue) : Except Exn RValue :=
  match argv with
  | [_] => pure .nil
  | [_, a1] => pure a1
  | _ => .error (typeError "Invalid argument count (not 3, 4, or 6)")

/-- The function `image_fill_poly` of `imlib2.c`. -/
def image_fill_poly (argv : List RValue) (self : RValue) : Ruby RValue := do
  let color ← Ruby.host (image_fill_poly_args argv)
  let (_, im) ← GET_AND_CHECK_IMAGE self
  Ruby.call (.imlib_context_set_image im)
  if notNil color then set_context_color color
  let poly ← Ruby.host (getPolygon (argv.getD 0 .nil))
  Ruby.call (.imlib_image_fill_polygon poly)
  pure self

/-- The function `image_static_filter` of `imlib2.c`. -/
def image_static_filter (self filter : RValue) : Ruby RValue := do
  let (_, im) ← GET_AND_CHECK_IMAGE self
  Ruby.call (.imlib_context_set_image im)
  let f ← Ruby.host (getFilter filter)
  Ruby.call (.imlib_context_set_filter f)
  Ruby.call .imlib_image_filter
  pure self

/-- The function `image_script_filter` of `imlib2.c`. -/
def image_script_filter (self filter : RValue) : Ruby RValue := do
  let (_, im) ← GET_AND_CHECK_IMAGE self
  Ruby.call (.imlib_context_set_image im)
  let script ← Ruby.host (StringValuePtr filter)
  Ruby.call (.imlib_apply_filter script)
  pure self

/-- The function `image_filter` of `imlib2.c`; both tests are made on `self`. -/
def image_filter (self filter : RValue) : Ruby RValue :=
  if rb_obj_is_kind_of self .rb_cString then
    image_static_filter self filter
  else if rb_obj_is_kind_of self .cFilter then
    image_script_filter self filter
  else
    Ruby.raise (typeError ("Invalid argument type "
      ++ "(not String or Imlib2::Filter)"))

/-- The function `image_attach_val` of `imlib2.c`. -/
def image_attach_val (self key_o val_o : RValue) : Ruby RValue := do
  let (_, im) ← GET_AND_CHECK_IMAGE self
  Ruby.call (.imlib_context_set_image im)
  let key ← Ruby.host (StringValuePtr key_o)
  if rb_obj_is_kind_of val_o .rb_cNumeric then do
    let val ← Ruby.host (NUM2INT val_o)
    Ruby.call (.imlib_image_attach_data_value key val)
    pure val_o
  else
    Ruby.raise (typeError "Invalid argument (not string or integer)")

/-- The function `image_get_attach_val` of `imlib2.c`. -/
def image_get_attach_val (self key_o : RValue) : Ruby RValue := do
  let (_, im) ← GET_AND_CHECK_IMAGE self
  Ruby.call (.imlib_context_set_image im)
  let key ← Ruby.host (StringValuePtr key_o)
  let r ← Ruby.ask (.imlib_image_get_attached_value key)
  pure (.fixnum (r.int 0))

/-- The function `image_rm_attach_val` of `imlib2.c`. -/
def image_rm_attach_val (self key_o : RValue) : Ruby RValue := do
  let (_, im) ← GET_AND_CHECK_IMAGE self
  Ruby.call (.imlib_context_set_image im)
  let key ← Ruby.host (StringValuePtr key_o)
  Ruby.call (.imlib_image_remove_attached_data_value key)
  pure .nil

/-! ## The instance methods of `Imlib2::Image` -/

/-- A call of a public instance method of `Imlib2::Image`, as `Init_imlib2`
registers them when X support is disabled: one entry for each C function (a
method and its aliases share one), carrying the arguments the host passes.
A method registered with a fixed arity carries that many arguments, one
registered with arity `-1` the whole argument list.  Two registrations are
left out: `initialize`, the private constructor hook, and `apply_cmod` with
its aliases, whose registered arity (1) does not fit the parameter list of
`image_apply_cmod`. -/
inductive ImageOp where
  | save (val : RValue)
  | save_image (val : RValue)
  | save_with_error_return (val : RValue)
  | delete (argv : List RValue)
  | width
  | height
  | filename
  | data
  | data_ro
  | put_data (val : RValue)
  | has_alpha
  | set_has_alpha (val : RValue)
  | changes_on_disk
  | get_border
  | set_border (val : RValue)
  | get_format
  | set_format (val : RValue)
  | irrelevant_format (val : RValue)
  | irrelevant_border (val : RValue)
  | irrelevant_alpha (val : RValue)
  | query_pixel (x y : RValue)
  | query_pixel_hsva (x y : RValue)
  | query_pixel_hlsa (x y : RValue)
  | query_pixel_cmya (x y : RValue)
  | crop (argv : List RValue)
  | crop_inline (argv : List RValue)
  | crop_scaled (argv : List RValue)
  | crop_scaled_inline (argv : List RValue)
  | flip_horizontal
  | flip_horizontal_inline
  | flip_vertical
  | flip_vertical_inline
  | flip_diagonal
  | flip_diagonal_inline
  | orientate (val : RValue)
  | orientate_inline (val : RValue)
  | blur (val : RValue)
  | blur_inline (val : RValue)
  | sharpen (val : RValue)
  | sharpen_inline (val : RValue)
  | tile_horizontal
  | tile_horizontal_inline
  | tile_vertical
  | tile_vertical_inline
  | tile
  | tile_inline
  | draw_pixel (argv : List RValue)
  | draw_line (argv : List RValue)
  | draw_rect (argv : List RValue)
  | fill_rect (argv : List RValue)
  | copy_alpha (argv : List RValue)
  | copy_alpha_rect (argv : List RValue)
  | scroll_rect (argv : List RValue)
  | copy_rect (argv : List RValue)
  | draw_ellipse (argv : List RValue)
  | fill_ellipse (argv : List RValue)
  | draw_text (argv : List RValue)
  | fill_gradient (argv : List RValue)
  | draw_poly (argv : List RValue)
  | fill_poly (argv : List RValue)
  | blend_image_inline (argv : List RValue)
  | blend_image (argv : List RValue)
  | rotate (val : RValue)
  | rotate_inline (val : RValue)
  | clone
  | clear
  | clear_color (val : RValue)
  | clear_color_inline (val : RValue)
  | filter (val : RValue)
  | static_filter (val : RValue)
  | script_filter (val : RValue)
  | attach_val (key val : RValue)
  | get_attach_val (val : RValue)
  | rm_attach_val (val : RValue)

/-- The C function a method call runs, on the receiver `self`. -/
def ImageOp.run (self : RValue) : ImageOp → Ruby RValue
  | .save val => image_save self val
  | .save_image val => image_save_image self val
  | .save_with_error_return val => image_save_with_error_return self val
  | .delete argv => image_delete argv self
  | .width => image_width self
  | .height => image_height self
  | .filename => image_filename self
  | .data => image_data self
  | .data_ro => image_data_ro self
  | .put_data val => image_put_data self val
  | .has_alpha => image_has_alpha self
  | .set_has_alpha val => image_set_has_alpha self val
  | .changes_on_disk => image_changes_on_disk self
  | .get_border => image_get_border self
  | .set_border val => image_set_border self val
  | .get_format => image_get_format self
  | .set_format val => image_set_format self val
  | .irrelevant_format val => image_irrelevant_format self val
  | .irrelevant_border val => image_irrelevant_border self val
  | .irrelevant_alpha val => image_irrelevant_alpha self val
  | .query_pixel x y => image_query_pixel self x y
  | .query_pixel_hsva x y => image_query_pixel_hsva self x y
  | .query_pixel_hlsa x y => image_query_pixel_hlsa self x y
  | .query_pixel_cmya x y => image_query_pixel_cmya self x y
  | .crop argv => image_crop argv self
  | .crop_inline argv => image_crop_inline argv self
  | .crop_scaled argv => image_crop_scaled argv self
  | .crop_scaled_inline argv => image_crop_scaled_inline argv self
  | .flip_horizontal => image_flip_horizontal self
  | .flip_horizontal_inline => image_flip_horizontal_inline self
  | .flip_vertical => image_flip_vertical self
  | .flip_vertical_inline => image_flip_vertical_inline self
  | .flip_diagonal => image_flip_diagonal self
  | .flip_diagonal_inline => image_flip_diagonal_inline self
  | .orientate val => image_orientate self val
  | .orientate_inline val => image_orientate_inline self val
  | .blur val => image_blur self val
  | .blur_inline val => image_blur_inline self val
  | .sharpen val => image_sharpen self val
  | .sharpen_inline val => image_sharpen_inline self val
  | .tile_horizontal => image_tile_horizontal self
  | .tile_horizontal_inline => image_tile_horizontal_inline self
  | .tile_vertical => image_tile_vertical self
  | .tile_vertical_inline => image_tile_vertical_inline self
  | .tile => image_tile self
  | .tile_inline => image_tile_inline self
  | .draw_pixel argv => image_draw_pixel argv self
  | .draw_line argv => image_draw_line argv self
  | .draw_rect argv => image_draw_rect argv self
  | .fill_rect argv => image_fill_rect argv self
  | .copy_alpha argv => image_copy_alpha argv self
  | .copy_alpha_rect argv => image_copy_alpha_rect argv self
  | .scroll_rect argv => image_scroll_rect argv self
  | .copy_rect argv => image_copy_rect argv self
  | .draw_ellipse argv => image_draw_ellipse argv self
  | .fill_ellipse argv => image_fill_ellipse argv self
  | .draw_text argv => image_draw_text argv self
  | .fill_gradient argv => image_fill_gradient argv self
  | .draw_poly argv => image_draw_poly argv self
  | .fill_poly argv => image_fill_poly argv self
  | .blend_image_inline argv => image_blend_image_inline argv self
  | .blend_image argv => image_blend_image argv self
  | .rotate val => image_rotate self val
  | .rotate_inline val => image_rotate_inline self val
  | .clone => image_clone self
  | .clear => image_clear self
  | .clear_color val => image_clear_color self val
  | .clear_color_inline val => image_clear_color_inline self val
  | .filter val => image_filter self val
  | .static_filter val => image_static_filter self val
  | .script_filter val => image_script_filter self val
  | .attach_val key val => image_attach_val self key val
  | .get_attach_val val => image_get_attach_val self val
  | .rm_attach_val val => image_rm_attach_val self val

/-! ## Context methods -/

/-- The C expression `val != Qnil && val != Qfalse`, as the `char` handed to
the engine. -/
def truthy (val : RValue) : Int :=
  if notNil val && notFalse val then 1 else 0

/-- The C expression `c ? Qtrue : Qfalse`. -/
def toRBool (c : Int) : RValue :=
  if c ≠ 0 then .rtrue else .rfalse

/-- The function `ctx_new` of `imlib2.c`; `ctx_init` returns its receiver. -/
def ctx_new : Ruby RValue := do
  let r ← Ruby.ask .imlib_context_new
  pure (.context r.handle)

/-- The function `ctx_pop` of `imlib2.c`. -/
def ctx_pop : Ruby RValue := do
  Ruby.call .imlib_context_pop
  let r ← Ruby.ask .imlib_context_get
  pure (.context r.handle)

/-- The function `ctx_get` of `imlib2.c`. -/
def ctx_get : Ruby RValue := do
  let r ← Ruby.ask .imlib_context_get
  pure (.context r.handle)

/-- The function `ctx_push` of `imlib2.c`. -/
def ctx_push (self : RValue) : Ruby RValue := do
  let ctx ← Ruby.host (getContext self)
  Ruby.call (.imlib_context_push ctx)
  pure self

/-- The function `ctx_set_dither_mask` of `imlib2.c`. -/
def ctx_set_dither_mask (self val : RValue) : Ruby RValue := do
  let ctx ← Ruby.host (getContext self)
  Ruby.call (.imlib_context_push ctx)
  Ruby.call (.imlib_context_set_dither_mask (truthy val))
  Ruby.call .imlib_context_pop
  pure self

/-- The function `ctx_dither_mask` of `imlib2.c`. -/
def ctx_dither_mask (self : RValue) : Ruby RValue := do
  let ctx ← Ruby.host (getContext self)
  Ruby.call (.imlib_context_push ctx)
  let r := toRBool ((← Ruby.ask .imlib_context_get_dither_mask).int 0)
  Ruby.call .imlib_context_pop
  pure r

/-- The function `ctx_set_aa` of `imlib2.c`. -/
def ctx_set_aa (self val : RValue) : Ruby RValue := do
  let ctx ← Ruby.host (getContext self)
  Ruby.call (.imlib_context_push ctx)
  Ruby.call (.imlib_context_set_anti_alias (truthy val))
  Ruby.call .imlib_context_pop
  pure self

/-- The function `ctx_aa` of `imlib2.c`. -/
def ctx_aa (self : RValue) : Ruby RValue := do
  let ctx ← Ruby.host (getContext self)
  Ruby.call (.imlib_context_push ctx)
  let r := toRBool ((← Ruby.ask .imlib_context_get_anti_alias).int 0)
  Ruby.call .imlib_context_pop
  pure r

/-- The function `ctx_set_dither` of `imlib2.c`. -/
def ctx_set_dither (self val : RValue) : Ruby RValue := do
  let ctx ← Ruby.host (getContext self)
  Ruby.call (.imlib_context_push ctx)
  Ruby.call (.imlib_context_set_dither (truthy val))
  Ruby.call .imlib_context_pop
  pure self

/-- The function `ctx_dither` of `imlib2.c`. -/
def ctx_dither (self : RValue) : Ruby RValue := do
  let ctx ← Ruby.host (getContext self)
  Ruby.call (.imlib_context_push ctx)
  let r := toRBool ((← Ruby.ask .imlib_context_get_dither).int 0)
  Ruby.call .imlib_context_pop
  pure r

/-- The function `ctx_set_blend` of `imlib2.c`. -/
def ctx_set_blend (self val : RValue) : Ruby RValue := do
  let ctx ← Ruby.host (getContext self)
  Ruby.call (.imlib_context_push ctx)
  Ruby.call (.imlib_context_set_blend (truthy val))
  Ruby.call .imlib_context_pop
  pure self

/-- The function `ctx_blend` of `imlib2.c`. -/
def ctx_blend (self : RValue) : Ruby RValue := do
  let ctx ← Ruby.host (getContext self)
  Ruby.call (.imlib_context_push ctx)
  let r := toRBool ((← Ruby.ask .imlib_context_get_blend).int 0)
  Ruby.call .imlib_context_pop
  pure r

/-- The function `ctx_set_cmod` of `imlib2.c`. -/
def ctx_set_cmod (self val : RValue) : Ruby RValue := do
  let ctx ← Ruby.host (getContext self)
  Ruby.call (.imlib_context_push ctx)
  let cmod ← Ruby.host (getCmod val)
  Ruby.call (.imlib_context_set_color_modifier cmod)
  Ruby.call .imlib_context_pop
  pure self

/-- The function `ctx_cmod` of `imlib2.c`. -/
def ctx_cmod (self : RValue) : Ruby RValue := do
  let ctx ← Ruby.host (getContext self)
  Ruby.call (.imlib_context_push ctx)
  let cmod := (← Ruby.ask .imlib_context_get_color_modifier).handle
  Ruby.call .imlib_context_pop
  pure (.cmod cmod)

/-- The function `ctx_set_op` of `imlib2.c`. -/
def ctx_set_op (self val : RValue) : Ruby RValue := do
  let ctx ← Ruby.host (getContext self)
  Ruby.call (.imlib_context_push ctx)
  let op ← Ruby.host (NUM2INT val)
  Ruby.call (.imlib_context_set_operation op)
  Ruby.call .imlib_context_pop
  pure self

/-- The function `ctx_op` of `imlib2.c`. -/
def ctx_op (self : RValue) : Ruby RValue := do
  let ctx ← Ruby.host (getContext self)
  Ruby.call (.imlib_context_push ctx)
  let r := RValue.fixnum ((← Ruby.ask .imlib_context_get_operation).int 0)
  Ruby.call .imlib_context_pop
  pure r

/-- The function `ctx_set_font` of `imlib2.c`. -/
def ctx_set_font (self val : RValue) : Ruby RValue := do
  let ctx ← Ruby.host (getContext self)
  Ruby.call (.imlib_context_push ctx)
  let font ← Ruby.host (getFont val)
  Ruby.call (.imlib_context_set_font font)
  Ruby.call .imlib_context_pop
  pure self

/-- The function `ctx_font` of `imlib2.c`: the engine font itself is made the
data pointer of the wrapper. -/
def ctx_font (self : RValue) : Ruby RValue := do
  let ctx ← Ruby.host (getContext self)
  Ruby.call (.imlib_context_push ctx)
  let r := RValue.fontAt (← Ruby.ask .imlib_context_get_font).handle
  Ruby.call .imlib_context_pop
  pure r

/-- The function `ctx_set_dir` of `imlib2.c`. -/
def ctx_set_dir (self val : RValue) : Ruby RValue := do
  let ctx ← Ruby.host (getContext self)
  Ruby.call (.imlib_context_push ctx)
  let dir ← Ruby.host (NUM2INT val)
  Ruby.call (.imlib_context_set_direction dir)
  Ruby.call .imlib_context_pop
  pure self

/-- The function `ctx_dir` of `imlib2.c`. -/
def ctx_dir (self : RValue) : Ruby RValue := do
  let ctx ← Ruby.host (getContext self)
  Ruby.call (.imlib_context_push ctx)
  let r := RValue.fixnum ((← Ruby.ask .imlib_context_get_direction).int 0)
  Ruby.call .imlib_context_pop
  pure r

/-- The function `ctx_set_angle` of `imlib2.c`. -/
def ctx_set_angle (self val : RValue) : Ruby RValue := do
  let ctx ← Ruby.host (getContext self)
  Ruby.call (.imlib_context_push ctx)
  let angle ← Ruby.host (NUM2DBL val)
  Ruby.call (.imlib_context_set_angle angle)
  Ruby.call .imlib_context_pop
  pure self

/-- The function `ctx_angle` of `imlib2.c`. -/
def ctx_angle (self : RValue) : Ruby RValue := do
  let ctx ← Ruby.host (getContext self)
  Ruby.call (.imlib_context_push ctx)
  let r := RValue.float ((← Ruby.ask .imlib_context_get_angle).dbl 0)
  Ruby.call .imlib_context_pop
  pure r

/-- The function `ctx_set_color` of `imlib2.c`. -/
def ctx_set_color (self val : RValue) : Ruby RValue := do
  let ctx ← Ruby.host (getContext self)
  Ruby.call (.imlib_context_push ctx)
  set_context_color val
  Ruby.call .imlib_context_pop
  pure self

/-- The function `ctx_color` of `imlib2.c`. -/
def ctx_color (self : RValue) : Ruby RValue := do
  let ctx ← Ruby.host (getContext self)
  Ruby.call (.imlib_context_push ctx)
  let r ← Ruby.ask .imlib_context_get_color
  Ruby.call .imlib_context_pop
  let argv := (List.range 4).map fun i => RValue.fixnum (r.int i)
  Ruby.host (rgba_color_new argv)

/-- The function `ctx_set_gradient` of `imlib2.c`. -/
def ctx_set_gradient (self val : RValue) : Ruby RValue := do
  let ctx ← Ruby.host (getContext self)
  Ruby.call (.imlib_context_push ctx)
  let gradient ← Ruby.host (getGradient val)
  Ruby.call (.imlib_context_set_color_range gradient)
  Ruby.call .imlib_context_pop
  pure self

/-- The function `ctx_gradient` of `imlib2.c`: the engine colour range itself
is made the data pointer of the wrapper. -/
def ctx_gradient (self : RValue) : Ruby RValue := do
  let ctx ← Ruby.host (getContext self)
  Ruby.call (.imlib_context_push ctx)
  let r := RValue.gradientAt (← Ruby.ask .imlib_context_get_color_range).handle
  Ruby.call .imlib_context_pop
  pure r

/-- The function `ctx_set_progress_granularity` of `imlib2.c`. -/
def ctx_set_progress_granularity (self val : RValue) : Ruby RValue := do
  let ctx ← Ruby.host (getContext self)
  Ruby.call (.imlib_context_push ctx)
  let n ← Ruby.host (NUM2INT val)
  Ruby.call (.imlib_context_set_progress_granularity n)
  Ruby.call .imlib_context_pop
  pure self

/-- The function `ctx_progress_granularity` of `imlib2.c`. -/
def ctx_progress_granularity (self : RValue) : Ruby RValue := do
  let ctx ← Ruby.host (getContext self)
  Ruby.call (.imlib_context_push ctx)
  let r := RValue.fixnum ((← Ruby.ask .imlib_context_get_progress_granularity).int 0)
  Ruby.call .imlib_context_pop
  pure r

/-- The function `ctx_set_image` of `imlib2.c`. -/
def ctx_set_image (self val : RValue) : Ruby RValue := do
  let ctx ← Ruby.host (getContext self)
  Ruby.call (.imlib_context_push ctx)
  let (_, im) ← GET_AND_CHECK_IMAGE val
  Ruby.call (.imlib_context_set_image im)
  Ruby.call .imlib_context_pop
  pure self

/-- The function `ctx_image` of `imlib2.c`. -/
def ctx_image (self : RValue) : Ruby RValue := do
  let ctx ← Ruby.host (getContext self)
  Ruby.call (.imlib_context_push ctx)
  let im := (← Ruby.ask .imlib_context_get_image).handle
  let r ← Ruby.wrapIm im
  Ruby.call .imlib_context_pop
  pure r

/-- The function `ctx_set_cliprect` of `imlib2.c`. -/
def ctx_set_cliprect (self val : RValue) : Ruby RValue := do
  let ctx ← Ruby.host (getContext self)
  Ruby.call (.imlib_context_push ctx)
  let x ← Ruby.host (aryInt val 0)
  let y ← Ruby.host (aryInt val 1)
  let w ← Ruby.host (aryInt val 2)
  let h ← Ruby.host (aryInt val 3)
  Ruby.call (.imlib_context_set_cliprect x y w h)
  Ruby.call .imlib_context_pop
  pure self

/-- The function `ctx_cliprect` of `imlib2.c`.  The statement
`for (i = 0; i < 4; i++);` ends in a semicolon: the loop has no body and
leaves `i = 4`, and the one `rb_ary_push(ary, NUM2INT(r[i]))` that follows
reads past the end of `int r[4]`; it also decodes a C `int` as if it were a
host value and stores the C result as an element. -/
def ctx_cliprect (self : RValue) : Ruby RValue := do
  let ctx ← Ruby.host (getContext self)
  Ruby.call (.imlib_context_push ctx)
  let a ← Ruby.ask .imlib_context_get_cliprect
  let r : List Int := (List.range 4).map a.int
  Ruby.call .imlib_context_pop
  let i := (List.range 4).foldl (fun i _ => i + 1) 0
  match r[i]? with
  | none => Ruby.raise (undefinedStep "read of r[4] in int r[4]")
  | some _ => Ruby.raise (undefinedStep "NUM2INT of a C int")

/-- The function `ctx_set_encoding` of `imlib2.c`. -/
def ctx_set_encoding (self val : RValue) : Ruby RValue := do
  let ctx ← Ruby.host (getContext self)
  Ruby.call (.imlib_context_push ctx)
  let encoding ← Ruby.host (NUM2INT val)
  Ruby.call (.imlib_context_set_TTF_encoding encoding)
  Ruby.call .imlib_context_pop
  pure self

/-- The function `ctx_encoding` of `imlib2.c`. -/
def ctx_encoding (self : RValue) : Ruby RValue := do
  let ctx ← Ruby.host (getContext self)
  Ruby.call (.imlib_context_push ctx)
  let r := RValue.fixnum ((← Ruby.ask .imlib_context_get_TTF_encoding).int 0)
  Ruby.call .imlib_context_pop
  pure r

/-- A call of a Context accessor, with its argument. -/
inductive ContextOp where
  | set_dither_mask (val : RValue)
  | dither_mask
  | set_aa (val : RValue)
  | aa
  | set_dither (val : RValue)
  | dither
  | set_blend (val : RValue)
  | blend
  | set_cmod (val : RValue)
  | cmod
  | set_op (val : RValue)
  | op
  | set_font (val : RValue)
  | font
  | set_dir (val : RValue)
  | dir
  | set_angle (val : RValue)
  | angle
  | set_color (val : RValue)
  | color
  | set_gradient (val : RValue)
  | gradient
  | set_progress_granularity (val : RValue)
  | progress_granularity
  | set_image (val : RValue)
  | image
  | set_cliprect (val : RValue)
  | cliprect
  | set_encoding (val : RValue)
  | encoding

/-- The function of `imlib2.c` that `Init_imlib2` registers for each accessor
of `Imlib2::Context` (X support disabled). -/
def ContextOp.run (self : RValue) : ContextOp → Ruby RValue
  | .set_dither_mask val => ctx_set_dither_mask self val
  | .dither_mask => ctx_dither_mask self
  | .set_aa val => ctx_set_aa self val
  | .aa => ctx_aa self
  | .set_dither val => ctx_set_dither self val
  | .dither => ctx_dither self
  | .set_blend val => ctx_set_blend self val
  | .blend => ctx_blend self
  | .set_cmod val => ctx_set_cmod self val
  | .cmod => ctx_cmod self
  | .set_op val => ctx_set_op self val
  | .op => ctx_op self
  | .set_font val => ctx_set_font self val
  | .font => ctx_font self
  | .set_dir val => ctx_set_dir self val
  | .dir => ctx_dir self
  | .set_angle val => ctx_set_angle self val
  | .angle => ctx_angle self
  | .set_color val => ctx_set_color self val
  | .color => ctx_color self
  | .set_gradient val => ctx_set_gradient self val
  | .gradient => ctx_gradient self
  | .set_progress_granularity val => ctx_set_progress_granularity self val
  | .progress_granularity => ctx_progress_granularity self
  | .set_image val => ctx_set_image self val
  | .image => ctx_image self
  | .set_cliprect val => ctx_set_cliprect self val
  | .cliprect => ctx_cliprect self
  | .set_encoding val => ctx_set_encoding self val
  | .encoding => ctx_encoding self

/-! ## The context stack of the engine -/

/-- The colour of an engine context, as the colour setter last called on it
gave it. -/
inductive ContextColor where
  | rgba (red green blue alpha : Int)
  | hsva (hue saturation value : CDouble) (alpha : Int)
  | hlsa (hue lightness saturation : CDouble) (alpha : Int)
  | cmya (cyan magenta yellow alpha : Int)

/-- Modelled from the spec: the settable fields of one engine context (the
struct behind `Imlib_Context`, which belongs to the engine and is not part of
this repository), one field for each setter the binding calls. -/
structure ContextState where
  dither_mask : Int
  anti_alias : Int
  dither : Int
  blend : Int
  color_modifier : Nat
  operation : Int
  font : Nat
  direction : Int
  angle : CDouble
  color : ContextColor
  color_range : Nat
  progress_granularity : Int
  image : Nat
  cliprect : Int × Int × Int × Int
  encoding : Int
  filter : Nat

/-- Modelled from the spec: the process-wide context stack of the engine
(`imlib_context_push`, `imlib_context_pop` and the setters of the engine, which
are not part of this repository).  A frame is an engine context; `active` is
the top frame, `beneath` the frames under it (the nearest first), and
`contexts` gives the fields of every context. -/
structure EngineState where
  active : Nat
  beneath : List Nat
  contexts : Nat → ContextState

/-- The fields of the active context. -/
def EngineState.current (s : EngineState) : ContextState := s.contexts s.active

/-- A setter of the engine writes a field of the active context. -/
def EngineState.set (s : EngineState) (f : ContextState → ContextState) : EngineState :=
  { s with contexts := fun c => if c = s.active then f (s.contexts c) else s.contexts c }

/-- Modelled from the spec: what one engine call does to the context stack
(the engine is not part of this repository).  `push(ctx)` makes `ctx` the
active state and keeps the previous active state beneath it; `pop()` discards
the top frame and the frame beneath becomes the active state; the stack has no
terminal state, so the bottom frame stays when nothing is beneath it; a setter
writes its field of the active context; every other call leaves stack and
fields as they are. -/
def EngineState.step (s : EngineState) : EngineCall → EngineState
  | .imlib_context_push ctx => { s with active := ctx, beneath := s.active :: s.beneath }
  | .imlib_context_pop =>
    match s.beneath with
    | below :: rest => { s with active := below, beneath := rest }
    | [] => s
  | .imlib_context_set_dither_mask v => s.set fun c => { c with dither_mask := v }
  | .imlib_context_set_anti_alias v => s.set fun c => { c with anti_alias := v }
  | .imlib_context_set_dither v => s.set fun c => { c with dither := v }
  | .imlib_context_set_blend v => s.set fun c => { c with blend := v }
  | .imlib_context_set_color_modifier v => s.set fun c => { c with color_modifier := v }
  | .imlib_context_set_operation v => s.set fun c => { c with operation := v }
  | .imlib_context_set_font v => s.set fun c => { c with font := v }
  | .imlib_context_set_direction v => s.set fun c => { c with direction := v }
  | .imlib_context_set_angle v => s.set fun c => { c with angle := v }
  | .imlib_context_set_color r g b a => s.set fun c => { c with color := .rgba r g b a }
  | .imlib_context_set_color_hsva h sa v a => s.set fun c => { c with color := .hsva h sa v a }
  | .imlib_context_set_color_hlsa h l sa a => s.set fun c => { c with color := .hlsa h l sa a }
  | .imlib_context_set_color_cmya cy m y a => s.set fun c => { c with color := .cmya cy m y a }
  | .imlib_context_set_color_range v => s.set fun c => { c with color_range := v }
  | .imlib_context_set_progress_granularity v =>
    s.set fun c => { c with progress_granularity := v }
  | .imlib_context_set_image v => s.set fun c => { c with image := v }
  | .imlib_context_set_cliprect x y w h => s.set fun c => { c with cliprect := (x, y, w, h) }
  | .imlib_context_set_TTF_encoding v => s.set fun c => { c with encoding := v }
  | .imlib_context_set_filter v => s.set fun c => { c with filter := v }
  | _ => s

/-- The context stack after a sequence of engine calls, from the stack `s`. -/
def EngineState.after (s : EngineState) (calls : List EngineCall) : EngineState :=
  calls.foldl EngineState.step s

/-- Modelled from the spec: `imlib_context_get` of the engine (not part of
this repository) hands back the active context, the top frame of the stack
that started as `s0`. -/
def Engine.reportsActive (e : Engine) (s0 : EngineState) : Prop :=
  ∀ t : List EngineCall,
    (e.answer (t ++ [.imlib_context_get])).handle = (s0.after t).active

/-! ## Vocabulary of the statements -/

/-- The wrapper at address `i` has been deleted: its `ImStruct` holds `NULL`. -/
def World.deleted (w : World) (i : Nat) : Prop := w.heap[i]? = some ⟨0⟩

/-- The wrapper at address `i` is bound to the engine image `im`. -/
def World.live (w : World) (i im : Nat) : Prop := w.heap[i]? = some ⟨im⟩ ∧ im ≠ 0

/-- Forget the value of a host step, keep whether it raised. -/
def discard {α : Type} (r : Except Exn α) : Except Exn Unit :=
  match r with
  | .ok _ => .ok ()
  | .error e => .error e

/-- The steps a method takes before it checks its receiver with
`GET_AND_CHECK_IMAGE(self, ...)`: the `switch (argc)` block of a variadic
method, the `StringValuePtr` of `image_save`, the `Data_Get_Struct` of the font
in `image_draw_text`, the check of the source image in `image_copy_alpha` and
`image_copy_alpha_rect`.  A method not listed checks its receiver first. -/
def ImageOp.prelude (w : World) : ImageOp → Except Exn Unit
  | .save val => discard (StringValuePtr val)
  | .crop argv => discard (image_crop_args argv)
  | .crop_inline argv => discard (image_crop_inline_args argv)
  | .crop_scaled argv => discard (image_crop_scaled_args argv)
  | .crop_scaled_inline argv => discard (image_crop_scaled_inline_args argv)
  | .draw_pixel argv => discard (image_draw_pixel_args argv)
  | .draw_line argv => discard (image_draw_line_args argv)
  | .draw_rect argv => discard (image_draw_rect_args argv)
  | .fill_rect argv => discard (image_fill_rect_args argv)
  | .copy_alpha argv => do
    discard (image_copy_alpha_args argv)
    discard (GET_AND_CHECK_IMAGE (argv.getD 0 .nil) w).1
  | .copy_alpha_rect argv => do
    discard (image_copy_alpha_rect_args argv)
    discard (GET_AND_CHECK_IMAGE (argv.getD 0 .nil) w).1
  | .scroll_rect argv => discard (image_scroll_rect_args argv)
  | .copy_rect argv => discard (image_copy_rect_args argv)
  | .draw_ellipse argv => discard (image_draw_ellipse_args argv)
  | .fill_ellipse argv => discard (image_fill_ellipse_args argv)
  | .draw_text argv => do
    discard (image_draw_text_args argv)
    discard (getFont (argv.getD 0 .nil))
  | .fill_gradient argv => discard (image_fill_gradient_args argv)
  | .draw_poly argv => discard (image_draw_poly_args argv)
  | .fill_poly argv => discard (image_fill_poly_args argv)
  | .blend_image_inline argv => discard (image_blend_image_inline_args argv)
  | _ => .ok ()

/-- The method is `filter` (alias `apply_filter`). -/
def ImageOp.isFilter : ImageOp → Bool
  | .filter _ => true
  | _ => false

/-- The exception a call on a deleted receiver ends with, once the steps
before the check of the receiver are known. -/
def deletedOutcome (prelude : Except Exn Unit) : Exn :=
  match prelude with
  | .error e => e
  | .ok _ => deletedError "image deleted"

/-- A sequence of method calls, each on its own receiver; a raised exception
ends the call it is raised in, and the next call runs in the world it left. -/
def runAll : List (ImageOp × RValue) → World → World
  | [], w => w
  | (op, self) :: rest, w => runAll rest (op.run self w).2

/-- An engine that hands back a fresh non-null handle from every call that
returns a resource, and zero or empty results otherwise. -/
def freshEngine : Engine :=
  ⟨fun t => ⟨t.length + 100, fun _ => 0, fun _ => ⟨0⟩, ""⟩⟩

/-- A world with three image wrappers: the one at address `0` is bound to the
engine image `7`, the one at address `1` has been deleted, the one at address
`2` is bound to the engine image `9`. -/
def sampleWorld : World :=
  ⟨freshEngine, [⟨7⟩, ⟨0⟩, ⟨9⟩], [], true, fun _ => 0⟩

/-- The engine call sets the active colour. -/
def EngineCall.isColorSetter : EngineCall → Bool
  | .imlib_context_set_color _ _ _ _ => true
  | .imlib_context_set_color_hsva _ _ _ _ => true
  | .imlib_context_set_color_hlsa _ _ _ _ => true
  | .imlib_context_set_color_cmya _ _ _ _ => true
  | _ => false

/-- The argument `[x, y, w, h]`. -/
def xywhArray (x y w h : Int) : RValue :=
  .array [.fixnum x, .fixnum y, .fixnum w, .fixnum h]

/-- The argument `{"x"=>x, "y"=>y, "w"=>w, "h"=>h}`. -/
def xywhHash (x y w h : Int) : RValue :=
  .hash [(.str "x", .fixnum x), (.str "y", .fixnum y), (.str "w", .fixnum w),
    (.str "h", .fixnum h)]

/-- The argument `[a, b]`, a pair of coordinates or of sizes. -/
def pairArray (a b : Int) : RValue :=
  .array [.fixnum a, .fixnum b]

/-- The world `w` after the engine calls `cs`, made in this order. -/
def World.after (w : World) (cs : List EngineCall) : World :=
  { w with trace := w.trace ++ cs }

/-- The call `m` leaves a deleted wrapper at address `i` deleted. -/
def Keeps (i : Nat) {α : Type} (m : Ruby α) : Prop :=
  ∀ w, w.deleted i → (m w).2.deleted i

/-- The argument `[r, g, b, a]`. -/
def rgbaArray (r g b a : Int) : RValue :=
  .array [.fixnum r, .fixnum g, .fixnum b, .fixnum a]

/-- The argument `{"red"=>r, "green"=>g, "blue"=>b, "alpha"=>a}`. -/
def rgbaHash (r g b a : Int) : RValue :=
  .hash [(.str "red", .fixnum r), (.str "green", .fixnum g), (.str "blue", .fixnum b),
    (.str "alpha", .fixnum a)]

/-- The call `RgbaColor.new(*argv)` returns a colour whose `red`, `green`,
`blue` and `alpha` accessors return `r`, `g`, `b` and `a`, and which
`set_context_color` hands to the engine as `imlib_context_set_color(r, g, b, a)`. -/
def buildsRgba (argv : List RValue) (r g b a : Int) (w : World) : Prop :=
  ∃ c, rgba_color_new argv = .ok c ∧
    rgba_color_red c = .ok (.fixnum r) ∧ rgba_color_green c = .ok (.fixnum g) ∧
    rgba_color_blue c = .ok (.fixnum b) ∧ rgba_color_alpha c = .ok (.fixnum a) ∧
    set_context_color c w = (.ok (), w.after [.imlib_context_set_color r g b a])

/-- The bytes of `path` occur, in this order and without a gap, in `msg`. -/
def mentions (msg path : String) : Prop := List.IsInfix path.toList msg.toList

/-- The text `raise_imlib_error` formats for a path and an error code in
`0..14`, before it is cut to the buffer. -/
def errorText (path : String) (err : Nat) : String :=
  "\"" ++ path ++ "\": " ++ imlib_errors_description.getD err ""

/-- An engine that reports the load error `code` from every call and hands
back no resource. -/
def failingEngine (code : Int) : Engine :=
  ⟨fun _ => ⟨0, fun _ => code, fun _ => ⟨0⟩, ""⟩⟩

/-- A world whose engine is `failingEngine code`, with one image wrapper: the
one at address `0` is bound to the engine image `7`. -/
def failingWorld (code : Int) : World :=
  ⟨failingEngine code, [⟨7⟩], [], true, fun _ => 0⟩

/-- The index into `imlib_errors` of the kind raised for the error code `e`:
`e` itself from `0` to `14`, and `14` (UNKNOWN) for every other code. -/
def errorIndex (e : Int) : Nat :=
  if 0 ≤ e ∧ e ≤ 14 then e.toNat else 14

/-- The engine call pushes or pops a frame of the context stack. -/
def EngineCall.movesStack : EngineCall → Bool
  | .imlib_context_push _ => true
  | .imlib_context_pop => true
  | _ => false

/-- The four loaders that report no error. -/
inductive Loader where
  | load_image
  | load_immediately
  | load_without_cache
  | load_immediately_without_cache

/-- The function of `imlib2.c` that `Init_imlib2` registers for each of the
four loaders. -/
def Loader.run : Loader → RValue → Ruby RValue
  | .load_image => image_load_image
  | .load_immediately => image_load_immediately
  | .load_without_cache => image_load_without_cache
  | .load_immediately_without_cache => image_load_immediately_without_cache

/-- The engine function a loader calls on a path. -/
def Loader.call : Loader → String → EngineCall
  | .load_image => .imlib_load_image
  | .load_immediately => .imlib_load_image_immediately
  | .load_without_cache => .imlib_load_image_without_cache
  | .load_immediately_without_cache => .imlib_load_image_immediately_without_cache

/-- A context whose fields are all zero. -/
def zeroContext : ContextState :=
  ⟨0, 0, 0, 0, 0, 0, 0, 0, ⟨0⟩, .rgba 0 0 0 0, 0, 0, 0, (0, 0, 0, 0), 0, 0⟩

/-- A stack of two frames: context `2` is active, context `1` is beneath it. -/
def sampleStack : EngineState := ⟨2, [1], fun _ => zeroContext⟩

/-- An engine whose every answer carries the context that is active on the
stack that started as `s0`. -/
def stackEngine (s0 : EngineState) : Engine :=
  ⟨fun t => ⟨(s0.after t).active, fun _ => 0, fun _ => ⟨0⟩, ""⟩⟩

/-- A world without wrappers whose engine is `stackEngine sampleStack`. -/
def stackWorld : World :=
  ⟨stackEngine sampleStack, [], [], true, fun _ => 0⟩

/-- A path of 1100 bytes. -/
def longPath : String := String.mk (List.replicate 1100 'a')

/-- The error code the engine reports when an image bound to `im` is saved
to `path` in the world `w`. -/
def saveCode (w : World) (im : Nat) (path : String) : Int :=
  (w.engine.answer (w.trace ++
    [.imlib_context_set_image im, .imlib_save_image_with_error_return path])).int 0

/-- The nine transforms that come as a copy-style and an in-place method. -/
inductive Transform where
  | flip_horizontal
  | flip_vertical
  | flip_diagonal
  | orientate
  | blur
  | sharpen
  | tile_horizontal
  | tile_vertical
  | tile

/-- The copy-style method of a transform, called with `val` when it takes an
argument. -/
def Transform.copy (val : RValue) : Transform → ImageOp
  | .flip_horizontal => .flip_horizontal
  | .flip_vertical => .flip_vertical
  | .flip_diagonal => .flip_diagonal
  | .orientate => .orientate val
  | .blur => .blur val
  | .sharpen => .sharpen val
  | .tile_horizontal => .tile_horizontal
  | .tile_vertical => .tile_vertical
  | .tile => .tile

/-- The in-place method of a transform (`name!`), called with `val` when it
takes an argument. -/
def Transform.inline (val : RValue) : Transform → ImageOp
  | .flip_horizontal => .flip_horizontal_inline
  | .flip_vertical => .flip_vertical_inline
  | .flip_diagonal => .flip_diagonal_inline
  | .orientate => .orientate_inline val
  | .blur => .blur_inline val
  | .sharpen => .sharpen_inline val
  | .tile_horizontal => .tile_horizontal_inline
  | .tile_vertical => .tile_vertical_inline
  | .tile => .tile_inline

/-- The engine primitive of a transform, with the integer `n` when it takes
an argument. -/
def Transform.primitive (n : Int) : Transform → EngineCall
  | .flip_horizontal => .imlib_image_flip_horizontal
  | .flip_vertical => .imlib_image_flip_vertical
  | .flip_diagonal => .imlib_image_flip_diagonal
  | .orientate => .imlib_image_orientate n
  | .blur => .imlib_image_blur n
  | .sharpen => .imlib_image_sharpen n
  | .tile_horizontal => .imlib_image_tile_horizontal
  | .tile_vertical => .imlib_image_tile_vertical
  | .tile => .imlib_image_tile

/-- The transform takes an argument. -/
def Transform.takesArg : Transform → Bool
  | .orientate => true
  | .blur => true
  | .sharpen => true
  | _ => false

/-- The release call `delete!` is to make for an argument list:
`imlib_free_image_and_decache` when an argument is supplied and it is neither
`nil` nor `false`, and `imlib_free_image` otherwise. -/
def releaseCall : List RValue → EngineCall
  | [] => .imlib_free_image
  | .nil :: _ => .imlib_free_image
  | .rfalse :: _ => .imlib_free_image
  | _ :: _ => .imlib_free_image_and_decache

/-- The argument `{"x"=>x, "y"=>y}`. -/
def xyHash (x y : Int) : RValue :=
  .hash [(.str "x", .fixnum x), (.str "y", .fixnum y)]

/-- The argument `{"w"=>w, "h"=>h}`. -/
def whHash (w h : Int) : RValue :=
  .hash [(.str "w", .fixnum w), (.str "h", .fixnum h)]

/-- The argument `{"dx"=>dx, "dy"=>dy}`. -/
def dxdyHash (dx dy : Int) : RValue :=
  .hash [(.str "dx", .fixnum dx), (.str "dy", .fixnum dy)]

/-- The argument `[x, y, w, h, dx, dy]`. -/
def sixArray (x y w h dx dy : Int) : RValue :=
  .array [.fixnum x, .fixnum y, .fixnum w, .fixnum h, .fixnum dx, .fixnum dy]

/-- The argument `{"x"=>x, "y"=>y, "w"=>w, "h"=>h, "dx"=>dx, "dy"=>dy}`. -/
def sixHash (x y w h dx dy : Int) : RValue :=
  .hash [(.str "x", .fixnum x), (.str "y", .fixnum y), (.str "w", .fixnum w),
    (.str "h", .fixnum h), (.str "dx", .fixnum dx), (.str "dy", .fixnum dy)]

/-- The argument lists of `scroll_rect` and `copy_rect` for the values
`(x, y, w, h, dx, dy)`: the seven forms, with every composite as an array and
as a hash keyed by its field names. -/
def rectMoveForms (x y w h dx dy : Int) : List (List RValue) :=
  [ [.fixnum x, .fixnum y, .fixnum w, .fixnum h, .fixnum dx, .fixnum dy],
    [sixArray x y w h dx dy],
    [sixHash x y w h dx dy],
    [xywhArray x y w h, pairArray dx dy],
    [xywhArray x y w h, dxdyHash dx dy],
    [xywhHash x y w h, pairArray dx dy],
    [xywhHash x y w h, dxdyHash dx dy],
    [xywhArray x y w h, .fixnum dx, .fixnum dy],
    [xywhHash x y w h, .fixnum dx, .fixnum dy],
    [pairArray x y, pairArray w h, pairArray dx dy],
    [pairArray x y, pairArray w h, dxdyHash dx dy],
    [pairArray x y, whHash w h, pairArray dx dy],
    [pairArray x y, whHash w h, dxdyHash dx dy],
    [xyHash x y, pairArray w h, pairArray dx dy],
    [xyHash x y, pairArray w h, dxdyHash dx dy],
    [xyHash x y, whHash w h, pairArray dx dy],
    [xyHash x y, whHash w h, dxdyHash dx dy],
    [pairArray x y, pairArray w h, .fixnum dx, .fixnum dy],
    [pairArray x y, whHash w h, .fixnum dx, .fixnum dy],
    [xyHash x y, pairArray w h, .fixnum dx, .fixnum dy],
    [xyHash x y, whHash w h, .fixnum dx, .fixnum dy],
    [.fixnum x, .fixnum y, .fixnum w, .fixnum h, pairArray dx dy],
    [.fixnum x, .fixnum y, .fixnum w, .fixnum h, dxdyHash dx dy] ]

/-- An engine whose every answer carries the image of the active context of
the stack that started as `s0`. -/
def imageEngine (s0 : EngineState) : Engine :=
  ⟨fun t => ⟨(s0.after t).current.image, fun _ => 0, fun _ => ⟨0⟩, ""⟩⟩

/-- A world whose engine is `imageEngine sampleStack`, with one image wrapper:
the one at address `0` is bound to the engine image `7`. -/
def aliasWorld : World :=
  ⟨imageEngine sampleStack, [⟨7⟩], [], true, fun _ => 0⟩

/-- The width the engine reports to `put_data` on an image bound to `im` in
the world `w`. -/
def putDataWidth (w : World) (im : Nat) : Int :=
  (w.engine.answer (w.trace ++ [.imlib_context_set_image im, .imlib_image_get_data,
    .imlib_image_get_width])).int 0

/-- The height the engine reports to `put_data` on an image bound to `im` in
the world `w`. -/
def putDataHeight (w : World) (im : Nat) : Int :=
  (w.engine.answer (w.trace ++ [.imlib_context_set_image im, .imlib_image_get_data,
    .imlib_image_get_width, .imlib_image_get_height])).int 0

/-- The last part of each of `image_draw_rect`, `image_fill_rect`,
`image_draw_ellipse` and `image_fill_ellipse`, which follows the
`switch (argc)` block: the liveness check, the active image, the colour when
one was given, and the engine primitive `prim` of the method. -/
def rectShell (prim : Int → Int → Int → Int → EngineCall)
    (args : Except Exn (Int × Int × Int × Int × RValue)) (self : RValue) : Ruby RValue := do
  let (x, y, w, h, color) ← Ruby.host args
  let (_, im) ← GET_AND_CHECK_IMAGE self
  Ruby.call (.imlib_context_set_image im)
  if notNil color then set_context_color color
  Ruby.call (prim x y w h)
  pure self

/-- An engine whose images all have the width `wd` and the height `ht`; its
other answers are those of `freshEngine`. -/
def sizedEngine (wd ht : Int) : Engine :=
  ⟨fun t => ⟨t.length + 100,
    fun _ => match t.getLast? with
      | some .imlib_image_get_width => wd
      | some .imlib_image_get_height => ht
      | _ => 0,
    fun _ => ⟨0⟩, ""⟩⟩

/-- The wrappers of the sample world, with an engine whose images have the
width `wd` and the height `ht`. -/
def sizedWorld (wd ht : Int) : World :=
  ⟨sizedEngine wd ht, [⟨7⟩, ⟨0⟩, ⟨9⟩], [], true, fun _ => 0⟩

/-- The world `w` after an in-place method has replaced the image `im` of the
wrapper at address `i`: the engine calls are set-image(`im`), `create`,
set-image(`im`) and free-image, and the wrapper holds what the engine handed
back from `create`. -/
def World.swapped (w : World) (i im : Nat) (create : EngineCall) : World :=
  { w with
    heap := w.heap.set i
      ⟨(w.engine.answer (w.trace ++ [.imlib_context_set_image im, create])).handle⟩,
    trace := w.trace ++ [.imlib_context_set_image im, create,
      .imlib_context_set_image im, .imlib_free_image] }

/-! ## Basic facts about the call monad -/

theorem Ruby.bind_apply {α β : Type} (m : Ruby α) (f : α → Ruby β) (w : World) :
    (m >>= f) w = match m w with
      | (.ok a, w1) => f a w1
      | (.error e, w1) => (.error e, w1) := rfl

theorem Ruby.bind_error {α β : Type} {m : Ruby α} {w w1 : World} {e : Exn}
    (f : α → Ruby β) (h : m w = (.error e, w1)) : (m >>= f) w = (.error e, w1) := by
  rw [Ruby.bind_apply, h]

theorem Ruby.bind_ok {α β : Type} {m : Ruby α} {w w1 : World} {a : α}
    (f : α → Ruby β) (h : m w = (.ok a, w1)) : (m >>= f) w = f a w1 := by
  rw [Ruby.bind_apply, h]

theorem Ruby.host_bind {α β : Type} (r : Except Exn α) (f : α → Ruby β) (w : World) :
    (Ruby.host r >>= f) w = match r with
      | .ok a => f a w
      | .error e => (.error e, w) := by
  cases r <;> rfl

theorem Ruby.pure_apply {α : Type} (a : α) (w : World) :
    (pure a : Ruby α) w = (.ok a, w) := rfl

/-! ## The liveness check -/

theorem GET_AND_CHECK_IMAGE_deleted {i : Nat} {w : World} (h : w.deleted i) :
    GET_AND_CHECK_IMAGE (.image i) w = (.error (deletedError "image deleted"), w) := by
  unfold World.deleted at h
  simp [GET_AND_CHECK_IMAGE, Ruby.bind_apply, Ruby.readIm, h, Ruby.raise]

theorem GET_AND_CHECK_IMAGE_live {i im : Nat} {w : World} (h : w.live i im) :
    GET_AND_CHECK_IMAGE (.image i) w = (.ok (i, im), w) := by
  obtain ⟨h1, h2⟩ := h
  simp [GET_AND_CHECK_IMAGE, Ruby.bind_apply, Ruby.readIm, h1, h2, Ruby.pure_apply]

theorem GET_AND_CHECK_IMAGE_world (v : RValue) (w : World) :
    (GET_AND_CHECK_IMAGE v w).2 = w := by
  cases v <;> simp [GET_AND_CHECK_IMAGE, Ruby.raise, Ruby.bind_apply, Ruby.readIm]
  rename_i ref
  cases h : w.heap[ref]? with
  | none => simp
  | some s =>
    by_cases hs : s.im = 0 <;> simp [hs, Ruby.raise, Ruby.pure_apply]

/-- A check of another wrapper followed by a step that raises `e0` without
effect: the call raises the exception of the check, or `e0`. -/
theorem GET_AND_CHECK_IMAGE_then {β : Type} (v : RValue) (g : Nat × Nat → Ruby β)
    (w : World) (e0 : Exn) (h : ∀ p, g p w = (.error e0, w)) :
    (GET_AND_CHECK_IMAGE v >>= g) w =
      (.error (deletedOutcome (do discard (GET_AND_CHECK_IMAGE v w).1; .error e0)), w) := by
  have hw := GET_AND_CHECK_IMAGE_world v w
  rw [Ruby.bind_apply]
  rcases hr : GET_AND_CHECK_IMAGE v w with ⟨r, w1⟩
  rw [hr] at hw
  simp only at hw
  subst hw
  cases r with
  | error e => rfl
  | ok a => simpa [discard, deletedOutcome] using h a

/-! ## A call on a deleted receiver -/

theorem image_save_deleted (val : RValue) {i : Nat} {w : World} (h : w.deleted i) :
    image_save (.image i) val w = (.error (deletedOutcome (discard (StringValuePtr val))), w) := by
  unfold image_save
  rw [Ruby.host_bind]
  cases StringValuePtr val with
  | error e => rfl
  | ok p => exact Ruby.bind_error _ (GET_AND_CHECK_IMAGE_deleted h)

theorem image_save_image_deleted (val : RValue) {i : Nat} {w : World} (h : w.deleted i) :
    image_save_image (.image i) val w = (.error (deletedError "image deleted"), w) := by
  unfold image_save_image
  exact Ruby.bind_error _ (GET_AND_CHECK_IMAGE_deleted h)

theorem image_save_with_error_return_deleted (val : RValue) {i : Nat} {w : World} (h : w.deleted i) :
    image_save_with_error_return (.image i) val w = (.error (deletedError "image deleted"), w) := by
  unfold image_save_with_error_return
  exact Ruby.bind_error _ (GET_AND_CHECK_IMAGE_deleted h)

theorem image_delete_deleted (argv : List RValue) {i : Nat} {w : World} (h : w.deleted i) :
    image_delete argv (.image i) w = (.error (deletedError "image deleted"), w) := by
  unfold image_delete
  exact Ruby.bind_error _ (GET_AND_CHECK_IMAGE_deleted h)

theorem image_width_deleted {i : Nat} {w : World} (h : w.deleted i) :
    image_width (.image i) w = (.error (deletedError "image deleted"), w) := by
  unfold image_width
  exact Ruby.bind_error _ (GET_AND_CHECK_IMAGE_deleted h)

theorem image_height_deleted {i : Nat} {w : World} (h : w.deleted i) :
    image_height (.image i) w = (.error (deletedError "image deleted"), w) := by
  unfold image_height
  exact Ruby.bind_error _ (GET_AND_CHECK_IMAGE_deleted h)

theorem image_filename_deleted {i : Nat} {w : World} (h : w.deleted i) :
    image_filename (.image i) w = (.error (deletedError "image deleted"), w) := by
  unfold image_filename
  exact Ruby.bind_error _ (GET_AND_CHECK_IMAGE_deleted h)

theorem image_data_deleted {i : Nat} {w : World} (h : w.deleted i) :
    image_data (.image i) w = (.error (deletedError "image deleted"), w) := by
  unfold image_data
  exact Ruby.bind_error _ (GET_AND_CHECK_IMAGE_deleted h)

theorem image_data_ro_deleted {i : Nat} {w : World} (h : w.deleted i) :
    image_data_ro (.image i) w = (.error (deletedError "image deleted"), w) := by
  unfold image_data_ro
  exact Ruby.bind_error _ (GET_AND_CHECK_IMAGE_deleted h)

theorem image_put_data_deleted (val : RValue) {i : Nat} {w : World} (h : w.deleted i) :
    image_put_data (.image i) val w = (.error (deletedError "image deleted"), w) := by
  unfold image_put_data
  exact Ruby.bind_error _ (GET_AND_CHECK_IMAGE_deleted h)

theorem image_has_alpha_deleted {i : Nat} {w : World} (h : w.deleted i) :
    image_has_alpha (.image i) w = (.error (deletedError "image deleted"), w) := by
  unfold image_has_alpha
  exact Ruby.bind_error _ (GET_AND_CHECK_IMAGE_deleted h)

theorem image_set_has_alpha_deleted (val : RValue) {i : Nat} {w : World} (h : w.deleted i) :
    image_set_has_alpha (.image i) val w = (.error (deletedError "image deleted"), w) := by
  unfold image_set_has_alpha
  exact Ruby.bind_error _ (GET_AND_CHECK_IMAGE_deleted h)

theorem image_changes_on_disk_deleted {i : Nat} {w : World} (h : w.deleted i) :
    image_changes_on_disk (.image i) w = (.error (deletedError "image deleted"), w) := by
  unfold image_changes_on_disk
  exact Ruby.bind_error _ (GET_AND_CHECK_IMAGE_deleted h)

theorem image_get_border_deleted {i : Nat} {w : World} (h : w.deleted i) :
    image_get_border (.image i) w = (.error (deletedError "image deleted"), w) := by
  unfold image_get_border
  exact Ruby.bind_error _ (GET_AND_CHECK_IMAGE_deleted h)

theorem image_set_border_deleted (val : RValue) {i : Nat} {w : World} (h : w.deleted i) :
    image_set_border (.image i) val w = (.error (deletedError "image deleted"), w) := by
  unfold image_set_border
  exact Ruby.bind_error _ (GET_AND_CHECK_IMAGE_deleted h)

theorem image_get_format_deleted {i : Nat} {w : World} (h : w.deleted i) :
    image_get_format (.image i) w = (.error (deletedError "image deleted"), w) := by
  unfold image_get_format
  exact Ruby.bind_error _ (GET_AND_CHECK_IMAGE_deleted h)

theorem image_set_format_deleted (val : RValue) {i : Nat} {w : World} (h : w.deleted i) :
    image_set_format (.image i) val w = (.error (deletedError "image deleted"), w) := by
  unfold image_set_format
  exact Ruby.bind_error _ (GET_AND_CHECK_IMAGE_deleted h)

theorem image_irrelevant_format_deleted (val : RValue) {i : Nat} {w : World} (h : w.deleted i) :
    image_irrelevant_format (.image i) val w = (.error (deletedError "image deleted"), w) := by
  unfold image_irrelevant_format
  exact Ruby.bind_error _ (GET_AND_CHECK_IMAGE_deleted h)

theorem image_irrelevant_border_deleted (val : RValue) {i : Nat} {w : World} (h : w.deleted i) :
    image_irrelevant_border (.image i) val w = (.error (deletedError "image deleted"), w) := by
  unfold image_irrelevant_border
  exact Ruby.bind_error _ (GET_AND_CHECK_IMAGE_deleted h)

theorem image_irrelevant_alpha_deleted (val : RValue) {i : Nat} {w : World} (h : w.deleted i) :
    image_irrelevant_alpha (.image i) val w = (.error (deletedError "image deleted"), w) := by
  unfold image_irrelevant_alpha
  exact Ruby.bind_error _ (GET_AND_CHECK_IMAGE_deleted h)

theorem image_query_pixel_deleted (x y : RValue) {i : Nat} {w : World} (h : w.deleted i) :
    image_query_pixel (.image i) x y w = (.error (deletedError "image deleted"), w) := by
  unfold image_query_pixel
  exact Ruby.bind_error _ (GET_AND_CHECK_IMAGE_deleted h)

theorem image_query_pixel_hsva_deleted (x y : RValue) {i : Nat} {w : World} (h : w.deleted i) :
    image_query_pixel_hsva (.image i) x y w = (.error (deletedError "image deleted"), w) := by
  unfold image_query_pixel_hsva
  exact Ruby.bind_error _ (GET_AND_CHECK_IMAGE_deleted h)

theorem image_query_pixel_hlsa_deleted (x y : RValue) {i : Nat} {w : World} (h : w.deleted i) :
    image_query_pixel_hlsa (.image i) x y w = (.error (deletedError "image deleted"), w) := by
  unfold image_query_pixel_hlsa
  exact Ruby.bind_error _ (GET_AND_CHECK_IMAGE_deleted h)

theorem image_query_pixel_cmya_deleted (x y : RValue) {i : Nat} {w : World} (h : w.deleted i) :
    image_query_pixel_cmya (.image i) x y w = (.error (deletedError "image deleted"), w) := by
  unfold image_query_pixel_cmya
  exact Ruby.bind_error _ (GET_AND_CHECK_IMAGE_deleted h)

theorem image_crop_deleted (argv : List RValue) {i : Nat} {w : World} (h : w.deleted i) :
    image_crop argv (.image i) w = (.error (deletedOutcome (discard (image_crop_args argv))), w) := by
  unfold image_crop
  rw [Ruby.host_bind]
  cases image_crop_args argv with
  | error e => rfl
  | ok p => exact Ruby.bind_error _ (GET_AND_CHECK_IMAGE_deleted h)

theorem image_crop_inline_deleted (argv : List RValue) {i : Nat} {w : World} (h : w.deleted i) :
    image_crop_inline argv (.image i) w = (.error (deletedOutcome (discard (image_crop_inline_args argv))), w) := by
  unfold image_crop_inline
  rw [Ruby.host_bind]
  cases image_crop_inline_args argv with
  | error e => rfl
  | ok p => exact Ruby.bind_error _ (GET_AND_CHECK_IMAGE_deleted h)

theorem image_crop_scaled_deleted (argv : List RValue) {i : Nat} {w : World} (h : w.deleted i) :
    image_crop_scaled argv (.image i) w = (.error (deletedOutcome (discard (image_crop_scaled_args argv))), w) := by
  unfold image_crop_scaled
  rw [Ruby.host_bind]
  cases image_crop_scaled_args argv with
  | error e => rfl
  | ok p => exact Ruby.bind_error _ (GET_AND_CHECK_IMAGE_deleted h)

theorem image_crop_scaled_inline_deleted (argv : List RValue) {i : Nat} {w : World} (h : w.deleted i) :
    image_crop_scaled_inline argv (.image i) w = (.error (deletedOutcome (discard (image_crop_scaled_inline_args argv))), w) := by
  unfold image_crop_scaled_inline
  rw [Ruby.host_bind]
  cases image_crop_scaled_inline_args argv with
  | error e => rfl
  | ok p => exact Ruby.bind_error _ (GET_AND_CHECK_IMAGE_deleted h)

theorem image_flip_horizontal_deleted {i : Nat} {w : World} (h : w.deleted i) :
    image_flip_horizontal (.image i) w = (.error (deletedError "image deleted"), w) := by
  unfold image_flip_horizontal
  exact Ruby.bind_error _ (GET_AND_CHECK_IMAGE_deleted h)

theorem image_flip_horizontal_inline_deleted {i : Nat} {w : World} (h : w.deleted i) :
    image_flip_horizontal_inline (.image i) w = (.error (deletedError "image deleted"), w) := by
  unfold image_flip_horizontal_inline
  exact Ruby.bind_error _ (GET_AND_CHECK_IMAGE_deleted h)

theorem image_flip_vertical_deleted {i : Nat} {w : World} (h : w.deleted i) :
    image_flip_vertical (.image i) w = (.error (deletedError "image deleted"), w) := by
  unfold image_flip_vertical
  exact Ruby.bind_error _ (GET_AND_CHECK_IMAGE_deleted h)

theorem image_flip_vertical_inline_deleted {i : Nat} {w : World} (h : w.deleted i) :
    image_flip_vertical_inline (.image i) w = (.error (deletedError "image deleted"), w) := by
  unfold image_flip_vertical_inline
  exact Ruby.bind_error _ (GET_AND_CHECK_IMAGE_deleted h)

theorem image_flip_diagonal_deleted {i : Nat} {w : World} (h : w.deleted i) :
    image_flip_diagonal (.image i) w = (.error (deletedError "image deleted"), w) := by
  unfold image_flip_diagonal
  exact Ruby.bind_error _ (GET_AND_CHECK_IMAGE_deleted h)

theorem image_flip_diagonal_inline_deleted {i : Nat} {w : World} (h : w.deleted i) :
    image_flip_diagonal_inline (.image i) w = (.error (deletedError "image deleted"), w) := by
  unfold image_flip_diagonal_inline
  exact Ruby.bind_error _ (GET_AND_CHECK_IMAGE_deleted h)

theorem image_orientate_deleted (val : RValue) {i : Nat} {w : World} (h : w.deleted i) :
    image_orientate (.image i) val w = (.error (deletedError "image deleted"), w) := by
  unfold image_orientate
  exact Ruby.bind_error _ (GET_AND_CHECK_IMAGE_deleted h)

theorem image_orientate_inline_deleted (val : RValue) {i : Nat} {w : World} (h : w.deleted i) :
    image_orientate_inline (.image i) val w = (.error (deletedError "image deleted"), w) := by
  unfold image_orientate_inline
  exact Ruby.bind_error _ (GET_AND_CHECK_IMAGE_deleted h)

theorem image_blur_deleted (val : RValue) {i : Nat} {w : World} (h : w.deleted i) :
    image_blur (.image i) val w = (.error (deletedError "image deleted"), w) := by
  unfold image_blur
  exact Ruby.bind_error _ (GET_AND_CHECK_IMAGE_deleted h)

theorem image_blur_inline_deleted (val : RValue) {i : Nat} {w : World} (h : w.deleted i) :
    image_blur_inline (.image i) val w = (.error (deletedError "image deleted"), w) := by
  unfold image_blur_inline
  exact Ruby.bind_error _ (GET_AND_CHECK_IMAGE_deleted h)

theorem image_sharpen_deleted (val : RValue) {i : Nat} {w : World} (h : w.deleted i) :
    image_sharpen (.image i) val w = (.error (deletedError "image deleted"), w) := by
  unfold image_sharpen
  exact Ruby.bind_error _ (GET_AND_CHECK_IMAGE_deleted h)

theorem image_sharpen_inline_deleted (val : RValue) {i : Nat} {w : World} (h : w.deleted i) :
    image_sharpen_inline (.image i) val w = (.error (deletedError "image deleted"), w) := by
  unfold image_sharpen_inline
  exact Ruby.bind_error _ (GET_AND_CHECK_IMAGE_deleted h)

theorem image_tile_horizontal_deleted {i : Nat} {w : World} (h : w.deleted i) :
    image_tile_horizontal (.image i) w = (.error (deletedError "image deleted"), w) := by
  unfold image_tile_horizontal
  exact Ruby.bind_error _ (GET_AND_CHECK_IMAGE_deleted h)

theorem image_tile_horizontal_inline_deleted {i : Nat} {w : World} (h : w.deleted i) :
    image_tile_horizontal_inline (.image i) w = (.error (deletedError "image deleted"), w) := by
  unfold image_tile_horizontal_inline
  exact Ruby.bind_error _ (GET_AND_CHECK_IMAGE_deleted h)

theorem image_tile_vertical_deleted {i : Nat} {w : World} (h : w.deleted i) :
    image_tile_vertical (.image i) w = (.error (deletedError "image deleted"), w) := by
  unfold image_tile_vertical
  exact Ruby.bind_error _ (GET_AND_CHECK_IMAGE_deleted h)

theorem image_tile_vertical_inline_deleted {i : Nat} {w : World} (h : w.deleted i) :
    image_tile_vertical_inline (.image i) w = (.error (deletedError "image deleted"), w) := by
  unfold image_tile_vertical_inline
  exact Ruby.bind_error _ (GET_AND_CHECK_IMAGE_deleted h)

theorem image_tile_deleted {i : Nat} {w : World} (h : w.deleted i) :
    image_tile (.image i) w = (.error (deletedError "image deleted"), w) := by
  unfold image_tile
  exact Ruby.bind_error _ (GET_AND_CHECK_IMAGE_deleted h)

theorem image_tile_inline_deleted {i : Nat} {w : World} (h : w.deleted i) :
    image_tile_inline (.image i) w = (.error (deletedError "image deleted"), w) := by
  unfold image_tile_inline
  exact Ruby.bind_error _ (GET_AND_CHECK_IMAGE_deleted h)

theorem image_draw_pixel_deleted (argv : List RValue) {i : Nat} {w : World} (h : w.deleted i) :
    image_draw_pixel argv (.image i) w = (.error (deletedOutcome (discard (image_draw_pixel_args argv))), w) := by
  unfold image_draw_pixel
  rw [Ruby.host_bind]
  cases image_draw_pixel_args argv with
  | error e => rfl
  | ok p => exact Ruby.bind_error _ (GET_AND_CHECK_IMAGE_deleted h)

theorem image_draw_line_deleted (argv : List RValue) {i : Nat} {w : World} (h : w.deleted i) :
    image_draw_line argv (.image i) w = (.error (deletedOutcome (discard (image_draw_line_args argv))), w) := by
  unfold image_draw_line
  rw [Ruby.host_bind]
  cases image_draw_line_args argv with
  | error e => rfl
  | ok p => exact Ruby.bind_error _ (GET_AND_CHECK_IMAGE_deleted h)

theorem image_draw_rect_deleted (argv : List RValue) {i : Nat} {w : World} (h : w.deleted i) :
    image_draw_rect argv (.image i) w = (.error (deletedOutcome (discard (image_draw_rect_args argv))), w) := by
  unfold image_draw_rect
  rw [Ruby.host_bind]
  cases image_draw_rect_args argv with
  | error e => rfl
  | ok p => exact Ruby.bind_error _ (GET_AND_CHECK_IMAGE_deleted h)

theorem image_fill_rect_deleted (argv : List RValue) {i : Nat} {w : World} (h : w.deleted i) :
    image_fill_rect argv (.image i) w = (.error (deletedOutcome (discard (image_fill_rect_args argv))), w) := by
  unfold image_fill_rect
  rw [Ruby.host_bind]
  cases image_fill_rect_args argv with
  | error e => rfl
  | ok p => exact Ruby.bind_error _ (GET_AND_CHECK_IMAGE_deleted h)

theorem image_copy_alpha_deleted (argv : List RValue) {i : Nat} {w : World} (h : w.deleted i) :
    image_copy_alpha argv (.image i) w = (.error (deletedOutcome (ImageOp.prelude w (.copy_alpha argv))), w) := by
  unfold image_copy_alpha
  simp only [ImageOp.prelude]
  rw [Ruby.host_bind]
  cases image_copy_alpha_args argv with
  | error e => rfl
  | ok p =>
    simp only []
    rw [GET_AND_CHECK_IMAGE_then _ _ w (deletedError "image deleted")
      (fun q => Ruby.bind_error _ (GET_AND_CHECK_IMAGE_deleted h))]
    cases (GET_AND_CHECK_IMAGE (argv.getD 0 .nil) w).1 <;> rfl

theorem image_copy_alpha_rect_deleted (argv : List RValue) {i : Nat} {w : World} (h : w.deleted i) :
    image_copy_alpha_rect argv (.image i) w = (.error (deletedOutcome (ImageOp.prelude w (.copy_alpha_rect argv))), w) := by
  unfold image_copy_alpha_rect
  simp only [ImageOp.prelude]
  rw [Ruby.host_bind]
  cases image_copy_alpha_rect_args argv with
  | error e => rfl
  | ok p =>
    simp only []
    rw [GET_AND_CHECK_IMAGE_then _ _ w (deletedError "image deleted")
      (fun q => Ruby.bind_error _ (GET_AND_CHECK_IMAGE_deleted h))]
    cases (GET_AND_CHECK_IMAGE (argv.getD 0 .nil) w).1 <;> rfl

theorem image_scroll_rect_deleted (argv : List RValue) {i : Nat} {w : World} (h : w.deleted i) :
    image_scroll_rect argv (.image i) w = (.error (deletedOutcome (discard (image_scroll_rect_args argv))), w) := by
  unfold image_scroll_rect
  rw [Ruby.host_bind]
  cases image_scroll_rect_args argv with
  | error e => rfl
  | ok p => exact Ruby.bind_error _ (GET_AND_CHECK_IMAGE_deleted h)

theorem image_copy_rect_deleted (argv : List RValue) {i : Nat} {w : World} (h : w.deleted i) :
    image_copy_rect argv (.image i) w = (.error (deletedOutcome (discard (image_copy_rect_args argv))), w) := by
  unfold image_copy_rect
  rw [Ruby.host_bind]
  cases image_copy_rect_args argv with
  | error e => rfl
  | ok p => exact Ruby.bind_error _ (GET_AND_CHECK_IMAGE_deleted h)

theorem image_draw_ellipse_deleted (argv : List RValue) {i : Nat} {w : World} (h : w.deleted i) :
    image_draw_ellipse argv (.image i) w = (.error (deletedOutcome (discard (image_draw_ellipse_args argv))), w) := by
  unfold image_draw_ellipse
  rw [Ruby.host_bind]
  cases image_draw_ellipse_args argv with
  | error e => rfl
  | ok p => exact Ruby.bind_error _ (GET_AND_CHECK_IMAGE_deleted h)

theorem image_fill_ellipse_deleted (argv : List RValue) {i : Nat} {w : World} (h : w.deleted i) :
    image_fill_ellipse argv (.image i) w = (.error (deletedOutcome (discard (image_fill_ellipse_args argv))), w) := by
  unfold image_fill_ellipse
  rw [Ruby.host_bind]
  cases image_fill_ellipse_args argv with
  | error e => rfl
  | ok p => exact Ruby.bind_error _ (GET_AND_CHECK_IMAGE_deleted h)

theorem image_draw_text_deleted (argv : List RValue) {i : Nat} {w : World} (h : w.deleted i) :
    image_draw_text argv (.image i) w = (.error (deletedOutcome (ImageOp.prelude w (.draw_text argv))), w) := by
  unfold image_draw_text
  simp only [ImageOp.prelude]
  rw [Ruby.host_bind]
  cases image_draw_text_args argv with
  | error e => rfl
  | ok p =>
    simp only []
    rw [Ruby.host_bind]
    cases getFont (argv.getD 0 .nil) with
    | error e => rfl
    | ok q => exact Ruby.bind_error _ (GET_AND_CHECK_IMAGE_deleted h)

theorem image_fill_gradient_deleted (argv : List RValue) {i : Nat} {w : World} (h : w.deleted i) :
    image_fill_gradient argv (.image i) w = (.error (deletedOutcome (discard (image_fill_gradient_args argv))), w) := by
  unfold image_fill_gradient
  rw [Ruby.host_bind]
  cases image_fill_gradient_args argv with
  | error e => rfl
  | ok p => exact Ruby.bind_error _ (GET_AND_CHECK_IMAGE_deleted h)

theorem image_draw_poly_deleted (argv : List RValue) {i : Nat} {w : World} (h : w.deleted i) :
    image_draw_poly argv (.image i) w = (.error (deletedOutcome (discard (image_draw_poly_args argv))), w) := by
  unfold image_draw_poly
  rw [Ruby.host_bind]
  cases image_draw_poly_args argv with
  | error e => rfl
  | ok p => exact Ruby.bind_error _ (GET_AND_CHECK_IMAGE_deleted h)

theorem image_fill_poly_deleted (argv : List RValue) {i : Nat} {w : World} (h : w.deleted i) :
    image_fill_poly argv (.image i) w = (.error (deletedOutcome (discard (image_fill_poly_args argv))), w) := by
  unfold image_fill_poly
  rw [Ruby.host_bind]
  cases image_fill_poly_args argv with
  | error e => rfl
  | ok p => exact Ruby.bind_error _ (GET_AND_CHECK_IMAGE_deleted h)

theorem image_blend_image_inline_deleted (argv : List RValue) {i : Nat} {w : World} (h : w.deleted i) :
    image_blend_image_inline argv (.image i) w = (.error (deletedOutcome (discard (image_blend_image_inline_args argv))), w) := by
  unfold image_blend_image_inline
  rw [Ruby.host_bind]
  cases image_blend_image_inline_args argv with
  | error e => rfl
  | ok p => exact Ruby.bind_error _ (GET_AND_CHECK_IMAGE_deleted h)

theorem image_blend_image_deleted (argv : List RValue) {i : Nat} {w : World} (h : w.deleted i) :
    image_blend_image argv (.image i) w = (.error (deletedError "image deleted"), w) := by
  unfold image_blend_image
  exact Ruby.bind_error _ (GET_AND_CHECK_IMAGE_deleted h)

theorem image_rotate_deleted (val : RValue) {i : Nat} {w : World} (h : w.deleted i) :
    image_rotate (.image i) val w = (.error (deletedError "image deleted"), w) := by
  unfold image_rotate
  exact Ruby.bind_error _ (GET_AND_CHECK_IMAGE_deleted h)

theorem image_rotate_inline_deleted (val : RValue) {i : Nat} {w : World} (h : w.deleted i) :
    image_rotate_inline (.image i) val w = (.error (deletedError "image deleted"), w) := by
  unfold image_rotate_inline
  exact Ruby.bind_error _ (GET_AND_CHECK_IMAGE_deleted h)

theorem image_clone_deleted {i : Nat} {w : World} (h : w.deleted i) :
    image_clone (.image i) w = (.error (deletedError "image deleted"), w) := by
  unfold image_clone
  exact Ruby.bind_error _ (GET_AND_CHECK_IMAGE_deleted h)

theorem image_clear_deleted {i : Nat} {w : World} (h : w.deleted i) :
    image_clear (.image i) w = (.error (deletedError "image deleted"), w) := by
  unfold image_clear
  exact Ruby.bind_error _ (GET_AND_CHECK_IMAGE_deleted h)

theorem image_clear_color_deleted (val : RValue) {i : Nat} {w : World} (h : w.deleted i) :
    image_clear_color (.image i) val w = (.error (deletedError "image deleted"), w) := by
  unfold image_clear_color
  exact Ruby.bind_error _ (GET_AND_CHECK_IMAGE_deleted h)

theorem image_clear_color_inline_deleted (val : RValue) {i : Nat} {w : World} (h : w.deleted i) :
    image_clear_color_inline (.image i) val w = (.error (deletedError "image deleted"), w) := by
  unfold image_clear_color_inline
  exact Ruby.bind_error _ (GET_AND_CHECK_IMAGE_deleted h)

theorem image_filter_deleted (val : RValue) (i : Nat) (w : World) :
    image_filter (.image i) val w = (.error (typeError ("Invalid argument type "
      ++ "(not String or Imlib2::Filter)")), w) := by
  simp [image_filter, rb_obj_is_kind_of, Ruby.raise]

theorem image_static_filter_deleted (val : RValue) {i : Nat} {w : World} (h : w.deleted i) :
    image_static_filter (.image i) val w = (.error (deletedError "image deleted"), w) := by
  unfold image_static_filter
  exact Ruby.bind_error _ (GET_AND_CHECK_IMAGE_deleted h)

theorem image_script_filter_deleted (val : RValue) {i : Nat} {w : World} (h : w.deleted i) :
    image_script_filter (.image i) val w = (.error (deletedError "image deleted"), w) := by
  unfold image_script_filter
  exact Ruby.bind_error _ (GET_AND_CHECK_IMAGE_deleted h)

theorem image_attach_val_deleted (key val : RValue) {i : Nat} {w : World} (h : w.deleted i) :
    image_attach_val (.image i) key val w = (.error (deletedError "image deleted"), w) := by
  unfold image_attach_val
  exact Ruby.bind_error _ (GET_AND_CHECK_IMAGE_deleted h)

theorem image_get_attach_val_deleted (val : RValue) {i : Nat} {w : World} (h : w.deleted i) :
    image_get_attach_val (.image i) val w = (.error (deletedError "image deleted"), w) := by
  unfold image_get_attach_val
  exact Ruby.bind_error _ (GET_AND_CHECK_IMAGE_deleted h)

theorem image_rm_attach_val_deleted (val : RValue) {i : Nat} {w : World} (h : w.deleted i) :
    image_rm_attach_val (.image i) val w = (.error (deletedError "image deleted"), w) := by
  unfold image_rm_attach_val
  exact Ruby.bind_error _ (GET_AND_CHECK_IMAGE_deleted h)

/-- Every method other than `filter`, called on a deleted receiver, ends with
the exception of the steps before its liveness check, or with `DeletedError`,
and leaves the world as it was. -/
theorem ImageOp.run_deleted (op : ImageOp) {i : Nat} {w : World}
    (hf : op.isFilter = false) (h : w.deleted i) :
    op.run (.image i) w = (.error (deletedOutcome (op.prelude w)), w) := by
  cases op with
  | save val => exact image_save_deleted val h
  | save_image val => exact image_save_image_deleted val h
  | save_with_error_return val => exact image_save_with_error_return_deleted val h
  | delete argv => exact image_delete_deleted argv h
  | width => exact image_width_deleted h
  | height => exact image_height_deleted h
  | filename => exact image_filename_deleted h
  | data => exact image_data_deleted h
  | data_ro => exact image_data_ro_deleted h
  | put_data val => exact image_put_data_deleted val h
  | has_alpha => exact image_has_alpha_deleted h
  | set_has_alpha val => exact image_set_has_alpha_deleted val h
  | changes_on_disk => exact image_changes_on_disk_deleted h
  | get_border => exact image_get_border_deleted h
  | set_border val => exact image_set_border_deleted val h
  | get_format => exact image_get_format_deleted h
  | set_format val => exact image_set_format_deleted val h
  | irrelevant_format val => exact image_irrelevant_format_deleted val h
  | irrelevant_border val => exact image_irrelevant_border_deleted val h
  | irrelevant_alpha val => exact image_irrelevant_alpha_deleted val h
  | query_pixel x y => exact image_query_pixel_deleted x y h
  | query_pixel_hsva x y => exact image_query_pixel_hsva_deleted x y h
  | query_pixel_hlsa x y => exact image_query_pixel_hlsa_deleted x y h
  | query_pixel_cmya x y => exact image_query_pixel_cmya_deleted x y h
  | crop argv => exact image_crop_deleted argv h
  | crop_inline argv => exact image_crop_inline_deleted argv h
  | crop_scaled argv => exact image_crop_scaled_deleted argv h
  | crop_scaled_inline argv => exact image_crop_scaled_inline_deleted argv h
  | flip_horizontal => exact image_flip_horizontal_deleted h
  | flip_horizontal_inline => exact image_flip_horizontal_inline_deleted h
  | flip_vertical => exact image_flip_vertical_deleted h
  | flip_vertical_inline => exact image_flip_vertical_inline_deleted h
  | flip_diagonal => exact image_flip_diagonal_deleted h
  | flip_diagonal_inline => exact image_flip_diagonal_inline_deleted h
  | orientate val => exact image_orientate_deleted val h
  | orientate_inline val => exact image_orientate_inline_deleted val h
  | blur val => exact image_blur_deleted val h
  | blur_inline val => exact image_blur_inline_deleted val h
  | sharpen val => exact image_sharpen_deleted val h
  | sharpen_inline val => exact image_sharpen_inline_deleted val h
  | tile_horizontal => exact image_tile_horizontal_deleted h
  | tile_horizontal_inline => exact image_tile_horizontal_inline_deleted h
  | tile_vertical => exact image_tile_vertical_deleted h
  | tile_vertical_inline => exact image_tile_vertical_inline_deleted h
  | tile => exact image_tile_deleted h
  | tile_inline => exact image_tile_inline_deleted h
  | draw_pixel argv => exact image_draw_pixel_deleted argv h
  | draw_line argv => exact image_draw_line_deleted argv h
  | draw_rect argv => exact image_draw_rect_deleted argv h
  | fill_rect argv => exact image_fill_rect_deleted argv h
  | copy_alpha argv => exact image_copy_alpha_deleted argv h
  | copy_alpha_rect argv => exact image_copy_alpha_rect_deleted argv h
  | scroll_rect argv => exact image_scroll_rect_deleted argv h
  | copy_rect argv => exact image_copy_rect_deleted argv h
  | draw_ellipse argv => exact image_draw_ellipse_deleted argv h
  | fill_ellipse argv => exact image_fill_ellipse_deleted argv h
  | draw_text argv => exact image_draw_text_deleted argv h
  | fill_gradient argv => exact image_fill_gradient_deleted argv h
  | draw_poly argv => exact image_draw_poly_deleted argv h
  | fill_poly argv => exact image_fill_poly_deleted argv h
  | blend_image_inline argv => exact image_blend_image_inline_deleted argv h
  | blend_image argv => exact image_blend_image_deleted argv h
  | rotate val => exact image_rotate_deleted val h
  | rotate_inline val => exact image_rotate_inline_deleted val h
  | clone => exact image_clone_deleted h
  | clear => exact image_clear_deleted h
  | clear_color val => exact image_clear_color_deleted val h
  | clear_color_inline val => exact image_clear_color_inline_deleted val h
  | filter val => simp [ImageOp.isFilter] at hf
  | static_filter val => exact image_static_filter_deleted val h
  | script_filter val => exact image_script_filter_deleted val h
  | attach_val key val => exact image_attach_val_deleted key val h
  | get_attach_val val => exact image_get_attach_val_deleted val h
  | rm_attach_val val => exact image_rm_attach_val_deleted val h

/-! ## Deletion is permanent -/

set_option linter.unusedTactic false
set_option linter.unreachableTactic false

theorem GET_AND_CHECK_IMAGE_ok {v : RValue} {w w1 : World} {ref im : Nat}
    (h : GET_AND_CHECK_IMAGE v w = (.ok (ref, im), w1)) :
    v = .image ref ∧ w.live ref im ∧ w1 = w := by
  cases v <;> simp [GET_AND_CHECK_IMAGE, Ruby.raise, Ruby.bind_apply, Ruby.readIm] at h
  rename_i r
  cases hh : w.heap[r]? with
  | none => simp [hh] at h
  | some s =>
    by_cases hs : s.im = 0
    · simp [hh, hs, Ruby.raise] at h
    · simp [hh, hs, Ruby.pure_apply] at h
      obtain ⟨⟨h1, h2⟩, h3⟩ := h
      subst h1 h2 h3
      exact ⟨rfl, ⟨hh, hs⟩, rfl⟩

theorem Keeps.pure (i : Nat) {α : Type} (a : α) : Keeps i (pure a : Ruby α) :=
  fun _ h => h

theorem Keeps.raise (i : Nat) {α : Type} (e : Exn) : Keeps i (Ruby.raise e : Ruby α) :=
  fun _ h => h

theorem Keeps.host (i : Nat) {α : Type} (r : Except Exn α) : Keeps i (Ruby.host r) :=
  fun _ h => h

theorem Keeps.call (i : Nat) (c : EngineCall) : Keeps i (Ruby.call c) :=
  fun _ h => h

theorem Keeps.ask (i : Nat) (c : EngineCall) : Keeps i (Ruby.ask c) :=
  fun _ h => h

theorem Keeps.workaround (i : Nat) : Keeps i Ruby.workaround :=
  fun _ h => h

theorem Keeps.floatNew (i : Nat) (v : RValue) : Keeps i (Ruby.floatNew v) :=
  fun _ h => h

theorem World.deleted_lt {w : World} {i : Nat} (h : w.deleted i) : i < w.heap.length := by
  unfold World.deleted at h
  by_contra hc
  rw [List.getElem?_eq_none (by omega)] at h
  exact absurd h (by simp)

theorem Keeps.wrapIm (i : Nat) (im : Nat) : Keeps i (Ruby.wrapIm im) := by
  intro w h
  have hi := World.deleted_lt h
  unfold World.deleted at *
  simp only [Ruby.wrapIm]
  rw [List.getElem?_append_left hi]
  exact h

theorem Keeps.writeIm (i : Nat) (ref im : Nat) (hne : ref ≠ i) :
    Keeps i (Ruby.writeIm ref im) := by
  intro w h
  unfold World.deleted at *
  simp only [Ruby.writeIm]
  rw [List.getElem?_set_ne hne]
  exact h

theorem Keeps.bind {i : Nat} {α β : Type} {m : Ruby α} {f : α → Ruby β}
    (hm : Keeps i m) (hf : ∀ a, Keeps i (f a)) : Keeps i (m >>= f) := by
  intro w h
  rw [Ruby.bind_apply]
  have h1 := hm w h
  rcases hr : m w with ⟨r, w1⟩
  rw [hr] at h1
  cases r with
  | error e => exact h1
  | ok a => exact hf a w1 h1

theorem Keeps.check (i : Nat) (v : RValue) : Keeps i (GET_AND_CHECK_IMAGE v) := by
  intro w h
  rw [GET_AND_CHECK_IMAGE_world]
  exact h

/-- After a successful liveness check the address checked is not the address
of a deleted wrapper. -/
theorem Keeps.checkBind {i : Nat} {β : Type} (v : RValue) {f : Nat × Nat → Ruby β}
    (hf : ∀ ref im, ref ≠ i → Keeps i (f (ref, im))) :
    Keeps i (GET_AND_CHECK_IMAGE v >>= f) := by
  intro w h
  rw [Ruby.bind_apply]
  rcases hr : GET_AND_CHECK_IMAGE v w with ⟨r, w1⟩
  cases r with
  | error e =>
    have hw := GET_AND_CHECK_IMAGE_world v w
    rw [hr] at hw
    simp only at hw
    subst hw
    exact h
  | ok a =>
    obtain ⟨ref, im⟩ := a
    obtain ⟨_, hlive, hw⟩ := GET_AND_CHECK_IMAGE_ok hr
    subst hw
    have hne : ref ≠ i := by
      intro heq
      subst heq
      unfold World.deleted at h
      rw [hlive.1] at h
      exact hlive.2 (by simpa using h)
    exact hf ref im hne w1 h

theorem Keeps.color (i : Nat) (v : RValue) : Keeps i (set_context_color v) := by
  intro w h
  unfold set_context_color
  cases v <;> simp [rb_obj_is_kind_of] <;> exact h

theorem Keeps.raise_imlib_error (i : Nat) {α : Type} (path : String) (err : Int) :
    Keeps i (raise_imlib_error path err : Ruby α) := by
  intro w h
  unfold Imlib2.raise_imlib_error
  split <;> split <;> exact h

theorem image_save_keeps (i : Nat) (val : RValue) (self : RValue) :
    Keeps i (image_save self val) := by
  unfold image_save
  repeat' with_reducible (first
    | exact Keeps.pure _ _ | exact Keeps.raise _ _ | exact Keeps.host _ _
    | exact Keeps.call _ _ | exact Keeps.ask _ _ | exact Keeps.workaround _
    | exact Keeps.floatNew _ _ | exact Keeps.wrapIm _ _ | exact Keeps.check _ _
    | exact Keeps.color _ _ | exact Keeps.raise_imlib_error _ _ _
    | exact Keeps.writeIm _ _ _ (by assumption)
    | apply Keeps.checkBind
    | apply Keeps.bind
    | intro _
    | dsimp only
    | split)

theorem image_save_image_keeps (i : Nat) (val : RValue) (self : RValue) :
    Keeps i (image_save_image self val) := by
  unfold image_save_image
  repeat' with_reducible (first
    | exact Keeps.pure _ _ | exact Keeps.raise _ _ | exact Keeps.host _ _
    | exact Keeps.call _ _ | exact Keeps.ask _ _ | exact Keeps.workaround _
    | exact Keeps.floatNew _ _ | exact Keeps.wrapIm _ _ | exact Keeps.check _ _
    | exact Keeps.color _ _ | exact Keeps.raise_imlib_error _ _ _
    | exact Keeps.writeIm _ _ _ (by assumption)
    | apply Keeps.checkBind
    | apply Keeps.bind
    | intro _
    | dsimp only
    | split)

theorem image_save_with_error_return_keeps (i : Nat) (val : RValue) (self : RValue) :
    Keeps i (image_save_with_error_return self val) := by
  unfold image_save_with_error_return
  repeat' with_reducible (first
    | exact Keeps.pure _ _ | exact Keeps.raise _ _ | exact Keeps.host _ _
    | exact Keeps.call _ _ | exact Keeps.ask _ _ | exact Keeps.workaround _
    | exact Keeps.floatNew _ _ | exact Keeps.wrapIm _ _ | exact Keeps.check _ _
    | exact Keeps.color _ _ | exact Keeps.raise_imlib_error _ _ _
    | exact Keeps.writeIm _ _ _ (by assumption)
    | apply Keeps.checkBind
    | apply Keeps.bind
    | intro _
    | dsimp only
    | split)

theorem image_delete_keeps (i : Nat) (argv : List RValue) (self : RValue) :
    Keeps i (image_delete argv self) := by
  unfold image_delete
  repeat' with_reducible (first
    | exact Keeps.pure _ _ | exact Keeps.raise _ _ | exact Keeps.host _ _
    | exact Keeps.call _ _ | exact Keeps.ask _ _ | exact Keeps.workaround _
    | exact Keeps.floatNew _ _ | exact Keeps.wrapIm _ _ | exact Keeps.check _ _
    | exact Keeps.color _ _ | exact Keeps.raise_imlib_error _ _ _
    | exact Keeps.writeIm _ _ _ (by assumption)
    | apply Keeps.checkBind
    | apply Keeps.bind
    | intro _
    | dsimp only
    | split)

theorem image_width_keeps (i : Nat) (self : RValue) :
    Keeps i (image_width self) := by
  unfold image_width
  repeat' with_reducible (first
    | exact Keeps.pure _ _ | exact Keeps.raise _ _ | exact Keeps.host _ _
    | exact Keeps.call _ _ | exact Keeps.ask _ _ | exact Keeps.workaround _
    | exact Keeps.floatNew _ _ | exact Keeps.wrapIm _ _ | exact Keeps.check _ _
    | exact Keeps.color _ _ | exact Keeps.raise_imlib_error _ _ _
    | exact Keeps.writeIm _ _ _ (by assumption)
    | apply Keeps.checkBind
    | apply Keeps.bind
    | intro _
    | dsimp only
    | split)

theorem image_height_keeps (i : Nat) (self : RValue) :
    Keeps i (image_height self) := by
  unfold image_height
  repeat' with_reducible (first
    | exact Keeps.pure _ _ | exact Keeps.raise _ _ | exact Keeps.host _ _
    | exact Keeps.call _ _ | exact Keeps.ask _ _ | exact Keeps.workaround _
    | exact Keeps.floatNew _ _ | exact Keeps.wrapIm _ _ | exact Keeps.check _ _
    | exact Keeps.color _ _ | exact Keeps.raise_imlib_error _ _ _
    | exact Keeps.writeIm _ _ _ (by assumption)
    | apply Keeps.checkBind
    | apply Keeps.bind
    | intro _
    | dsimp only
    | split)

theorem image_filename_keeps (i : Nat) (self : RValue) :
    Keeps i (image_filename self) := by
  unfold image_filename
  repeat' with_reducible (first
    | exact Keeps.pure _ _ | exact Keeps.raise _ _ | exact Keeps.host _ _
    | exact Keeps.call _ _ | exact Keeps.ask _ _ | exact Keeps.workaround _
    | exact Keeps.floatNew _ _ | exact Keeps.wrapIm _ _ | exact Keeps.check _ _
    | exact Keeps.color _ _ | exact Keeps.raise_imlib_error _ _ _
    | exact Keeps.writeIm _ _ _ (by assumption)
    | apply Keeps.checkBind
    | apply Keeps.bind
    | intro _
    | dsimp only
    | split)

theorem image_data_keeps (i : Nat) (self : RValue) :
    Keeps i (image_data self) := by
  unfold image_data
  repeat' with_reducible (first
    | exact Keeps.pure _ _ | exact Keeps.raise _ _ | exact Keeps.host _ _
    | exact Keeps.call _ _ | exact Keeps.ask _ _ | exact Keeps.workaround _
    | exact Keeps.floatNew _ _ | exact Keeps.wrapIm _ _ | exact Keeps.check _ _
    | exact Keeps.color _ _ | exact Keeps.raise_imlib_error _ _ _
    | exact Keeps.writeIm _ _ _ (by assumption)
    | apply Keeps.checkBind
    | apply Keeps.bind
    | intro _
    | dsimp only
    | split)

theorem image_data_ro_keeps (i : Nat) (self : RValue) :
    Keeps i (image_data_ro self) := by
  unfold image_data_ro
  repeat' with_reducible (first
    | exact Keeps.pure _ _ | exact Keeps.raise _ _ | exact Keeps.host _ _
    | exact Keeps.call _ _ | exact Keeps.ask _ _ | exact Keeps.workaround _
    | exact Keeps.floatNew _ _ | exact Keeps.wrapIm _ _ | exact Keeps.check _ _
    | exact Keeps.color _ _ | exact Keeps.raise_imlib_error _ _ _
    | exact Keeps.writeIm _ _ _ (by assumption)
    | apply Keeps.checkBind
    | apply Keeps.bind
    | intro _
    | dsimp only
    | split)

theorem image_put_data_keeps (i : Nat) (val : RValue) (self : RValue) :
    Keeps i (image_put_data self val) := by
  unfold image_put_data
  repeat' with_reducible (first
    | exact Keeps.pure _ _ | exact Keeps.raise _ _ | exact Keeps.host _ _
    | exact Keeps.call _ _ | exact Keeps.ask _ _ | exact Keeps.workaround _
    | exact Keeps.floatNew _ _ | exact Keeps.wrapIm _ _ | exact Keeps.check _ _
    | exact Keeps.color _ _ | exact Keeps.raise_imlib_error _ _ _
    | exact Keeps.writeIm _ _ _ (by assumption)
    | apply Keeps.checkBind
    | apply Keeps.bind
    | intro _
    | dsimp only
    | split)

theorem image_has_alpha_keeps (i : Nat) (self : RValue) :
    Keeps i (image_has_alpha self) := by
  unfold image_has_alpha
  repeat' with_reducible (first
    | exact Keeps.pure _ _ | exact Keeps.raise _ _ | exact Keeps.host _ _
    | exact Keeps.call _ _ | exact Keeps.ask _ _ | exact Keeps.workaround _
    | exact Keeps.floatNew _ _ | exact Keeps.wrapIm _ _ | exact Keeps.check _ _
    | exact Keeps.color _ _ | exact Keeps.raise_imlib_error _ _ _
    | exact Keeps.writeIm _ _ _ (by assumption)
    | apply Keeps.checkBind
    | apply Keeps.bind
    | intro _
    | dsimp only
    | split)

theorem image_set_has_alpha_keeps (i : Nat) (val : RValue) (self : RValue) :
    Keeps i (image_set_has_alpha self val) := by
  unfold image_set_has_alpha
  repeat' with_reducible (first
    | exact Keeps.pure _ _ | exact Keeps.raise _ _ | exact Keeps.host _ _
    | exact Keeps.call _ _ | exact Keeps.ask _ _ | exact Keeps.workaround _
    | exact Keeps.floatNew _ _ | exact Keeps.wrapIm _ _ | exact Keeps.check _ _
    | exact Keeps.color _ _ | exact Keeps.raise_imlib_error _ _ _
    | exact Keeps.writeIm _ _ _ (by assumption)
    | apply Keeps.checkBind
    | apply Keeps.bind
    | intro _
    | dsimp only
    | split)

theorem image_changes_on_disk_keeps (i : Nat) (self : RValue) :
    Keeps i (image_changes_on_disk self) := by
  unfold image_changes_on_disk
  repeat' with_reducible (first
    | exact Keeps.pure _ _ | exact Keeps.raise _ _ | exact Keeps.host _ _
    | exact Keeps.call _ _ | exact Keeps.ask _ _ | exact Keeps.workaround _
    | exact Keeps.floatNew _ _ | exact Keeps.wrapIm _ _ | exact Keeps.check _ _
    | exact Keeps.color _ _ | exact Keeps.raise_imlib_error _ _ _
    | exact Keeps.writeIm _ _ _ (by assumption)
    | apply Keeps.checkBind
    | apply Keeps.bind
    | intro _
    | dsimp only
    | split)

theorem image_get_border_keeps (i : Nat) (self : RValue) :
    Keeps i (image_get_border self) := by
  unfold image_get_border
  repeat' with_reducible (first
    | exact Keeps.pure _ _ | exact Keeps.raise _ _ | exact Keeps.host _ _
    | exact Keeps.call _ _ | exact Keeps.ask _ _ | exact Keeps.workaround _
    | exact Keeps.floatNew _ _ | exact Keeps.wrapIm _ _ | exact Keeps.check _ _
    | exact Keeps.color _ _ | exact Keeps.raise_imlib_error _ _ _
    | exact Keeps.writeIm _ _ _ (by assumption)
    | apply Keeps.checkBind
    | apply Keeps.bind
    | intro _
    | dsimp only
    | split)

theorem image_set_border_keeps (i : Nat) (val : RValue) (self : RValue) :
    Keeps i (image_set_border self val) := by
  unfold image_set_border
  repeat' with_reducible (first
    | exact Keeps.pure _ _ | exact Keeps.raise _ _ | exact Keeps.host _ _
    | exact Keeps.call _ _ | exact Keeps.ask _ _ | exact Keeps.workaround _
    | exact Keeps.floatNew _ _ | exact Keeps.wrapIm _ _ | exact Keeps.check _ _
    | exact Keeps.color _ _ | exact Keeps.raise_imlib_error _ _ _
    | exact Keeps.writeIm _ _ _ (by assumption)
    | apply Keeps.checkBind
    | apply Keeps.bind
    | intro _
    | dsimp only
    | split)

theorem image_get_format_keeps (i : Nat) (self : RValue) :
    Keeps i (image_get_format self) := by
  unfold image_get_format
  repeat' with_reducible (first
    | exact Keeps.pure _ _ | exact Keeps.raise _ _ | exact Keeps.host _ _
    | exact Keeps.call _ _ | exact Keeps.ask _ _ | exact Keeps.workaround _
    | exact Keeps.floatNew _ _ | exact Keeps.wrapIm _ _ | exact Keeps.check _ _
    | exact Keeps.color _ _ | exact Keeps.raise_imlib_error _ _ _
    | exact Keeps.writeIm _ _ _ (by assumption)
    | apply Keeps.checkBind
    | apply Keeps.bind
    | intro _
    | dsimp only
    | split)

theorem image_set_format_keeps (i : Nat) (val : RValue) (self : RValue) :
    Keeps i (image_set_format self val) := by
  unfold image_set_format
  repeat' with_reducible (first
    | exact Keeps.pure _ _ | exact Keeps.raise _ _ | exact Keeps.host _ _
    | exact Keeps.call _ _ | exact Keeps.ask _ _ | exact Keeps.workaround _
    | exact Keeps.floatNew _ _ | exact Keeps.wrapIm _ _ | exact Keeps.check _ _
    | exact Keeps.color _ _ | exact Keeps.raise_imlib_error _ _ _
    | exact Keeps.writeIm _ _ _ (by assumption)
    | apply Keeps.checkBind
    | apply Keeps.bind
    | intro _
    | dsimp only
    | split)

theorem image_irrelevant_format_keeps (i : Nat) (val : RValue) (self : RValue) :
    Keeps i (image_irrelevant_format self val) := by
  unfold image_irrelevant_format
  repeat' with_reducible (first
    | exact Keeps.pure _ _ | exact Keeps.raise _ _ | exact Keeps.host _ _
    | exact Keeps.call _ _ | exact Keeps.ask _ _ | exact Keeps.workaround _
    | exact Keeps.floatNew _ _ | exact Keeps.wrapIm _ _ | exact Keeps.check _ _
    | exact Keeps.color _ _ | exact Keeps.raise_imlib_error _ _ _
    | exact Keeps.writeIm _ _ _ (by assumption)
    | apply Keeps.checkBind
    | apply Keeps.bind
    | intro _
    | dsimp only
    | split)

theorem image_irrelevant_border_keeps (i : Nat) (val : RValue) (self : RValue) :
    Keeps i (image_irrelevant_border self val) := by
  unfold image_irrelevant_border
  repeat' with_reducible (first
    | exact Keeps.pure _ _ | exact Keeps.raise _ _ | exact Keeps.host _ _
    | exact Keeps.call _ _ | exact Keeps.ask _ _ | exact Keeps.workaround _
    | exact Keeps.floatNew _ _ | exact Keeps.wrapIm _ _ | exact Keeps.check _ _
    | exact Keeps.color _ _ | exact Keeps.raise_imlib_error _ _ _
    | exact Keeps.writeIm _ _ _ (by assumption)
    | apply Keeps.checkBind
    | apply Keeps.bind
    | intro _
    | dsimp only
    | split)

theorem image_irrelevant_alpha_keeps (i : Nat) (val : RValue) (self : RValue) :
    Keeps i (image_irrelevant_alpha self val) := by
  unfold image_irrelevant_alpha
  repeat' with_reducible (first
    | exact Keeps.pure _ _ | exact Keeps.raise _ _ | exact Keeps.host _ _
    | exact Keeps.call _ _ | exact Keeps.ask _ _ | exact Keeps.workaround _
    | exact Keeps.floatNew _ _ | exact Keeps.wrapIm _ _ | exact Keeps.check _ _
    | exact Keeps.color _ _ | exact Keeps.raise_imlib_error _ _ _
    | exact Keeps.writeIm _ _ _ (by assumption)
    | apply Keeps.checkBind
    | apply Keeps.bind
    | intro _
    | dsimp only
    | split)

theorem image_query_pixel_keeps (i : Nat) (x y : RValue) (self : RValue) :
    Keeps i (image_query_pixel self x y) := by
  unfold image_query_pixel
  repeat' with_reducible (first
    | exact Keeps.pure _ _ | exact Keeps.raise _ _ | exact Keeps.host _ _
    | exact Keeps.call _ _ | exact Keeps.ask _ _ | exact Keeps.workaround _
    | exact Keeps.floatNew _ _ | exact Keeps.wrapIm _ _ | exact Keeps.check _ _
    | exact Keeps.color _ _ | exact Keeps.raise_imlib_error _ _ _
    | exact Keeps.writeIm _ _ _ (by assumption)
    | apply Keeps.checkBind
    | apply Keeps.bind
    | intro _
    | dsimp only
    | split)

theorem image_query_pixel_hsva_keeps (i : Nat) (x y : RValue) (self : RValue) :
    Keeps i (image_query_pixel_hsva self x y) := by
  unfold image_query_pixel_hsva
  repeat' with_reducible (first
    | exact Keeps.pure _ _ | exact Keeps.raise _ _ | exact Keeps.host _ _
    | exact Keeps.call _ _ | exact Keeps.ask _ _ | exact Keeps.workaround _
    | exact Keeps.floatNew _ _ | exact Keeps.wrapIm _ _ | exact Keeps.check _ _
    | exact Keeps.color _ _ | exact Keeps.raise_imlib_error _ _ _
    | exact Keeps.writeIm _ _ _ (by assumption)
    | apply Keeps.checkBind
    | apply Keeps.bind
    | intro _
    | dsimp only
    | split)

theorem image_query_pixel_hlsa_keeps (i : Nat) (x y : RValue) (self : RValue) :
    Keeps i (image_query_pixel_hlsa self x y) := by
  unfold image_query_pixel_hlsa
  repeat' with_reducible (first
    | exact Keeps.pure _ _ | exact Keeps.raise _ _ | exact Keeps.host _ _
    | exact Keeps.call _ _ | exact Keeps.ask _ _ | exact Keeps.workaround _
    | exact Keeps.floatNew _ _ | exact Keeps.wrapIm _ _ | exact Keeps.check _ _
    | exact Keeps.color _ _ | exact Keeps.raise_imlib_error _ _ _
    | exact Keeps.writeIm _ _ _ (by assumption)
    | apply Keeps.checkBind
    | apply Keeps.bind
    | intro _
    | dsimp only
    | split)

theorem image_query_pixel_cmya_keeps (i : Nat) (x y : RValue) (self : RValue) :
    Keeps i (image_query_pixel_cmya self x y) := by
  unfold image_query_pixel_cmya
  repeat' with_reducible (first
    | exact Keeps.pure _ _ | exact Keeps.raise _ _ | exact Keeps.host _ _
    | exact Keeps.call _ _ | exact Keeps.ask _ _ | exact Keeps.workaround _
    | exact Keeps.floatNew _ _ | exact Keeps.wrapIm _ _ | exact Keeps.check _ _
    | exact Keeps.color _ _ | exact Keeps.raise_imlib_error _ _ _
    | exact Keeps.writeIm _ _ _ (by assumption)
    | apply Keeps.checkBind
    | apply Keeps.bind
    | intro _
    | dsimp only
    | split)

theorem image_crop_keeps (i : Nat) (argv : List RValue) (self : RValue) :
    Keeps i (image_crop argv self) := by
  unfold image_crop
  repeat' with_reducible (first
    | exact Keeps.pure _ _ | exact Keeps.raise _ _ | exact Keeps.host _ _
    | exact Keeps.call _ _ | exact Keeps.ask _ _ | exact Keeps.workaround _
    | exact Keeps.floatNew _ _ | exact Keeps.wrapIm _ _ | exact Keeps.check _ _
    | exact Keeps.color _ _ | exact Keeps.raise_imlib_error _ _ _
    | exact Keeps.writeIm _ _ _ (by assumption)
    | apply Keeps.checkBind
    | apply Keeps.bind
    | intro _
    | dsimp only
    | split)

theorem image_crop_inline_keeps (i : Nat) (argv : List RValue) (self : RValue) :
    Keeps i (image_crop_inline argv self) := by
  unfold image_crop_inline
  repeat' with_reducible (first
    | exact Keeps.pure _ _ | exact Keeps.raise _ _ | exact Keeps.host _ _
    | exact Keeps.call _ _ | exact Keeps.ask _ _ | exact Keeps.workaround _
    | exact Keeps.floatNew _ _ | exact Keeps.wrapIm _ _ | exact Keeps.check _ _
    | exact Keeps.color _ _ | exact Keeps.raise_imlib_error _ _ _
    | exact Keeps.writeIm _ _ _ (by assumption)
    | apply Keeps.checkBind
    | apply Keeps.bind
    | intro _
    | dsimp only
    | split)

theorem image_crop_scaled_keeps (i : Nat) (argv : List RValue) (self : RValue) :
    Keeps i (image_crop_scaled argv self) := by
  unfold image_crop_scaled
  repeat' with_reducible (first
    | exact Keeps.pure _ _ | exact Keeps.raise _ _ | exact Keeps.host _ _
    | exact Keeps.call _ _ | exact Keeps.ask _ _ | exact Keeps.workaround _
    | exact Keeps.floatNew _ _ | exact Keeps.wrapIm _ _ | exact Keeps.check _ _
    | exact Keeps.color _ _ | exact Keeps.raise_imlib_error _ _ _
    | exact Keeps.writeIm _ _ _ (by assumption)
    | apply Keeps.checkBind
    | apply Keeps.bind
    | intro _
    | dsimp only
    | split)

theorem image_crop_scaled_inline_keeps (i : Nat) (argv : List RValue) (self : RValue) :
    Keeps i (image_crop_scaled_inline argv self) := by
  unfold image_crop_scaled_inline
  repeat' with_reducible (first
    | exact Keeps.pure _ _ | exact Keeps.raise _ _ | exact Keeps.host _ _
    | exact Keeps.call _ _ | exact Keeps.ask _ _ | exact Keeps.workaround _
    | exact Keeps.floatNew _ _ | exact Keeps.wrapIm _ _ | exact Keeps.check _ _
    | exact Keeps.color _ _ | exact Keeps.raise_imlib_error _ _ _
    | exact Keeps.writeIm _ _ _ (by assumption)
    | apply Keeps.checkBind
    | apply Keeps.bind
    | intro _
    | dsimp only
    | split)

theorem image_flip_horizontal_keeps (i : Nat) (self : RValue) :
    Keeps i (image_flip_horizontal self) := by
  unfold image_flip_horizontal
  repeat' with_reducible (first
    | exact Keeps.pure _ _ | exact Keeps.raise _ _ | exact Keeps.host _ _
    | exact Keeps.call _ _ | exact Keeps.ask _ _ | exact Keeps.workaround _
    | exact Keeps.floatNew _ _ | exact Keeps.wrapIm _ _ | exact Keeps.check _ _
    | exact Keeps.color _ _ | exact Keeps.raise_imlib_error _ _ _
    | exact Keeps.writeIm _ _ _ (by assumption)
    | apply Keeps.checkBind
    | apply Keeps.bind
    | intro _
    | dsimp only
    | split)

theorem image_flip_horizontal_inline_keeps (i : Nat) (self : RValue) :
    Keeps i (image_flip_horizontal_inline self) := by
  unfold image_flip_horizontal_inline
  repeat' with_reducible (first
    | exact Keeps.pure _ _ | exact Keeps.raise _ _ | exact Keeps.host _ _
    | exact Keeps.call _ _ | exact Keeps.ask _ _ | exact Keeps.workaround _
    | exact Keeps.floatNew _ _ | exact Keeps.wrapIm _ _ | exact Keeps.check _ _
    | exact Keeps.color _ _ | exact Keeps.raise_imlib_error _ _ _
    | exact Keeps.writeIm _ _ _ (by assumption)
    | apply Keeps.checkBind
    | apply Keeps.bind
    | intro _
    | dsimp only
    | split)

theorem image_flip_vertical_keeps (i : Nat) (self : RValue) :
    Keeps i (image_flip_vertical self) := by
  unfold image_flip_vertical
  repeat' with_reducible (first
    | exact Keeps.pure _ _ | exact Keeps.raise _ _ | exact Keeps.host _ _
    | exact Keeps.call _ _ | exact Keeps.ask _ _ | exact Keeps.workaround _
    | exact Keeps.floatNew _ _ | exact Keeps.wrapIm _ _ | exact Keeps.check _ _
    | exact Keeps.color _ _ | exact Keeps.raise_imlib_error _ _ _
    | exact Keeps.writeIm _ _ _ (by assumption)
    | apply Keeps.checkBind
    | apply Keeps.bind
    | intro _
    | dsimp only
    | split)

theorem image_flip_vertical_inline_keeps (i : Nat) (self : RValue) :
    Keeps i (image_flip_vertical_inline self) := by
  unfold image_flip_vertical_inline
  repeat' with_reducible (first
    | exact Keeps.pure _ _ | exact Keeps.raise _ _ | exact Keeps.host _ _
    | exact Keeps.call _ _ | exact Keeps.ask _ _ | exact Keeps.workaround _
    | exact Keeps.floatNew _ _ | exact Keeps.wrapIm _ _ | exact Keeps.check _ _
    | exact Keeps.color _ _ | exact Keeps.raise_imlib_error _ _ _
    | exact Keeps.writeIm _ _ _ (by assumption)
    | apply Keeps.checkBind
    | apply Keeps.bind
    | intro _
    | dsimp only
    | split)

theorem image_flip_diagonal_keeps (i : Nat) (self : RValue) :
    Keeps i (image_flip_diagonal self) := by
  unfold image_flip_diagonal
  repeat' with_reducible (first
    | exact Keeps.pure _ _ | exact Keeps.raise _ _ | exact Keeps.host _ _
    | exact Keeps.call _ _ | exact Keeps.ask _ _ | exact Keeps.workaround _
    | exact Keeps.floatNew _ _ | exact Keeps.wrapIm _ _ | exact Keeps.check _ _
    | exact Keeps.color _ _ | exact Keeps.raise_imlib_error _ _ _
    | exact Keeps.writeIm _ _ _ (by assumption)
    | apply Keeps.checkBind
    | apply Keeps.bind
    | intro _
    | dsimp only
    | split)

theorem image_flip_diagonal_inline_keeps (i : Nat) (self : RValue) :
    Keeps i (image_flip_diagonal_inline self) := by
  unfold image_flip_diagonal_inline
  repeat' with_reducible (first
    | exact Keeps.pure _ _ | exact Keeps.raise _ _ | exact Keeps.host _ _
    | exact Keeps.call _ _ | exact Keeps.ask _ _ | exact Keeps.workaround _
    | exact Keeps.floatNew _ _ | exact Keeps.wrapIm _ _ | exact Keeps.check _ _
    | exact Keeps.color _ _ | exact Keeps.raise_imlib_error _ _ _
    | exact Keeps.writeIm _ _ _ (by assumption)
    | apply Keeps.checkBind
    | apply Keeps.bind
    | intro _
    | dsimp only
    | split)

theorem image_orientate_keeps (i : Nat) (val : RValue) (self : RValue) :
    Keeps i (image_orientate self val) := by
  unfold image_orientate
  repeat' with_reducible (first
    | exact Keeps.pure _ _ | exact Keeps.raise _ _ | exact Keeps.host _ _
    | exact Keeps.call _ _ | exact Keeps.ask _ _ | exact Keeps.workaround _
    | exact Keeps.floatNew _ _ | exact Keeps.wrapIm _ _ | exact Keeps.check _ _
    | exact Keeps.color _ _ | exact Keeps.raise_imlib_error _ _ _
    | exact Keeps.writeIm _ _ _ (by assumption)
    | apply Keeps.checkBind
    | apply Keeps.bind
    | intro _
    | dsimp only
    | split)

theorem image_orientate_inline_keeps (i : Nat) (val : RValue) (self : RValue) :
    Keeps i (image_orientate_inline self val) := by
  unfold image_orientate_inline
  repeat' with_reducible (first
    | exact Keeps.pure _ _ | exact Keeps.raise _ _ | exact Keeps.host _ _
    | exact Keeps.call _ _ | exact Keeps.ask _ _ | exact Keeps.workaround _
    | exact Keeps.floatNew _ _ | exact Keeps.wrapIm _ _ | exact Keeps.check _ _
    | exact Keeps.color _ _ | exact Keeps.raise_imlib_error _ _ _
    | exact Keeps.writeIm _ _ _ (by assumption)
    | apply Keeps.checkBind
    | apply Keeps.bind
    | intro _
    | dsimp only
    | split)

theorem image_blur_keeps (i : Nat) (val : RValue) (self : RValue) :
    Keeps i (image_blur self val) := by
  unfold image_blur
  repeat' with_reducible (first
    | exact Keeps.pure _ _ | exact Keeps.raise _ _ | exact Keeps.host _ _
    | exact Keeps.call _ _ | exact Keeps.ask _ _ | exact Keeps.workaround _
    | exact Keeps.floatNew _ _ | exact Keeps.wrapIm _ _ | exact Keeps.check _ _
    | exact Keeps.color _ _ | exact Keeps.raise_imlib_error _ _ _
    | exact Keeps.writeIm _ _ _ (by assumption)
    | apply Keeps.checkBind
    | apply Keeps.bind
    | intro _
    | dsimp only
    | split)

theorem image_blur_inline_keeps (i : Nat) (val : RValue) (self : RValue) :
    Keeps i (image_blur_inline self val) := by
  unfold image_blur_inline
  repeat' with_reducible (first
    | exact Keeps.pure _ _ | exact Keeps.raise _ _ | exact Keeps.host _ _
    | exact Keeps.call _ _ | exact Keeps.ask _ _ | exact Keeps.workaround _
    | exact Keeps.floatNew _ _ | exact Keeps.wrapIm _ _ | exact Keeps.check _ _
    | exact Keeps.color _ _ | exact Keeps.raise_imlib_error _ _ _
    | exact Keeps.writeIm _ _ _ (by assumption)
    | apply Keeps.checkBind
    | apply Keeps.bind
    | intro _
    | dsimp only
    | split)

theorem image_sharpen_keeps (i : Nat) (val : RValue) (self : RValue) :
    Keeps i (image_sharpen self val) := by
  unfold image_sharpen
  repeat' with_reducible (first
    | exact Keeps.pure _ _ | exact Keeps.raise _ _ | exact Keeps.host _ _
    | exact Keeps.call _ _ | exact Keeps.ask _ _ | exact Keeps.workaround _
    | exact Keeps.floatNew _ _ | exact Keeps.wrapIm _ _ | exact Keeps.check _ _
    | exact Keeps.color _ _ | exact Keeps.raise_imlib_error _ _ _
    | exact Keeps.writeIm _ _ _ (by assumption)
    | apply Keeps.checkBind
    | apply Keeps.bind
    | intro _
    | dsimp only
    | split)

theorem image_sharpen_inline_keeps (i : Nat) (val : RValue) (self : RValue) :
    Keeps i (image_sharpen_inline self val) := by
  unfold image_sharpen_inline
  repeat' with_reducible (first
    | exact Keeps.pure _ _ | exact Keeps.raise _ _ | exact Keeps.host _ _
    | exact Keeps.call _ _ | exact Keeps.ask _ _ | exact Keeps.workaround _
    | exact Keeps.floatNew _ _ | exact Keeps.wrapIm _ _ | exact Keeps.check _ _
    | exact Keeps.color _ _ | exact Keeps.raise_imlib_error _ _ _
    | exact Keeps.writeIm _ _ _ (by assumption)
    | apply Keeps.checkBind
    | apply Keeps.bind
    | intro _
    | dsimp only
    | split)

theorem image_tile_horizontal_keeps (i : Nat) (self : RValue) :
    Keeps i (image_tile_horizontal self) := by
  unfold image_tile_horizontal
  repeat' with_reducible (first
    | exact Keeps.pure _ _ | exact Keeps.raise _ _ | exact Keeps.host _ _
    | exact Keeps.call _ _ | exact Keeps.ask _ _ | exact Keeps.workaround _
    | exact Keeps.floatNew _ _ | exact Keeps.wrapIm _ _ | exact Keeps.check _ _
    | exact Keeps.color _ _ | exact Keeps.raise_imlib_error _ _ _
    | exact Keeps.writeIm _ _ _ (by assumption)
    | apply Keeps.checkBind
    | apply Keeps.bind
    | intro _
    | dsimp only
    | split)

theorem image_tile_horizontal_inline_keeps (i : Nat) (self : RValue) :
    Keeps i (image_tile_horizontal_inline self) := by
  unfold image_tile_horizontal_inline
  repeat' with_reducible (first
    | exact Keeps.pure _ _ | exact Keeps.raise _ _ | exact Keeps.host _ _
    | exact Keeps.call _ _ | exact Keeps.ask _ _ | exact Keeps.workaround _
    | exact Keeps.floatNew _ _ | exact Keeps.wrapIm _ _ | exact Keeps.check _ _
    | exact Keeps.color _ _ | exact Keeps.raise_imlib_error _ _ _
    | exact Keeps.writeIm _ _ _ (by assumption)
    | apply Keeps.checkBind
    | apply Keeps.bind
    | intro _
    | dsimp only
    | split)

theorem image_tile_vertical_keeps (i : Nat) (self : RValue) :
    Keeps i (image_tile_vertical self) := by
  unfold image_tile_vertical
  repeat' with_reducible (first
    | exact Keeps.pure _ _ | exact Keeps.raise _ _ | exact Keeps.host _ _
    | exact Keeps.call _ _ | exact Keeps.ask _ _ | exact Keeps.workaround _
    | exact Keeps.floatNew _ _ | exact Keeps.wrapIm _ _ | exact Keeps.check _ _
    | exact Keeps.color _ _ | exact Keeps.raise_imlib_error _ _ _
    | exact Keeps.writeIm _ _ _ (by assumption)
    | apply Keeps.checkBind
    | apply Keeps.bind
    | intro _
    | dsimp only
    | split)

theorem image_tile_vertical_inline_keeps (i : Nat) (self : RValue) :
    Keeps i (image_tile_vertical_inline self) := by
  unfold image_tile_vertical_inline
  repeat' with_reducible (first
    | exact Keeps.pure _ _ | exact Keeps.raise _ _ | exact Keeps.host _ _
    | exact Keeps.call _ _ | exact Keeps.ask _ _ | exact Keeps.workaround _
    | exact Keeps.floatNew _ _ | exact Keeps.wrapIm _ _ | exact Keeps.check _ _
    | exact Keeps.color _ _ | exact Keeps.raise_imlib_error _ _ _
    | exact Keeps.writeIm _ _ _ (by assumption)
    | apply Keeps.checkBind
    | apply Keeps.bind
    | intro _
    | dsimp only
    | split)

theorem image_tile_keeps (i : Nat) (self : RValue) :
    Keeps i (image_tile self) := by
  unfold image_tile
  repeat' with_reducible (first
    | exact Keeps.pure _ _ | exact Keeps.raise _ _ | exact Keeps.host _ _
    | exact Keeps.call _ _ | exact Keeps.ask _ _ | exact Keeps.workaround _
    | exact Keeps.floatNew _ _ | exact Keeps.wrapIm _ _ | exact Keeps.check _ _
    | exact Keeps.color _ _ | exact Keeps.raise_imlib_error _ _ _
    | exact Keeps.writeIm _ _ _ (by assumption)
    | apply Keeps.checkBind
    | apply Keeps.bind
    | intro _
    | dsimp only
    | split)

theorem image_tile_inline_keeps (i : Nat) (self : RValue) :
    Keeps i (image_tile_inline self) := by
  unfold image_tile_inline
  repeat' with_reducible (first
    | exact Keeps.pure _ _ | exact Keeps.raise _ _ | exact Keeps.host _ _
    | exact Keeps.call _ _ | exact Keeps.ask _ _ | exact Keeps.workaround _
    | exact Keeps.floatNew _ _ | exact Keeps.wrapIm _ _ | exact Keeps.check _ _
    | exact Keeps.color _ _ | exact Keeps.raise_imlib_error _ _ _
    | exact Keeps.writeIm _ _ _ (by assumption)
    | apply Keeps.checkBind
    | apply Keeps.bind
    | intro _
    | dsimp only
    | split)

theorem image_draw_pixel_keeps (i : Nat) (argv : List RValue) (self : RValue) :
    Keeps i (image_draw_pixel argv self) := by
  unfold image_draw_pixel
  repeat' with_reducible (first
    | exact Keeps.pure _ _ | exact Keeps.raise _ _ | exact Keeps.host _ _
    | exact Keeps.call _ _ | exact Keeps.ask _ _ | exact Keeps.workaround _
    | exact Keeps.floatNew _ _ | exact Keeps.wrapIm _ _ | exact Keeps.check _ _
    | exact Keeps.color _ _ | exact Keeps.raise_imlib_error _ _ _
    | exact Keeps.writeIm _ _ _ (by assumption)
    | apply Keeps.checkBind
    | apply Keeps.bind
    | intro _
    | dsimp only
    | split)

theorem image_draw_line_keeps (i : Nat) (argv : List RValue) (self : RValue) :
    Keeps i (image_draw_line argv self) := by
  unfold image_draw_line
  repeat' with_reducible (first
    | exact Keeps.pure _ _ | exact Keeps.raise _ _ | exact Keeps.host _ _
    | exact Keeps.call _ _ | exact Keeps.ask _ _ | exact Keeps.workaround _
    | exact Keeps.floatNew _ _ | exact Keeps.wrapIm _ _ | exact Keeps.check _ _
    | exact Keeps.color _ _ | exact Keeps.raise_imlib_error _ _ _
    | exact Keeps.writeIm _ _ _ (by assumption)
    | apply Keeps.checkBind
    | apply Keeps.bind
    | intro _
    | dsimp only
    | split)

theorem image_draw_rect_keeps (i : Nat) (argv : List RValue) (self : RValue) :
    Keeps i (image_draw_rect argv self) := by
  unfold image_draw_rect
  repeat' with_reducible (first
    | exact Keeps.pure _ _ | exact Keeps.raise _ _ | exact Keeps.host _ _
    | exact Keeps.call _ _ | exact Keeps.ask _ _ | exact Keeps.workaround _
    | exact Keeps.floatNew _ _ | exact Keeps.wrapIm _ _ | exact Keeps.check _ _
    | exact Keeps.color _ _ | exact Keeps.raise_imlib_error _ _ _
    | exact Keeps.writeIm _ _ _ (by assumption)
    | apply Keeps.checkBind
    | apply Keeps.bind
    | intro _
    | dsimp only
    | split)

theorem image_fill_rect_keeps (i : Nat) (argv : List RValue) (self : RValue) :
    Keeps i (image_fill_rect argv self) := by
  unfold image_fill_rect
  repeat' with_reducible (first
    | exact Keeps.pure _ _ | exact Keeps.raise _ _ | exact Keeps.host _ _
    | exact Keeps.call _ _ | exact Keeps.ask _ _ | exact Keeps.workaround _
    | exact Keeps.floatNew _ _ | exact Keeps.wrapIm _ _ | exact Keeps.check _ _
    | exact Keeps.color _ _ | exact Keeps.raise_imlib_error _ _ _
    | exact Keeps.writeIm _ _ _ (by assumption)
    | apply Keeps.checkBind
    | apply Keeps.bind
    | intro _
    | dsimp only
    | split)

theorem image_copy_alpha_keeps (i : Nat) (argv : List RValue) (self : RValue) :
    Keeps i (image_copy_alpha argv self) := by
  unfold image_copy_alpha
  repeat' with_reducible (first
    | exact Keeps.pure _ _ | exact Keeps.raise _ _ | exact Keeps.host _ _
    | exact Keeps.call _ _ | exact Keeps.ask _ _ | exact Keeps.workaround _
    | exact Keeps.floatNew _ _ | exact Keeps.wrapIm _ _ | exact Keeps.check _ _
    | exact Keeps.color _ _ | exact Keeps.raise_imlib_error _ _ _
    | exact Keeps.writeIm _ _ _ (by assumption)
    | apply Keeps.checkBind
    | apply Keeps.bind
    | intro _
    | dsimp only
    | split)

theorem image_copy_alpha_rect_keeps (i : Nat) (argv : List RValue) (self : RValue) :
    Keeps i (image_copy_alpha_rect argv self) := by
  unfold image_copy_alpha_rect
  repeat' with_reducible (first
    | exact Keeps.pure _ _ | exact Keeps.raise _ _ | exact Keeps.host _ _
    | exact Keeps.call _ _ | exact Keeps.ask _ _ | exact Keeps.workaround _
    | exact Keeps.floatNew _ _ | exact Keeps.wrapIm _ _ | exact Keeps.check _ _
    | exact Keeps.color _ _ | exact Keeps.raise_imlib_error _ _ _
    | exact Keeps.writeIm _ _ _ (by assumption)
    | apply Keeps.checkBind
    | apply Keeps.bind
    | intro _
    | dsimp only
    | split)

theorem image_scroll_rect_keeps (i : Nat) (argv : List RValue) (self : RValue) :
    Keeps i (image_scroll_rect argv self) := by
  unfold image_scroll_rect
  repeat' with_reducible (first
    | exact Keeps.pure _ _ | exact Keeps.raise _ _ | exact Keeps.host _ _
    | exact Keeps.call _ _ | exact Keeps.ask _ _ | exact Keeps.workaround _
    | exact Keeps.floatNew _ _ | exact Keeps.wrapIm _ _ | exact Keeps.check _ _
    | exact Keeps.color _ _ | exact Keeps.raise_imlib_error _ _ _
    | exact Keeps.writeIm _ _ _ (by assumption)
    | apply Keeps.checkBind
    | apply Keeps.bind
    | intro _
    | dsimp only
    | split)

theorem image_copy_rect_keeps (i : Nat) (argv : List RValue) (self : RValue) :
    Keeps i (image_copy_rect argv self) := by
  unfold image_copy_rect
  repeat' with_reducible (first
    | exact Keeps.pure _ _ | exact Keeps.raise _ _ | exact Keeps.host _ _
    | exact Keeps.call _ _ | exact Keeps.ask _ _ | exact Keeps.workaround _
    | exact Keeps.floatNew _ _ | exact Keeps.wrapIm _ _ | exact Keeps.check _ _
    | exact Keeps.color _ _ | exact Keeps.raise_imlib_error _ _ _
    | exact Keeps.writeIm _ _ _ (by assumption)
    | apply Keeps.checkBind
    | apply Keeps.bind
    | intro _
    | dsimp only
    | split)

theorem image_draw_ellipse_keeps (i : Nat) (argv : List RValue) (self : RValue) :
    Keeps i (image_draw_ellipse argv self) := by
  unfold image_draw_ellipse
  repeat' with_reducible (first
    | exact Keeps.pure _ _ | exact Keeps.raise _ _ | exact Keeps.host _ _
    | exact Keeps.call _ _ | exact Keeps.ask _ _ | exact Keeps.workaround _
    | exact Keeps.floatNew _ _ | exact Keeps.wrapIm _ _ | exact Keeps.check _ _
    | exact Keeps.color _ _ | exact Keeps.raise_imlib_error _ _ _
    | exact Keeps.writeIm _ _ _ (by assumption)
    | apply Keeps.checkBind
    | apply Keeps.bind
    | intro _
    | dsimp only
    | split)

theorem image_fill_ellipse_keeps (i : Nat) (argv : List RValue) (self : RValue) :
    Keeps i (image_fill_ellipse argv self) := by
  unfold image_fill_ellipse
  repeat' with_reducible (first
    | exact Keeps.pure _ _ | exact Keeps.raise _ _ | exact Keeps.host _ _
    | exact Keeps.call _ _ | exact Keeps.ask _ _ | exact Keeps.workaround _
    | exact Keeps.floatNew _ _ | exact Keeps.wrapIm _ _ | exact Keeps.check _ _
    | exact Keeps.color _ _ | exact Keeps.raise_imlib_error _ _ _
    | exact Keeps.writeIm _ _ _ (by assumption)
    | apply Keeps.checkBind
    | apply Keeps.bind
    | intro _
    | dsimp only
    | split)

theorem image_draw_text_keeps (i : Nat) (argv : List RValue) (self : RValue) :
    Keeps i (image_draw_text argv self) := by
  unfold image_draw_text
  repeat' with_reducible (first
    | exact Keeps.pure _ _ | exact Keeps.raise _ _ | exact Keeps.host _ _
    | exact Keeps.call _ _ | exact Keeps.ask _ _ | exact Keeps.workaround _
    | exact Keeps.floatNew _ _ | exact Keeps.wrapIm _ _ | exact Keeps.check _ _
    | exact Keeps.color _ _ | exact Keeps.raise_imlib_error _ _ _
    | exact Keeps.writeIm _ _ _ (by assumption)
    | apply Keeps.checkBind
    | apply Keeps.bind
    | intro _
    | dsimp only
    | split)

theorem image_fill_gradient_keeps (i : Nat) (argv : List RValue) (self : RValue) :
    Keeps i (image_fill_gradient argv self) := by
  unfold image_fill_gradient
  repeat' with_reducible (first
    | exact Keeps.pure _ _ | exact Keeps.raise _ _ | exact Keeps.host _ _
    | exact Keeps.call _ _ | exact Keeps.ask _ _ | exact Keeps.workaround _
    | exact Keeps.floatNew _ _ | exact Keeps.wrapIm _ _ | exact Keeps.check _ _
    | exact Keeps.color _ _ | exact Keeps.raise_imlib_error _ _ _
    | exact Keeps.writeIm _ _ _ (by assumption)
    | apply Keeps.checkBind
    | apply Keeps.bind
    | intro _
    | dsimp only
    | split)

theorem image_draw_poly_keeps (i : Nat) (argv : List RValue) (self : RValue) :
    Keeps i (image_draw_poly argv self) := by
  unfold image_draw_poly
  repeat' with_reducible (first
    | exact Keeps.pure _ _ | exact Keeps.raise _ _ | exact Keeps.host _ _
    | exact Keeps.call _ _ | exact Keeps.ask _ _ | exact Keeps.workaround _
    | exact Keeps.floatNew _ _ | exact Keeps.wrapIm _ _ | exact Keeps.check _ _
    | exact Keeps.color _ _ | exact Keeps.raise_imlib_error _ _ _
    | exact Keeps.writeIm _ _ _ (by assumption)
    | apply Keeps.checkBind
    | apply Keeps.bind
    | intro _
    | dsimp only
    | split)

theorem image_fill_poly_keeps (i : Nat) (argv : List RValue) (self : RValue) :
    Keeps i (image_fill_poly argv self) := by
  unfold image_fill_poly
  repeat' with_reducible (first
    | exact Keeps.pure _ _ | exact Keeps.raise _ _ | exact Keeps.host _ _
    | exact Keeps.call _ _ | exact Keeps.ask _ _ | exact Keeps.workaround _
    | exact Keeps.floatNew _ _ | exact Keeps.wrapIm _ _ | exact Keeps.check _ _
    | exact Keeps.color _ _ | exact Keeps.raise_imlib_error _ _ _
    | exact Keeps.writeIm _ _ _ (by assumption)
    | apply Keeps.checkBind
    | apply Keeps.bind
    | intro _
    | dsimp only
    | split)

theorem image_blend_image_inline_keeps (i : Nat) (argv : List RValue) (self : RValue) :
    Keeps i (image_blend_image_inline argv self) := by
  unfold image_blend_image_inline
  repeat' with_reducible (first
    | exact Keeps.pure _ _ | exact Keeps.raise _ _ | exact Keeps.host _ _
    | exact Keeps.call _ _ | exact Keeps.ask _ _ | exact Keeps.workaround _
    | exact Keeps.floatNew _ _ | exact Keeps.wrapIm _ _ | exact Keeps.check _ _
    | exact Keeps.color _ _ | exact Keeps.raise_imlib_error _ _ _
    | exact Keeps.writeIm _ _ _ (by assumption)
    | apply Keeps.checkBind
    | apply Keeps.bind
    | intro _
    | dsimp only
    | split)

theorem image_blend_image_keeps (i : Nat) (argv : List RValue) (self : RValue) :
    Keeps i (image_blend_image argv self) := by
  unfold image_blend_image image_blend_image_inline
  repeat' with_reducible (first
    | exact Keeps.pure _ _ | exact Keeps.raise _ _ | exact Keeps.host _ _
    | exact Keeps.call _ _ | exact Keeps.ask _ _ | exact Keeps.workaround _
    | exact Keeps.floatNew _ _ | exact Keeps.wrapIm _ _ | exact Keeps.check _ _
    | exact Keeps.color _ _ | exact Keeps.raise_imlib_error _ _ _
    | exact Keeps.writeIm _ _ _ (by assumption)
    | apply Keeps.checkBind
    | apply Keeps.bind
    | intro _
    | dsimp only
    | split)

theorem image_rotate_keeps (i : Nat) (val : RValue) (self : RValue) :
    Keeps i (image_rotate self val) := by
  unfold image_rotate
  repeat' with_reducible (first
    | exact Keeps.pure _ _ | exact Keeps.raise _ _ | exact Keeps.host _ _
    | exact Keeps.call _ _ | exact Keeps.ask _ _ | exact Keeps.workaround _
    | exact Keeps.floatNew _ _ | exact Keeps.wrapIm _ _ | exact Keeps.check _ _
    | exact Keeps.color _ _ | exact Keeps.raise_imlib_error _ _ _
    | exact Keeps.writeIm _ _ _ (by assumption)
    | apply Keeps.checkBind
    | apply Keeps.bind
    | intro _
    | dsimp only
    | split)

theorem image_rotate_inline_keeps (i : Nat) (val : RValue) (self : RValue) :
    Keeps i (image_rotate_inline self val) := by
  unfold image_rotate_inline
  repeat' with_reducible (first
    | exact Keeps.pure _ _ | exact Keeps.raise _ _ | exact Keeps.host _ _
    | exact Keeps.call _ _ | exact Keeps.ask _ _ | exact Keeps.workaround _
    | exact Keeps.floatNew _ _ | exact Keeps.wrapIm _ _ | exact Keeps.check _ _
    | exact Keeps.color _ _ | exact Keeps.raise_imlib_error _ _ _
    | exact Keeps.writeIm _ _ _ (by assumption)
    | apply Keeps.checkBind
    | apply Keeps.bind
    | intro _
    | dsimp only
    | split)

theorem image_clone_keeps (i : Nat) (self : RValue) :
    Keeps i (image_clone self) := by
  unfold image_clone
  repeat' with_reducible (first
    | exact Keeps.pure _ _ | exact Keeps.raise _ _ | exact Keeps.host _ _
    | exact Keeps.call _ _ | exact Keeps.ask _ _ | exact Keeps.workaround _
    | exact Keeps.floatNew _ _ | exact Keeps.wrapIm _ _ | exact Keeps.check _ _
    | exact Keeps.color _ _ | exact Keeps.raise_imlib_error _ _ _
    | exact Keeps.writeIm _ _ _ (by assumption)
    | apply Keeps.checkBind
    | apply Keeps.bind
    | intro _
    | dsimp only
    | split)

theorem image_clear_keeps (i : Nat) (self : RValue) :
    Keeps i (image_clear self) := by
  unfold image_clear
  repeat' with_reducible (first
    | exact Keeps.pure _ _ | exact Keeps.raise _ _ | exact Keeps.host _ _
    | exact Keeps.call _ _ | exact Keeps.ask _ _ | exact Keeps.workaround _
    | exact Keeps.floatNew _ _ | exact Keeps.wrapIm _ _ | exact Keeps.check _ _
    | exact Keeps.color _ _ | exact Keeps.raise_imlib_error _ _ _
    | exact Keeps.writeIm _ _ _ (by assumption)
    | apply Keeps.checkBind
    | apply Keeps.bind
    | intro _
    | dsimp only
    | split)

theorem image_clear_color_keeps (i : Nat) (val : RValue) (self : RValue) :
    Keeps i (image_clear_color self val) := by
  unfold image_clear_color
  repeat' with_reducible (first
    | exact Keeps.pure _ _ | exact Keeps.raise _ _ | exact Keeps.host _ _
    | exact Keeps.call _ _ | exact Keeps.ask _ _ | exact Keeps.workaround _
    | exact Keeps.floatNew _ _ | exact Keeps.wrapIm _ _ | exact Keeps.check _ _
    | exact Keeps.color _ _ | exact Keeps.raise_imlib_error _ _ _
    | exact Keeps.writeIm _ _ _ (by assumption)
    | apply Keeps.checkBind
    | apply Keeps.bind
    | intro _
    | dsimp only
    | split)

theorem image_clear_color_inline_keeps (i : Nat) (val : RValue) (self : RValue) :
    Keeps i (image_clear_color_inline self val) := by
  unfold image_clear_color_inline
  repeat' with_reducible (first
    | exact Keeps.pure _ _ | exact Keeps.raise _ _ | exact Keeps.host _ _
    | exact Keeps.call _ _ | exact Keeps.ask _ _ | exact Keeps.workaround _
    | exact Keeps.floatNew _ _ | exact Keeps.wrapIm _ _ | exact Keeps.check _ _
    | exact Keeps.color _ _ | exact Keeps.raise_imlib_error _ _ _
    | exact Keeps.writeIm _ _ _ (by assumption)
    | apply Keeps.checkBind
    | apply Keeps.bind
    | intro _
    | dsimp only
    | split)

theorem image_filter_keeps (i : Nat) (val : RValue) (self : RValue) :
    Keeps i (image_filter self val) := by
  unfold image_filter image_static_filter image_script_filter
  repeat' with_reducible (first
    | exact Keeps.pure _ _ | exact Keeps.raise _ _ | exact Keeps.host _ _
    | exact Keeps.call _ _ | exact Keeps.ask _ _ | exact Keeps.workaround _
    | exact Keeps.floatNew _ _ | exact Keeps.wrapIm _ _ | exact Keeps.check _ _
    | exact Keeps.color _ _ | exact Keeps.raise_imlib_error _ _ _
    | exact Keeps.writeIm _ _ _ (by assumption)
    | apply Keeps.checkBind
    | apply Keeps.bind
    | intro _
    | dsimp only
    | split)

theorem image_static_filter_keeps (i : Nat) (val : RValue) (self : RValue) :
    Keeps i (image_static_filter self val) := by
  unfold image_static_filter
  repeat' with_reducible (first
    | exact Keeps.pure _ _ | exact Keeps.raise _ _ | exact Keeps.host _ _
    | exact Keeps.call _ _ | exact Keeps.ask _ _ | exact Keeps.workaround _
    | exact Keeps.floatNew _ _ | exact Keeps.wrapIm _ _ | exact Keeps.check _ _
    | exact Keeps.color _ _ | exact Keeps.raise_imlib_error _ _ _
    | exact Keeps.writeIm _ _ _ (by assumption)
    | apply Keeps.checkBind
    | apply Keeps.bind
    | intro _
    | dsimp only
    | split)

theorem image_script_filter_keeps (i : Nat) (val : RValue) (self : RValue) :
    Keeps i (image_script_filter self val) := by
  unfold image_script_filter
  repeat' with_reducible (first
    | exact Keeps.pure _ _ | exact Keeps.raise _ _ | exact Keeps.host _ _
    | exact Keeps.call _ _ | exact Keeps.ask _ _ | exact Keeps.workaround _
    | exact Keeps.floatNew _ _ | exact Keeps.wrapIm _ _ | exact Keeps.check _ _
    | exact Keeps.color _ _ | exact Keeps.raise_imlib_error _ _ _
    | exact Keeps.writeIm _ _ _ (by assumption)
    | apply Keeps.checkBind
    | apply Keeps.bind
    | intro _
    | dsimp only
    | split)

theorem image_attach_val_keeps (i : Nat) (key val : RValue) (self : RValue) :
    Keeps i (image_attach_val self key val) := by
  unfold image_attach_val
  repeat' with_reducible (first
    | exact Keeps.pure _ _ | exact Keeps.raise _ _ | exact Keeps.host _ _
    | exact Keeps.call _ _ | exact Keeps.ask _ _ | exact Keeps.workaround _
    | exact Keeps.floatNew _ _ | exact Keeps.wrapIm _ _ | exact Keeps.check _ _
    | exact Keeps.color _ _ | exact Keeps.raise_imlib_error _ _ _
    | exact Keeps.writeIm _ _ _ (by assumption)
    | apply Keeps.checkBind
    | apply Keeps.bind
    | intro _
    | dsimp only
    | split)

theorem image_get_attach_val_keeps (i : Nat) (val : RValue) (self : RValue) :
    Keeps i (image_get_attach_val self val) := by
  unfold image_get_attach_val
  repeat' with_reducible (first
    | exact Keeps.pure _ _ | exact Keeps.raise _ _ | exact Keeps.host _ _
    | exact Keeps.call _ _ | exact Keeps.ask _ _ | exact Keeps.workaround _
    | exact Keeps.floatNew _ _ | exact Keeps.wrapIm _ _ | exact Keeps.check _ _
    | exact Keeps.color _ _ | exact Keeps.raise_imlib_error _ _ _
    | exact Keeps.writeIm _ _ _ (by assumption)
    | apply Keeps.checkBind
    | apply Keeps.bind
    | intro _
    | dsimp only
    | split)

theorem image_rm_attach_val_keeps (i : Nat) (val : RValue) (self : RValue) :
    Keeps i (image_rm_attach_val self val) := by
  unfold image_rm_attach_val
  repeat' with_reducible (first
    | exact Keeps.pure _ _ | exact Keeps.raise _ _ | exact Keeps.host _ _
    | exact Keeps.call _ _ | exact Keeps.ask _ _ | exact Keeps.workaround _
    | exact Keeps.floatNew _ _ | exact Keeps.wrapIm _ _ | exact Keeps.check _ _
    | exact Keeps.color _ _ | exact Keeps.raise_imlib_error _ _ _
    | exact Keeps.writeIm _ _ _ (by assumption)
    | apply Keeps.checkBind
    | apply Keeps.bind
    | intro _
    | dsimp only
    | split)

/-- No method rebinds a deleted wrapper, whatever its receiver and its
arguments. -/
theorem ImageOp.run_keeps (i : Nat) (op : ImageOp) (self : RValue) :
    Keeps i (op.run self) := by
  cases op with
  | save val => exact image_save_keeps i val self
  | save_image val => exact image_save_image_keeps i val self
  | save_with_error_return val => exact image_save_with_error_return_keeps i val self
  | delete argv => exact image_delete_keeps i argv self
  | width => exact image_width_keeps i self
  | height => exact image_height_keeps i self
  | filename => exact image_filename_keeps i self
  | data => exact image_data_keeps i self
  | data_ro => exact image_data_ro_keeps i self
  | put_data val => exact image_put_data_keeps i val self
  | has_alpha => exact image_has_alpha_keeps i self
  | set_has_alpha val => exact image_set_has_alpha_keeps i val self
  | changes_on_disk => exact image_changes_on_disk_keeps i self
  | get_border => exact image_get_border_keeps i self
  | set_border val => exact image_set_border_keeps i val self
  | get_format => exact image_get_format_keeps i self
  | set_format val => exact image_set_format_keeps i val self
  | irrelevant_format val => exact image_irrelevant_format_keeps i val self
  | irrelevant_border val => exact image_irrelevant_border_keeps i val self
  | irrelevant_alpha val => exact image_irrelevant_alpha_keeps i val self
  | query_pixel x y => exact image_query_pixel_keeps i x y self
  | query_pixel_hsva x y => exact image_query_pixel_hsva_keeps i x y self
  | query_pixel_hlsa x y => exact image_query_pixel_hlsa_keeps i x y self
  | query_pixel_cmya x y => exact image_query_pixel_cmya_keeps i x y self
  | crop argv => exact image_crop_keeps i argv self
  | crop_inline argv => exact image_crop_inline_keeps i argv self
  | crop_scaled argv => exact image_crop_scaled_keeps i argv self
  | crop_scaled_inline argv => exact image_crop_scaled_inline_keeps i argv self
  | flip_horizontal => exact image_flip_horizontal_keeps i self
  | flip_horizontal_inline => exact image_flip_horizontal_inline_keeps i self
  | flip_vertical => exact image_flip_vertical_keeps i self
  | flip_vertical_inline => exact image_flip_vertical_inline_keeps i self
  | flip_diagonal => exact image_flip_diagonal_keeps i self
  | flip_diagonal_inline => exact image_flip_diagonal_inline_keeps i self
  | orientate val => exact image_orientate_keeps i val self
  | orientate_inline val => exact image_orientate_inline_keeps i val self
  | blur val => exact image_blur_keeps i val self
  | blur_inline val => exact image_blur_inline_keeps i val self
  | sharpen val => exact image_sharpen_keeps i val self
  | sharpen_inline val => exact image_sharpen_inline_keeps i val self
  | tile_horizontal => exact image_tile_horizontal_keeps i self
  | tile_horizontal_inline => exact image_tile_horizontal_inline_keeps i self
  | tile_vertical => exact image_tile_vertical_keeps i self
  | tile_vertical_inline => exact image_tile_vertical_inline_keeps i self
  | tile => exact image_tile_keeps i self
  | tile_inline => exact image_tile_inline_keeps i self
  | draw_pixel argv => exact image_draw_pixel_keeps i argv self
  | draw_line argv => exact image_draw_line_keeps i argv self
  | draw_rect argv => exact image_draw_rect_keeps i argv self
  | fill_rect argv => exact image_fill_rect_keeps i argv self
  | copy_alpha argv => exact image_copy_alpha_keeps i argv self
  | copy_alpha_rect argv => exact image_copy_alpha_rect_keeps i argv self
  | scroll_rect argv => exact image_scroll_rect_keeps i argv self
  | copy_rect argv => exact image_copy_rect_keeps i argv self
  | draw_ellipse argv => exact image_draw_ellipse_keeps i argv self
  | fill_ellipse argv => exact image_fill_ellipse_keeps i argv self
  | draw_text argv => exact image_draw_text_keeps i argv self
  | fill_gradient argv => exact image_fill_gradient_keeps i argv self
  | draw_poly argv => exact image_draw_poly_keeps i argv self
  | fill_poly argv => exact image_fill_poly_keeps i argv self
  | blend_image_inline argv => exact image_blend_image_inline_keeps i argv self
  | blend_image argv => exact image_blend_image_keeps i argv self
  | rotate val => exact image_rotate_keeps i val self
  | rotate_inline val => exact image_rotate_inline_keeps i val self
  | clone => exact image_clone_keeps i self
  | clear => exact image_clear_keeps i self
  | clear_color val => exact image_clear_color_keeps i val self
  | clear_color_inline val => exact image_clear_color_inline_keeps i val self
  | filter val => exact image_filter_keeps i val self
  | static_filter val => exact image_static_filter_keeps i val self
  | script_filter val => exact image_script_filter_keeps i val self
  | attach_val key val => exact image_attach_val_keeps i key val self
  | get_attach_val val => exact image_get_attach_val_keeps i val self
  | rm_attach_val val => exact image_rm_attach_val_keeps i val self

theorem runAll_keeps (i : Nat) (calls : List (ImageOp × RValue)) (w : World)
    (h : w.deleted i) : (runAll calls w).deleted i := by
  induction calls generalizing w with
  | nil => exact h
  | cons c rest ih =>
    obtain ⟨op, self⟩ := c
    exact ih _ (ImageOp.run_keeps i op self w h)

/-! ## Unsupported argument counts -/

theorem image_draw_pixel_args_bad_count (argv : List RValue)
    (h : argv.length = 0 ∨ 3 < argv.length) :
    image_draw_pixel_args argv = .error (typeError "Invalid argument count (not 1, 2, or 3)") := by
  unfold image_draw_pixel_args
  split <;> first
    | rfl
    | (simp at h)

theorem image_draw_line_args_bad_count (argv : List RValue)
    (h : argv.length < 2 ∨ 5 < argv.length) :
    image_draw_line_args argv = .error (typeError "Invalid argument count (not 2, 3, 4, or 5)") := by
  unfold image_draw_line_args
  split <;> first
    | rfl
    | (simp at h)

theorem image_draw_rect_args_bad_count (argv : List RValue)
    (h : argv.length = 0 ∨ 5 < argv.length) :
    image_draw_rect_args argv = .error (typeError "Invalid argument count (not 1, 2, 3, 4, or 5)") := by
  unfold image_draw_rect_args
  split <;> first
    | rfl
    | (simp at h)

theorem image_fill_rect_args_bad_count (argv : List RValue)
    (h : argv.length = 0 ∨ 5 < argv.length) :
    image_fill_rect_args argv = .error (typeError "Invalid argument count (not 1, 2, 3, 4, or 5)") := by
  unfold image_fill_rect_args
  split <;> first
    | rfl
    | (simp at h)

theorem image_draw_ellipse_args_bad_count (argv : List RValue)
    (h : argv.length = 0 ∨ 5 < argv.length) :
    image_draw_ellipse_args argv = .error (typeError "Invalid argument count (not 1, 2, 3, 4, or 5)") := by
  unfold image_draw_ellipse_args
  split <;> first
    | rfl
    | (simp at h)

theorem image_fill_ellipse_args_bad_count (argv : List RValue)
    (h : argv.length = 0 ∨ 5 < argv.length) :
    image_fill_ellipse_args argv = .error (typeError "Invalid argument count (not 1, 2, 3, 4, or 5)") := by
  unfold image_fill_ellipse_args
  split <;> first
    | rfl
    | (simp at h)

theorem image_scroll_rect_args_bad_count (argv : List RValue)
    (h : argv.length = 0 ∨ 6 < argv.length) :
    image_scroll_rect_args argv = .error (typeError "Invalid argument count (not 2, 3, 4, 5, 6, or 7)") := by
  unfold image_scroll_rect_args
  split <;> first
    | rfl
    | (simp at h)

theorem image_copy_rect_args_bad_count (argv : List RValue)
    (h : argv.length = 0 ∨ 6 < argv.length) :
    image_copy_rect_args argv = .error (typeError "Invalid argument count (not 2, 3, 4, 5, 6, or 7)") := by
  unfold image_copy_rect_args
  split <;> first
    | rfl
    | (simp at h)

theorem image_blend_image_inline_args_bad_count (argv : List RValue)
    (h : argv.length ≠ 3 ∧ argv.length ≠ 4 ∧ argv.length ≠ 5 ∧ argv.length ≠ 6 ∧
      argv.length ≠ 9 ∧ argv.length ≠ 10) :
    image_blend_image_inline_args argv = .error (typeError "Invalid argument count (not 3, 4, 5, 6, 9, or 10)") := by
  unfold image_blend_image_inline_args
  split <;> first
    | rfl
    | (simp at h)

/-! ## Colour dispatch -/

theorem set_context_color_of_color (c : RValue) (w : World) (hc : isColor c = true) :
    ∃ s, s.isColorSetter = true ∧ set_context_color c w = (.ok (), w.after [s]) := by
  cases c with
  | rgba c => exact ⟨.imlib_context_set_color c.red c.green c.blue c.alpha, rfl, rfl⟩
  | hsva c => exact ⟨.imlib_context_set_color_hsva c.hue c.saturation c.value c.alpha, rfl, rfl⟩
  | hlsa c => exact ⟨.imlib_context_set_color_hsva c.hue c.lightness c.saturation c.alpha, rfl, rfl⟩
  | cmya c => exact ⟨.imlib_context_set_color_hsva (CDouble.ofInt c.cyan)
      (CDouble.ofInt c.magenta) (CDouble.ofInt c.yellow) c.alpha, rfl, rfl⟩
  | _ => simp [isColor, rb_obj_is_kind_of] at hc

theorem notNil_of_isColor {c : RValue} (hc : isColor c = true) : notNil c = true := by
  cases c <;> simp [isColor, rb_obj_is_kind_of] at hc <;> rfl

/-- C9 (the code at the failing inputs): an HLSA colour and a CMYA colour are
both handed to the HSVA setter of the engine, the first with (hue, lightness,
saturation, alpha), the second with (cyan, magenta, yellow, alpha); neither
the HLSA nor the CMYA setter is called. -/
theorem set_context_color_hlsa_cmya_use_hsva_setter (h : HlsaColor) (c : CmyaColor)
    (w : World) :
    set_context_color (.hlsa h) w =
      (.ok (), w.after [.imlib_context_set_color_hsva h.hue h.lightness h.saturation h.alpha]) ∧
    set_context_color (.cmya c) w =
      (.ok (), w.after [.imlib_context_set_color_hsva (CDouble.ofInt c.cyan)
        (CDouble.ofInt c.magenta) (CDouble.ofInt c.yellow) c.alpha]) :=
  ⟨rfl, rfl⟩

/-- C10: for every value that is an instance of none of the four colour
classes, `set_context_color` raises TypeError and calls no engine colour
setter: the world, its list of engine calls included, is left as it was. -/
theorem set_context_color_rejects_other_values (v : RValue) (w : World)
    (hv : isColor v = false) :
    ∃ msg, set_context_color v w = (.error ⟨.TypeError, msg⟩, w) := by
  cases v <;> first
    | exact ⟨_, rfl⟩
    | simp [isColor, rb_obj_is_kind_of] at hv

/-- C10 (witness): the integer 5 is no colour and is rejected. -/
theorem set_context_color_rejects_other_values_witness :
    isColor (.fixnum 5) = false ∧
    ∃ msg, set_context_color (.fixnum 5) sampleWorld = (.error ⟨.TypeError, msg⟩, sampleWorld) :=
  ⟨rfl, set_context_color_rejects_other_values (.fixnum 5) sampleWorld rfl⟩

/-! ## Rectangles -/

theorem image_fill_rect_plain (argv : List RValue) (i im : Nat) (w : World)
    (x y w_ h : Int) (hargs : image_fill_rect_args argv = .ok (x, y, w_, h, .nil))
    (hlive : w.live i im) :
    image_fill_rect argv (.image i) w = (.ok (.image i),
      w.after [.imlib_context_set_image im, .imlib_image_fill_rectangle x y w_ h]) := by
  obtain ⟨h1, h2⟩ := hlive
  simp [image_fill_rect, hargs, Ruby.bind_apply, Ruby.host, GET_AND_CHECK_IMAGE, Ruby.readIm,
    h1, h2, Ruby.call, notNil, Ruby.pure_apply, World.after]

theorem image_fill_rect_colored (argv : List RValue) (i im : Nat) (w : World)
    (x y w_ h : Int) (c : RValue) (s : EngineCall)
    (hargs : image_fill_rect_args argv = .ok (x, y, w_, h, c))
    (hlive : w.live i im) (hn : notNil c = true)
    (hs : ∀ w1, set_context_color c w1 = (.ok (), w1.after [s])) :
    image_fill_rect argv (.image i) w = (.ok (.image i),
      w.after [.imlib_context_set_image im, s, .imlib_image_fill_rectangle x y w_ h]) := by
  obtain ⟨h1, h2⟩ := hlive
  simp [image_fill_rect, hargs, Ruby.bind_apply, Ruby.host, GET_AND_CHECK_IMAGE, Ruby.readIm,
    h1, h2, Ruby.call, hn, hs, Ruby.pure_apply, World.after]

theorem image_draw_rect_plain (argv : List RValue) (i im : Nat) (w : World)
    (x y w_ h : Int) (hargs : image_draw_rect_args argv = .ok (x, y, w_, h, .nil))
    (hlive : w.live i im) :
    image_draw_rect argv (.image i) w = (.ok (.image i),
      w.after [.imlib_context_set_image im, .imlib_image_draw_rectangle x y w_ h]) := by
  obtain ⟨h1, h2⟩ := hlive
  simp [image_draw_rect, hargs, Ruby.bind_apply, Ruby.host, GET_AND_CHECK_IMAGE, Ruby.readIm,
    h1, h2, Ruby.call, notNil, Ruby.pure_apply, World.after]

/-- C5: `fill_rect` on a live image, with an argument list that resolves to
(x, y, w, h) and an optional colour: the engine's active image is set to the
resource of the target; without a colour no colour setter is called; with a
colour exactly one colour setter is called, after the image is set; then the
one primitive `fill_rectangle(x, y, w, h)` is invoked; the same wrapper is
returned and no wrapper is rebound. -/
theorem fill_rect_dispatch (argv : List RValue) (i im : Nat) (w : World)
    (x y w_ h : Int) (c : RValue)
    (hargs : image_fill_rect_args argv = .ok (x, y, w_, h, c))
    (hlive : w.live i im) :
    (c = .nil → image_fill_rect argv (.image i) w = (.ok (.image i),
      w.after [.imlib_context_set_image im, .imlib_image_fill_rectangle x y w_ h])) ∧
    (isColor c = true → ∃ s, s.isColorSetter = true ∧
      image_fill_rect argv (.image i) w = (.ok (.image i),
        w.after [.imlib_context_set_image im, s, .imlib_image_fill_rectangle x y w_ h])) := by
  constructor
  · intro hc
    subst hc
    exact image_fill_rect_plain argv i im w x y w_ h hargs hlive
  · intro hc
    cases c with
    | rgba c =>
      exact ⟨.imlib_context_set_color c.red c.green c.blue c.alpha, rfl,
        image_fill_rect_colored argv i im w x y w_ h _ _ hargs hlive rfl (fun _ => rfl)⟩
    | hsva c =>
      exact ⟨.imlib_context_set_color_hsva c.hue c.saturation c.value c.alpha, rfl,
        image_fill_rect_colored argv i im w x y w_ h _ _ hargs hlive rfl (fun _ => rfl)⟩
    | hlsa c =>
      exact ⟨.imlib_context_set_color_hsva c.hue c.lightness c.saturation c.alpha, rfl,
        image_fill_rect_colored argv i im w x y w_ h _ _ hargs hlive rfl (fun _ => rfl)⟩
    | cmya c =>
      exact ⟨.imlib_context_set_color_hsva (CDouble.ofInt c.cyan) (CDouble.ofInt c.magenta)
        (CDouble.ofInt c.yellow) c.alpha, rfl,
        image_fill_rect_colored argv i im w x y w_ h _ _ hargs hlive rfl (fun _ => rfl)⟩
    | _ => simp [isColor, rb_obj_is_kind_of] at hc

/-- C5 (witness): `fill_rect([1, 2, 3, 4], colour)` on the live image of the
sample world. -/
theorem fill_rect_dispatch_witness :
    image_fill_rect_args [xywhArray 1 2 3 4, .rgba ⟨255, 0, 255, 0⟩] =
      .ok (1, 2, 3, 4, .rgba ⟨255, 0, 255, 0⟩) ∧
    sampleWorld.live 0 7 ∧
    ((RValue.rgba ⟨255, 0, 255, 0⟩ = .nil →
      image_fill_rect [xywhArray 1 2 3 4, .rgba ⟨255, 0, 255, 0⟩] (.image 0) sampleWorld =
        (.ok (.image 0), sampleWorld.after
          [.imlib_context_set_image 7, .imlib_image_fill_rectangle 1 2 3 4])) ∧
    (isColor (.rgba ⟨255, 0, 255, 0⟩) = true → ∃ s, s.isColorSetter = true ∧
      image_fill_rect [xywhArray 1 2 3 4, .rgba ⟨255, 0, 255, 0⟩] (.image 0) sampleWorld =
        (.ok (.image 0), sampleWorld.after
          [.imlib_context_set_image 7, s, .imlib_image_fill_rectangle 1 2 3 4]))) :=
  ⟨rfl, ⟨rfl, by decide⟩,
    fill_rect_dispatch [xywhArray 1 2 3 4, .rgba ⟨255, 0, 255, 0⟩] 0 7 sampleWorld 1 2 3 4
      (.rgba ⟨255, 0, 255, 0⟩) rfl ⟨rfl, by decide⟩⟩

/-- C6: for all integers x, y, w, h, on a live image, `fill_rect` called as
(x, y, w, h), as ([x, y, w, h]), as (the hash of x, y, w, h) and as
([x, y], [w, h]) makes the same two engine calls, the activation of the image
and `fill_rectangle(x, y, w, h)`, and no colour setter; `draw_rect` does the
same with `draw_rectangle(x, y, w, h)`. -/
theorem rect_forms_without_color_agree (x y w_ h : Int) (i im : Nat) (w : World)
    (hlive : w.live i im) :
    (image_fill_rect [.fixnum x, .fixnum y, .fixnum w_, .fixnum h] (.image i) w =
      (.ok (.image i),
        w.after [.imlib_context_set_image im, .imlib_image_fill_rectangle x y w_ h]) ∧
    image_fill_rect [xywhArray x y w_ h] (.image i) w =
      (.ok (.image i),
        w.after [.imlib_context_set_image im, .imlib_image_fill_rectangle x y w_ h]) ∧
    image_fill_rect [xywhHash x y w_ h] (.image i) w =
      (.ok (.image i),
        w.after [.imlib_context_set_image im, .imlib_image_fill_rectangle x y w_ h]) ∧
    image_fill_rect [pairArray x y, pairArray w_ h] (.image i) w =
      (.ok (.image i),
        w.after [.imlib_context_set_image im, .imlib_image_fill_rectangle x y w_ h])) ∧
    (image_draw_rect [.fixnum x, .fixnum y, .fixnum w_, .fixnum h] (.image i) w =
      (.ok (.image i),
        w.after [.imlib_context_set_image im, .imlib_image_draw_rectangle x y w_ h]) ∧
    image_draw_rect [xywhArray x y w_ h] (.image i) w =
      (.ok (.image i),
        w.after [.imlib_context_set_image im, .imlib_image_draw_rectangle x y w_ h]) ∧
    image_draw_rect [xywhHash x y w_ h] (.image i) w =
      (.ok (.image i),
        w.after [.imlib_context_set_image im, .imlib_image_draw_rectangle x y w_ h]) ∧
    image_draw_rect [pairArray x y, pairArray w_ h] (.image i) w =
      (.ok (.image i),
        w.after [.imlib_context_set_image im, .imlib_image_draw_rectangle x y w_ h])) :=
  ⟨⟨image_fill_rect_plain _ i im w x y w_ h rfl hlive,
    image_fill_rect_plain _ i im w x y w_ h rfl hlive,
    image_fill_rect_plain _ i im w x y w_ h rfl hlive,
    image_fill_rect_plain _ i im w x y w_ h rfl hlive⟩,
   ⟨image_draw_rect_plain _ i im w x y w_ h rfl hlive,
    image_draw_rect_plain _ i im w x y w_ h rfl hlive,
    image_draw_rect_plain _ i im w x y w_ h rfl hlive,
    image_draw_rect_plain _ i im w x y w_ h rfl hlive⟩⟩

/-- C7 (the code at the failing input): with a hash of x, y, w, h followed by
a colour, each of the four rectangle resolvers stores the hash's `w` and `h`
in `x` and `y` and leaves `w` and `h` at zero, so the engine receives
(w, h, 0, 0); the array form followed by the same colour yields (x, y, w, h). -/
theorem rect_hash_with_color_misreads (x y w_ h : Int) (c : Imlib_Color) :
    image_fill_rect_args [xywhHash x y w_ h, .rgba c] = .ok (w_, h, 0, 0, .rgba c) ∧
    image_draw_rect_args [xywhHash x y w_ h, .rgba c] = .ok (w_, h, 0, 0, .rgba c) ∧
    image_draw_ellipse_args [xywhHash x y w_ h, .rgba c] = .ok (w_, h, 0, 0, .rgba c) ∧
    image_fill_ellipse_args [xywhHash x y w_ h, .rgba c] = .ok (w_, h, 0, 0, .rgba c) ∧
    image_fill_rect_args [xywhArray x y w_ h, .rgba c] = .ok (x, y, w_, h, .rgba c) ∧
    image_fill_rect [xywhHash 1 2 3 4, .rgba ⟨255, 0, 255, 0⟩] (.image 0) sampleWorld =
      (.ok (.image 0), sampleWorld.after [.imlib_context_set_image 7,
        .imlib_context_set_color 0 255 0 255, .imlib_image_fill_rectangle 3 4 0 0]) :=
  ⟨rfl, rfl, rfl, rfl, rfl, rfl⟩

/-- C8 (the code at the failing input): `blend!` with five arguments whose
size composite is a hash without the declared field `w` (it holds `s` and `h`)
raises nothing: the code reads the key `s`, and the engine blend primitive is
called.  The same call with the size hash keyed `w` and `h` raises TypeError
before any engine call. -/
theorem blend_accepts_size_hash_without_w :
    image_blend_image_inline
      [.image 2, pairArray 0 0, .hash [(.str "s", .fixnum 5), (.str "h", .fixnum 6)],
        pairArray 1 1, pairArray 8 9] (.image 0) sampleWorld =
    (.ok (.image 0), sampleWorld.after [.imlib_context_set_image 7,
      .imlib_blend_image_onto_image 9 1 0 0 5 6 1 1 8 9]) ∧
    image_blend_image_inline
      [.image 2, pairArray 0 0, .hash [(.str "w", .fixnum 5), (.str "h", .fixnum 6)],
        pairArray 1 1, pairArray 8 9] (.image 0) sampleWorld =
    (.error ⟨.TypeError, "no implicit conversion from nil to integer"⟩, sampleWorld) :=
  ⟨rfl, rfl⟩

/-- C6 (witness): the four forms of (1, 2, 3, 4) on the live image of the
sample world. -/
theorem rect_forms_without_color_agree_witness :
    sampleWorld.live 0 7 ∧
    ((image_fill_rect [.fixnum 1, .fixnum 2, .fixnum 3, .fixnum 4] (.image 0) sampleWorld =
      (.ok (.image 0),
        sampleWorld.after [.imlib_context_set_image 7, .imlib_image_fill_rectangle 1 2 3 4]) ∧
    image_fill_rect [xywhArray 1 2 3 4] (.image 0) sampleWorld =
      (.ok (.image 0),
        sampleWorld.after [.imlib_context_set_image 7, .imlib_image_fill_rectangle 1 2 3 4]) ∧
    image_fill_rect [xywhHash 1 2 3 4] (.image 0) sampleWorld =
      (.ok (.image 0),
        sampleWorld.after [.imlib_context_set_image 7, .imlib_image_fill_rectangle 1 2 3 4]) ∧
    image_fill_rect [pairArray 1 2, pairArray 3 4] (.image 0) sampleWorld =
      (.ok (.image 0),
        sampleWorld.after [.imlib_context_set_image 7, .imlib_image_fill_rectangle 1 2 3 4])) ∧
    (image_draw_rect [.fixnum 1, .fixnum 2, .fixnum 3, .fixnum 4] (.image 0) sampleWorld =
      (.ok (.image 0),
        sampleWorld.after [.imlib_context_set_image 7, .imlib_image_draw_rectangle 1 2 3 4]) ∧
    image_draw_rect [xywhArray 1 2 3 4] (.image 0) sampleWorld =
      (.ok (.image 0),
        sampleWorld.after [.imlib_context_set_image 7, .imlib_image_draw_rectangle 1 2 3 4]) ∧
    image_draw_rect [xywhHash 1 2 3 4] (.image 0) sampleWorld =
      (.ok (.image 0),
        sampleWorld.after [.imlib_context_set_image 7, .imlib_image_draw_rectangle 1 2 3 4]) ∧
    image_draw_rect [pairArray 1 2, pairArray 3 4] (.image 0) sampleWorld =
      (.ok (.image 0),
        sampleWorld.after [.imlib_context_set_image 7, .imlib_image_draw_rectangle 1 2 3 4]))) :=
  ⟨⟨rfl, by decide⟩, rect_forms_without_color_agree 1 2 3 4 0 7 sampleWorld ⟨rfl, by decide⟩⟩

/-! ## Deleted receivers and deleted arguments -/

/-- C1 (amended): a call of an Image instance method on a deleted receiver
makes no engine call, rebinds no wrapper, and raises; for every method other
than `filter` the exception is the one of the steps the method takes before
its liveness check when such a step fails (a TypeError for an argument list
of unsupported shape), and DeletedError otherwise. -/
theorem deleted_receiver_fails_fast (op : ImageOp) (i : Nat) (w : World)
    (h : w.deleted i) :
    (op.run (.image i) w).2 = w ∧
    (∃ e, (op.run (.image i) w).1 = .error e) ∧
    (op.isFilter = false →
      (op.run (.image i) w).1 = .error (deletedOutcome (op.prelude w))) := by
  by_cases hf : op.isFilter = false
  · rw [ImageOp.run_deleted op hf h]
    exact ⟨rfl, ⟨_, rfl⟩, fun _ => rfl⟩
  · cases op <;> simp [ImageOp.isFilter] at hf
    rename_i val
    simp only [ImageOp.run, ImageOp.isFilter]
    rw [image_filter_deleted val i w]
    exact ⟨rfl, ⟨_, rfl⟩, fun hc => by simp at hc⟩

/-- C1 (witness): `width` on the deleted image of the sample world. -/
theorem deleted_receiver_fails_fast_witness :
    sampleWorld.deleted 1 ∧
    ((ImageOp.width.run (.image 1) sampleWorld).2 = sampleWorld ∧
    (∃ e, (ImageOp.width.run (.image 1) sampleWorld).1 = .error e) ∧
    (ImageOp.width.isFilter = false →
      (ImageOp.width.run (.image 1) sampleWorld).1 =
        .error (deletedOutcome (ImageOp.width.prelude sampleWorld)))) :=
  ⟨rfl, deleted_receiver_fails_fast .width 1 sampleWorld rfl⟩

/-- C1 (counterexample): `crop` called with no argument on a deleted image
raises TypeError, not DeletedError. -/
theorem deleted_crop_without_arguments_raises_type_error :
    sampleWorld.deleted 1 ∧
    ((ImageOp.crop []).run (.image 1) sampleWorld).1 =
      .error ⟨.TypeError, "Invalid argument count (not 1 or 4)"⟩ :=
  ⟨rfl, rfl⟩

theorem head_getD {argv : List RValue} {v : RValue} (h : argv.head? = some v) :
    argv.getD 0 .nil = v := by
  cases argv with
  | nil => simp at h
  | cons a rest =>
    simp at h
    simp [h]

theorem image_copy_alpha_deleted_source (argv : List RValue) (self : RValue) (j : Nat)
    (w : World) (hsrc : argv.head? = some (.image j)) (hdel : w.deleted j) :
    image_copy_alpha argv self w =
      (.error (deletedOutcome (discard (image_copy_alpha_args argv))), w) := by
  unfold image_copy_alpha
  simp only [head_getD hsrc]
  rw [Ruby.host_bind]
  cases image_copy_alpha_args argv with
  | error e => rfl
  | ok p => exact Ruby.bind_error _ (GET_AND_CHECK_IMAGE_deleted hdel)

theorem image_copy_alpha_rect_deleted_source (argv : List RValue) (self : RValue) (j : Nat)
    (w : World) (hsrc : argv.head? = some (.image j)) (hdel : w.deleted j) :
    image_copy_alpha_rect argv self w =
      (.error (deletedOutcome (discard (image_copy_alpha_rect_args argv))), w) := by
  unfold image_copy_alpha_rect
  simp only [head_getD hsrc]
  rw [Ruby.host_bind]
  cases image_copy_alpha_rect_args argv with
  | error e => rfl
  | ok p => exact Ruby.bind_error _ (GET_AND_CHECK_IMAGE_deleted hdel)

theorem image_blend_image_inline_deleted_source (argv : List RValue) (i im j : Nat)
    (w : World) (hsrc : argv.head? = some (.image j)) (hdel : w.deleted j)
    (hlive : w.live i im) :
    (image_blend_image_inline argv (.image i) w).1 =
      .error (deletedOutcome (discard (image_blend_image_inline_args argv))) := by
  unfold image_blend_image_inline
  simp only [head_getD hsrc]
  rw [Ruby.host_bind]
  cases image_blend_image_inline_args argv with
  | error e => rfl
  | ok p =>
    obtain ⟨h1, h2⟩ := hlive
    unfold World.deleted at hdel
    simp [Ruby.bind_apply, GET_AND_CHECK_IMAGE, Ruby.readIm, h1, h2, Ruby.call, hdel,
      Ruby.raise, Ruby.pure_apply, deletedOutcome, discard]

theorem image_blend_image_deleted_source (argv : List RValue) (i im j : Nat)
    (w : World) (hsrc : argv.head? = some (.image j)) (hdel : w.deleted j)
    (hlive : w.live i im) :
    (image_blend_image argv (.image i) w).1 =
      .error (deletedOutcome (discard (image_blend_image_inline_args argv))) := by
  have hj := World.deleted_lt hdel
  obtain ⟨h1, h2⟩ := hlive
  unfold World.deleted at hdel
  unfold image_blend_image image_blend_image_inline
  simp only [head_getD hsrc]
  cases hargs : image_blend_image_inline_args argv with
  | error e =>
    simp [Ruby.bind_apply, GET_AND_CHECK_IMAGE, Ruby.readIm, h1, h2, Ruby.call, Ruby.ask,
      Ruby.wrapIm, Ruby.host, Ruby.pure_apply, deletedOutcome, discard]
  | ok p =>
    by_cases hr : (w.engine.answer (w.trace ++ [.imlib_context_set_image im,
        .imlib_clone_image])).handle = 0
    · simp [Ruby.bind_apply, GET_AND_CHECK_IMAGE, Ruby.readIm, h1, h2, Ruby.call, Ruby.ask,
        Ruby.wrapIm, Ruby.host, Ruby.raise, Ruby.pure_apply, deletedOutcome, discard, hr]
    · simp [Ruby.bind_apply, GET_AND_CHECK_IMAGE, Ruby.readIm, h1, h2, Ruby.call, Ruby.ask,
        Ruby.wrapIm, Ruby.host, Ruby.raise, Ruby.pure_apply, deletedOutcome, discard, hr,
        List.getElem?_append_left hj, hdel]

theorem ctx_set_image_deleted_image (c j : Nat) (w : World) (hdel : w.deleted j) :
    (ctx_set_image (.context c) (.image j) w).1 = .error (deletedError "image deleted") := by
  unfold World.deleted at hdel
  simp [ctx_set_image, getContext, Ruby.bind_apply, Ruby.host, Ruby.call, GET_AND_CHECK_IMAGE,
    Ruby.readIm, hdel, Ruby.raise]

/-- C3 (amended): when the image passed as first argument has been deleted,
`copy_alpha` and `copy_alpha_rect` check it before their receiver and before
any engine call: they raise the TypeError of their argument resolution when
the argument list has no accepted shape and DeletedError otherwise, and in
both cases leave the world as it was, no engine call made; `blend!` and
`blend` on a live receiver end likewise with that TypeError or with
DeletedError, and `Context#image=` with DeletedError. -/
theorem deleted_argument_is_rejected (argv : List RValue) (j : Nat) (w : World)
    (hsrc : argv.head? = some (.image j)) (hdel : w.deleted j) :
    (∀ self, image_copy_alpha argv self w =
      (.error (deletedOutcome (discard (image_copy_alpha_args argv))), w)) ∧
    (∀ self, image_copy_alpha_rect argv self w =
      (.error (deletedOutcome (discard (image_copy_alpha_rect_args argv))), w)) ∧
    (∀ i im, w.live i im → (image_blend_image_inline argv (.image i) w).1 =
      .error (deletedOutcome (discard (image_blend_image_inline_args argv)))) ∧
    (∀ i im, w.live i im → (image_blend_image argv (.image i) w).1 =
      .error (deletedOutcome (discard (image_blend_image_inline_args argv)))) ∧
    (∀ c, (ctx_set_image (.context c) (.image j) w).1 =
      .error (deletedError "image deleted")) :=
  ⟨fun self => image_copy_alpha_deleted_source argv self j w hsrc hdel,
   fun self => image_copy_alpha_rect_deleted_source argv self j w hsrc hdel,
   fun i im hl => image_blend_image_inline_deleted_source argv i im j w hsrc hdel hl,
   fun i im hl => image_blend_image_deleted_source argv i im j w hsrc hdel hl,
   fun c => ctx_set_image_deleted_image c j w hdel⟩

/-- C3 (witness): the deleted image of the sample world passed as source with
the position [3, 4]. -/
theorem deleted_argument_is_rejected_witness :
    [RValue.image 1, pairArray 3 4].head? = some (.image 1) ∧
    sampleWorld.deleted 1 ∧
    ((∀ self, image_copy_alpha [.image 1, pairArray 3 4] self sampleWorld =
      (.error (deletedOutcome (discard (image_copy_alpha_args [.image 1, pairArray 3 4]))),
        sampleWorld)) ∧
    (∀ self, image_copy_alpha_rect [.image 1, pairArray 3 4] self sampleWorld =
      (.error (deletedOutcome (discard
        (image_copy_alpha_rect_args [.image 1, pairArray 3 4]))), sampleWorld)) ∧
    (∀ i im, sampleWorld.live i im →
      (image_blend_image_inline [.image 1, pairArray 3 4] (.image i) sampleWorld).1 =
        .error (deletedOutcome (discard
          (image_blend_image_inline_args [.image 1, pairArray 3 4])))) ∧
    (∀ i im, sampleWorld.live i im →
      (image_blend_image [.image 1, pairArray 3 4] (.image i) sampleWorld).1 =
        .error (deletedOutcome (discard
          (image_blend_image_inline_args [.image 1, pairArray 3 4])))) ∧
    (∀ c, (ctx_set_image (.context c) (.image 1) sampleWorld).1 =
      .error (deletedError "image deleted"))) :=
  ⟨rfl, rfl, deleted_argument_is_rejected [.image 1, pairArray 3 4] 1 sampleWorld rfl rfl⟩

/-- C3 (counterexample): `copy_alpha` called with a deleted source image and a
bare number where the composite is expected raises TypeError, not
DeletedError. -/
theorem copy_alpha_deleted_source_bad_shape_raises_type_error :
    sampleWorld.deleted 1 ∧
    (image_copy_alpha [.image 1, .fixnum 5] (.image 0) sampleWorld).1 =
      .error ⟨.TypeError, "Invalid argument type (not array or hash)"⟩ :=
  ⟨rfl, rfl⟩

/-! ## Explicit release -/

theorem image_delete_live (argv : List RValue) (i im : Nat) (w : World)
    (hlive : w.live i im) :
    image_delete argv (.image i) w =
      (.ok .nil, { w.after [.imlib_context_set_image im,
        if argv.length > 0 && notNil (argv.getD 0 .nil) && notFalse (argv.getD 0 .nil)
        then .imlib_free_image_and_decache else .imlib_free_image] with
        heap := w.heap.set i ⟨0⟩ }) := by
  obtain ⟨h1, h2⟩ := hlive
  simp only [image_delete, Ruby.bind_apply, GET_AND_CHECK_IMAGE, Ruby.readIm, h1, h2,
    Ruby.call, if_false, Ruby.pure_apply]
  cases (decide (argv.length > 0) && notNil (argv.getD 0 .nil) && notFalse (argv.getD 0 .nil)) <;>
    simp [Ruby.bind_apply, Ruby.call, Ruby.writeIm, Ruby.pure_apply, World.after]

theorem image_delete_ok (argv : List RValue) (i : Nat) (w w1 : World) (v : RValue)
    (h : image_delete argv (.image i) w = (.ok v, w1)) : w1.deleted i := by
  rcases hr : GET_AND_CHECK_IMAGE (.image i) w with ⟨r, w0⟩
  cases r with
  | error e =>
    have h2 : image_delete argv (.image i) w = (.error e, w0) := by
      unfold image_delete
      exact Ruby.bind_error _ hr
    rw [h2] at h
    simp at h
  | ok a =>
    obtain ⟨ref, im⟩ := a
    obtain ⟨hv, hlive, _⟩ := GET_AND_CHECK_IMAGE_ok hr
    cases hv
    rw [image_delete_live argv i im w hlive] at h
    have hw := (Prod.mk.inj h).2
    subst hw
    have hi : i < w.heap.length := by
      by_contra hcon
      have := hlive.1
      rw [List.getElem?_eq_none (by omega)] at this
      simp at this
    unfold World.deleted
    simp [World.after, hi]

/-- C2: once `delete!` has succeeded on an image, a call of `width` on it
raises DeletedError: it returns no value and leaves the world, its list of
engine calls included, as `delete!` left it. -/
theorem width_after_delete_raises (argv : List RValue) (i : Nat) (w w1 : World)
    (v : RValue) (h : image_delete argv (.image i) w = (.ok v, w1)) :
    image_width (.image i) w1 = (.error ⟨.DeletedError, "image deleted"⟩, w1) :=
  image_width_deleted (image_delete_ok argv i w w1 v h)

/-- C2 (witness): `delete!` and then `width` on the live image of the sample
world. -/
theorem width_after_delete_raises_witness :
    image_delete [] (.image 0) sampleWorld =
      (.ok .nil, (image_delete [] (.image 0) sampleWorld).2) ∧
    image_width (.image 0) (image_delete [] (.image 0) sampleWorld).2 =
      (.error ⟨.DeletedError, "image deleted"⟩, (image_delete [] (.image 0) sampleWorld).2) :=
  ⟨rfl, width_after_delete_raises [] 0 sampleWorld _ .nil rfl⟩

/-- C4: once `delete!` has succeeded on an image wrapper its resource pointer
is cleared, and it stays cleared after every further sequence of Image method
calls, whatever their receivers and arguments (calls of `crop!`,
`crop_scaled!`, `rotate!` and `delete!` on that wrapper included): no call
rebinds the wrapper to a resource. -/
theorem delete_is_permanent (argv : List RValue) (i : Nat) (w w1 : World) (v : RValue)
    (h : image_delete argv (.image i) w = (.ok v, w1)) :
    w1.deleted i ∧ ∀ calls : List (ImageOp × RValue), (runAll calls w1).deleted i :=
  ⟨image_delete_ok argv i w w1 v h,
   fun calls => runAll_keeps i calls w1 (image_delete_ok argv i w w1 v h)⟩

/-- C4 (witness): `delete!` on the live image of the sample world. -/
theorem delete_is_permanent_witness :
    image_delete [] (.image 0) sampleWorld =
      (.ok .nil, (image_delete [] (.image 0) sampleWorld).2) ∧
    ((image_delete [] (.image 0) sampleWorld).2.deleted 0 ∧
    ∀ calls : List (ImageOp × RValue),
      (runAll calls (image_delete [] (.image 0) sampleWorld).2).deleted 0) :=
  ⟨rfl, delete_is_permanent [] 0 sampleWorld _ .nil rfl⟩

/-! ## One colour, three ways to build it -/

/-- C11: for all integers `r`, `g`, `b`, `a` the calls `RgbaColor.new(r, g, b, a)`,
`RgbaColor.new([r, g, b, a])` and
`RgbaColor.new({"red"=>r, "green"=>g, "blue"=>b, "alpha"=>a})` each return a
colour whose `red`, `green`, `blue` and `alpha` accessors return `r`, `g`, `b`
and `a`, and `set_context_color` makes the same engine call for all three,
`imlib_context_set_color(r, g, b, a)`. -/
theorem rgba_color_forms_agree (r g b a : Int) (w : World) :
    buildsRgba [.fixnum r, .fixnum g, .fixnum b, .fixnum a] r g b a w ∧
    buildsRgba [rgbaArray r g b a] r g b a w ∧
    buildsRgba [rgbaHash r g b a] r g b a w :=
  ⟨⟨.rgba ⟨a, r, g, b⟩, rfl, rfl, rfl, rfl, rfl, rfl⟩,
   ⟨.rgba ⟨a, r, g, b⟩, rfl, rfl, rfl, rfl, rfl, rfl⟩,
   ⟨.rgba ⟨a, r, g, b⟩, rfl, rfl, rfl, rfl, rfl, rfl⟩⟩

/-! ## Push and pop -/

/-- C12: `ctx.push` followed at once by `Context.pop` makes the engine calls
push, pop and get, and leaves the context stack of the engine as it was before
the push: the same active context, the same frames beneath it, and the same
fields in every context, so the active state is equal field by field. -/
theorem push_then_pop_restores_active_state (s0 : EngineState) (c : Nat) (w : World) :
    (ctx_push (.context c) w).1 = .ok (.context c) ∧
    (∃ r, (ctx_pop (ctx_push (.context c) w).2).1 = .ok (.context r)) ∧
    (ctx_pop (ctx_push (.context c) w).2).2.trace =
      w.trace ++ [.imlib_context_push c, .imlib_context_pop, .imlib_context_get] ∧
    s0.after (ctx_pop (ctx_push (.context c) w).2).2.trace = s0.after w.trace ∧
    (s0.after (ctx_pop (ctx_push (.context c) w).2).2.trace).current =
      (s0.after w.trace).current := by
  have ht : (ctx_pop (ctx_push (.context c) w).2).2.trace =
      w.trace ++ [.imlib_context_push c, .imlib_context_pop, .imlib_context_get] := by
    simp [ctx_pop, ctx_push, getContext, Ruby.bind_apply, Ruby.host, Ruby.call, Ruby.ask,
      Ruby.pure_apply]
  have hs : s0.after (ctx_pop (ctx_push (.context c) w).2).2.trace = s0.after w.trace := by
    rw [ht]
    simp [EngineState.after, List.foldl_append, EngineState.step]
  exact ⟨rfl, ⟨_, rfl⟩, ht, hs, by rw [hs]⟩

theorem stackEngine_reportsActive (s0 : EngineState) : (stackEngine s0).reportsActive s0 := by
  intro t
  simp [stackEngine, EngineState.after, List.foldl_append, EngineState.step]

/-- C13: when a frame lies beneath the top of the context stack, `Context.pop`
discards the top frame and returns a Context wrapper built in the call around
the context that is active after the pop, the frame that was beneath the top;
the frames further down and the fields of every context stay as they were, and
the wrapper is never one of the discarded frame, unless the same context was
on the stack twice. -/
theorem ctx_pop_returns_frame_beneath (s0 : EngineState) (w : World) (below : Nat)
    (rest : List Nat) (hget : w.engine.reportsActive s0)
    (hbeneath : (s0.after w.trace).beneath = below :: rest) :
    (ctx_pop w).1 = .ok (.context below) ∧
    (ctx_pop w).2.trace = w.trace ++ [.imlib_context_pop, .imlib_context_get] ∧
    (ctx_pop w).2.heap = w.heap ∧
    (s0.after (ctx_pop w).2.trace).active = below ∧
    (s0.after (ctx_pop w).2.trace).beneath = rest ∧
    (s0.after (ctx_pop w).2.trace).contexts = (s0.after w.trace).contexts ∧
    ((s0.after w.trace).active ≠ below →
      (ctx_pop w).1 ≠ .ok (.context (s0.after w.trace).active)) := by
  have h1 : (s0.after (w.trace ++ [.imlib_context_pop])).active = below := by
    simp [EngineState.after, List.foldl_append, EngineState.step]
    simp [EngineState.after] at hbeneath
    simp [hbeneath]
  have hg := hget (w.trace ++ [.imlib_context_pop])
  rw [h1] at hg
  simp [ctx_pop, Ruby.bind_apply, Ruby.call, Ruby.ask, Ruby.pure_apply] at hg ⊢
  simp [hg, EngineState.after, List.foldl_append, EngineState.step]
  simp [EngineState.after] at hbeneath
  simp [hbeneath]
  intro h1 h2
  exact h1 (by simpa [EngineState.after] using h2.symm)

/-- C13 (witness): with context `2` on top of context `1`, `Context.pop`
returns a wrapper of context `1` and leaves it as the only frame. -/
theorem ctx_pop_returns_frame_beneath_witness :
    stackWorld.engine.reportsActive sampleStack ∧
    (sampleStack.after stackWorld.trace).beneath = 1 :: [] ∧
    ((ctx_pop stackWorld).1 = .ok (.context 1) ∧
    (ctx_pop stackWorld).2.trace =
      stackWorld.trace ++ [.imlib_context_pop, .imlib_context_get] ∧
    (ctx_pop stackWorld).2.heap = stackWorld.heap ∧
    (sampleStack.after (ctx_pop stackWorld).2.trace).active = 1 ∧
    (sampleStack.after (ctx_pop stackWorld).2.trace).beneath = [] ∧
    (sampleStack.after (ctx_pop stackWorld).2.trace).contexts =
      (sampleStack.after stackWorld.trace).contexts ∧
    ((sampleStack.after stackWorld.trace).active ≠ 1 →
      (ctx_pop stackWorld).1 ≠ .ok (.context (sampleStack.after stackWorld.trace).active))) :=
  ⟨stackEngine_reportsActive sampleStack, rfl,
    ctx_pop_returns_frame_beneath sampleStack stackWorld 1 []
      (stackEngine_reportsActive sampleStack) rfl⟩

/-! ## Context accessors -/

/-- The colour dispatch makes one colour setter call, or raises without effect. -/
theorem set_context_color_cases (v : RValue) (w : World) :
    (∃ s, s.isColorSetter = true ∧ set_context_color v w = (.ok (), w.after [s])) ∨
    (∃ e, set_context_color v w = (.error e, w)) := by
  cases v with
  | rgba c => exact .inl ⟨.imlib_context_set_color c.red c.green c.blue c.alpha, rfl, rfl⟩
  | hsva c => exact .inl ⟨.imlib_context_set_color_hsva c.hue c.saturation c.value c.alpha, rfl, rfl⟩
  | hlsa c => exact .inl ⟨.imlib_context_set_color_hsva c.hue c.lightness c.saturation c.alpha, rfl, rfl⟩
  | cmya c => exact .inl ⟨.imlib_context_set_color_hsva (CDouble.ofInt c.cyan)
      (CDouble.ofInt c.magenta) (CDouble.ofInt c.yellow) c.alpha, rfl, rfl⟩
  | _ => exact .inr ⟨_, rfl⟩

theorem EngineCall.movesStack_of_isColorSetter {s : EngineCall} (h : s.isColorSetter = true) :
    s.movesStack = false := by
  cases s <;> first | rfl | simp [EngineCall.isColorSetter] at h

theorem ctx_set_cliprect_array (c : Nat) (x y w h : Int) (w0 : World) :
    ctx_set_cliprect (.context c) (xywhArray x y w h) w0 =
      (.ok (.context c), w0.after [.imlib_context_push c,
        .imlib_context_set_cliprect x y w h, .imlib_context_pop]) := by
  have e0 : aryInt (xywhArray x y w h) 0 = .ok x := rfl
  have e1 : aryInt (xywhArray x y w h) 1 = .ok y := rfl
  have e2 : aryInt (xywhArray x y w h) 2 = .ok w := rfl
  have e3 : aryInt (xywhArray x y w h) 3 = .ok h := rfl
  simp [ctx_set_cliprect, e0, e1, e2, e3, getContext, Ruby.bind_apply, Ruby.host, Ruby.call,
    Ruby.pure_apply, World.after]

theorem ctx_cliprect_undefined (c : Nat) (w0 : World) :
    ctx_cliprect (.context c) w0 =
      (.error (undefinedStep "read of r[4] in int r[4]"),
        w0.after [.imlib_context_push c, .imlib_context_get_cliprect, .imlib_context_pop]) := by
  have hi : (List.range 4).foldl (fun i _ => i + 1) 0 = 4 := rfl
  have hr : (List.range 4)[4]? = none := rfl
  simp [ctx_cliprect, hi, hr, getContext, Ruby.bind_apply, Ruby.host, Ruby.call, Ruby.ask,
    Ruby.pure_apply, World.after, Ruby.raise]

/-- A Context accessor that returns has made three engine calls: the push of
its context, one call that neither pushes nor pops, and the pop. -/
theorem ContextOp.run_returns (o : ContextOp) (c : Nat) (w : World) (v : RValue)
    (h : (o.run (.context c) w).1 = .ok v) :
    ∃ x, x.movesStack = false ∧
      (o.run (.context c) w).2.trace =
        w.trace ++ [.imlib_context_push c, x, .imlib_context_pop] := by
  cases o with
  | set_dither_mask val => exact ⟨.imlib_context_set_dither_mask (truthy val), rfl, by
      simp [ContextOp.run, ctx_set_dither_mask, getContext, Ruby.bind_apply, Ruby.host, Ruby.call, Ruby.pure_apply]⟩
  | dither_mask => exact ⟨.imlib_context_get_dither_mask, rfl, by
      simp [ContextOp.run, ctx_dither_mask, getContext, Ruby.bind_apply, Ruby.host, Ruby.call, Ruby.ask, Ruby.pure_apply]⟩
  | set_aa val => exact ⟨.imlib_context_set_anti_alias (truthy val), rfl, by
      simp [ContextOp.run, ctx_set_aa, getContext, Ruby.bind_apply, Ruby.host, Ruby.call, Ruby.pure_apply]⟩
  | aa => exact ⟨.imlib_context_get_anti_alias, rfl, by
      simp [ContextOp.run, ctx_aa, getContext, Ruby.bind_apply, Ruby.host, Ruby.call, Ruby.ask, Ruby.pure_apply]⟩
  | set_dither val => exact ⟨.imlib_context_set_dither (truthy val), rfl, by
      simp [ContextOp.run, ctx_set_dither, getContext, Ruby.bind_apply, Ruby.host, Ruby.call, Ruby.pure_apply]⟩
  | dither => exact ⟨.imlib_context_get_dither, rfl, by
      simp [ContextOp.run, ctx_dither, getContext, Ruby.bind_apply, Ruby.host, Ruby.call, Ruby.ask, Ruby.pure_apply]⟩
  | set_blend val => exact ⟨.imlib_context_set_blend (truthy val), rfl, by
      simp [ContextOp.run, ctx_set_blend, getContext, Ruby.bind_apply, Ruby.host, Ruby.call, Ruby.pure_apply]⟩
  | blend => exact ⟨.imlib_context_get_blend, rfl, by
      simp [ContextOp.run, ctx_blend, getContext, Ruby.bind_apply, Ruby.host, Ruby.call, Ruby.ask, Ruby.pure_apply]⟩
  | set_cmod val =>
    simp only [ContextOp.run, ctx_set_cmod] at h ⊢
    cases hv : getCmod val with
    | error e => simp [hv, getContext, Ruby.bind_apply, Ruby.host, Ruby.call, Ruby.pure_apply] at h
    | ok a => exact ⟨.imlib_context_set_color_modifier a, rfl, by
        simp [hv, getContext, Ruby.bind_apply, Ruby.host, Ruby.call, Ruby.pure_apply]⟩
  | cmod => exact ⟨.imlib_context_get_color_modifier, rfl, by
      simp [ContextOp.run, ctx_cmod, getContext, Ruby.bind_apply, Ruby.host, Ruby.call, Ruby.ask, Ruby.pure_apply]⟩
  | set_op val =>
    simp only [ContextOp.run, ctx_set_op] at h ⊢
    cases hv : NUM2INT val with
    | error e => simp [hv, getContext, Ruby.bind_apply, Ruby.host, Ruby.call, Ruby.pure_apply] at h
    | ok a => exact ⟨.imlib_context_set_operation a, rfl, by
        simp [hv, getContext, Ruby.bind_apply, Ruby.host, Ruby.call, Ruby.pure_apply]⟩
  | op => exact ⟨.imlib_context_get_operation, rfl, by
      simp [ContextOp.run, ctx_op, getContext, Ruby.bind_apply, Ruby.host, Ruby.call, Ruby.ask, Ruby.pure_apply]⟩
  | set_font val =>
    simp only [ContextOp.run, ctx_set_font] at h ⊢
    cases hv : getFont val with
    | error e => simp [hv, getContext, Ruby.bind_apply, Ruby.host, Ruby.call, Ruby.pure_apply] at h
    | ok a => exact ⟨.imlib_context_set_font a, rfl, by
        simp [hv, getContext, Ruby.bind_apply, Ruby.host, Ruby.call, Ruby.pure_apply]⟩
  | font => exact ⟨.imlib_context_get_font, rfl, by
      simp [ContextOp.run, ctx_font, getContext, Ruby.bind_apply, Ruby.host, Ruby.call, Ruby.ask, Ruby.pure_apply]⟩
  | set_dir val =>
    simp only [ContextOp.run, ctx_set_dir] at h ⊢
    cases hv : NUM2INT val with
    | error e => simp [hv, getContext, Ruby.bind_apply, Ruby.host, Ruby.call, Ruby.pure_apply] at h
    | ok a => exact ⟨.imlib_context_set_direction a, rfl, by
        simp [hv, getContext, Ruby.bind_apply, Ruby.host, Ruby.call, Ruby.pure_apply]⟩
  | dir => exact ⟨.imlib_context_get_direction, rfl, by
      simp [ContextOp.run, ctx_dir, getContext, Ruby.bind_apply, Ruby.host, Ruby.call, Ruby.ask, Ruby.pure_apply]⟩
  | set_angle val =>
    simp only [ContextOp.run, ctx_set_angle] at h ⊢
    cases hv : NUM2DBL val with
    | error e => simp [hv, getContext, Ruby.bind_apply, Ruby.host, Ruby.call, Ruby.pure_apply] at h
    | ok a => exact ⟨.imlib_context_set_angle a, rfl, by
        simp [hv, getContext, Ruby.bind_apply, Ruby.host, Ruby.call, Ruby.pure_apply]⟩
  | angle => exact ⟨.imlib_context_get_angle, rfl, by
      simp [ContextOp.run, ctx_angle, getContext, Ruby.bind_apply, Ruby.host, Ruby.call, Ruby.ask, Ruby.pure_apply]⟩
  | set_color val =>
    simp only [ContextOp.run, ctx_set_color] at h ⊢
    rcases set_context_color_cases val (w.after [.imlib_context_push c]) with ⟨s, hs, hc⟩ | ⟨e, hc⟩
    · refine ⟨s, EngineCall.movesStack_of_isColorSetter hs, ?_⟩
      simp [World.after] at hc
      simp [hc, getContext, Ruby.bind_apply, Ruby.host, Ruby.call, Ruby.pure_apply]
    · simp [World.after] at hc
      simp [hc, getContext, Ruby.bind_apply, Ruby.host, Ruby.call, Ruby.pure_apply] at h
  | color => exact ⟨.imlib_context_get_color, rfl, by
      simp only [ContextOp.run, ctx_color] at h ⊢
      simp [getContext, Ruby.bind_apply, Ruby.host, Ruby.call, Ruby.ask, Ruby.pure_apply]⟩
  | set_gradient val =>
    simp only [ContextOp.run, ctx_set_gradient] at h ⊢
    cases hv : getGradient val with
    | error e => simp [hv, getContext, Ruby.bind_apply, Ruby.host, Ruby.call, Ruby.pure_apply] at h
    | ok a => exact ⟨.imlib_context_set_color_range a, rfl, by
        simp [hv, getContext, Ruby.bind_apply, Ruby.host, Ruby.call, Ruby.pure_apply]⟩
  | gradient => exact ⟨.imlib_context_get_color_range, rfl, by
      simp [ContextOp.run, ctx_gradient, getContext, Ruby.bind_apply, Ruby.host, Ruby.call, Ruby.ask, Ruby.pure_apply]⟩
  | set_progress_granularity val =>
    simp only [ContextOp.run, ctx_set_progress_granularity] at h ⊢
    cases hv : NUM2INT val with
    | error e => simp [hv, getContext, Ruby.bind_apply, Ruby.host, Ruby.call, Ruby.pure_apply] at h
    | ok a => exact ⟨.imlib_context_set_progress_granularity a, rfl, by
        simp [hv, getContext, Ruby.bind_apply, Ruby.host, Ruby.call, Ruby.pure_apply]⟩
  | progress_granularity => exact ⟨.imlib_context_get_progress_granularity, rfl, by
      simp [ContextOp.run, ctx_progress_granularity, getContext, Ruby.bind_apply, Ruby.host, Ruby.call, Ruby.ask, Ruby.pure_apply]⟩
  | set_image val =>
    simp only [ContextOp.run, ctx_set_image] at h ⊢
    have hw := GET_AND_CHECK_IMAGE_world val (w.after [.imlib_context_push c])
    rcases hr : GET_AND_CHECK_IMAGE val (w.after [.imlib_context_push c]) with ⟨r, w1⟩
    rw [hr] at hw
    simp only at hw
    subst hw
    simp [World.after] at hr
    cases r with
    | error e => simp [hr, getContext, Ruby.bind_apply, Ruby.host, Ruby.call, Ruby.pure_apply] at h
    | ok a => exact ⟨.imlib_context_set_image a.2, rfl, by
        simp [hr, getContext, Ruby.bind_apply, Ruby.host, Ruby.call, Ruby.pure_apply, World.after]⟩
  | image => exact ⟨.imlib_context_get_image, rfl, by
      simp [ContextOp.run, ctx_image, getContext, Ruby.bind_apply, Ruby.host, Ruby.call, Ruby.ask, Ruby.wrapIm, Ruby.pure_apply]⟩
  | set_cliprect val =>
    simp only [ContextOp.run, ctx_set_cliprect] at h ⊢
    cases h0 : aryInt val 0 with
    | error e => simp [h0, getContext, Ruby.bind_apply, Ruby.host, Ruby.call, Ruby.pure_apply] at h
    | ok a0 =>
    cases h1 : aryInt val 1 with
    | error e => simp [h0, h1, getContext, Ruby.bind_apply, Ruby.host, Ruby.call, Ruby.pure_apply] at h
    | ok a1 =>
    cases h2 : aryInt val 2 with
    | error e => simp [h0, h1, h2, getContext, Ruby.bind_apply, Ruby.host, Ruby.call, Ruby.pure_apply] at h
    | ok a2 =>
    cases h3 : aryInt val 3 with
    | error e => simp [h0, h1, h2, h3, getContext, Ruby.bind_apply, Ruby.host, Ruby.call, Ruby.pure_apply] at h
    | ok a3 => exact ⟨.imlib_context_set_cliprect a0 a1 a2 a3, rfl, by
        simp [h0, h1, h2, h3, getContext, Ruby.bind_apply, Ruby.host, Ruby.call, Ruby.pure_apply]⟩
  | cliprect =>
    simp [ContextOp.run, ctx_cliprect_undefined] at h
  | set_encoding val =>
    simp only [ContextOp.run, ctx_set_encoding] at h ⊢
    cases hv : NUM2INT val with
    | error e => simp [hv, getContext, Ruby.bind_apply, Ruby.host, Ruby.call, Ruby.pure_apply] at h
    | ok a => exact ⟨.imlib_context_set_TTF_encoding a, rfl, by
        simp [hv, getContext, Ruby.bind_apply, Ruby.host, Ruby.call, Ruby.pure_apply]⟩
  | encoding => exact ⟨.imlib_context_get_TTF_encoding, rfl, by
      simp [ContextOp.run, ctx_encoding, getContext, Ruby.bind_apply, Ruby.host, Ruby.call, Ruby.ask, Ruby.pure_apply]⟩

theorem EngineState.step_active {x : EngineCall} (h : x.movesStack = false) (s : EngineState) :
    (s.step x).active = s.active ∧ (s.step x).beneath = s.beneath := by
  cases x <;> first
    | exact ⟨rfl, rfl⟩
    | simp [EngineCall.movesStack] at h

/-- A push, a call that neither pushes nor pops, and a pop leave the active
context and the frames beneath it as they were. -/
theorem EngineState.after_bracket (s0 : EngineState) (t : List EngineCall) (c : Nat)
    {x : EngineCall} (h : x.movesStack = false) :
    (s0.after (t ++ [.imlib_context_push c, x, .imlib_context_pop])).active = (s0.after t).active ∧
    (s0.after (t ++ [.imlib_context_push c, x, .imlib_context_pop])).beneath =
      (s0.after t).beneath := by
  have hx := EngineState.step_active h ((s0.after t).step (.imlib_context_push c))
  simp only [EngineState.after, List.foldl_append, List.foldl_cons, List.foldl_nil] at hx ⊢
  generalize List.foldl EngineState.step s0 t = s at hx ⊢
  obtain ⟨ha, hb⟩ := hx
  have hb2 : ((s.step (.imlib_context_push c)).step x).beneath = s.active :: s.beneath := hb
  constructor
  · show (match ((s.step (.imlib_context_push c)).step x).beneath with
      | below :: rest => { (s.step (.imlib_context_push c)).step x with active := below, beneath := rest }
      | [] => (s.step (.imlib_context_push c)).step x).active = s.active
    rw [hb2]
  · show (match ((s.step (.imlib_context_push c)).step x).beneath with
      | below :: rest => { (s.step (.imlib_context_push c)).step x with active := below, beneath := rest }
      | [] => (s.step (.imlib_context_push c)).step x).beneath = s.beneath
    rw [hb2]

/-- C14 (the code at the failing inputs): `ctx.color = 5` pushes the context
and raises the TypeError of the colour dispatch, and `ctx.image = i` with `i`
a deleted image pushes the context and raises DeletedError; neither call pops,
so the pushed frame stays on the stack, on top of the state that was active
before the call. -/
theorem context_accessor_raise_skips_pop (s0 : EngineState) (c : Nat) (w : World) :
    (∃ msg, ContextOp.run (.context c) (.set_color (.fixnum 5)) w =
      (.error ⟨.TypeError, msg⟩, w.after [.imlib_context_push c])) ∧
    ContextOp.run (.context c) (.set_image (.image 1)) sampleWorld =
      (.error (deletedError "image deleted"), sampleWorld.after [.imlib_context_push c]) ∧
    (s0.after (w.after [.imlib_context_push c]).trace).active = c ∧
    (s0.after (w.after [.imlib_context_push c]).trace).beneath =
      (s0.after w.trace).active :: (s0.after w.trace).beneath := by
  refine ⟨⟨_, rfl⟩, rfl, ?_, ?_⟩ <;>
    simp [World.after, EngineState.after, List.foldl_append, EngineState.step]

/-- C15 (the code at the failing input): after `ctx.cliprect = [x, y, w, h]`
the call `ctx.cliprect` pushes, reads the rectangle from the engine and pops,
and then builds no array of four numbers: its loop has no body, and the one
element it goes on to store is read from `r[4]`, past the end of the array
the engine filled. -/
theorem ctx_cliprect_does_not_return_the_rectangle (c : Nat) (x y w h : Int) (w0 : World) :
    ctx_cliprect (.context c) (ctx_set_cliprect (.context c) (xywhArray x y w h) w0).2 =
      (.error (undefinedStep "read of r[4] in int r[4]"),
        w0.after [.imlib_context_push c, .imlib_context_set_cliprect x y w h,
          .imlib_context_pop, .imlib_context_push c, .imlib_context_get_cliprect,
          .imlib_context_pop]) := by
  rw [ctx_set_cliprect_array, ctx_cliprect_undefined]
  simp [World.after]

/-! ## File errors -/

theorem snprintf1024_toList (t : String) : (snprintf1024 t).toList = t.toList.take 1023 := by
  unfold snprintf1024
  split
  · rename_i h
    exact (List.take_of_length_le h).symm
  · rfl

theorem errorText_toList (path : String) (k : Nat) :
    (errorText path k).toList =
      '"' :: (path.toList ++ ('"' :: ':' :: ' ' :: (imlib_errors_description.getD k "").toList)) := by
  simp [errorText, String.toList]

theorem errorText_mentions (path : String) (k : Nat) (h : path.length ≤ 1022) :
    mentions (snprintf1024 (errorText path k)) path := by
  unfold mentions
  rw [snprintf1024_toList, errorText_toList]
  refine ⟨['"'], List.take (1022 - path.length)
    ('"' :: ':' :: ' ' :: (imlib_errors_description.getD k "").toList), ?_⟩
  have hl : path.toList.length ≤ 1022 := h
  rw [show (1023 : Nat) = 1022 + 1 from rfl, List.take_succ_cons, List.take_append_eq_append_take,
    List.take_of_length_le hl]
  rfl

theorem raise_imlib_error_eq {α : Type} (path : String) (e : Int) (w : World)
    (hfmt : '%' ∉ (snprintf1024 (errorText path (errorIndex e))).toList) :
    (raise_imlib_error path e : Ruby α) w =
      (.error ⟨.FileError (errorIndex e), snprintf1024 (errorText path (errorIndex e))⟩, w) := by
  have hk : (if e < IMLIB_LOAD_ERROR_NONE ∨ e > IMLIB_LOAD_ERROR_UNKNOWN
      then IMLIB_LOAD_ERROR_UNKNOWN else e).toNat = errorIndex e := by
    unfold errorIndex IMLIB_LOAD_ERROR_NONE IMLIB_LOAD_ERROR_UNKNOWN
    by_cases h : 0 ≤ e ∧ e ≤ 14
    · have : ¬ (e < 0 ∨ e > 14) := by omega
      simp [h, this]
    · have : (e < 0 ∨ e > 14) := by omega
      simp [h, this]
  unfold raise_imlib_error
  simp only [hk]
  unfold errorText at hfmt
  simp only [errorText, hfmt, if_false, Ruby.raise]

theorem raise_imlib_error_directive {α : Type} (path : String) (e : Int) (w : World)
    (hfmt : '%' ∈ (snprintf1024 (errorText path (errorIndex e))).toList) :
    (raise_imlib_error path e : Ruby α) w =
      (.error (undefinedStep "rb_raise with a format directive and no argument"), w) := by
  have hk : (if e < IMLIB_LOAD_ERROR_NONE ∨ e > IMLIB_LOAD_ERROR_UNKNOWN
      then IMLIB_LOAD_ERROR_UNKNOWN else e).toNat = errorIndex e := by
    unfold errorIndex IMLIB_LOAD_ERROR_NONE IMLIB_LOAD_ERROR_UNKNOWN
    by_cases h : 0 ≤ e ∧ e ≤ 14
    · have : ¬ (e < 0 ∨ e > 14) := by omega
      simp [h, this]
    · have : (e < 0 ∨ e > 14) := by omega
      simp [h, this]
  unfold raise_imlib_error
  simp only [hk]
  unfold errorText at hfmt
  simp only [hfmt, if_true, Ruby.raise]

theorem snprintf1024_of_le (t : String) (h : t.length ≤ 1023) : snprintf1024 t = t := by
  unfold snprintf1024
  rw [if_pos h]

theorem snprintf1024_length (t : String) : (snprintf1024 t).length ≤ 1023 := by
  show (snprintf1024 t).toList.length ≤ 1023
  rw [snprintf1024_toList]
  simp

theorem errorText_one (path : String) :
    errorText path 1 = "\"" ++ path ++ "\": File does not exist" := by
  apply String.ext
  simp [errorText, imlib_errors_description]

theorem longPath_not_mentioned (msg : String) (h : msg.length ≤ 1023) :
    ¬ mentions msg longPath := by
  intro hm
  have hl := List.IsInfix.length_le hm
  have h2 : longPath.toList.length = 1100 := List.length_replicate 1100 'a'
  have h3 : msg.toList.length = msg.length := rfl
  omega

theorem longPath_no_directive (k : Nat) (hk : k ≤ 14) :
    '%' ∉ (snprintf1024 (errorText longPath k)).toList := by
  rw [snprintf1024_toList]
  intro h
  have h2 := List.mem_of_mem_take h
  rw [errorText_toList] at h2
  rcases List.mem_cons.1 h2 with h3 | h3
  · exact absurd h3 (by decide)
  · rcases List.mem_append.1 h3 with h4 | h4
    · have h5 : '%' = 'a' := List.eq_of_mem_replicate (n := 1100) h4
      exact absurd h5 (by decide)
    · interval_cases k <;> simp [imlib_errors_description] at h4

theorem short_no_directive : '%' ∉ (snprintf1024 (errorText "a.png" 1)).toList := by
  rw [snprintf1024_toList, errorText_toList]
  simp [imlib_errors_description]

/-- C16 (amended): when the formatted text holds no `%`, `raise_imlib_error`
raises the kind at index `e` for `0 ≤ e ≤ 14` and the UNKNOWN kind (index 14)
for every other code, and its message is the path in double quotes, `": "`
and the description of the kind, cut to the first 1023 bytes: the message is
that whole text when the text has at most 1023 bytes, and it contains the
path whenever the path has at most 1022 bytes. -/
theorem raise_imlib_error_message (path : String) (e : Int) (w : World)
    (hfmt : '%' ∉ (snprintf1024 (errorText path (errorIndex e))).toList) :
    (raise_imlib_error path e : Ruby RValue) w =
      (.error ⟨.FileError (errorIndex e), snprintf1024 (errorText path (errorIndex e))⟩, w) ∧
    ((errorText path (errorIndex e)).length ≤ 1023 →
      snprintf1024 (errorText path (errorIndex e)) = errorText path (errorIndex e)) ∧
    (path.length ≤ 1022 → mentions (snprintf1024 (errorText path (errorIndex e))) path) :=
  ⟨raise_imlib_error_eq path e w hfmt, snprintf1024_of_le _, errorText_mentions path _⟩

/-- C16 (witness): the path `a.png` and the code 1. -/
theorem raise_imlib_error_message_witness :
    '%' ∉ (snprintf1024 (errorText "a.png" (errorIndex 1))).toList ∧
    ((raise_imlib_error "a.png" 1 : Ruby RValue) sampleWorld =
      (.error ⟨.FileError (errorIndex 1), snprintf1024 (errorText "a.png" (errorIndex 1))⟩,
        sampleWorld) ∧
    ((errorText "a.png" (errorIndex 1)).length ≤ 1023 →
      snprintf1024 (errorText "a.png" (errorIndex 1)) = errorText "a.png" (errorIndex 1)) ∧
    ("a.png".length ≤ 1022 →
      mentions (snprintf1024 (errorText "a.png" (errorIndex 1))) "a.png")) :=
  ⟨short_no_directive, raise_imlib_error_message "a.png" 1 sampleWorld short_no_directive⟩

/-- C16 (counterexample): for a path of 1100 bytes and the code 1 the kind at
index 1 is raised with a message that does not contain the path. -/
theorem long_path_is_cut_from_the_message :
    ∃ msg, (raise_imlib_error longPath 1 : Ruby RValue) sampleWorld =
        (.error ⟨.FileError 1, msg⟩, sampleWorld) ∧
      ¬ mentions msg longPath :=
  ⟨_, raise_imlib_error_eq longPath 1 sampleWorld (longPath_no_directive 1 (by decide)),
    longPath_not_mentioned _ (snprintf1024_length _)⟩

/-! ## Loading -/

/-- A call of `raise_imlib_error` skips what follows it. -/
theorem raise_imlib_error_bind {α β : Type} (path : String) (err : Int) (k : α → Ruby β)
    (w : World) :
    ((raise_imlib_error path err : Ruby α) >>= k) w = (raise_imlib_error path err : Ruby β) w := by
  by_cases h : '%' ∈ (snprintf1024 (errorText path (errorIndex err))).toList
  · rw [Ruby.bind_error k (raise_imlib_error_directive path err w h),
      raise_imlib_error_directive path err w h]
  · rw [Ruby.bind_error k (raise_imlib_error_eq path err w h), raise_imlib_error_eq path err w h]

theorem image_load_failed_no_block (path : String) (w : World)
    (herr : (w.engine.answer (w.trace ++ [.imlib_load_image_with_error_return path])).int 0 ≠ 0) :
    image_load none (.str path) w =
      raise_imlib_error path
        ((w.engine.answer (w.trace ++ [.imlib_load_image_with_error_return path])).int 0)
        (w.after [.imlib_load_image_with_error_return path]) := by
  unfold image_load
  rw [Ruby.host_bind]
  simp only [StringValuePtr]
  rw [Ruby.bind_apply]
  simp only [Ruby.ask, IMLIB_LOAD_ERROR_NONE, herr, if_false, rb_block_given_p, Option.isSome,
    Bool.not_false, if_true]
  exact raise_imlib_error_bind path _ _ _

/-- With a block, a failed load raises nothing, does not run the block and
returns `nil`. -/
theorem image_load_failed_block (path : String) (blk : RValue → Ruby RValue) (w : World)
    (herr : (w.engine.answer (w.trace ++ [.imlib_load_image_with_error_return path])).int 0 ≠ 0) :
    image_load (some blk) (.str path) w =
      (.ok .nil, w.after [.imlib_load_image_with_error_return path]) := by
  simp [image_load, StringValuePtr, Ruby.bind_apply, Ruby.host, Ruby.ask, IMLIB_LOAD_ERROR_NONE,
    herr, World.after, Ruby.pure_apply, rb_block_given_p]

/-- A load the engine reports no error for returns a new wrapper bound to the
image the engine handed back. -/
theorem image_load_ok_no_block (path : String) (w : World)
    (herr : (w.engine.answer (w.trace ++ [.imlib_load_image_with_error_return path])).int 0 = 0) :
    image_load none (.str path) w =
      (.ok (.image w.heap.length),
        { w with
          heap := w.heap ++
            [⟨(w.engine.answer (w.trace ++ [.imlib_load_image_with_error_return path])).handle⟩],
          trace := w.trace ++ [.imlib_load_image_with_error_return path] }) := by
  simp [image_load, StringValuePtr, Ruby.bind_apply, Ruby.host, Ruby.ask, IMLIB_LOAD_ERROR_NONE,
    herr, World.after, Ruby.pure_apply, Ruby.wrapIm, rb_block_given_p, rb_yield]

/-- With a block, a load the engine reports no error for yields the new
wrapper to the block and returns the wrapper once the block has returned. -/
theorem image_load_ok_block (path : String) (blk : RValue → Ruby RValue) (w : World)
    (herr : (w.engine.answer (w.trace ++ [.imlib_load_image_with_error_return path])).int 0 = 0) :
    image_load (some blk) (.str path) w =
      (blk (.image w.heap.length) >>= fun _ => pure (.image w.heap.length))
        { w with
          heap := w.heap ++
            [⟨(w.engine.answer (w.trace ++ [.imlib_load_image_with_error_return path])).handle⟩],
          trace := w.trace ++ [.imlib_load_image_with_error_return path] } := by
  simp [image_load, StringValuePtr, Ruby.bind_apply, Ruby.host, Ruby.ask, IMLIB_LOAD_ERROR_NONE,
    herr, World.after, Ruby.pure_apply, Ruby.wrapIm, rb_block_given_p, rb_yield]

theorem image_load_with_error_return_eq (path : String) (w : World) :
    image_load_with_error_return (.str path) w =
      (.ok (.hash [(.str "image", .image w.heap.length),
          (.str "error", .fixnum
            ((w.engine.answer (w.trace ++ [.imlib_load_image_with_error_return path])).int 0))]),
        { w with
          heap := w.heap ++
            [⟨(w.engine.answer (w.trace ++ [.imlib_load_image_with_error_return path])).handle⟩],
          trace := w.trace ++ [.imlib_load_image_with_error_return path] }) := by
  simp [image_load_with_error_return, StringValuePtr, Ruby.bind_apply, Ruby.host, Ruby.ask,
    Ruby.pure_apply, Ruby.wrapIm]

/-- C17 (amended): when the engine reports the code 1, FILE_DOES_NOT_EXIST,
for a path whose formatted text holds no `%`, `Image.load(path)` without a
block raises the kind at index 1 with the message `"path": File does not
exist` cut to its first 1023 bytes, which contains the path whenever the path
has at most 1022 bytes; `Image.load_with_error_return(path)` raises nothing
and returns a hash whose `"error"` entry is 1. -/
theorem load_of_missing_file (path : String) (w : World)
    (herr : (w.engine.answer (w.trace ++ [.imlib_load_image_with_error_return path])).int 0 = 1)
    (hfmt : '%' ∉ (snprintf1024 (errorText path 1)).toList) :
    image_load none (.str path) w =
      (.error ⟨.FileError 1, snprintf1024 (errorText path 1)⟩,
        w.after [.imlib_load_image_with_error_return path]) ∧
    imlib_errors_name.getD 1 "" = "FILE_DOES_NOT_EXIST" ∧
    ((errorText path 1).length ≤ 1023 →
      snprintf1024 (errorText path 1) = "\"" ++ path ++ "\": File does not exist") ∧
    (path.length ≤ 1022 → mentions (snprintf1024 (errorText path 1)) path) ∧
    (∃ w1, image_load_with_error_return (.str path) w =
      (.ok (.hash [(.str "image", .image w.heap.length), (.str "error", .fixnum 1)]), w1)) := by
  refine ⟨?_, rfl, fun h => by rw [snprintf1024_of_le _ h, errorText_one],
    errorText_mentions path 1, ?_⟩
  · rw [image_load_failed_no_block path w (by rw [herr]; decide), herr]
    exact raise_imlib_error_eq path 1 _ hfmt
  · rw [image_load_with_error_return_eq, herr]
    exact ⟨_, rfl⟩

/-- C17 (witness): the path `a.png`, with an engine that reports the code 1. -/
theorem load_of_missing_file_witness :
    ((failingWorld 1).engine.answer
      ((failingWorld 1).trace ++ [.imlib_load_image_with_error_return "a.png"])).int 0 = 1 ∧
    '%' ∉ (snprintf1024 (errorText "a.png" 1)).toList ∧
    (image_load none (.str "a.png") (failingWorld 1) =
      (.error ⟨.FileError 1, snprintf1024 (errorText "a.png" 1)⟩,
        (failingWorld 1).after [.imlib_load_image_with_error_return "a.png"]) ∧
    imlib_errors_name.getD 1 "" = "FILE_DOES_NOT_EXIST" ∧
    ((errorText "a.png" 1).length ≤ 1023 →
      snprintf1024 (errorText "a.png" 1) = "\"" ++ "a.png" ++ "\": File does not exist") ∧
    ("a.png".length ≤ 1022 → mentions (snprintf1024 (errorText "a.png" 1)) "a.png") ∧
    (∃ w1, image_load_with_error_return (.str "a.png") (failingWorld 1) =
      (.ok (.hash [(.str "image", .image (failingWorld 1).heap.length),
        (.str "error", .fixnum 1)]), w1))) :=
  ⟨rfl, short_no_directive, load_of_missing_file "a.png" (failingWorld 1) rfl short_no_directive⟩

/-- C17 (counterexample): the engine reports the code 1 for a path of 1100
bytes; `Image.load` without a block raises the kind at index 1 with a message
that does not contain the path. -/
theorem missing_long_path_is_not_in_the_message :
    ((failingWorld 1).engine.answer
      ((failingWorld 1).trace ++ [.imlib_load_image_with_error_return longPath])).int 0 = 1 ∧
    ∃ msg, image_load none (.str longPath) (failingWorld 1) =
        (.error ⟨.FileError 1, msg⟩,
          (failingWorld 1).after [.imlib_load_image_with_error_return longPath]) ∧
      ¬ mentions msg longPath := by
  refine ⟨rfl, _, ?_, longPath_not_mentioned _ (snprintf1024_length (errorText longPath 1))⟩
  rw [image_load_failed_no_block longPath (failingWorld 1) (by decide)]
  exact raise_imlib_error_eq longPath 1 _ (longPath_no_directive 1 (by decide))

/-- C18 (the code at the failing input): the engine reports the code 1 for
the path `%s.png` and no block is given; `raise_imlib_error` hands the text
`"%s.png": File does not exist` to `rb_raise` as its format string, with no
argument for the directive `%s`, so the call does not end with a file error
raised as written. -/
theorem load_with_directive_in_path_is_undefined :
    image_load none (.str "%s.png") (failingWorld 1) =
      (.error (undefinedStep "rb_raise with a format directive and no argument"),
        (failingWorld 1).after [.imlib_load_image_with_error_return "%s.png"]) := by
  rw [image_load_failed_no_block "%s.png" (failingWorld 1) (by decide)]
  exact raise_imlib_error_directive "%s.png" 1 _ (by
    rw [snprintf1024_toList, errorText_toList]
    simp)

/-- Each of the four loaders, called with a String, makes its one engine call
and wraps what the engine hands back. -/
theorem Loader.run_string (l : Loader) (path : String) (w : World) :
    l.run (.str path) w =
      (.ok (.image w.heap.length),
        { w with
          heap := w.heap ++ [⟨(w.engine.answer (w.trace ++ [l.call path])).handle⟩],
          trace := w.trace ++ [l.call path] }) := by
  cases l <;>
    simp [Loader.run, Loader.call, image_load_image, image_load_immediately,
      image_load_without_cache, image_load_immediately_without_cache, StringValuePtr,
      Ruby.bind_apply, Ruby.host, Ruby.ask, Ruby.wrapIm]

/-- C19 (amended): for every path, `load_image`, `load_immediately`,
`load_without_cache` and `load_immediately_without_cache` make one engine call
and return a new wrapper without raising; when the engine handed back no
image, every Image method called on that wrapper makes no engine call,
rebinds no wrapper and raises: for every method other than `filter` it raises
the exception of the steps the method takes before its liveness check when
such a step fails, and DeletedError otherwise. -/
theorem silent_loaders_never_raise (l : Loader) (path : String) (w : World) :
    l.run (.str path) w =
      (.ok (.image w.heap.length),
        { w with
          heap := w.heap ++ [⟨(w.engine.answer (w.trace ++ [l.call path])).handle⟩],
          trace := w.trace ++ [l.call path] }) ∧
    ((w.engine.answer (w.trace ++ [l.call path])).handle = 0 →
      ∀ op : ImageOp,
        (op.run (.image w.heap.length) (l.run (.str path) w).2).2 = (l.run (.str path) w).2 ∧
        (∃ e, (op.run (.image w.heap.length) (l.run (.str path) w).2).1 = .error e) ∧
        (op.isFilter = false →
          (op.run (.image w.heap.length) (l.run (.str path) w).2).1 =
            .error (deletedOutcome (op.prelude (l.run (.str path) w).2)))) := by
  refine ⟨Loader.run_string l path w, fun h0 op => ?_⟩
  have h : (l.run (.str path) w).2.deleted w.heap.length := by
    rw [Loader.run_string, h0]
    simp [World.deleted]
  generalize (l.run (.str path) w).2 = w1 at h ⊢
  by_cases hf : op.isFilter = false
  · rw [ImageOp.run_deleted op hf h]
    exact ⟨rfl, ⟨_, rfl⟩, fun _ => rfl⟩
  · cases op <;> simp [ImageOp.isFilter] at hf
    rename_i val
    simp only [ImageOp.run, ImageOp.isFilter]
    rw [image_filter_deleted val w.heap.length w1]
    exact ⟨rfl, ⟨_, rfl⟩, fun hc => by simp at hc⟩

/-- C19 (witness): `load_image` with an engine that hands back no image, then
`width` on the wrapper. -/
theorem silent_loaders_never_raise_witness :
    ((failingWorld 0).engine.answer
      ((failingWorld 0).trace ++ [Loader.load_image.call "a.png"])).handle = 0 ∧
    Loader.load_image.run (.str "a.png") (failingWorld 0) =
      (.ok (.image 1),
        { failingWorld 0 with heap := [⟨7⟩, ⟨0⟩], trace := [.imlib_load_image "a.png"] }) ∧
    (ImageOp.width.run (.image 1) (Loader.load_image.run (.str "a.png") (failingWorld 0)).2).2 =
      (Loader.load_image.run (.str "a.png") (failingWorld 0)).2 ∧
    (ImageOp.width.run (.image 1) (Loader.load_image.run (.str "a.png") (failingWorld 0)).2).1 =
      .error (deletedError "image deleted") :=
  ⟨rfl, (silent_loaders_never_raise .load_image "a.png" (failingWorld 0)).1,
    ((silent_loaders_never_raise .load_image "a.png" (failingWorld 0)).2 rfl .width).1,
    ((silent_loaders_never_raise .load_image "a.png" (failingWorld 0)).2 rfl .width).2.2 rfl⟩

/-- C19 (counterexample): `load_image` with an engine that hands back no
image returns a wrapper on which `crop` without arguments raises TypeError,
not DeletedError. -/
theorem load_image_failed_then_crop_raises_type_error :
    Loader.load_image.run (.str "a.png") (failingWorld 0) =
      (.ok (.image 1),
        { failingWorld 0 with heap := [⟨7⟩, ⟨0⟩], trace := [.imlib_load_image "a.png"] }) ∧
    ((ImageOp.crop []).run (.image 1)
        (Loader.load_image.run (.str "a.png") (failingWorld 0)).2).1 =
      .error ⟨.TypeError, "Invalid argument count (not 1 or 4)"⟩ :=
  ⟨rfl, rfl⟩

/-- C20 (the code at the failing input): `load_with_error_return` puts the
code the engine reports into the hash as it is, whatever the code, 15 or any
other value outside `0..14` included; `save_with_error_return` turns the code
15 into 14. -/
theorem load_with_error_return_does_not_coerce (e : Int) (path : String) :
    image_load_with_error_return (.str path) (failingWorld e) =
      (.ok (.hash [(.str "image", .image 1), (.str "error", .fixnum e)]),
        { failingWorld e with
          heap := [⟨7⟩, ⟨0⟩], trace := [.imlib_load_image_with_error_return path] }) ∧
    image_save_with_error_return (.image 0) (.str path) (failingWorld 15) =
      (.ok (.fixnum 14), (failingWorld 15).after
        [.imlib_context_set_image 7, .imlib_save_image_with_error_return path]) :=
  ⟨rfl, rfl⟩

/-! ## Saving -/

theorem errorIndex_clamp (e : Int) :
    errorIndex (if e > IMLIB_LOAD_ERROR_UNKNOWN then IMLIB_LOAD_ERROR_UNKNOWN else e) =
      errorIndex e := by
  unfold errorIndex IMLIB_LOAD_ERROR_UNKNOWN
  by_cases h : e > 14
  · have h2 : ¬ (0 ≤ e ∧ e ≤ 14) := by omega
    simp [h, h2]
  · simp [h]

/-- On a live image, `save` returns its receiver when the engine reports no error
and otherwise ends as `raise_imlib_error` does for the code, cut to `UNKNOWN`. -/
theorem image_save_run (path : String) (i im : Nat) (w : World) (hlive : w.live i im) :
    image_save (.image i) (.str path) w =
      if saveCode w im path = 0 then
        (.ok (.image i),
          w.after [.imlib_context_set_image im, .imlib_save_image_with_error_return path])
      else
        raise_imlib_error path
          (if saveCode w im path > IMLIB_LOAD_ERROR_UNKNOWN then IMLIB_LOAD_ERROR_UNKNOWN
            else saveCode w im path)
          (w.after [.imlib_context_set_image im, .imlib_save_image_with_error_return path]) := by
  obtain ⟨h1, h2⟩ := hlive
  by_cases hc : saveCode w im path = 0
  · rw [if_pos hc]
    unfold saveCode at hc
    simp [image_save, StringValuePtr, Ruby.bind_apply, Ruby.host, GET_AND_CHECK_IMAGE,
      Ruby.readIm, h1, h2, Ruby.call, Ruby.ask, Ruby.pure_apply, World.after,
      IMLIB_LOAD_ERROR_NONE, hc]
  · rw [if_neg hc]
    unfold saveCode at hc ⊢
    simp [image_save, StringValuePtr, Ruby.bind_apply, Ruby.host, GET_AND_CHECK_IMAGE,
      Ruby.readIm, h1, h2, Ruby.call, Ruby.ask, Ruby.pure_apply, World.after,
      IMLIB_LOAD_ERROR_NONE, hc]

/-- C21 (amended): on a live image and for every path whose formatted message
holds no `%`: `save` returns the same wrapper when the engine reports no error,
and otherwise raises the file-error kind of the reported code (the UNKNOWN kind
for a code outside `0..14`) with the message `"path": description` cut to its
first 1023 bytes, which contains the path whenever the path has at most 1022
bytes; `save_image` raises nothing and returns the same wrapper;
`save_with_error_return` raises nothing and returns the reported code, 14 for
a code above 14. -/
theorem save_entry_points (path : String) (i im : Nat) (w : World) (hlive : w.live i im)
    (hfmt : '%' ∉ (snprintf1024 (errorText path (errorIndex (saveCode w im path)))).toList) :
    (saveCode w im path = 0 →
      image_save (.image i) (.str path) w =
        (.ok (.image i),
          w.after [.imlib_context_set_image im, .imlib_save_image_with_error_return path])) ∧
    (saveCode w im path ≠ 0 →
      image_save (.image i) (.str path) w =
        (.error ⟨.FileError (errorIndex (saveCode w im path)),
            snprintf1024 (errorText path (errorIndex (saveCode w im path)))⟩,
          w.after [.imlib_context_set_image im, .imlib_save_image_with_error_return path])) ∧
    (path.length ≤ 1022 →
      mentions (snprintf1024 (errorText path (errorIndex (saveCode w im path)))) path) ∧
    image_save_image (.image i) (.str path) w =
      (.ok (.image i), w.after [.imlib_context_set_image im, .imlib_save_image path]) ∧
    image_save_with_error_return (.image i) (.str path) w =
      (.ok (.fixnum (if saveCode w im path > 14 then 14 else saveCode w im path)),
        w.after [.imlib_context_set_image im, .imlib_save_image_with_error_return path]) := by
  refine ⟨fun hc => ?_, fun hc => ?_, errorText_mentions path _, ?_, ?_⟩
  · rw [image_save_run path i im w hlive, if_pos hc]
  · rw [image_save_run path i im w hlive, if_neg hc]
    have h := raise_imlib_error_eq (α := RValue) path
      (if saveCode w im path > IMLIB_LOAD_ERROR_UNKNOWN then IMLIB_LOAD_ERROR_UNKNOWN
        else saveCode w im path)
      (w.after [.imlib_context_set_image im, .imlib_save_image_with_error_return path])
    rw [errorIndex_clamp] at h
    exact h hfmt
  · obtain ⟨h1, h2⟩ := hlive
    simp [image_save_image, StringValuePtr, Ruby.bind_apply, Ruby.host, GET_AND_CHECK_IMAGE,
      Ruby.readIm, h1, h2, Ruby.call, Ruby.pure_apply, World.after]
  · obtain ⟨h1, h2⟩ := hlive
    unfold saveCode
    simp [image_save_with_error_return, StringValuePtr, Ruby.bind_apply, Ruby.host,
      GET_AND_CHECK_IMAGE, Ruby.readIm, h1, h2, Ruby.call, Ruby.ask, Ruby.pure_apply,
      World.after, IMLIB_LOAD_ERROR_UNKNOWN]

/-- C21 (witness): `save` and `save_image` of the path `a.png` on a live image,
with an engine that reports the code 1. -/
theorem save_entry_points_witness :
    (failingWorld 1).live 0 7 ∧
    '%' ∉ (snprintf1024 (errorText "a.png"
      (errorIndex (saveCode (failingWorld 1) 7 "a.png")))).toList ∧
    saveCode (failingWorld 1) 7 "a.png" ≠ 0 ∧
    image_save (.image 0) (.str "a.png") (failingWorld 1) =
      (.error ⟨.FileError (errorIndex (saveCode (failingWorld 1) 7 "a.png")),
          snprintf1024 (errorText "a.png" (errorIndex (saveCode (failingWorld 1) 7 "a.png")))⟩,
        (failingWorld 1).after
          [.imlib_context_set_image 7, .imlib_save_image_with_error_return "a.png"]) ∧
    image_save_image (.image 0) (.str "a.png") (failingWorld 1) =
      (.ok (.image 0),
        (failingWorld 1).after [.imlib_context_set_image 7, .imlib_save_image "a.png"]) :=
  ⟨⟨rfl, by decide⟩, short_no_directive, by decide,
    (save_entry_points "a.png" 0 7 (failingWorld 1) ⟨rfl, by decide⟩ short_no_directive).2.1
      (by decide),
    (save_entry_points "a.png" 0 7 (failingWorld 1) ⟨rfl, by decide⟩
      short_no_directive).2.2.2.1⟩

/-- C21 (counterexample): the engine reports the code 1 when a live image is
saved to a path of 1100 bytes; `save` raises the kind at index 1 with a message
that does not contain the path. -/
theorem save_long_path_is_not_in_the_message :
    (failingWorld 1).live 0 7 ∧
    saveCode (failingWorld 1) 7 longPath = 1 ∧
    ∃ msg, image_save (.image 0) (.str longPath) (failingWorld 1) =
        (.error ⟨.FileError 1, msg⟩,
          (failingWorld 1).after
            [.imlib_context_set_image 7, .imlib_save_image_with_error_return longPath]) ∧
      ¬ mentions msg longPath := by
  refine ⟨⟨rfl, by decide⟩, rfl, _, ?_,
    longPath_not_mentioned _ (snprintf1024_length (errorText longPath 1))⟩
  rw [image_save_run longPath 0 7 (failingWorld 1) ⟨rfl, by decide⟩, if_neg (by decide)]
  exact raise_imlib_error_eq longPath 1 _ (longPath_no_directive 1 (by decide))

/-! ## Copy-style and in-place transforms -/

theorem Transform.copy_run (t : Transform) (val : RValue) (n : Int) (i im : Nat) (w : World)
    (hlive : w.live i im) (hval : t.takesArg = true → NUM2INT val = .ok n) :
    (t.copy val).run (.image i) w =
      (.ok (.image w.heap.length),
        { w with
          heap := w.heap ++ [⟨(w.engine.answer
            (w.trace ++ [.imlib_context_set_image im, .imlib_clone_image])).handle⟩],
          trace := w.trace ++ [.imlib_context_set_image im, .imlib_clone_image,
            .imlib_context_set_image (w.engine.answer
              (w.trace ++ [.imlib_context_set_image im, .imlib_clone_image])).handle,
            t.primitive n] }) := by
  obtain ⟨h1, h2⟩ := hlive
  cases t <;>
    first
    | (simp [Transform.copy, Transform.primitive, ImageOp.run, image_flip_horizontal,
        image_flip_vertical, image_flip_diagonal, image_tile_horizontal, image_tile_vertical,
        image_tile, Ruby.bind_apply, Ruby.host, GET_AND_CHECK_IMAGE, Ruby.readIm, h1, h2,
        Ruby.call, Ruby.ask, Ruby.wrapIm, Ruby.pure_apply]
       done)
    | (have hv := hval rfl
       simp [Transform.copy, Transform.primitive, ImageOp.run, image_orientate, image_blur,
        image_sharpen, hv, Ruby.bind_apply, Ruby.host, GET_AND_CHECK_IMAGE, Ruby.readIm, h1, h2,
        Ruby.call, Ruby.ask, Ruby.wrapIm, Ruby.pure_apply])

theorem Transform.inline_run (t : Transform) (val : RValue) (n : Int) (i im : Nat) (w : World)
    (hlive : w.live i im) (hval : t.takesArg = true → NUM2INT val = .ok n) :
    (t.inline val).run (.image i) w =
      (.ok (.image i), w.after [.imlib_context_set_image im, t.primitive n]) := by
  obtain ⟨h1, h2⟩ := hlive
  cases t <;>
    first
    | (simp [Transform.inline, Transform.primitive, ImageOp.run, image_flip_horizontal_inline,
        image_flip_vertical_inline, image_flip_diagonal_inline, image_tile_horizontal_inline,
        image_tile_vertical_inline, image_tile_inline, Ruby.bind_apply, Ruby.host,
        GET_AND_CHECK_IMAGE, Ruby.readIm, h1, h2, Ruby.call, Ruby.pure_apply, World.after]
       done)
    | (have hv := hval rfl
       simp [Transform.inline, Transform.primitive, ImageOp.run, image_orientate_inline,
        image_blur_inline, image_sharpen_inline, hv, Ruby.bind_apply, Ruby.host,
        GET_AND_CHECK_IMAGE, Ruby.readIm, h1, h2, Ruby.call, Ruby.pure_apply, World.after])

/-- C22: for each of the nine transforms on a live image, given an integer
argument where the transform takes one: the copy-style method makes the engine
calls set-image(target), clone, set-image(clone) and the primitive, once, and
returns a new wrapper bound to the clone, while the target wrapper stays bound
to its resource; the in-place method makes the calls set-image(target) and the
same primitive, once, and returns the same wrapper. -/
theorem copy_and_in_place_transforms (t : Transform) (val : RValue) (n : Int) (i im : Nat)
    (w : World) (hlive : w.live i im) (hval : t.takesArg = true → NUM2INT val = .ok n) :
    (t.copy val).run (.image i) w =
      (.ok (.image w.heap.length),
        { w with
          heap := w.heap ++ [⟨(w.engine.answer
            (w.trace ++ [.imlib_context_set_image im, .imlib_clone_image])).handle⟩],
          trace := w.trace ++ [.imlib_context_set_image im, .imlib_clone_image,
            .imlib_context_set_image (w.engine.answer
              (w.trace ++ [.imlib_context_set_image im, .imlib_clone_image])).handle,
            t.primitive n] }) ∧
    ((t.copy val).run (.image i) w).2.live i im ∧
    (t.inline val).run (.image i) w =
      (.ok (.image i), w.after [.imlib_context_set_image im, t.primitive n]) := by
  refine ⟨Transform.copy_run t val n i im w hlive hval, ?_,
    Transform.inline_run t val n i im w hlive hval⟩
  rw [Transform.copy_run t val n i im w hlive hval]
  obtain ⟨h1, h2⟩ := hlive
  have hi : i < w.heap.length := by
    rcases Nat.lt_or_ge i w.heap.length with hlt | hge
    · exact hlt
    · rw [List.getElem?_eq_none hge] at h1
      simp at h1
  exact ⟨by simp [List.getElem?_append_left hi, h1], h2⟩

/-- C22 (witness): `blur(3)` and `blur!(3)` on the live image of the sample
world. -/
theorem copy_and_in_place_transforms_witness :
    sampleWorld.live 0 7 ∧
    (Transform.blur.takesArg = true → NUM2INT (.fixnum 3) = .ok 3) ∧
    ((Transform.blur.copy (.fixnum 3)).run (.image 0) sampleWorld =
      (.ok (.image 3),
        { sampleWorld with
          heap := [⟨7⟩, ⟨0⟩, ⟨9⟩, ⟨102⟩],
          trace := [.imlib_context_set_image 7, .imlib_clone_image,
            .imlib_context_set_image 102, .imlib_image_blur 3] }) ∧
    ((Transform.blur.copy (.fixnum 3)).run (.image 0) sampleWorld).2.live 0 7 ∧
    (Transform.blur.inline (.fixnum 3)).run (.image 0) sampleWorld =
      (.ok (.image 0), sampleWorld.after [.imlib_context_set_image 7, .imlib_image_blur 3])) :=
  ⟨⟨rfl, by decide⟩, fun _ => rfl,
    copy_and_in_place_transforms .blur (.fixnum 3) 3 0 7 sampleWorld ⟨rfl, by decide⟩
      (fun _ => rfl)⟩

/-! ## Ownership of engine images -/

/-- C23 (the code at the failing input): with an engine that hands back the
image of the active context, `ctx.image = img` followed by `ctx.image` returns
a new wrapper, at address 1, bound to the engine image 7 that the wrapper
`img`, at address 0, is bound to; the finalizer of each of the two wrappers
then frees the image 7. -/
theorem context_image_aliases_the_wrapper (c : Nat) :
    ctx_set_image (.context c) (.image 0) aliasWorld =
      (.ok (.context c), aliasWorld.after
        [.imlib_context_push c, .imlib_context_set_image 7, .imlib_context_pop]) ∧
    ctx_image (.context c) (ctx_set_image (.context c) (.image 0) aliasWorld).2 =
      (.ok (.image 1),
        { aliasWorld with
          heap := [⟨7⟩, ⟨7⟩],
          trace := [.imlib_context_push c, .imlib_context_set_image 7, .imlib_context_pop,
            .imlib_context_push c, .imlib_context_get_image, .imlib_context_pop] }) ∧
    (im_struct_free 0 >>= fun _ => im_struct_free 1)
        (ctx_image (.context c) (ctx_set_image (.context c) (.image 0) aliasWorld).2).2 =
      (.ok (),
        { aliasWorld with
          heap := [⟨7⟩, ⟨7⟩],
          trace := [.imlib_context_push c, .imlib_context_set_image 7, .imlib_context_pop,
            .imlib_context_push c, .imlib_context_get_image, .imlib_context_pop,
            .imlib_context_set_image 7, .imlib_free_image,
            .imlib_context_set_image 7, .imlib_free_image] }) := by
  have h1 : ctx_set_image (.context c) (.image 0) aliasWorld =
      (.ok (.context c), aliasWorld.after
        [.imlib_context_push c, .imlib_context_set_image 7, .imlib_context_pop]) := rfl
  have h2 : ctx_image (.context c) (aliasWorld.after
        [.imlib_context_push c, .imlib_context_set_image 7, .imlib_context_pop]) =
      (.ok (.image 1),
        { aliasWorld with
          heap := [⟨7⟩, ⟨7⟩],
          trace := [.imlib_context_push c, .imlib_context_set_image 7, .imlib_context_pop,
            .imlib_context_push c, .imlib_context_get_image, .imlib_context_pop] }) := by
    simp [ctx_image, getContext, Ruby.bind_apply, Ruby.host, Ruby.call, Ruby.ask, Ruby.wrapIm,
      Ruby.pure_apply, World.after, aliasWorld, imageEngine, EngineState.after,
      EngineState.step, EngineState.set, EngineState.current, sampleStack]
  refine ⟨h1, ?_, ?_⟩
  · rw [h1, h2]
  · rw [h1, h2]
    rfl

/-! ## The release call of `delete!` -/

/-- The test of `image_delete` picks the release call of `releaseCall`. -/
theorem releaseCall_eq (argv : List RValue) :
    (if argv.length > 0 && notNil (argv.getD 0 .nil) && notFalse (argv.getD 0 .nil)
      then EngineCall.imlib_free_image_and_decache else EngineCall.imlib_free_image) =
    releaseCall argv := by
  cases argv with
  | nil => rfl
  | cons a rest => cases a <;> simp [releaseCall, notNil, notFalse]

/-- C24: `delete!` on a live image makes the engine calls
`imlib_context_set_image` with the image's resource and then exactly one
release call, `imlib_free_image_and_decache` when an argument is supplied and
it is neither `nil` nor `false` and `imlib_free_image` otherwise; it clears
the resource pointer of the wrapper and returns `nil`. -/
theorem delete_releases_once (argv : List RValue) (i im : Nat) (w : World)
    (hlive : w.live i im) :
    image_delete argv (.image i) w =
      (.ok .nil, { w.after [.imlib_context_set_image im, releaseCall argv] with
        heap := w.heap.set i ⟨0⟩ }) ∧
    (image_delete argv (.image i) w).2.deleted i := by
  have h := image_delete_live argv i im w hlive
  rw [releaseCall_eq] at h
  refine ⟨h, ?_⟩
  rw [h]
  obtain ⟨h1, _⟩ := hlive
  have hi : i < w.heap.length := by
    rcases Nat.lt_or_ge i w.heap.length with hlt | hge
    · exact hlt
    · rw [List.getElem?_eq_none hge] at h1
      simp at h1
  simp [World.deleted, World.after, hi]

/-- C24 (witness): `delete!(true)` on the live image of the sample world. -/
theorem delete_releases_once_witness :
    sampleWorld.live 0 7 ∧
    (image_delete [.rtrue] (.image 0) sampleWorld =
      (.ok .nil, { sampleWorld.after [.imlib_context_set_image 7, releaseCall [.rtrue]] with
        heap := sampleWorld.heap.set 0 ⟨0⟩ }) ∧
    (image_delete [.rtrue] (.image 0) sampleWorld).2.deleted 0) :=
  ⟨⟨rfl, by decide⟩, delete_releases_once [.rtrue] 0 7 sampleWorld ⟨rfl, by decide⟩⟩

/-! ## The forms of `scroll_rect`, `copy_rect` and `copy_alpha_rect` -/

theorem image_scroll_rect_resolved (argv : List RValue) (i im : Nat) (w : World)
    (x y w_ h dx dy : Int) (hargs : image_scroll_rect_args argv = .ok (x, y, w_, h, dx, dy))
    (hlive : w.live i im) :
    image_scroll_rect argv (.image i) w = (.ok (.image i),
      w.after [.imlib_context_set_image im, .imlib_image_scroll_rect x y w_ h dx dy]) := by
  obtain ⟨h1, h2⟩ := hlive
  simp [image_scroll_rect, hargs, Ruby.bind_apply, Ruby.host, GET_AND_CHECK_IMAGE, Ruby.readIm,
    h1, h2, Ruby.call, Ruby.pure_apply, World.after]

theorem image_copy_rect_resolved (argv : List RValue) (i im : Nat) (w : World)
    (x y w_ h dx dy : Int) (hargs : image_copy_rect_args argv = .ok (x, y, w_, h, dx, dy))
    (hlive : w.live i im) :
    image_copy_rect argv (.image i) w = (.ok (.image i),
      w.after [.imlib_context_set_image im, .imlib_image_copy_rect x y w_ h dx dy]) := by
  obtain ⟨h1, h2⟩ := hlive
  simp [image_copy_rect, hargs, Ruby.bind_apply, Ruby.host, GET_AND_CHECK_IMAGE, Ruby.readIm,
    h1, h2, Ruby.call, Ruby.pure_apply, World.after]

/-- Every form of `rectMoveForms` resolves to the six values it was built
from, in `scroll_rect` and in `copy_rect`. -/
theorem rectMoveForms_resolve (x y w h dx dy : Int) (argv : List RValue)
    (hmem : argv ∈ rectMoveForms x y w h dx dy) :
    image_scroll_rect_args argv = .ok (x, y, w, h, dx, dy) ∧
    image_copy_rect_args argv = .ok (x, y, w, h, dx, dy) := by
  simp only [rectMoveForms, List.mem_cons, List.mem_singleton, List.not_mem_nil, or_false] at hmem
  repeat' (rcases hmem with rfl | hmem)
  all_goals exact ⟨rfl, rfl⟩

/-- C25: for all integers `x`, `y`, `w`, `h`, `dx`, `dy` and on a live image,
every accepted form of `scroll_rect` and of `copy_rect` (the seven forms, each
composite as an array or as a hash keyed by its field names) passes the same
six values to `imlib_image_scroll_rect` and to `imlib_image_copy_rect`, after
making the image the active one, and returns the image. -/
theorem rect_move_forms_agree (x y w_ h dx dy : Int) (i im : Nat) (w : World)
    (hlive : w.live i im) :
    ∀ argv ∈ rectMoveForms x y w_ h dx dy,
      image_scroll_rect argv (.image i) w = (.ok (.image i),
        w.after [.imlib_context_set_image im, .imlib_image_scroll_rect x y w_ h dx dy]) ∧
      image_copy_rect argv (.image i) w = (.ok (.image i),
        w.after [.imlib_context_set_image im, .imlib_image_copy_rect x y w_ h dx dy]) :=
  fun argv hmem =>
    ⟨image_scroll_rect_resolved argv i im w x y w_ h dx dy
      (rectMoveForms_resolve x y w_ h dx dy argv hmem).1 hlive,
     image_copy_rect_resolved argv i im w x y w_ h dx dy
      (rectMoveForms_resolve x y w_ h dx dy argv hmem).2 hlive⟩

/-- C25 (witness): the form `({x, y}, [w, h], {dx, dy})` of (1, 2, 3, 4, 5, 6)
on the live image of the sample world. -/
theorem rect_move_forms_agree_witness :
    sampleWorld.live 0 7 ∧
    [xyHash 1 2, pairArray 3 4, dxdyHash 5 6] ∈ rectMoveForms 1 2 3 4 5 6 ∧
    (image_scroll_rect [xyHash 1 2, pairArray 3 4, dxdyHash 5 6] (.image 0) sampleWorld =
      (.ok (.image 0),
        sampleWorld.after [.imlib_context_set_image 7, .imlib_image_scroll_rect 1 2 3 4 5 6]) ∧
    image_copy_rect [xyHash 1 2, pairArray 3 4, dxdyHash 5 6] (.image 0) sampleWorld =
      (.ok (.image 0),
        sampleWorld.after [.imlib_context_set_image 7, .imlib_image_copy_rect 1 2 3 4 5 6])) :=
  ⟨⟨rfl, by decide⟩, by simp [rectMoveForms],
    rect_move_forms_agree 1 2 3 4 5 6 0 7 sampleWorld ⟨rfl, by decide⟩ _ (by simp [rectMoveForms])⟩

/-- C26 (the code at the failing inputs): `copy_alpha_rect(src, [x, y, w, h],
[dx, dy])` passes (x, y, w, h, x, y), since the destination is read from the
rectangle argument; `copy_alpha_rect(src, x, y, w, h, [dx, dy])` passes
(x, y, w, h, 0, 0), since the destination is never read; and
`copy_alpha_rect(src, [x, y, w, h], dx, dy)` reads `w` and `h` of an array
with `rb_hash_aref`.  The other four forms pass (x, y, w, h, dx, dy). -/
theorem copy_alpha_rect_forms_disagree (x y w h dx dy : Int) (src : RValue) :
    image_copy_alpha_rect_args [src, xywhArray x y w h, pairArray dx dy] =
      .ok (x, y, w, h, x, y) ∧
    image_copy_alpha_rect_args
      [src, .fixnum x, .fixnum y, .fixnum w, .fixnum h, pairArray dx dy] =
      .ok (x, y, w, h, 0, 0) ∧
    image_copy_alpha_rect_args [src, xywhArray x y w h, .fixnum dx, .fixnum dy] =
      .error (undefinedStep "rb_hash_aref on a value that is not a Hash") ∧
    image_copy_alpha_rect_args
      [src, .fixnum x, .fixnum y, .fixnum w, .fixnum h, .fixnum dx, .fixnum dy] =
      .ok (x, y, w, h, dx, dy) ∧
    image_copy_alpha_rect_args [src, sixArray x y w h dx dy] = .ok (x, y, w, h, dx, dy) ∧
    image_copy_alpha_rect_args [src, pairArray x y, pairArray w h, pairArray dx dy] =
      .ok (x, y, w, h, dx, dy) ∧
    image_copy_alpha_rect_args [src, pairArray x y, pairArray w h, .fixnum dx, .fixnum dy] =
      .ok (x, y, w, h, dx, dy) ∧
    image_copy_alpha_rect [.image 2, xywhArray 1 2 3 4, pairArray 5 6] (.image 0) sampleWorld =
      (.ok (.image 0), sampleWorld.after [.imlib_context_set_image 7,
        .imlib_image_copy_alpha_rectangle_to_image 9 1 2 3 4 1 2]) :=
  ⟨rfl, rfl, rfl, rfl, rfl, rfl, rfl, rfl⟩

/-! ## The forms of `draw_pixel`, `blend!` and `draw_text` -/

/-- C27 (the code at the failing input): `draw_pixel(x, y)` with two integers
raises TypeError and makes no engine call, since the integer case of the
two-argument branch has no `break` and runs into the default case; the other
five forms resolve to (x, y) and the colour given, if any. -/
theorem draw_pixel_with_two_integers_raises (x y : Int) (c : Imlib_Color) :
    image_draw_pixel_args [.fixnum x, .fixnum y] =
      .error (typeError "Invalid argument type (not array or hash)") ∧
    image_draw_pixel [.fixnum 10, .fixnum 10] (.image 0) sampleWorld =
      (.error (typeError "Invalid argument type (not array or hash)"), sampleWorld) ∧
    image_draw_pixel_args [pairArray x y] = .ok (x, y, .nil) ∧
    image_draw_pixel_args [xyHash x y] = .ok (x, y, .nil) ∧
    image_draw_pixel_args [.fixnum x, .fixnum y, .rgba c] = .ok (x, y, .rgba c) ∧
    image_draw_pixel_args [pairArray x y, .rgba c] = .ok (x, y, .rgba c) ∧
    image_draw_pixel_args [xyHash x y, .rgba c] = .ok (x, y, .rgba c) :=
  ⟨rfl, rfl, rfl, rfl, rfl, rfl, rfl⟩

/-- C28 (the code at the failing input): `blend!` with two-field composites
raises TypeError, with no engine call, when the size of the source or of the
destination is a hash keyed `w` and `h`: the code reads the key `s` for the
width.  The nine-integer form, the form of two four-field composites (arrays
or hashes) and the two-field forms whose sizes are arrays resolve to the same
rectangles. -/
theorem blend_rejects_size_hash_keyed_w_h (sx sy sw sh dx dy dw dh : Int) (src : RValue) :
    image_blend_image_inline_args
      [src, pairArray sx sy, whHash sw sh, pairArray dx dy, pairArray dw dh] =
      .error (typeError "no implicit conversion from nil to integer") ∧
    image_blend_image_inline_args
      [src, pairArray sx sy, pairArray sw sh, pairArray dx dy, whHash dw dh] =
      .error (typeError "no implicit conversion from nil to integer") ∧
    image_blend_image_inline
      [.image 2, pairArray 0 0, whHash 5 6, pairArray 1 1, pairArray 8 9]
      (.image 0) sampleWorld =
      (.error (typeError "no implicit conversion from nil to integer"), sampleWorld) ∧
    image_blend_image_inline_args
      [src, .fixnum sx, .fixnum sy, .fixnum sw, .fixnum sh,
        .fixnum dx, .fixnum dy, .fixnum dw, .fixnum dh] =
      .ok (1, (sx, sy, sw, sh), (dx, dy, dw, dh)) ∧
    image_blend_image_inline_args [src, xywhArray sx sy sw sh, xywhArray dx dy dw dh] =
      .ok (1, (sx, sy, sw, sh), (dx, dy, dw, dh)) ∧
    image_blend_image_inline_args [src, xywhHash sx sy sw sh, xywhHash dx dy dw dh] =
      .ok (1, (sx, sy, sw, sh), (dx, dy, dw, dh)) ∧
    image_blend_image_inline_args
      [src, pairArray sx sy, pairArray sw sh, pairArray dx dy, pairArray dw dh] =
      .ok (1, (sx, sy, sw, sh), (dx, dy, dw, dh)) ∧
    image_blend_image_inline_args
      [src, xyHash sx sy, pairArray sw sh, xyHash dx dy, pairArray dw dh] =
      .ok (1, (sx, sy, sw, sh), (dx, dy, dw, dh)) :=
  ⟨rfl, rfl, rfl, rfl, rfl, rfl, rfl, rfl⟩

/-- C29 (the code at the failing inputs): `draw_text(font, text, x, y, colour,
direction)` raises TypeError and draws nothing, since the six-argument case has
no `break` and runs into the default case; `draw_text(font, text, [x, y], v)`
with an array drops `v`, colour or direction, since the `break` comes before
the assignment.  The other forms resolve to the position, colour and direction
given. -/
theorem draw_text_six_arguments_raises (x y d : Int) (font text : RValue)
    (c : Imlib_Color) :
    image_draw_text_args [font, text, .fixnum x, .fixnum y, .rgba c, .fixnum d] =
      .error (typeError "Invalid argument count (not 3, 4, or 5)") ∧
    image_draw_text [.font 3, .str "hi", .fixnum 10, .fixnum 10, .rgba ⟨255, 0, 0, 255⟩,
        .fixnum 1] (.image 0) sampleWorld =
      (.error (typeError "Invalid argument count (not 3, 4, or 5)"), sampleWorld) ∧
    image_draw_text_args [font, text, pairArray x y, .rgba c] = .ok (x, y, .nil, .nil) ∧
    image_draw_text_args [font, text, pairArray x y, .fixnum d] = .ok (x, y, .nil, .nil) ∧
    image_draw_text_args [font, text, xyHash x y, .rgba c] = .ok (x, y, .rgba c, .nil) ∧
    image_draw_text_args [font, text, xyHash x y, .fixnum d] = .ok (x, y, .nil, .fixnum d) ∧
    image_draw_text_args [font, text, pairArray x y] = .ok (x, y, .nil, .nil) ∧
    image_draw_text_args [font, text, .fixnum x, .fixnum y] = .ok (x, y, .nil, .nil) ∧
    image_draw_text_args [font, text, .fixnum x, .fixnum y, .rgba c] =
      .ok (x, y, .rgba c, .nil) ∧
    image_draw_text_args [font, text, pairArray x y, .rgba c, .fixnum d] =
      .ok (x, y, .rgba c, .fixnum d) :=
  ⟨rfl, rfl, rfl, rfl, rfl, rfl, rfl, rfl, rfl, rfl⟩

/-! ## The polymorphic `filter` -/

/-- C30 (the code at the failing inputs): `filter(f)` raises TypeError and
makes no engine call for every argument, an `Imlib2::Filter` and a String
included, since the function tests the class of its receiver, an image, where
the class of `f` is meant; `static_filter` and `script_filter` apply the two
kinds of filter. -/
theorem filter_always_raises (i : Nat) (f : RValue) (w : World) :
    image_filter (.image i) f w =
      (.error (typeError "Invalid argument type (not String or Imlib2::Filter)"), w) ∧
    image_filter (.image 0) (.filter 4) sampleWorld =
      (.error (typeError "Invalid argument type (not String or Imlib2::Filter)"),
        sampleWorld) ∧
    image_filter (.image 0) (.str "tint(red=255);") sampleWorld =
      (.error (typeError "Invalid argument type (not String or Imlib2::Filter)"),
        sampleWorld) ∧
    image_static_filter (.image 0) (.filter 4) sampleWorld =
      (.ok (.image 0), sampleWorld.after [.imlib_context_set_image 7,
        .imlib_context_set_filter 4, .imlib_image_filter]) ∧
    image_script_filter (.image 0) (.str "tint(red=255);") sampleWorld =
      (.ok (.image 0), sampleWorld.after [.imlib_context_set_image 7,
        .imlib_apply_filter "tint(red=255);"]) :=
  ⟨rfl, rfl, rfl, rfl, rfl⟩

/-! ## The draw-pixel work-around -/

/-- C31 (the code at the failing input): each of the two assignment methods
runs `image_dp_workaround`, whatever value is assigned, so it returns the flag
and leaves the world as it was.  In the sample world, where the work-around
is enabled, after `Imlib2::Image.draw_pixel_workaround = false` the query
still returns `true` and `draw_pixel([1, 2])` still draws the 1x1 rectangle;
`image_set_dp_workaround`, which no method is registered to, would have
disabled it. -/
theorem workaround_assignment_keeps_the_flag (v : RValue) (w : World) :
    (WorkaroundCall.draw_pixel_workaround_set v).run w =
      (.ok (if w.draw_pixel_workaround then .rtrue else .rfalse), w) ∧
    (WorkaroundCall.bypass_draw_pixel_set v).run w =
      (.ok (if w.draw_pixel_workaround then .rtrue else .rfalse), w) ∧
    ((WorkaroundCall.draw_pixel_workaround_set .rfalse).run >>= fun _ =>
        WorkaroundCall.draw_pixel_workaround_p.run) sampleWorld =
      (.ok .rtrue, sampleWorld) ∧
    ((WorkaroundCall.draw_pixel_workaround_set .rfalse).run >>= fun _ =>
        image_draw_pixel [pairArray 1 2] (.image 0)) sampleWorld =
      (.ok (.image 0), sampleWorld.after [.imlib_context_set_image 7,
        .imlib_context_get_blend, .imlib_context_get_anti_alias,
        .imlib_image_draw_rectangle 1 2 1 1, .imlib_context_set_blend 0,
        .imlib_context_set_anti_alias 0]) ∧
    (image_set_dp_workaround .rfalse >>= fun _ => image_dp_workaround) sampleWorld =
      (.ok .rfalse, { sampleWorld with draw_pixel_workaround := false }) ∧
    (image_set_dp_workaround .rfalse >>= fun _ =>
        image_draw_pixel [pairArray 1 2] (.image 0)) sampleWorld =
      (.ok (.image 0), { sampleWorld with
        draw_pixel_workaround := false,
        trace := [.imlib_context_set_image 7, .imlib_image_draw_pixel 1 2 0] }) :=
  ⟨rfl, rfl, rfl, rfl, rfl, rfl⟩

/-! ## The finalizers of the other resource wrappers -/

/-- C32 (the code at the failing input): on a wrapper whose data pointer is a
cell that holds the handle, as the constructors and `ctx_cmod` build it, each
of the four finalizers makes the two engine calls, set the current slot to the
handle and free the current one.  The wrapper that `ctx.font` returns has the
engine font itself as data pointer, and the wrapper of `ctx.gradient` the
engine colour range: their finalizers read the handle from the memory of the
engine object, so the slot is not set to the resource being released. -/
theorem context_font_wrapper_is_released_through_its_contents (h c : Nat) (w : World) :
    font_free (.font h) w =
      (.ok (), w.after [.imlib_context_set_font h, .imlib_free_font]) ∧
    filter_free (.filter h) w =
      (.ok (), w.after [.imlib_context_set_filter h, .imlib_free_filter]) ∧
    cmod_free (.cmod h) w =
      (.ok (), w.after [.imlib_context_set_color_modifier h, .imlib_free_color_modifier]) ∧
    gradient_free (.gradient h) w =
      (.ok (), w.after [.imlib_context_set_color_range h, .imlib_free_color_range]) ∧
    ctx_font (.context c) sampleWorld =
      (.ok (.fontAt 102), sampleWorld.after
        [.imlib_context_push c, .imlib_context_get_font, .imlib_context_pop]) ∧
    (ctx_font (.context c) >>= font_free) sampleWorld =
      (.error (undefinedStep "read of *font where no cell holds a handle"),
        sampleWorld.after
          [.imlib_context_push c, .imlib_context_get_font, .imlib_context_pop]) ∧
    (ctx_gradient (.context c) >>= gradient_free) sampleWorld =
      (.error (undefinedStep "read of *range where no cell holds a handle"),
        sampleWorld.after
          [.imlib_context_push c, .imlib_context_get_color_range, .imlib_context_pop]) :=
  ⟨by simp [font_free, Ruby.bind_apply, Ruby.call, World.after],
    by simp [filter_free, Ruby.bind_apply, Ruby.call, World.after],
    by simp [cmod_free, Ruby.bind_apply, Ruby.call, World.after],
    by simp [gradient_free, Ruby.bind_apply, Ruby.call, World.after], rfl, rfl, rfl⟩

/-! ## The counts named by the messages -/

/-- C33 (the code at the failing inputs): `scroll_rect` and `copy_rect`
resolve one argument, and reject no argument and seven arguments with a
message that names the counts 2 to 7; `draw_poly` resolves one, two and three
arguments and `fill_poly` one and two, and they reject no argument and four
arguments with a message that names the counts 3, 4 and 6. -/
theorem count_message_names_other_counts (x y w h dx dy : Int) (p a b : RValue) :
    image_scroll_rect_args [sixArray x y w h dx dy] = .ok (x, y, w, h, dx, dy) ∧
    image_scroll_rect_args [] =
      .error (typeError "Invalid argument count (not 2, 3, 4, 5, 6, or 7)") ∧
    image_scroll_rect_args (List.replicate 7 (.fixnum 0)) =
      .error (typeError "Invalid argument count (not 2, 3, 4, 5, 6, or 7)") ∧
    image_copy_rect_args [sixArray x y w h dx dy] = .ok (x, y, w, h, dx, dy) ∧
    image_copy_rect_args [] =
      .error (typeError "Invalid argument count (not 2, 3, 4, 5, 6, or 7)") ∧
    image_copy_rect_args (List.replicate 7 (.fixnum 0)) =
      .error (typeError "Invalid argument count (not 2, 3, 4, 5, 6, or 7)") ∧
    image_draw_poly_args [p] = .ok (.nil, Qtrue_char) ∧
    image_draw_poly_args [p, .rfalse] = .ok (.nil, 0) ∧
    image_draw_poly_args [p, a, b] = .ok (b, flagOf a) ∧
    image_draw_poly_args [] =
      .error (typeError "Invalid argument count (not 3, 4, or 6)") ∧
    image_draw_poly_args [p, a, b, .nil] =
      .error (typeError "Invalid argument count (not 3, 4, or 6)") ∧
    image_fill_poly_args [p] = .ok .nil ∧
    image_fill_poly_args [p, a] = .ok a ∧
    image_fill_poly_args [p, a, b] =
      .error (typeError "Invalid argument count (not 3, 4, or 6)") ∧
    image_fill_poly_args [p, a, b, .nil] =
      .error (typeError "Invalid argument count (not 3, 4, or 6)") :=
  ⟨rfl, rfl, rfl, rfl, rfl, rfl, rfl, rfl, rfl, rfl, rfl, rfl, rfl, rfl, rfl⟩

/-! ## The size check of `put_data` -/

theorem wrap32_of_range (n : Int) (h1 : -2 ^ 31 ≤ n) (h2 : n < 2 ^ 31) : wrap32 n = n := by
  unfold wrap32
  have : (n + 2 ^ 31) % 2 ^ 32 = n + 2 ^ 31 := Int.emod_eq_of_lt (by omega) (by omega)
  omega

theorem image_put_data_live (s : String) (i im : Nat) (w : World) (hlive : w.live i im) :
    image_put_data (.image i) (.str s) w =
      if (s.length : Int) ≠ wrap32 (wrap32 (putDataWidth w im * putDataHeight w im) * 4) then
        (.error ⟨.ArgError, "invalid buffer size"⟩,
          w.after [.imlib_context_set_image im, .imlib_image_get_data,
            .imlib_image_get_width, .imlib_image_get_height])
      else
        (.ok .rtrue,
          w.after [.imlib_context_set_image im, .imlib_image_get_data,
            .imlib_image_get_width, .imlib_image_get_height, .memcpy_image_data s,
            .imlib_image_put_back_data]) := by
  obtain ⟨h1, h2⟩ := hlive
  simp only [putDataWidth, putDataHeight]
  split
  · rename_i hs
    simp [image_put_data, Ruby.bind_apply, Ruby.host, GET_AND_CHECK_IMAGE, StringValuePtr,
      Ruby.readIm, h1, h2, Ruby.call, Ruby.ask, Ruby.raise, Ruby.pure_apply, World.after, hs]
  · rename_i hs
    have hs2 := not_not.mp hs
    simp [image_put_data, Ruby.bind_apply, Ruby.host, GET_AND_CHECK_IMAGE, StringValuePtr,
      Ruby.readIm, h1, h2, Ruby.call, Ruby.ask, Ruby.raise, Ruby.pure_apply, World.after, hs2]

/-- C34: on a live image whose width and height, as the engine reports them,
give a product `w * h * 4` in the range of an `int`, `put_data` with a String
buffer raises ArgumentError when the byte length of the buffer differs from
`w * h * 4`, having made no copy and no `imlib_image_put_back_data` call, and
otherwise copies the buffer, calls `imlib_image_put_back_data` once and
returns `true`. -/
theorem put_data_checks_the_size (s : String) (i im : Nat) (w : World) (hlive : w.live i im)
    (hlo : -2 ^ 31 ≤ putDataWidth w im * putDataHeight w im * 4)
    (hhi : putDataWidth w im * putDataHeight w im * 4 < 2 ^ 31) :
    image_put_data (.image i) (.str s) w =
      if (s.length : Int) ≠ putDataWidth w im * putDataHeight w im * 4 then
        (.error ⟨.ArgError, "invalid buffer size"⟩,
          w.after [.imlib_context_set_image im, .imlib_image_get_data,
            .imlib_image_get_width, .imlib_image_get_height])
      else
        (.ok .rtrue,
          w.after [.imlib_context_set_image im, .imlib_image_get_data,
            .imlib_image_get_width, .imlib_image_get_height, .memcpy_image_data s,
            .imlib_image_put_back_data]) := by
  rw [image_put_data_live s i im w hlive,
    wrap32_of_range (putDataWidth w im * putDataHeight w im) (by omega) (by omega),
    wrap32_of_range (putDataWidth w im * putDataHeight w im * 4) hlo hhi]

/-- C34 (witness): a buffer of 8 bytes put into the live image of the sample
world, of width 2 and height 1. -/
theorem put_data_checks_the_size_witness :
    (sizedWorld 2 1).live 0 7 ∧
    -2 ^ 31 ≤ putDataWidth (sizedWorld 2 1) 7 * putDataHeight (sizedWorld 2 1) 7 * 4 ∧
    putDataWidth (sizedWorld 2 1) 7 * putDataHeight (sizedWorld 2 1) 7 * 4 < 2 ^ 31 ∧
    image_put_data (.image 0) (.str "abcdefgh") (sizedWorld 2 1) =
      if (("abcdefgh".length : Nat) : Int) ≠
          putDataWidth (sizedWorld 2 1) 7 * putDataHeight (sizedWorld 2 1) 7 * 4 then
        (.error ⟨.ArgError, "invalid buffer size"⟩,
          (sizedWorld 2 1).after [.imlib_context_set_image 7, .imlib_image_get_data,
            .imlib_image_get_width, .imlib_image_get_height])
      else
        (.ok .rtrue,
          (sizedWorld 2 1).after [.imlib_context_set_image 7, .imlib_image_get_data,
            .imlib_image_get_width, .imlib_image_get_height, .memcpy_image_data "abcdefgh",
            .imlib_image_put_back_data]) :=
  ⟨⟨rfl, by decide⟩, by decide, by decide,
    put_data_checks_the_size "abcdefgh" 0 7 (sizedWorld 2 1) ⟨rfl, by decide⟩
      (by decide) (by decide)⟩

/-- C34 (counterexample): with an engine whose images have the width 32768
and the height 32768, `w * h * 4` is 4294967296 and `old_size`, an `int`, is
0: `put_data` with the empty buffer, whose byte length 0 differs from
`w * h * 4`, raises nothing, copies the buffer, calls
`imlib_image_put_back_data` and returns `true`.  With the width 30000 and the
height 30000, `old_size` is negative and a buffer of `w * h * 4` bytes is
refused. -/
theorem put_data_size_wraps :
    putDataWidth (sizedWorld 32768 32768) 7 * putDataHeight (sizedWorld 32768 32768) 7 * 4 =
      4294967296 ∧
    (("".length : Nat) : Int) ≠ 4294967296 ∧
    image_put_data (.image 0) (.str "") (sizedWorld 32768 32768) =
      (.ok .rtrue,
        (sizedWorld 32768 32768).after [.imlib_context_set_image 7, .imlib_image_get_data,
          .imlib_image_get_width, .imlib_image_get_height, .memcpy_image_data "",
          .imlib_image_put_back_data]) ∧
    putDataWidth (sizedWorld 30000 30000) 7 * putDataHeight (sizedWorld 30000 30000) 7 * 4 =
      3600000000 ∧
    (((String.mk (List.replicate 3600000000 'a')).length : Nat) : Int) = 3600000000 ∧
    image_put_data (.image 0) (.str (String.mk (List.replicate 3600000000 'a')))
        (sizedWorld 30000 30000) =
      (.error ⟨.ArgError, "invalid buffer size"⟩,
        (sizedWorld 30000 30000).after [.imlib_context_set_image 7, .imlib_image_get_data,
          .imlib_image_get_width, .imlib_image_get_height]) := by
  have hlen : (String.mk (List.replicate 3600000000 'a')).length = 3600000000 := by
    rw [String.length_mk, List.length_replicate]
  have hw : putDataWidth (sizedWorld 30000 30000) 7 = 30000 := rfl
  have hh : putDataHeight (sizedWorld 30000 30000) 7 = 30000 := rfl
  refine ⟨by decide, by decide, rfl, by decide, ?_, ?_⟩
  · rw [hlen]
    rfl
  · rw [image_put_data_live _ 0 7 (sizedWorld 30000 30000) ⟨rfl, by decide⟩, hlen, hw, hh]
    rfl

/-! ## The flag of `blend!` and `blend` -/

theorem Except.bind_eq_ok_iff {ε α β : Type} (x : Except ε α) (f : α → Except ε β) (b : β) :
    (x >>= f) = .ok b ↔ ∃ a, x = .ok a ∧ f a = .ok b := by
  cases x with
  | error e =>
    constructor
    · intro h
      cases h
    · rintro ⟨_, h, _⟩
      cases h
  | ok a =>
    constructor
    · intro h
      exact ⟨a, rfl, h⟩
    · rintro ⟨a1, h1, h2⟩
      cases h1
      exact h2

theorem Except.pure_eq_ok_iff {ε α : Type} (a b : α) :
    (pure a : Except ε α) = .ok b ↔ a = b :=
  ⟨fun h => by cases h; rfl, fun h => by rw [h]; rfl⟩

theorem flagOf_eq (v : RValue) :
    flagOf v = match some v with
      | some .rtrue => 1
      | _ => 0 := by
  cases v <;> rfl

theorem image_blend_image_inline_args_merge (argv : List RValue) (m : Int)
    (s d : Int × Int × Int × Int)
    (hargs : image_blend_image_inline_args argv = .ok (m, s, d)) :
    m = if argv.length = 4 ∨ argv.length = 6 ∨ argv.length = 10 then
          (match argv.getLast? with
            | some .rtrue => 1
            | _ => 0)
        else 1 := by
  unfold image_blend_image_inline_args at hargs
  split at hargs <;>
    try simp only [Except.bind_eq_ok_iff, Except.pure_eq_ok_iff, Prod.mk.injEq, Prod.exists]
      at hargs
  · obtain ⟨_, _, _, _, _, _, _, _, _, _, h, _⟩ := hargs
    rw [← h, if_pos (by simp)]
    exact flagOf_eq _
  · obtain ⟨_, _, _, _, _, _, _, _, _, _, h, _⟩ := hargs
    rw [← h]
    rfl
  · obtain ⟨_, _, _, _, _, _, _, _, _, _, _, _, h, _⟩ := hargs
    rw [← h, if_pos (by simp)]
    exact flagOf_eq _
  · obtain ⟨_, _, _, _, _, _, _, _, _, _, _, _, h, _⟩ := hargs
    rw [← h]
    rfl
  · obtain ⟨_, _, _, _, _, _, _, _, _, _, _, _, _, _, _, _, h, _⟩ := hargs
    rw [← h, if_pos (by simp)]
    exact flagOf_eq _
  · obtain ⟨_, _, _, _, _, _, _, _, _, _, _, _, _, _, _, _, h, _⟩ := hargs
    rw [← h]
    rfl
  · cases hargs

theorem image_blend_image_inline_live (argv : List RValue) (m : Int)
    (s d : Int × Int × Int × Int) (i im j sim : Nat) (w : World)
    (hargs : image_blend_image_inline_args argv = .ok (m, s, d))
    (hlive : w.live i im) (hsrc : argv.getD 0 .nil = .image j) (hslive : w.live j sim) :
    image_blend_image_inline argv (.image i) w =
      (.ok (.image i), w.after [.imlib_context_set_image im,
        .imlib_blend_image_onto_image sim m s.1 s.2.1 s.2.2.1 s.2.2.2
          d.1 d.2.1 d.2.2.1 d.2.2.2]) := by
  obtain ⟨h1, h2⟩ := hlive
  obtain ⟨h3, h4⟩ := hslive
  obtain ⟨s0, s1, s2, s3⟩ := s
  obtain ⟨d0, d1, d2, d3⟩ := d
  have hsrc2 : argv[0]?.getD .nil = .image j := by simpa using hsrc
  simp [image_blend_image_inline, hargs, hsrc2, Ruby.bind_apply, Ruby.host, GET_AND_CHECK_IMAGE,
    Ruby.readIm, h1, h2, h3, h4, Ruby.call, Ruby.pure_apply, World.after]

theorem image_blend_image_live (argv : List RValue) (m : Int)
    (s d : Int × Int × Int × Int) (i im j sim : Nat) (w : World)
    (hargs : image_blend_image_inline_args argv = .ok (m, s, d))
    (hlive : w.live i im) (hsrc : argv.getD 0 .nil = .image j) (hslive : w.live j sim)
    (hclone : (w.engine.answer
      (w.trace ++ [.imlib_context_set_image im, .imlib_clone_image])).handle ≠ 0) :
    image_blend_image argv (.image i) w =
      (.ok (.image w.heap.length),
        { w with
          heap := w.heap ++ [⟨(w.engine.answer
            (w.trace ++ [.imlib_context_set_image im, .imlib_clone_image])).handle⟩],
          trace := w.trace ++ [.imlib_context_set_image im, .imlib_clone_image,
            .imlib_context_set_image (w.engine.answer
              (w.trace ++ [.imlib_context_set_image im, .imlib_clone_image])).handle,
            .imlib_blend_image_onto_image sim m s.1 s.2.1 s.2.2.1 s.2.2.2
              d.1 d.2.1 d.2.2.1 d.2.2.2] }) := by
  obtain ⟨h1, h2⟩ := hlive
  obtain ⟨h3, h4⟩ := hslive
  obtain ⟨s0, s1, s2, s3⟩ := s
  obtain ⟨d0, d1, d2, d3⟩ := d
  have hj : j < w.heap.length := by
    rcases Nat.lt_or_ge j w.heap.length with hlt | hge
    · exact hlt
    · rw [List.getElem?_eq_none hge] at h3
      simp at h3
  have h5 : (w.heap ++ [(⟨(w.engine.answer
      (w.trace ++ [.imlib_context_set_image im, .imlib_clone_image])).handle⟩ : ImStruct)])[j]? =
      some ⟨sim⟩ := by
    rw [List.getElem?_append_left hj, h3]
  have hsrc2 : argv[0]?.getD .nil = .image j := by simpa using hsrc
  simp [image_blend_image, image_blend_image_inline, hargs, hsrc2, Ruby.bind_apply, Ruby.host,
    GET_AND_CHECK_IMAGE, Ruby.readIm, h1, h2, h4, h5, hclone, Ruby.call, Ruby.ask, Ruby.wrapIm,
    Ruby.pure_apply, World.after]

/-- C35: when the `switch (argc)` block of `blend!` resolves an argument list
to `merge_alpha`, the source and the destination rectangle, the list has 3, 4,
5, 6, 9 or 10 entries, and `merge_alpha` is 1 for 3, 5 and 9 entries; for 4, 6
and 10 entries it is 1 when the last entry is `true` and 0 for every other
value.  With a live receiver and a live source image, `blend!` passes this
`merge_alpha` to `imlib_blend_image_onto_image`, and so does `blend`, on the
clone it returns. -/
theorem blend_merge_alpha_flag (argv : List RValue) (m : Int)
    (s d : Int × Int × Int × Int) (i im j sim : Nat) (w : World)
    (hargs : image_blend_image_inline_args argv = .ok (m, s, d))
    (hlive : w.live i im) (hsrc : argv.getD 0 .nil = .image j) (hslive : w.live j sim)
    (hclone : (w.engine.answer
      (w.trace ++ [.imlib_context_set_image im, .imlib_clone_image])).handle ≠ 0) :
    (argv.length = 3 ∨ argv.length = 4 ∨ argv.length = 5 ∨ argv.length = 6 ∨
      argv.length = 9 ∨ argv.length = 10) ∧
    (m = if argv.length = 4 ∨ argv.length = 6 ∨ argv.length = 10 then
          (match argv.getLast? with
            | some .rtrue => 1
            | _ => 0)
        else 1) ∧
    image_blend_image_inline argv (.image i) w =
      (.ok (.image i), w.after [.imlib_context_set_image im,
        .imlib_blend_image_onto_image sim m s.1 s.2.1 s.2.2.1 s.2.2.2
          d.1 d.2.1 d.2.2.1 d.2.2.2]) ∧
    image_blend_image argv (.image i) w =
      (.ok (.image w.heap.length),
        { w with
          heap := w.heap ++ [⟨(w.engine.answer
            (w.trace ++ [.imlib_context_set_image im, .imlib_clone_image])).handle⟩],
          trace := w.trace ++ [.imlib_context_set_image im, .imlib_clone_image,
            .imlib_context_set_image (w.engine.answer
              (w.trace ++ [.imlib_context_set_image im, .imlib_clone_image])).handle,
            .imlib_blend_image_onto_image sim m s.1 s.2.1 s.2.2.1 s.2.2.2
              d.1 d.2.1 d.2.2.1 d.2.2.2] }) := by
  refine ⟨?_, image_blend_image_inline_args_merge argv m s d hargs,
    image_blend_image_inline_live argv m s d i im j sim w hargs hlive hsrc hslive,
    image_blend_image_live argv m s d i im j sim w hargs hlive hsrc hslive hclone⟩
  by_contra hcount
  rw [image_blend_image_inline_args_bad_count argv (by omega)] at hargs
  cases hargs

/-- C35 (witness): `blend!` and `blend` of the image at address 2 onto the
live image of the sample world, with the rectangles as arrays and the flag
`1`, which is not `true`: `merge_alpha` is 0. -/
theorem blend_merge_alpha_flag_witness :
    image_blend_image_inline_args
        [.image 2, xywhArray 0 0 5 6, xywhArray 1 1 8 9, .fixnum 1] =
      .ok (0, (0, 0, 5, 6), (1, 1, 8, 9)) ∧
    sampleWorld.live 0 7 ∧
    [RValue.image 2, xywhArray 0 0 5 6, xywhArray 1 1 8 9, .fixnum 1].getD 0 .nil = .image 2 ∧
    sampleWorld.live 2 9 ∧
    (sampleWorld.engine.answer
      (sampleWorld.trace ++ [.imlib_context_set_image 7, .imlib_clone_image])).handle ≠ 0 ∧
    ((4 = 3 ∨ 4 = 4 ∨ 4 = 5 ∨ 4 = 6 ∨ 4 = 9 ∨ 4 = 10) ∧
    ((0 : Int) = if 4 = 4 ∨ 4 = 6 ∨ 4 = 10 then
          (match some (RValue.fixnum 1) with
            | some .rtrue => 1
            | _ => 0)
        else 1) ∧
    image_blend_image_inline [.image 2, xywhArray 0 0 5 6, xywhArray 1 1 8 9, .fixnum 1]
        (.image 0) sampleWorld =
      (.ok (.image 0), sampleWorld.after [.imlib_context_set_image 7,
        .imlib_blend_image_onto_image 9 0 0 0 5 6 1 1 8 9]) ∧
    image_blend_image [.image 2, xywhArray 0 0 5 6, xywhArray 1 1 8 9, .fixnum 1]
        (.image 0) sampleWorld =
      (.ok (.image 3),
        { sampleWorld with
          heap := [⟨7⟩, ⟨0⟩, ⟨9⟩, ⟨102⟩],
          trace := [.imlib_context_set_image 7, .imlib_clone_image,
            .imlib_context_set_image 102,
            .imlib_blend_image_onto_image 9 0 0 0 5 6 1 1 8 9] })) :=
  ⟨rfl, ⟨rfl, by decide⟩, rfl, ⟨rfl, by decide⟩, by decide,
    blend_merge_alpha_flag [.image 2, xywhArray 0 0 5 6, xywhArray 1 1 8 9, .fixnum 1] 0
      (0, 0, 5, 6) (1, 1, 8, 9) 0 7 2 9 sampleWorld rfl ⟨rfl, by decide⟩ rfl ⟨rfl, by decide⟩
      (by decide)⟩

/-! ## The in-place methods that replace the image -/

theorem image_crop_inline_live (argv : List RValue) (x y cw ch : Int) (i im : Nat) (w : World)
    (hlive : w.live i im) (hargs : image_crop_inline_args argv = .ok (x, y, cw, ch)) :
    image_crop_inline argv (.image i) w =
      (.ok (.image i), w.swapped i im (.imlib_create_cropped_image x y cw ch)) := by
  obtain ⟨h1, h2⟩ := hlive
  simp [image_crop_inline, hargs, Ruby.bind_apply, Ruby.host, GET_AND_CHECK_IMAGE,
    Ruby.readIm, h1, h2, Ruby.call, Ruby.ask, Ruby.writeIm, Ruby.pure_apply, World.swapped]

theorem image_crop_scaled_inline_live (argv : List RValue) (x y cw ch dw dh : Int) (i im : Nat)
    (w : World) (hlive : w.live i im)
    (hargs : image_crop_scaled_inline_args argv = .ok (x, y, cw, ch, dw, dh)) :
    image_crop_scaled_inline argv (.image i) w =
      (.ok (.image i), w.swapped i im (.imlib_create_cropped_scaled_image x y cw ch dw dh)) := by
  obtain ⟨h1, h2⟩ := hlive
  simp [image_crop_scaled_inline, hargs, Ruby.bind_apply, Ruby.host, GET_AND_CHECK_IMAGE,
    Ruby.readIm, h1, h2, Ruby.call, Ruby.ask, Ruby.writeIm, Ruby.pure_apply, World.swapped]

theorem image_rotate_inline_live (angle : RValue) (i im : Nat) (w : World)
    (hlive : w.live i im) :
    image_rotate_inline (.image i) angle w =
      (.ok (.image i),
        w.swapped i im (.imlib_create_rotated_image (CDouble.ofInt (w.float_new angle)))) := by
  obtain ⟨h1, h2⟩ := hlive
  simp [image_rotate_inline, Ruby.bind_apply, Ruby.floatNew, GET_AND_CHECK_IMAGE,
    Ruby.readIm, h1, h2, Ruby.call, Ruby.ask, Ruby.writeIm, Ruby.pure_apply, World.swapped]

theorem World.swapped_heap (w : World) (i im : Nat) (create : EngineCall)
    (hlive : w.live i im) :
    (w.swapped i im create).heap[i]? =
      some ⟨(w.engine.answer (w.trace ++ [.imlib_context_set_image im, create])).handle⟩ := by
  obtain ⟨h1, _⟩ := hlive
  have hi : i < w.heap.length := by
    rcases Nat.lt_or_ge i w.heap.length with hlt | hge
    · exact hlt
    · rw [List.getElem?_eq_none hge] at h1
      simp at h1
  simp [World.swapped, hi]

/-- C36: on a live image, `crop!` and `crop_scaled!` with arguments their
`switch (argc)` block resolves, and `rotate!` with any angle, make the engine
calls set-image(old), the create call, set-image(old) and `imlib_free_image`,
in this order and nothing else, so the one release is made with the old
image active; the wrapper ends bound to the image the create call handed
back, and the same wrapper is returned. -/
theorem in_place_resize_swaps_the_image (argv argv2 : List RValue) (angle : RValue)
    (x y cw ch x2 y2 cw2 ch2 dw dh : Int) (i im : Nat) (w : World)
    (hlive : w.live i im)
    (hcrop : image_crop_inline_args argv = .ok (x, y, cw, ch))
    (hscaled : image_crop_scaled_inline_args argv2 = .ok (x2, y2, cw2, ch2, dw, dh)) :
    image_crop_inline argv (.image i) w =
      (.ok (.image i), w.swapped i im (.imlib_create_cropped_image x y cw ch)) ∧
    image_crop_scaled_inline argv2 (.image i) w =
      (.ok (.image i),
        w.swapped i im (.imlib_create_cropped_scaled_image x2 y2 cw2 ch2 dw dh)) ∧
    image_rotate_inline (.image i) angle w =
      (.ok (.image i),
        w.swapped i im (.imlib_create_rotated_image (CDouble.ofInt (w.float_new angle)))) ∧
    ∀ create : EngineCall,
      (w.swapped i im create).trace = w.trace ++ [.imlib_context_set_image im, create,
        .imlib_context_set_image im, .imlib_free_image] ∧
      (w.swapped i im create).heap[i]? =
        some ⟨(w.engine.answer (w.trace ++ [.imlib_context_set_image im, create])).handle⟩ :=
  ⟨image_crop_inline_live argv x y cw ch i im w hlive hcrop,
    image_crop_scaled_inline_live argv2 x2 y2 cw2 ch2 dw dh i im w hlive hscaled,
    image_rotate_inline_live angle i im w hlive,
    fun create => ⟨rfl, World.swapped_heap w i im create hlive⟩⟩

/-- C36 (witness): `crop!([1, 2, 3, 4])`, `crop_scaled!([1, 2, 3, 4, 5, 6])`
and `rotate!(0.5)` on the live image of the sample world. -/
theorem in_place_resize_swaps_the_image_witness :
    sampleWorld.live 0 7 ∧
    image_crop_inline_args [xywhArray 1 2 3 4] = .ok (1, 2, 3, 4) ∧
    image_crop_scaled_inline_args [sixArray 1 2 3 4 5 6] = .ok (1, 2, 3, 4, 5, 6) ∧
    (image_crop_inline [xywhArray 1 2 3 4] (.image 0) sampleWorld =
      (.ok (.image 0), sampleWorld.swapped 0 7 (.imlib_create_cropped_image 1 2 3 4)) ∧
    image_crop_scaled_inline [sixArray 1 2 3 4 5 6] (.image 0) sampleWorld =
      (.ok (.image 0),
        sampleWorld.swapped 0 7 (.imlib_create_cropped_scaled_image 1 2 3 4 5 6)) ∧
    image_rotate_inline (.image 0) (.float ⟨1 / 2⟩) sampleWorld =
      (.ok (.image 0),
        sampleWorld.swapped 0 7 (.imlib_create_rotated_image
          (CDouble.ofInt (sampleWorld.float_new (.float ⟨1 / 2⟩))))) ∧
    ∀ create : EngineCall,
      (sampleWorld.swapped 0 7 create).trace = sampleWorld.trace ++
        [.imlib_context_set_image 7, create, .imlib_context_set_image 7, .imlib_free_image] ∧
      (sampleWorld.swapped 0 7 create).heap[0]? =
        some ⟨(sampleWorld.engine.answer
          (sampleWorld.trace ++ [.imlib_context_set_image 7, create])).handle⟩) :=
  ⟨⟨rfl, by decide⟩, rfl, rfl,
    in_place_resize_swaps_the_image [xywhArray 1 2 3 4] [sixArray 1 2 3 4 5 6] (.float ⟨1 / 2⟩)
      1 2 3 4 1 2 3 4 5 6 0 7 sampleWorld ⟨rfl, by decide⟩ rfl rfl⟩

/-! ## The finalizer of an image wrapper -/

theorem im_struct_free_deleted (i : Nat) (w : World) (h : w.deleted i) :
    im_struct_free i w = (.ok (), w) := by
  simp [im_struct_free, Ruby.bind_apply, Ruby.readIm, World.deleted.eq_1 w i ▸ h, Ruby.pure_apply]

theorem im_struct_free_live (i im : Nat) (w : World) (h : w.live i im) :
    im_struct_free i w =
      (.ok (), w.after [.imlib_context_set_image im, .imlib_free_image]) := by
  obtain ⟨h1, h2⟩ := h
  simp [im_struct_free, Ruby.bind_apply, Ruby.readIm, h1, h2, Ruby.call, World.after]

/-- C37: the finalizer of a live image wrapper makes the engine calls
set-image(resource) and `imlib_free_image`, once each; after `delete!` has
succeeded on the wrapper the finalizer makes no engine call and changes
nothing, so that `delete!` followed by the finalizer leaves the two calls of
`delete!`, with its one release, as the only engine calls. -/
theorem finalizer_frees_at_most_once (argv : List RValue) (i im : Nat) (w : World)
    (hlive : w.live i im) :
    im_struct_free i w =
      (.ok (), w.after [.imlib_context_set_image im, .imlib_free_image]) ∧
    im_struct_free i (image_delete argv (.image i) w).2 =
      (.ok (), (image_delete argv (.image i) w).2) ∧
    (image_delete argv (.image i) >>= fun _ => im_struct_free i) w =
      (.ok (), { w.after [.imlib_context_set_image im, releaseCall argv] with
        heap := w.heap.set i ⟨0⟩ }) := by
  have h := image_delete_live argv i im w hlive
  rw [releaseCall_eq] at h
  have hdel0 := image_delete_ok argv i w _ .nil h
  have hdel : (image_delete argv (.image i) w).2.deleted i := by
    rw [h]
    exact hdel0
  refine ⟨im_struct_free_live i im w hlive, im_struct_free_deleted i _ hdel, ?_⟩
  rw [Ruby.bind_ok _ h]
  exact im_struct_free_deleted i _ hdel0

/-- C37 (witness): the finalizer on the live image of the sample world, and
after `delete!` on it. -/
theorem finalizer_frees_at_most_once_witness :
    sampleWorld.live 0 7 ∧
    (im_struct_free 0 sampleWorld =
      (.ok (), sampleWorld.after [.imlib_context_set_image 7, .imlib_free_image]) ∧
    im_struct_free 0 (image_delete [] (.image 0) sampleWorld).2 =
      (.ok (), (image_delete [] (.image 0) sampleWorld).2) ∧
    (image_delete [] (.image 0) >>= fun _ => im_struct_free 0) sampleWorld =
      (.ok (), { sampleWorld.after [.imlib_context_set_image 7, releaseCall []] with
        heap := sampleWorld.heap.set 0 ⟨0⟩ })) :=
  ⟨⟨rfl, by decide⟩, finalizer_frees_at_most_once [] 0 7 sampleWorld ⟨rfl, by decide⟩⟩

/-! ## The four rectangle resolvers -/

/-- C38: the `switch (argc)` blocks of `draw_rect`, `fill_rect`,
`draw_ellipse` and `fill_ellipse` agree on every argument list, in the error
raised or in the rectangle and the colour resolved, and each method is the
common rest run with the primitive of the method. -/
theorem rect_resolvers_agree (argv : List RValue) (self : RValue) :
    image_fill_rect_args argv = image_draw_rect_args argv ∧
    image_draw_ellipse_args argv = image_draw_rect_args argv ∧
    image_fill_ellipse_args argv = image_draw_rect_args argv ∧
    image_draw_rect argv self =
      rectShell .imlib_image_draw_rectangle (image_draw_rect_args argv) self ∧
    image_fill_rect argv self =
      rectShell .imlib_image_fill_rectangle (image_draw_rect_args argv) self ∧
    image_draw_ellipse argv self =
      rectShell .imlib_image_draw_ellipse (image_draw_rect_args argv) self ∧
    image_fill_ellipse argv self =
      rectShell .imlib_image_fill_ellipse (image_draw_rect_args argv) self :=
  ⟨rfl, rfl, rfl, rfl, rfl, rfl, rfl⟩

/-! ## The channels of `clear_color` -/

/-- C39 (the code at the failing input): on the live image of the sample
world, `clear_color!` and `clear_color` with the colour of channels red `r`,
green `g`, blue `b` and alpha `a` call the clear-colour primitive with the
arguments `r`, `b`, `g`, `a`: blue is second and green third. -/
theorem clear_color_swaps_green_and_blue (r g b a : Int) :
    image_clear_color_inline (.image 0) (.rgba ⟨a, r, g, b⟩) sampleWorld =
      (.ok (.image 0), sampleWorld.after
        [.imlib_context_set_image 7, .imlib_image_clear_color r b g a]) ∧
    image_clear_color (.image 0) (.rgba ⟨a, r, g, b⟩) sampleWorld =
      (.ok (.image 3), { sampleWorld with
        heap := [⟨7⟩, ⟨0⟩, ⟨9⟩, ⟨102⟩],
        trace := [.imlib_context_set_image 7, .imlib_clone_image,
          .imlib_context_set_image 102, .imlib_image_clear_color r b g a] }) ∧
    image_clear_color_inline (.image 0) (.rgba ⟨4, 1, 2, 3⟩) sampleWorld =
      (.ok (.image 0), sampleWorld.after
        [.imlib_context_set_image 7, .imlib_image_clear_color 1 3 2 4]) :=
  ⟨rfl, rfl, rfl⟩

/-! ## Constructors with another argument count -/

theorem rgba_color_init_other_count (argv : List RValue) (color : Imlib_Color)
    (h1 : argv.length ≠ 1) (h4 : argv.length ≠ 4) :
    rgba_color_init argv color = .ok color := by
  unfold rgba_color_init
  split <;> first
    | rfl
    | (simp at h1; done)
    | (simp at h4)

theorem border_init_other_count (argv : List RValue) (border : Imlib_Border)
    (h1 : argv.length ≠ 1) (h4 : argv.length ≠ 4) :
    border_init argv border = .ok border := by
  unfold border_init
  split <;> first
    | rfl
    | (simp at h1; done)
    | (simp at h4)

/-- C40: `RgbaColor.new` and `Border.new` with an argument count other than
1 and 4 raise nothing and return an object of the zeroed struct, whatever the
arguments are: each of the four readers of the object returns 0. -/
theorem color_and_border_new_ignore_other_counts (argv : List RValue)
    (h1 : argv.length ≠ 1) (h4 : argv.length ≠ 4) :
    rgba_color_new argv = .ok (.rgba ⟨0, 0, 0, 0⟩) ∧
    (rgba_color_new argv >>= rgba_color_red) = .ok (.fixnum 0) ∧
    (rgba_color_new argv >>= rgba_color_green) = .ok (.fixnum 0) ∧
    (rgba_color_new argv >>= rgba_color_blue) = .ok (.fixnum 0) ∧
    (rgba_color_new argv >>= rgba_color_alpha) = .ok (.fixnum 0) ∧
    border_new argv = .ok (.border ⟨0, 0, 0, 0⟩) ∧
    (border_new argv >>= border_left) = .ok (.fixnum 0) ∧
    (border_new argv >>= border_right) = .ok (.fixnum 0) ∧
    (border_new argv >>= border_top) = .ok (.fixnum 0) ∧
    (border_new argv >>= border_bottom) = .ok (.fixnum 0) := by
  have hc : rgba_color_new argv = .ok (.rgba ⟨0, 0, 0, 0⟩) := by
    unfold rgba_color_new
    rw [rgba_color_init_other_count argv _ h1 h4]
    rfl
  have hb : border_new argv = .ok (.border ⟨0, 0, 0, 0⟩) := by
    unfold border_new
    rw [border_init_other_count argv _ h1 h4]
    rfl
  rw [hc, hb]
  exact ⟨rfl, rfl, rfl, rfl, rfl, rfl, rfl, rfl, rfl, rfl⟩

/-- C40 (witness): `RgbaColor.new(1, 2)` and `Border.new(1, 2)`. -/
theorem color_and_border_new_ignore_other_counts_witness :
    [RValue.fixnum 1, RValue.fixnum 2].length ≠ 1 ∧
    [RValue.fixnum 1, RValue.fixnum 2].length ≠ 4 ∧
    (rgba_color_new [.fixnum 1, .fixnum 2] = .ok (.rgba ⟨0, 0, 0, 0⟩) ∧
    (rgba_color_new [.fixnum 1, .fixnum 2] >>= rgba_color_red) = .ok (.fixnum 0) ∧
    (rgba_color_new [.fixnum 1, .fixnum 2] >>= rgba_color_green) = .ok (.fixnum 0) ∧
    (rgba_color_new [.fixnum 1, .fixnum 2] >>= rgba_color_blue) = .ok (.fixnum 0) ∧
    (rgba_color_new [.fixnum 1, .fixnum 2] >>= rgba_color_alpha) = .ok (.fixnum 0) ∧
    border_new [.fixnum 1, .fixnum 2] = .ok (.border ⟨0, 0, 0, 0⟩) ∧
    (border_new [.fixnum 1, .fixnum 2] >>= border_left) = .ok (.fixnum 0) ∧
    (border_new [.fixnum 1, .fixnum 2] >>= border_right) = .ok (.fixnum 0) ∧
    (border_new [.fixnum 1, .fixnum 2] >>= border_top) = .ok (.fixnum 0) ∧
    (border_new [.fixnum 1, .fixnum 2] >>= border_bottom) = .ok (.fixnum 0)) :=
  ⟨by decide, by decide,
    color_and_border_new_ignore_other_counts [.fixnum 1, .fixnum 2] (by decide) (by decide)⟩

end Imlib2
